import Mathlib

/-!
# Gardener shoot validation: a shallow embedding of `pkg/apis/core/validation/shoot.go`

The validators of `shoot.go` are pure functions from a specification (and status,
annotations) to a list of structured field errors. They are embedded as Lean
functions returning `ErrorList`.

Code the validators call that lives outside `shoot.go` is treated in one of two ways.
The field-path library, the semantic-version helpers and the small getters of the helper
package are modelled in the first sections (each model from the specification is marked
`Modelled from the spec`). The remaining helper validators and parsers are fields of
`Collaborators`, and the validators are embedded relative to them. The validators of the
Kubernetes components that `validateKubernetes` and `ValidateSystemComponents` run only
for a shoot with workers are fields of `WorkerValidators`. A validator that can fail at run
time returns `Option ErrorList`, and `none` is the failure.

Go's `int32` values are integers together with the wrap-around of the operations the
source performs on them (`wrapInt32`); `big.Int` is `Int`.
-/

namespace Gardener

/-! ## Field paths and field errors (`k8s.io/apimachinery/pkg/util/validation/field`) -/

/-- One step of a field path: a named child, a list index or a map key. -/
inductive PathElem where
  | name (s : String)
  | index (i : Nat)
  | key (k : String)
deriving DecidableEq, Repr

/-- A field path, root first. -/
abbrev Path := List PathElem

/-- `field.NewPath(name)`. -/
def NewPath (name : String) : Path := [PathElem.name name]

/-- `p.Child(name)`; the variadic `p.Child(a, b)` of the source is `(p.Child a).Child b`. -/
def Path.Child (p : Path) (name : String) : Path := p ++ [PathElem.name name]

/-- `p.Index(i)`. -/
def Path.Index (p : Path) (i : Nat) : Path := p ++ [PathElem.index i]

/-- `p.Key(k)`. -/
def Path.Key (p : Path) (k : String) : Path := p ++ [PathElem.key k]

/-- Text of one path step as `Path.String` prints it; `first` is true for the root step. -/
def PathElem.render (first : Bool) : PathElem → String
  | PathElem.name s => if first then s else "." ++ s
  | PathElem.index i => "[" ++ toString i ++ "]"
  | PathElem.key k => "[" ++ k ++ "]"

/-- `p.String()`: names joined by dots, subscripts in brackets. -/
def Path.String : Path → String
  | [] => "<nil>"
  | e :: es => es.foldl (fun acc x => acc ++ PathElem.render false x) (PathElem.render true e)

/-- `field.ErrorType`. -/
inductive ErrorType where
  | Required
  | Invalid
  | Forbidden
  | NotSupported
  | Duplicate
  | TooLong
deriving DecidableEq, Repr

/-- `field.Error`: kind, location, echoed value and detail message. -/
structure Error where
  Type_ : ErrorType
  Field : Path
  BadValue : String
  Detail : String
deriving DecidableEq, Repr

/-- `field.ErrorList`. -/
abbrev ErrorList := List Error

/-- `field.Required(path, detail)`. -/
def Required (p : Path) (detail : String) : Error := ⟨ErrorType.Required, p, "", detail⟩

/-- `field.Invalid(path, value, detail)`. -/
def Invalid (p : Path) (value : String) (detail : String) : Error :=
  ⟨ErrorType.Invalid, p, value, detail⟩

/-- `field.Forbidden(path, detail)`. -/
def Forbidden (p : Path) (detail : String) : Error := ⟨ErrorType.Forbidden, p, "", detail⟩

/-- `field.NotSupported(path, value, validValues)`. -/
def NotSupported (p : Path) (value : String) (validValues : List String) : Error :=
  ⟨ErrorType.NotSupported, p, value, "supported values: " ++ ", ".intercalate validValues⟩

/-- `field.Duplicate(path, value)`. -/
def Duplicate (p : Path) (value : String) : Error := ⟨ErrorType.Duplicate, p, value, ""⟩

/-- `field.TooLong(path, value, maxLength)`. -/
def TooLong (p : Path) (value : String) (maxLength : Nat) : Error :=
  ⟨ErrorType.TooLong, p, value, "must have at most " ++ toString maxLength ++ " bytes"⟩

/-! ## Semantic versions (`github.com/Masterminds/semver`, `pkg/utils/version`) -/

/-- Modelled from the spec: the semantic-version library the validators consume
(`semver.Version`, not in the sources). A version is `MAJOR.MINOR.PATCH` with natural
components; pre-release and build suffixes are outside the model. -/
structure Version where
  major : Nat
  minor : Nat
  patch : Nat
deriving DecidableEq, Repr

/-- Modelled from the spec: `Version.Compare`, the precedence order of the semantic-version
library: `-1`, `0` or `1` by major, then minor, then patch. -/
def Version.Compare (v w : Version) : Int :=
  if v.major < w.major then -1 else if w.major < v.major then 1
  else if v.minor < w.minor then -1 else if w.minor < v.minor then 1
  else if v.patch < w.patch then -1 else if w.patch < v.patch then 1
  else 0

/-- Modelled from the spec: `Version.IncMinor` of the semantic-version library: next minor
version, patch reset. -/
def Version.IncMinor (v : Version) : Version := ⟨v.major, v.minor + 1, 0⟩

/-- Decimal digits of `n`, most significant first, prepended to `acc`. -/
def digitsAux : Nat → Nat → List Char → List Char
  | 0, _, acc => acc
  | fuel + 1, n, acc =>
    if n / 10 = 0 then Char.ofNat (48 + n % 10) :: acc
    else digitsAux fuel (n / 10) (Char.ofNat (48 + n % 10) :: acc)

/-- Decimal rendering of a natural number. -/
def renderNat (n : Nat) : List Char := digitsAux (n + 1) n []

/-- Value of a digit string read left to right from accumulator `acc`; `none` on a
non-digit. -/
def parseDigits : List Char → Nat → Option Nat
  | [], acc => some acc
  | c :: cs, acc =>
    if 48 ≤ c.toNat ∧ c.toNat ≤ 57 then parseDigits cs (acc * 10 + (c.toNat - 48)) else none

/-- A non-empty digit string as a number. -/
def parseNat (cs : List Char) : Option Nat :=
  match cs with
  | [] => none
  | _ :: _ => parseDigits cs 0

/-- Split a character list at every dot. -/
def splitDots : List Char → List (List Char)
  | [] => [[]]
  | c :: cs =>
    if c = '.' then [] :: splitDots cs
    else
      match splitDots cs with
      | [] => [[c]]
      | h :: t => (c :: h) :: t

/-- Modelled from the spec: `Version.String` of the semantic-version library. -/
def Version.String (v : Version) : String :=
  String.mk (renderNat v.major ++ '.' :: (renderNat v.minor ++ '.' :: renderNat v.patch))

/-- Modelled from the spec: `semver.NewVersion`, the parser of the semantic-version library
(not in the sources): an optional `v`, then one to three dot-separated numbers; missing
minor or patch are `0`. `none` is the parse error. -/
def NewVersion (s : String) : Option Version :=
  let cs := match s.data with
    | 'v' :: t => t
    | l => l
  match splitDots cs with
  | [a] => (parseNat a).map (fun x => ⟨x, 0, 0⟩)
  | [a, b] => (parseNat a).bind (fun x => (parseNat b).map (fun y => ⟨x, y, 0⟩))
  | [a, b, c] =>
    (parseNat a).bind (fun x => (parseNat b).bind (fun y => (parseNat c).map (fun z => ⟨x, y, z⟩)))
  | _ => none

/-- Modelled from the spec: `versionutils.CompareVersions(version1, operator, version2)`
(`pkg/utils/version`, not in the sources): both strings are parsed as semantic versions
and compared with the operator. The result is Go's pair `(bool, error)`: on a parse error
or an unknown operator the boolean is `false` and the error text is set. -/
def CompareVersions (version1 operator version2 : String) : Bool × Option String :=
  match NewVersion version1, NewVersion version2 with
  | some v1, some v2 =>
    if operator = "<" then (decide (v1.Compare v2 < 0), none)
    else if operator = "<=" then (decide (v1.Compare v2 ≤ 0), none)
    else if operator = ">" then (decide (v1.Compare v2 > 0), none)
    else if operator = ">=" then (decide (v1.Compare v2 ≥ 0), none)
    else if operator = "=" then (decide (v1.Compare v2 = 0), none)
    else if operator = "!=" then (decide (v1.Compare v2 ≠ 0), none)
    else (false, some ("improper constraint: " ++ operator ++ " " ++ version2))
  | none, _ => (false, some "Invalid Semantic Version")
  | _, none => (false, some ("improper constraint: " ++ operator ++ " " ++ version2))

/-- Precedence of semantic versions: lexicographic on major, minor, patch. -/
def Version.Less (v w : Version) : Prop :=
  v.major < w.major ∨
    (v.major = w.major ∧ (v.minor < w.minor ∨ (v.minor = w.minor ∧ v.patch < w.patch)))

instance : LT Version := ⟨Version.Less⟩

instance : LE Version := ⟨fun v w => ¬ Version.Less w v⟩

instance (v w : Version) : Decidable (v < w) := by
  show Decidable (Version.Less v w); unfold Version.Less; infer_instance

instance (v w : Version) : Decidable (v ≤ w) := by
  show Decidable (¬ Version.Less w v); unfold Version.Less; infer_instance

/-- A decimal digit character. -/
def IsDigit (c : Char) : Prop := 48 ≤ c.toNat ∧ c.toNat ≤ 57

/-! ## Machine integers and `math/big` -/

/-- Go's `int32` result of an exact integer: two's complement wrap-around. -/
def wrapInt32 (x : Int) : Int := (x + 2147483648) % 4294967296 - 2147483648

/-- The range of Go's `int32`. -/
def IsInt32 (x : Int) : Prop := -2147483648 ≤ x ∧ x ≤ 2147483647

/-- `(&big.Int{}).Exp(big.NewInt(2), big.NewInt(y), nil)`: `2^y` in exact arithmetic; for
`y <= 0` the result is `1` (math/big). -/
def bigExp2 (y : Int) : Int := if y ≤ 0 then 1 else 2 ^ y.toNat

/-! ## API types (`pkg/apis/core`), as far as the validators read them

The type declarations live in `pkg/apis/core/types_*.go`, outside `shoot.go`; each
structure lists the fields the embedded validators access. A Go pointer is an `Option`, the zero value of
every field is its default. -/

/-- `core.IPFamily`, a string type. -/
abbrev IPFamily := String

/-- `core.IPFamilyIPv4`. -/
def IPFamilyIPv4 : IPFamily := "IPv4"

/-- `core.IPFamilyIPv6`. -/
def IPFamilyIPv6 : IPFamily := "IPv6"

/-- `core.Networking`. -/
structure Networking where
  Type_ : Option String := none
  ProviderConfig : Option String := none
  Pods : Option String := none
  Nodes : Option String := none
  Services : Option String := none
  IPFamilies : List IPFamily := []
deriving DecidableEq, Repr

/-- `core.LastOperation`: `Type` and `State` are string types. -/
structure LastOperation where
  State : String := ""
  Type_ : String := ""
deriving DecidableEq, Repr

/-- `core.LastOperationTypeCreate`. -/
def LastOperationTypeCreate : String := "Create"

/-- `core.LastOperationTypeReconcile`. -/
def LastOperationTypeReconcile : String := "Reconcile"

/-- `core.LastOperationTypeRestore`. -/
def LastOperationTypeRestore : String := "Restore"

/-- `core.LastOperationStateSucceeded`. -/
def LastOperationStateSucceeded : String := "Succeeded"

/-- `core.CredentialsRotationPhase`, a string type. -/
abbrev CredentialsRotationPhase := String

/-- `core.RotationPreparing`. -/
def RotationPreparing : CredentialsRotationPhase := "Preparing"

/-- `core.RotationPrepared`. -/
def RotationPrepared : CredentialsRotationPhase := "Prepared"

/-- `core.RotationCompleting`. -/
def RotationCompleting : CredentialsRotationPhase := "Completing"

/-- `core.RotationCompleted`. -/
def RotationCompleted : CredentialsRotationPhase := "Completed"

/-- `core.CARotation`. -/
structure CARotation where
  Phase : CredentialsRotationPhase := ""
deriving DecidableEq, Repr

/-- `core.ServiceAccountKeyRotation`. -/
structure ServiceAccountKeyRotation where
  Phase : CredentialsRotationPhase := ""
deriving DecidableEq, Repr

/-- `core.ETCDEncryptionKeyRotation`. -/
structure ETCDEncryptionKeyRotation where
  Phase : CredentialsRotationPhase := ""
deriving DecidableEq, Repr

/-- `core.ShootCredentialsRotation`. -/
structure ShootCredentialsRotation where
  CertificateAuthorities : Option CARotation := none
  ServiceAccountKey : Option ServiceAccountKeyRotation := none
  ETCDEncryptionKey : Option ETCDEncryptionKeyRotation := none
deriving DecidableEq, Repr

/-- `core.ShootCredentials`. -/
structure ShootCredentials where
  Rotation : Option ShootCredentialsRotation := none
deriving DecidableEq, Repr

/-- `core.ShootStatus`. -/
structure ShootStatus where
  LastOperation : Option LastOperation := none
  Credentials : Option ShootCredentials := none
  IsHibernated : Bool := false
deriving DecidableEq, Repr

/-- `core.HibernationSchedule`. -/
structure HibernationSchedule where
  Start : Option String := none
  End : Option String := none
  Location : Option String := none
deriving DecidableEq, Repr

/-- `core.Hibernation`. -/
structure Hibernation where
  Enabled : Option Bool := none
  Schedules : List HibernationSchedule := []
deriving DecidableEq, Repr

/-- `metav1.Duration`: a `time.Duration`, nanoseconds as `int64`. -/
abbrev Duration := Int

/-- `time.Second` in nanoseconds. -/
def timeSecond : Duration := 1000000000

/-- `time.Hour` in nanoseconds. -/
def timeHour : Duration := 3600 * timeSecond

/-- `metav1.ObjectMeta`, as far as the validators read it. `Annotations` is the map as a
list of key-value pairs. -/
structure ObjectMeta where
  Name : String := ""
  Namespace : String := ""
  Annotations : List (String × String) := []
  DeletionTimestamp : Option String := none
deriving Repr

/-- `m[key]` on a Go `map[string]string`: the value, or the empty string. -/
def mapGet (m : List (String × String)) (key : String) : String :=
  match m.find? (fun kv => kv.1 = key) with
  | some kv => kv.2
  | none => ""

/-- `core.NginxIngress`; `Enabled` is the field of the embedded `core.Addon`. -/
structure NginxIngress where
  Enabled : Bool := false
  ExternalTrafficPolicy : Option String := none
deriving Repr

/-- `core.KubernetesDashboard`; `Enabled` is the field of the embedded `core.Addon`. -/
structure KubernetesDashboard where
  Enabled : Bool := false
  AuthenticationMode : Option String := none
deriving Repr

/-- `core.Addons`. -/
structure Addons where
  KubernetesDashboard : Option KubernetesDashboard := none
  NginxIngress : Option NginxIngress := none
deriving Repr

/-- `core.DNSProvider`. -/
structure DNSProvider where
  Primary : Option Bool := none
  SecretName : Option String := none
  Type_ : Option String := none
deriving DecidableEq, Repr

/-- `core.DNS`. -/
structure DNS where
  Domain : Option String := none
  Providers : List DNSProvider := []
deriving DecidableEq, Repr

/-- `core.Extension`. -/
structure Extension where
  Type_ : String := ""
deriving Repr

/-- `autoscalingv1.CrossVersionObjectReference`. -/
structure CrossVersionObjectReference where
  Kind : String := ""
  Name : String := ""
  APIVersion : String := ""
deriving Repr

/-- `core.NamedResourceReference`. -/
structure NamedResourceReference where
  Name : String := ""
  ResourceRef : CrossVersionObjectReference := {}
deriving Repr

/-- `core.OIDCConfig`. -/
structure OIDCConfig where
  CABundle : Option String := none
  ClientID : Option String := none
  GroupsClaim : Option String := none
  GroupsPrefix : Option String := none
  IssuerURL : Option String := none
  SigningAlgs : List String := []
  UsernameClaim : Option String := none
  UsernamePrefix : Option String := none
deriving Repr

/-- `core.AdmissionPlugin`. -/
structure AdmissionPlugin where
  Name : String := ""
  Config : Option String := none
  Disabled : Option Bool := none
  KubeconfigSecretName : Option String := none
deriving Repr

/-- `corev1.ObjectReference`. -/
structure ObjectReference where
  Kind : String := ""
  Namespace : String := ""
  Name : String := ""
  APIVersion : String := ""
  ResourceVersion : String := ""
deriving Repr

/-- `core.AuditPolicy`. -/
structure AuditPolicy where
  ConfigMapRef : Option ObjectReference := none
deriving Repr

/-- `core.AuditConfig`. -/
structure AuditConfig where
  AuditPolicy : Option AuditPolicy := none
deriving Repr

/-- `core.ResourceWatchCacheSize`. -/
structure ResourceWatchCacheSize where
  APIGroup : Option String := none
  Resource : String := ""
  CacheSize : Int := 0
deriving Repr

/-- `core.WatchCacheSizes`. -/
structure WatchCacheSizes where
  Default : Option Int := none
  Resources : List ResourceWatchCacheSize := []
deriving Repr

/-- `core.KubeAPIServerLogging`. -/
structure KubeAPIServerLogging where
  Verbosity : Option Int := none
  HTTPAccessVerbosity : Option Int := none
deriving Repr

/-- `core.KubeAPIServerRequests`. -/
structure KubeAPIServerRequests where
  MaxNonMutatingInflight : Option Int := none
  MaxMutatingInflight : Option Int := none
deriving Repr

/-- `core.ServiceAccountConfig`. -/
structure ServiceAccountConfig where
  MaxTokenExpiration : Option Duration := none
  AcceptedIssuers : Option (List String) := none
deriving Repr

/-- `core.KubeAPIServerConfig`. `FeatureGates` is the map as a list of pairs. -/
structure KubeAPIServerConfig where
  FeatureGates : List (String × Bool) := []
  AdmissionPlugins : List AdmissionPlugin := []
  AuditConfig : Option AuditConfig := none
  OIDCConfig : Option OIDCConfig := none
  WatchCacheSizes : Option WatchCacheSizes := none
  Logging : Option KubeAPIServerLogging := none
  DefaultNotReadyTolerationSeconds : Option Int := none
  DefaultUnreachableTolerationSeconds : Option Int := none
  Requests : Option KubeAPIServerRequests := none
  ServiceAccountConfig : Option ServiceAccountConfig := none
  EventTTL : Option Duration := none
deriving Repr

/-- `core.HorizontalPodAutoscalerConfig`; `Tolerance` is a `float64`. -/
structure HorizontalPodAutoscalerConfig where
  CPUInitializationPeriod : Option Duration := none
  DownscaleStabilization : Option Duration := none
  InitialReadinessDelay : Option Duration := none
  SyncPeriod : Option Duration := none
  Tolerance : Option Float := none
deriving Repr

/-- `core.KubeControllerManagerConfig`; `NodeCIDRMaskSize` is an `int32`. -/
structure KubeControllerManagerConfig where
  FeatureGates : List (String × Bool) := []
  HorizontalPodAutoscalerConfig : Option HorizontalPodAutoscalerConfig := none
  NodeCIDRMaskSize : Option Int := none
  PodEvictionTimeout : Option Duration := none
  NodeMonitorGracePeriod : Option Duration := none
deriving Repr

/-- `core.KubeSchedulerConfig`. -/
structure KubeSchedulerConfig where
  FeatureGates : List (String × Bool) := []
  Profile : Option String := none
deriving Repr

/-- `core.KubeProxyConfig`. -/
structure KubeProxyConfig where
  FeatureGates : List (String × Bool) := []
  Mode : Option String := none
deriving Repr

/-- `resource.Quantity`, kept as its canonical text. -/
abbrev Quantity := String

/-- `core.KubeletConfigEviction`. -/
structure KubeletConfigEviction where
  MemoryAvailable : Option String := none
  ImageFSAvailable : Option String := none
  ImageFSInodesFree : Option String := none
  NodeFSAvailable : Option String := none
  NodeFSInodesFree : Option String := none
deriving DecidableEq, Repr

/-- `core.KubeletConfigEvictionMinimumReclaim`. -/
structure KubeletConfigEvictionMinimumReclaim where
  MemoryAvailable : Option Quantity := none
  ImageFSAvailable : Option Quantity := none
  ImageFSInodesFree : Option Quantity := none
  NodeFSAvailable : Option Quantity := none
  NodeFSInodesFree : Option Quantity := none
deriving DecidableEq, Repr

/-- `core.KubeletConfigEvictionSoftGracePeriod`. -/
structure KubeletConfigEvictionSoftGracePeriod where
  MemoryAvailable : Option Duration := none
  ImageFSAvailable : Option Duration := none
  ImageFSInodesFree : Option Duration := none
  NodeFSAvailable : Option Duration := none
  NodeFSInodesFree : Option Duration := none
deriving DecidableEq, Repr

/-- `core.KubeletConfigReserved`. -/
structure KubeletConfigReserved where
  CPU : Option Quantity := none
  Memory : Option Quantity := none
  EphemeralStorage : Option Quantity := none
  PID : Option Quantity := none
deriving DecidableEq, Repr

/-- `core.MemorySwapConfiguration`. -/
structure MemorySwapConfiguration where
  SwapBehavior : Option String := none
deriving DecidableEq, Repr

/-- `core.KubeletConfig`; `MaxPods`, `EvictionMaxPodGracePeriod`, the image GC thresholds,
`RegistryPullQPS`, `RegistryBurst` and `ContainerLogMaxFiles` are `int32`, `PodPIDsLimit` is
an `int64`. `EnforceNodeAllocatable` is a slice the source tests against `nil`. -/
structure KubeletConfig where
  FeatureGates : List (String × Bool) := []
  MaxPods : Option Int := none
  PodPIDsLimit : Option Int := none
  ImagePullProgressDeadline : Option Duration := none
  EnforceNodeAllocatable : Option (List String) := none
  EvictionPressureTransitionPeriod : Option Duration := none
  EvictionMaxPodGracePeriod : Option Int := none
  EvictionHard : Option KubeletConfigEviction := none
  EvictionSoft : Option KubeletConfigEviction := none
  EvictionMinimumReclaim : Option KubeletConfigEvictionMinimumReclaim := none
  EvictionSoftGracePeriod : Option KubeletConfigEvictionSoftGracePeriod := none
  KubeReserved : Option KubeletConfigReserved := none
  SystemReserved : Option KubeletConfigReserved := none
  ImageGCHighThresholdPercent : Option Int := none
  ImageGCLowThresholdPercent : Option Int := none
  RegistryPullQPS : Option Int := none
  RegistryBurst : Option Int := none
  SeccompDefault : Option Bool := none
  ContainerLogMaxSize : Option Quantity := none
  ContainerLogMaxFiles : Option Int := none
  StreamingConnectionIdleTimeout : Option Duration := none
  MemorySwap : Option MemorySwapConfiguration := none
  FailSwapOn : Option Bool := none
deriving Repr

/-- `core.ClusterAutoscaler`; `ScaleDownUtilizationThreshold` is a `float64`. -/
structure ClusterAutoscaler where
  ScaleDownUtilizationThreshold : Option Float := none
  MaxNodeProvisionTime : Option Duration := none
  MaxGracefulTerminationSeconds : Option Int := none
  Expander : Option String := none
  IgnoreTaints : List String := []
deriving Repr

/-- `core.VerticalPodAutoscaler`. -/
structure VerticalPodAutoscaler where
  EvictAfterOOMThreshold : Option Duration := none
  UpdaterInterval : Option Duration := none
  RecommenderInterval : Option Duration := none
deriving Repr

/-- `core.Kubernetes`. -/
structure Kubernetes where
  AllowPrivilegedContainers : Option Bool := none
  ClusterAutoscaler : Option ClusterAutoscaler := none
  KubeAPIServer : Option KubeAPIServerConfig := none
  KubeControllerManager : Option KubeControllerManagerConfig := none
  KubeScheduler : Option KubeSchedulerConfig := none
  KubeProxy : Option KubeProxyConfig := none
  Kubelet : Option KubeletConfig := none
  Version : String := ""
  VerticalPodAutoscaler : Option VerticalPodAutoscaler := none
  EnableStaticTokenKubeconfig : Option Bool := none
deriving Repr

/-- `core.MaintenanceAutoUpdate`. -/
structure MaintenanceAutoUpdate where
  KubernetesVersion : Bool := false
  MachineImageVersion : Option Bool := none
deriving Repr

/-- `core.MaintenanceTimeWindow`. -/
structure MaintenanceTimeWindow where
  Begin : String := ""
  End : String := ""
deriving Repr

/-- `core.Maintenance`. -/
structure Maintenance where
  AutoUpdate : Option MaintenanceAutoUpdate := none
  TimeWindow : Option MaintenanceTimeWindow := none
deriving Repr

/-- `core.Alerting`. -/
structure Alerting where
  EmailReceivers : List String := []
deriving Repr

/-- `core.Monitoring`. -/
structure Monitoring where
  Alerting : Option Alerting := none
deriving Repr

/-- `core.ContainerRuntime`. -/
structure ContainerRuntime where
  Type_ : String := ""
deriving DecidableEq, Repr

/-- `core.CRI`. -/
structure CRI where
  Name : String := ""
  ContainerRuntimes : List ContainerRuntime := []
deriving Repr

/-- `intstr.IntOrString`: an `int32` or a string. -/
inductive IntOrString where
  | int (v : Int)
  | str (s : String)
deriving DecidableEq, Repr

/-- `corev1.Taint`, as far as the validators read it. -/
structure Taint where
  Key : String := ""
  Value : String := ""
  Effect : String := ""
deriving DecidableEq, Repr

/-- `core.ShootMachineImage`. -/
structure ShootMachineImage where
  Name : String := ""
  Version : String := ""
deriving DecidableEq, Repr

/-- `core.Machine`. -/
structure Machine where
  Type_ : String := ""
  Image : Option ShootMachineImage := none
  Architecture : Option String := none
deriving DecidableEq, Repr

/-- `core.Volume`. -/
structure Volume where
  VolumeSize : String := ""
deriving DecidableEq, Repr

/-- `core.DataVolume`. -/
structure DataVolume where
  Name : String := ""
  VolumeSize : String := ""
deriving DecidableEq, Repr

/-- `core.WorkerSystemComponents`. -/
structure WorkerSystemComponents where
  Allow : Bool := false
deriving DecidableEq, Repr

/-- `core.WorkerKubernetes`. -/
structure WorkerKubernetes where
  Kubelet : Option KubeletConfig := none
  Version : Option String := none
deriving Repr

/-- `core.Worker`, as far as the embedded validators read it; `Minimum` and `Maximum` are
`int32`. -/
structure Worker where
  Name : String := ""
  CRI : Option CRI := none
  Kubernetes : Option WorkerKubernetes := none
  Minimum : Int := 0
  Maximum : Int := 0
  Machine : Machine := {}
  MaxSurge : Option IntOrString := none
  MaxUnavailable : Option IntOrString := none
  Labels : List (String × String) := []
  Annotations : List (String × String) := []
  Taints : List Taint := []
  CABundle : Option String := none
  Volume : Option Volume := none
  DataVolumes : List DataVolume := []
  KubeletDataVolumeName : Option String := none
  SystemComponents : Option WorkerSystemComponents := none
  Zones : List String := []
deriving Repr

/-- `core.CRINameDocker`. -/
def CRINameDocker : String := "docker"

/-- `core.Provider`. The provider configurations are raw extensions, kept as text. -/
structure Provider where
  Type_ : String := ""
  ControlPlaneConfig : Option String := none
  InfrastructureConfig : Option String := none
  Workers : List Worker := []
  WorkersSettings : Option String := none
deriving Repr

/-- `metav1.LabelSelector`. -/
structure LabelSelector where
  MatchLabels : List (String × String) := []
  MatchExpressions : List String := []
deriving Repr

/-- `core.SeedSelector`: an embedded `metav1.LabelSelector`. -/
structure SeedSelector where
  LabelSelector : LabelSelector := {}
deriving Repr

/-- `core.Toleration`. -/
structure Toleration where
  Key : String := ""
  Value : Option String := none
deriving Repr

/-- `core.CoreDNSAutoscaling`. -/
structure CoreDNSAutoscaling where
  Mode : String := ""
deriving Repr

/-- `core.CoreDNSRewriting`. -/
structure CoreDNSRewriting where
  CommonSuffixes : List String := []
deriving Repr

/-- `core.CoreDNS`. -/
structure CoreDNS where
  Autoscaling : Option CoreDNSAutoscaling := none
  Rewriting : Option CoreDNSRewriting := none
deriving Repr

/-- `core.SystemComponents`. -/
structure SystemComponents where
  CoreDNS : Option CoreDNS := none
deriving Repr

/-- `core.FailureTolerance`. -/
structure FailureTolerance where
  Type_ : String := ""
deriving Repr

/-- `core.HighAvailability`. -/
structure HighAvailability where
  FailureTolerance : FailureTolerance := {}
deriving Repr

/-- `core.ControlPlane`. -/
structure ControlPlane where
  HighAvailability : Option HighAvailability := none
deriving Repr

/-- `core.ShootSpec`. -/
structure ShootSpec where
  Addons : Option Addons := none
  CloudProfileName : String := ""
  DNS : Option DNS := none
  Extensions : List Extension := []
  Hibernation : Option Hibernation := none
  Kubernetes : Kubernetes := {}
  Networking : Option Networking := none
  Maintenance : Option Maintenance := none
  Monitoring : Option Monitoring := none
  Provider : Provider := {}
  Purpose : Option String := none
  Region : String := ""
  SecretBindingName : Option String := none
  SeedName : Option String := none
  SeedSelector : Option SeedSelector := none
  Resources : List NamedResourceReference := []
  Tolerations : List Toleration := []
  ExposureClassName : Option String := none
  SystemComponents : Option SystemComponents := none
  ControlPlane : Option ControlPlane := none
deriving Repr

/-- `core.Shoot`. -/
structure Shoot where
  ObjectMeta : ObjectMeta := {}
  Spec : ShootSpec := {}
  Status : ShootStatus := {}
deriving Repr

/-! ## Constants (`pkg/apis/core/v1beta1/constants`) and helpers (`pkg/apis/core/helper`) -/

/-- `v1beta1constants.GardenerOperation`, the operation annotation. -/
def GardenerOperation : String := "gardener.cloud/operation"

/-- `v1beta1constants.GardenerMaintenanceOperation`, the maintenance-operation annotation. -/
def GardenerMaintenanceOperation : String := "maintenance.gardener.cloud/operation"

/-- `v1beta1constants.GardenerOperationReconcile`. -/
def GardenerOperationReconcile : String := "reconcile"

/-- `v1beta1constants.ShootOperationMaintain`. -/
def ShootOperationMaintain : String := "maintain"

/-- `v1beta1constants.ShootOperationRetry`. -/
def ShootOperationRetry : String := "retry"

/-- `v1beta1constants.ShootOperationRotateKubeconfigCredentials`. -/
def ShootOperationRotateKubeconfigCredentials : String := "rotate-kubeconfig-credentials"

/-- `v1beta1constants.ShootOperationRotateObservabilityCredentials`. -/
def ShootOperationRotateObservabilityCredentials : String := "rotate-observability-credentials"

/-- `v1beta1constants.ShootOperationRotateSSHKeypair`. -/
def ShootOperationRotateSSHKeypair : String := "rotate-ssh-keypair"

/-- `v1beta1constants.OperationRotateCredentialsStart`. -/
def OperationRotateCredentialsStart : String := "rotate-credentials-start"

/-- `v1beta1constants.OperationRotateCredentialsComplete`. -/
def OperationRotateCredentialsComplete : String := "rotate-credentials-complete"

/-- `v1beta1constants.OperationRotateCAStart`. -/
def OperationRotateCAStart : String := "rotate-ca-start"

/-- `v1beta1constants.OperationRotateCAComplete`. -/
def OperationRotateCAComplete : String := "rotate-ca-complete"

/-- `v1beta1constants.OperationRotateServiceAccountKeyStart`. -/
def OperationRotateServiceAccountKeyStart : String := "rotate-serviceaccount-key-start"

/-- `v1beta1constants.OperationRotateServiceAccountKeyComplete`. -/
def OperationRotateServiceAccountKeyComplete : String := "rotate-serviceaccount-key-complete"

/-- `v1beta1constants.OperationRotateETCDEncryptionKeyStart`. -/
def OperationRotateETCDEncryptionKeyStart : String := "rotate-etcd-encryption-key-start"

/-- `v1beta1constants.OperationRotateETCDEncryptionKeyComplete`. -/
def OperationRotateETCDEncryptionKeyComplete : String := "rotate-etcd-encryption-key-complete"

/-- Modelled from the spec: `core.IsIPv6SingleStack` (not in the sources): the IP-family
list is exactly `[IPv6]`. -/
def IsIPv6SingleStack (ipFamilies : List IPFamily) : Bool :=
  decide (ipFamilies.length = 1) && decide (ipFamilies.head? = some IPFamilyIPv6)

/-- Modelled from the spec: `helper.GetShootCARotationPhase` (not in the sources): the phase
of the certificate-authorities rotation, empty when unset. -/
def GetShootCARotationPhase (credentials : Option ShootCredentials) : CredentialsRotationPhase :=
  match credentials with
  | some c =>
    match c.Rotation with
    | some r =>
      match r.CertificateAuthorities with
      | some ca => ca.Phase
      | none => ""
    | none => ""
  | none => ""

/-- Modelled from the spec: `helper.GetShootServiceAccountKeyRotationPhase` (not in the
sources): the phase of the service-account-key rotation, empty when unset. -/
def GetShootServiceAccountKeyRotationPhase (credentials : Option ShootCredentials) :
    CredentialsRotationPhase :=
  match credentials with
  | some c =>
    match c.Rotation with
    | some r =>
      match r.ServiceAccountKey with
      | some k => k.Phase
      | none => ""
    | none => ""
  | none => ""

/-- Modelled from the spec: `helper.GetShootETCDEncryptionKeyRotationPhase` (not in the
sources): the phase of the ETCD-encryption-key rotation, empty when unset. -/
def GetShootETCDEncryptionKeyRotationPhase (credentials : Option ShootCredentials) :
    CredentialsRotationPhase :=
  match credentials with
  | some c =>
    match c.Rotation with
    | some r =>
      match r.ETCDEncryptionKey with
      | some k => k.Phase
      | none => ""
    | none => ""
  | none => ""

/-- `net/url.URL`, as far as the validators read it. -/
structure URL where
  Scheme : String := ""
  Host : String := ""
  Path : String := ""
  User : Option String := none
  Fragment : String := ""
  RawQuery : String := ""
deriving DecidableEq, Repr

/-- Functions and constants the validators use whose code lies outside `shoot.go`
(other files of the validation package, `pkg/utils`, `pkg/apis/core/helper`, and external
libraries). The validators are embedded relative to them. -/
structure Collaborators where
  /-- `helper.HibernationIsEnabled(shoot)`. -/
  HibernationIsEnabled : Shoot → Bool
  /-- `ValidateDNS1123Subdomain(value, fldPath)` of the validation package. -/
  ValidateDNS1123Subdomain : String → Path → ErrorList
  /-- `gardenerutils.GenerateDNSProviderName(secretName, providerType)`. -/
  GenerateDNSProviderName : String → String → String
  /-- `validation.IsDNS1123Subdomain(value)`: the list of violation messages. -/
  IsDNS1123Subdomain : String → List String
  /-- `validateCrossVersionObjectReference(ref, fldPath)` of the validation package. -/
  validateCrossVersionObjectReference : CrossVersionObjectReference → Path → ErrorList
  /-- `url.Parse(rawURL)`; `none` is the parse error. -/
  urlParse : String → Option URL
  /-- `utils.DecodeCertificate(bytes)`: whether decoding succeeds. -/
  DecodeCertificate : String → Bool
  /-- `admissionpluginsvalidation.ValidateAdmissionPlugins(plugins, version, kubeconfigAllowed, fldPath)`. -/
  ValidateAdmissionPlugins : List AdmissionPlugin → String → Bool → Path → ErrorList
  /-- `validateAuditPolicyConfigMapReference(ref, fldPath)` of the validation package. -/
  validateAuditPolicyConfigMapReference : ObjectReference → Path → ErrorList
  /-- `featuresvalidation.ValidateFeatureGates(featureGates, version, fldPath)`. -/
  ValidateFeatureGates : List (String × Bool) → String → Path → ErrorList
  /-- `core.IsIPv4SingleStack(ipFamilies)`. -/
  IsIPv4SingleStack : List IPFamily → Bool
  /-- `ValidateIPFamilies(ipFamilies, fldPath)` of the validation package. -/
  ValidateIPFamilies : List IPFamily → Path → ErrorList
  /-- `helper.DeterminePrimaryIPFamily(ipFamilies)`. -/
  DeterminePrimaryIPFamily : List IPFamily → IPFamily
  /-- `cidrvalidation.NewCIDR(value, path).ValidateParse()`. -/
  cidrValidateParse : String → Path → ErrorList
  /-- `cidrvalidation.NewCIDR(value, path).ValidateIPFamily(family)`. -/
  cidrValidateIPFamily : String → Path → String → ErrorList
  /-- `cidrvalidation.ValidateCIDRIsCanonical(path, cidr)`. -/
  ValidateCIDRIsCanonical : Path → String → ErrorList
  /-- `timewindow.ParseMaintenanceTimeWindow(begin, end)` followed by `Duration()`: the
  error text, or the duration of the window. -/
  ParseMaintenanceTimeWindow : String → String → Except String Duration
  /-- `core.MaintenanceTimeWindowDurationMinimum`. -/
  MaintenanceTimeWindowDurationMinimum : Duration
  /-- `core.MaintenanceTimeWindowDurationMaximum`. -/
  MaintenanceTimeWindowDurationMaximum : Duration
  /-- `utils.TestEmail(email)`. -/
  TestEmail : String → Bool
  /-- `cron.ParseStandard(spec)`: the error text, `none` when the spec parses. -/
  cronParseStandard : String → Option String
  /-- `time.LoadLocation(name)`: the error text, `none` when the location resolves. -/
  timeLoadLocation : String → Option String
  /-- `metav1validation.ValidateLabelSelector(selector, options, fldPath)`. -/
  ValidateLabelSelector : LabelSelector → Path → ErrorList
  /-- `ValidateTolerations(tolerations, fldPath)` of the validation package. -/
  ValidateTolerations : List Toleration → Path → ErrorList
  /-- `apiequality.Semantic.DeepEqual(a, b)` on two shoot specifications. -/
  SemanticDeepEqual : ShootSpec → ShootSpec → Bool
  /-- `deep.Equal(a, b)` (`github.com/go-test/deep`) on two shoot specifications: the list
  of differences, empty for the `nil` result. -/
  deepEqual : ShootSpec → ShootSpec → List String
  /-- `features.DefaultFeatureGate.Enabled(features.MutableShootSpecNetworkingNodes)`. -/
  MutableShootSpecNetworkingNodes : Bool
  /-- `validateDNS1123Label(value, fldPath)` of the validation package. -/
  validateDNS1123Label : String → Path → ErrorList
  /-- `metav1validation.ValidateLabels(labels, fldPath)`. -/
  ValidateLabels : List (String × String) → Path → ErrorList
  /-- `apivalidation.ValidateAnnotations(annotations, fldPath)`. -/
  ValidateAnnotations : List (String × String) → Path → ErrorList
  /-- `metav1validation.ValidateLabelName(name, fldPath)`. -/
  ValidateLabelName : String → Path → ErrorList
  /-- `validation.IsValidLabelValue(value)`: the list of violation messages. -/
  IsValidLabelValue : String → List String
  /-- `validation.IsValidPercent(value)`: the list of violation messages. -/
  IsValidPercent : String → List String
  /-- `getPercentValue(intOrString)` of the validation package: the value and whether it is
  a percentage. -/
  getPercentValue : IntOrString → Int × Bool
  /-- `getIntOrPercentValue(intOrString)` of the validation package. -/
  getIntOrPercentValue : IntOrString → Int
  /-- `resource.ParseQuantity(value)`; `none` is the parse error. -/
  ParseQuantity : String → Option Quantity
  /-- `ValidateResourceQuantityValue(key, quantity, fldPath)` of the validation package. -/
  ValidateResourceQuantityValue : String → Quantity → Path → ErrorList
  /-- `strconv.Atoi(text)`: the value, `0` with a parse error. -/
  Atoi : String → Int
  /-- `v1beta1constants.ValidArchitectures`. -/
  ValidArchitectures : List String
  /-- `net.ParseCIDR(cidr)`: the number of leading ones of the network mask
  (`Mask.Size()`) and the text of the network; `none` is the parse error. -/
  ParseCIDR : String → Option (Nat × String)
  /-- `core.DefaultPodNetworkCIDR`. -/
  DefaultPodNetworkCIDR : String
  /-- The order in which the Go run time ranges over a `map[string]int`, given its
  entries. -/
  mapRange : List (String × Nat) → List (String × Nat)
  /-- `ValidateFailureToleranceTypeValue(value, fldPath)` of the validation package. -/
  ValidateFailureToleranceTypeValue : String → Path → ErrorList
  /-- `v1beta1constants.TaintNodeCriticalComponentsNotReady`. -/
  TaintNodeCriticalComponentsNotReady : String
  /-- `helper.SystemComponentsAllowed(worker)`. -/
  SystemComponentsAllowed : Worker → Bool
  /-- `apivalidation.ValidateObjectMeta(meta, true, apivalidation.NameIsDNSLabel, fldPath)`. -/
  ValidateObjectMeta : ObjectMeta → Path → ErrorList
  /-- `validateNameConsecutiveHyphens(name, fldPath)` of the validation package. -/
  validateNameConsecutiveHyphens : String → Path → ErrorList
  /-- `apivalidation.ValidateObjectMetaUpdate(newMeta, oldMeta, fldPath)`. -/
  ValidateObjectMetaUpdate : ObjectMeta → ObjectMeta → Path → ErrorList
  /-- `shootReconciliationSuccessful(shoot)` of the validation package: the verdict and
  the message. -/
  shootReconciliationSuccessful : Shoot → Bool × String
  /-- `helper.IsWorkerless(shoot)`. -/
  IsWorkerless : Shoot → Bool

/-- Validators of the Kubernetes components and of the system components that
`validateKubernetes` and `ValidateSystemComponents` reach only for a shoot with workers.
They are parameters of the embedding of these two callers. -/
structure WorkerValidators where
  /-- `validateKubeScheduler` (shoot.go 1230). -/
  validateKubeScheduler : Option KubeSchedulerConfig → String → Path → ErrorList
  /-- `validateKubeProxy` (shoot.go 1246). -/
  validateKubeProxy : Option KubeProxyConfig → String → Path → ErrorList
  /-- `ValidateKubeletConfig` (shoot.go 1499). -/
  ValidateKubeletConfig : KubeletConfig → String → Bool → Path → ErrorList
  /-- `ValidateClusterAutoscaler` (shoot.go 947). -/
  ValidateClusterAutoscaler : ClusterAutoscaler → String → Path → ErrorList
  /-- `ValidateVerticalPodAutoscaler` (shoot.go 976). -/
  ValidateVerticalPodAutoscaler : VerticalPodAutoscaler → Path → ErrorList
  /-- `validateCoreDNS` (shoot.go 2071). -/
  validateCoreDNS : Option CoreDNS → Path → ErrorList

/-- Whether every error of `l` lies at or below the path `p`. -/
def ErrorsUnder (p : Path) (l : ErrorList) : Prop := ∀ e ∈ l, p <+: e.Field

/-- The collaborators that return field errors report them at or below the path they are
handed. -/
structure Collaborators.Local (X : Collaborators) : Prop where
  ValidateDNS1123Subdomain : ∀ v p, ErrorsUnder p (X.ValidateDNS1123Subdomain v p)
  validateCrossVersionObjectReference :
    ∀ r p, ErrorsUnder p (X.validateCrossVersionObjectReference r p)
  ValidateAdmissionPlugins : ∀ l v k p, ErrorsUnder p (X.ValidateAdmissionPlugins l v k p)
  validateAuditPolicyConfigMapReference :
    ∀ r p, ErrorsUnder p (X.validateAuditPolicyConfigMapReference r p)
  ValidateFeatureGates : ∀ g v p, ErrorsUnder p (X.ValidateFeatureGates g v p)
  ValidateIPFamilies : ∀ f p, ErrorsUnder p (X.ValidateIPFamilies f p)
  cidrValidateParse : ∀ c p, ErrorsUnder p (X.cidrValidateParse c p)
  cidrValidateIPFamily : ∀ c p f, ErrorsUnder p (X.cidrValidateIPFamily c p f)
  ValidateCIDRIsCanonical : ∀ p c, ErrorsUnder p (X.ValidateCIDRIsCanonical p c)
  ValidateLabelSelector : ∀ s p, ErrorsUnder p (X.ValidateLabelSelector s p)
  ValidateTolerations : ∀ t p, ErrorsUnder p (X.ValidateTolerations t p)
  validateDNS1123Label : ∀ v p, ErrorsUnder p (X.validateDNS1123Label v p)
  ValidateLabels : ∀ l p, ErrorsUnder p (X.ValidateLabels l p)
  ValidateAnnotations : ∀ l p, ErrorsUnder p (X.ValidateAnnotations l p)
  ValidateLabelName : ∀ v p, ErrorsUnder p (X.ValidateLabelName v p)
  ValidateResourceQuantityValue :
    ∀ k q p, ErrorsUnder p (X.ValidateResourceQuantityValue k q p)
  ValidateFailureToleranceTypeValue :
    ∀ v p, ErrorsUnder p (X.ValidateFailureToleranceTypeValue v p)

/-- Modelled from the spec: `helper.HibernationIsEnabled` (not in the sources): the shoot
is hibernated by its enabled flag or by its observed hibernated status. -/
def HibernationIsEnabled (shoot : Shoot) : Bool :=
  (match shoot.Spec.Hibernation with
    | some h => h.Enabled = some true
    | none => false) || shoot.Status.IsHibernated

/-- `apivalidation.ValidateNonnegativeField(value, fldPath)` of the Kubernetes API
machinery: an `Invalid` error at `fldPath` for a negative value. -/
def ValidateNonnegativeField (value : Int) (fldPath : Path) : ErrorList :=
  if value < 0 then [Invalid fldPath (toString value) "must be greater than or equal to 0"]
  else []

/-- Modelled from the spec: `versionutils.CheckVersionMeetsConstraint(version, constraint)`
(`pkg/utils/version`, not in the sources) for a constraint of the form `OP VERSION`: the
version is compared with the constraint's version by the operator. -/
def CheckVersionMeetsConstraint (version constraint : String) : Bool × Option String :=
  let op := constraint.data.takeWhile (fun c => c ≠ ' ')
  let v := (constraint.data.dropWhile (fun c => c ≠ ' ')).dropWhile (fun c => c = ' ')
  CompareVersions version (String.mk op) (String.mk v)

/-- Modelled from the spec: `helper.NginxIngressEnabled` (not in the sources): the addon is
present and enabled. -/
def NginxIngressEnabled (addons : Option Addons) : Bool :=
  match addons with
  | some a =>
    match a.NginxIngress with
    | some n => n.Enabled
    | none => false
  | none => false

/-- Modelled from the spec: `helper.KubernetesDashboardEnabled` (not in the sources): the
addon is present and enabled. -/
def KubernetesDashboardEnabled (addons : Option Addons) : Bool :=
  match addons with
  | some a =>
    match a.KubernetesDashboard with
    | some d => d.Enabled
    | none => false
  | none => false

/-- Modelled from the spec: `helper.FindPrimaryDNSProvider` (not in the sources): the first
provider marked primary. -/
def FindPrimaryDNSProvider (providers : List DNSProvider) : Option DNSProvider :=
  providers.find? (fun p => p.Primary = some true)

/-- `core.DNSUnmanaged`. -/
def DNSUnmanaged : String := "unmanaged"

/-- `core.ShootPurposeEvaluation`. -/
def ShootPurposeEvaluation : String := "evaluation"

/-- `core.ShootPurposeTesting`. -/
def ShootPurposeTesting : String := "testing"

/-- `core.ShootPurposeDevelopment`. -/
def ShootPurposeDevelopment : String := "development"

/-- `core.ShootPurposeProduction`. -/
def ShootPurposeProduction : String := "production"

/-- `core.ShootPurposeInfrastructure`. -/
def ShootPurposeInfrastructure : String := "infrastructure"

/-- `v1beta1constants.GardenNamespace`. -/
def GardenNamespace : String := "garden"

/-- `pointer.StringDeref(p, "")`. -/
def stringDeref (p : Option String) : String := p.getD ""

/-- `pointer.BoolDeref(p, false)`. -/
def boolDeref (p : Option Bool) : Bool := p.getD false

/-- Text of a `*string` as an echoed bad value. -/
def ptrText (p : Option String) : String :=
  match p with
  | some v => v
  | none => "<nil>"

/-! ## Allow-lists of `shoot.go` (lines 56-128) -/

/-- `forbiddenShootOperationsWhenHibernated` (shoot.go 80-87). -/
def forbiddenShootOperationsWhenHibernated : List String :=
  [OperationRotateCredentialsStart,
   OperationRotateCredentialsComplete,
   OperationRotateETCDEncryptionKeyStart,
   OperationRotateETCDEncryptionKeyComplete,
   OperationRotateServiceAccountKeyStart,
   OperationRotateServiceAccountKeyComplete]

/-- `availableShootMaintenanceOperations` (shoot.go 72-79). -/
def availableShootMaintenanceOperations : List String :=
  [GardenerOperationReconcile,
   OperationRotateCAStart,
   OperationRotateCAComplete,
   ShootOperationRotateKubeconfigCredentials,
   ShootOperationRotateObservabilityCredentials,
   ShootOperationRotateSSHKeypair] ++ forbiddenShootOperationsWhenHibernated

/-- `availableShootOperations` (shoot.go 68-71). -/
def availableShootOperations : List String :=
  [ShootOperationMaintain, ShootOperationRetry] ++ availableShootMaintenanceOperations

/-- `sets.List(s)`: the members in ascending order. -/
def setsList (s : List String) : List String := s.insertionSort (fun a b => a.data ≤ b.data)

/-- `workerlessErrorMsg` (shoot.go 127). -/
def workerlessErrorMsg : String := "this field should not be set for workerless Shoot clusters"

/-! ## Node CIDR mask capacity -/

/-- `defaultNodeCIDRMaskSizeV4` (shoot.go 446). -/
def defaultNodeCIDRMaskSizeV4 : Int := 24

/-- `defaultNodeCIDRMaskSizeV6` (shoot.go 448). -/
def defaultNodeCIDRMaskSizeV6 : Int := 64

/-- `ValidateNodeCIDRMaskWithMaxPod` (shoot.go 451-479). `maxPod` and `nodeCIDRMaskSize`
are `int32`; `totalBitLen - nodeCIDRMaskSize` is an `int32` subtraction, widened to
`int64` only afterwards; the power and the comparison are `big.Int`. -/
def ValidateNodeCIDRMaskWithMaxPod (maxPod nodeCIDRMaskSize : Int) (networking : Networking) :
    ErrorList :=
  let allErrs : ErrorList := []
  let totalBitLen : Int := if IsIPv6SingleStack networking.IPFamilies then 16 * 8 else 4 * 8
  let defaultNodeCIDRMaskSize : Int :=
    if IsIPv6SingleStack networking.IPFamilies then defaultNodeCIDRMaskSizeV6
    else defaultNodeCIDRMaskSizeV4
  let subnetBitLen := wrapInt32 (totalBitLen - nodeCIDRMaskSize)
  let ipAdressesAvailable := bigExp2 subnetBitLen
  let ipAdressesAvailable := ipAdressesAvailable - 2
  if ipAdressesAvailable < maxPod then
    allErrs ++ [Invalid
      ((((NewPath "spec").Child "kubernetes").Child "kubeControllerManager").Child
        "nodeCIDRMaskSize")
      (toString nodeCIDRMaskSize)
      ("kubelet or kube-controller-manager configuration incorrect. Please adjust the nodeCIDRMaskSize to support the highest maxPod on any worker pool. The nodeCIDRMaskSize of "
        ++ toString nodeCIDRMaskSize ++ " (default: " ++ toString defaultNodeCIDRMaskSize
        ++ ") only supports " ++ toString ipAdressesAvailable
        ++ " IP addresses. The highest maxPod setting is " ++ toString maxPod
        ++ " (default: 110). Please choose a nodeCIDRMaskSize that at least supports "
        ++ toString maxPod ++ " IP addresses")]
  else allErrs

/-! ## Operation annotations and credential rotation -/

/-- `isShootReadyForRotationStart` (shoot.go 2269-2280). -/
def isShootReadyForRotationStart (lastOperation : Option LastOperation) : Bool :=
  match lastOperation with
  | none => false
  | some lastOperation =>
    if lastOperation.Type_ = LastOperationTypeCreate ∧
        lastOperation.State = LastOperationStateSucceeded then true
    else if lastOperation.Type_ = LastOperationTypeRestore ∧
        lastOperation.State = LastOperationStateSucceeded then true
    else decide (lastOperation.Type_ = LastOperationTypeReconcile)

/-- `isShootInHibernation` (shoot.go 2282-2288). -/
def isShootInHibernation (shoot : Shoot) : Bool :=
  match shoot.Spec.Hibernation with
  | some h =>
    match h.Enabled with
    | some enabled => enabled || shoot.Status.IsHibernated
    | none => shoot.Status.IsHibernated
  | none => shoot.Status.IsHibernated

/-- The check `len(phase) > 0 && phase != core.RotationCompleted` of the start cases. -/
def phaseBlocksStart (phase : CredentialsRotationPhase) : Bool :=
  decide (phase.length > 0) && decide (phase ≠ RotationCompleted)

/-- `validateShootOperationContext` (shoot.go 2150-2215). -/
def validateShootOperationContext (operation : String) (shoot : Shoot) (fldPath : Path) :
    ErrorList :=
  let allErrs : ErrorList := []
  if operation = OperationRotateCredentialsStart then
    let allErrs := allErrs ++
      (if !isShootReadyForRotationStart shoot.Status.LastOperation then
        [Forbidden fldPath "cannot start rotation of all credentials if shoot was not yet created successfully or is not ready for reconciliation"]
      else [])
    let allErrs := allErrs ++
      (if phaseBlocksStart (GetShootCARotationPhase shoot.Status.Credentials) then
        [Forbidden fldPath "cannot start rotation of all credentials if .status.credentials.rotation.certificateAuthorities.phase is not 'Completed'"]
      else [])
    let allErrs := allErrs ++
      (if phaseBlocksStart (GetShootServiceAccountKeyRotationPhase shoot.Status.Credentials) then
        [Forbidden fldPath "cannot start rotation of all credentials if .status.credentials.rotation.serviceAccountKey.phase is not 'Completed'"]
      else [])
    let allErrs := allErrs ++
      (if phaseBlocksStart (GetShootETCDEncryptionKeyRotationPhase shoot.Status.Credentials) then
        [Forbidden fldPath "cannot start rotation of all credentials if .status.credentials.rotation.etcdEncryptionKey.phase is not 'Completed'"]
      else [])
    allErrs
  else if operation = OperationRotateCredentialsComplete then
    let allErrs := allErrs ++
      (if GetShootCARotationPhase shoot.Status.Credentials ≠ RotationPrepared then
        [Forbidden fldPath "cannot complete rotation of all credentials if .status.credentials.rotation.certificateAuthorities.phase is not 'Prepared'"]
      else [])
    let allErrs := allErrs ++
      (if GetShootServiceAccountKeyRotationPhase shoot.Status.Credentials ≠ RotationPrepared then
        [Forbidden fldPath "cannot complete rotation of all credentials if .status.credentials.rotation.serviceAccountKey.phase is not 'Prepared'"]
      else [])
    let allErrs := allErrs ++
      (if GetShootETCDEncryptionKeyRotationPhase shoot.Status.Credentials ≠ RotationPrepared then
        [Forbidden fldPath "cannot complete rotation of all credentials if .status.credentials.rotation.etcdEncryptionKey.phase is not 'Prepared'"]
      else [])
    allErrs
  else if operation = OperationRotateCAStart then
    let allErrs := allErrs ++
      (if !isShootReadyForRotationStart shoot.Status.LastOperation then
        [Forbidden fldPath "cannot start CA rotation if shoot was not yet created successfully or is not ready for reconciliation"]
      else [])
    let allErrs := allErrs ++
      (if phaseBlocksStart (GetShootCARotationPhase shoot.Status.Credentials) then
        [Forbidden fldPath "cannot start CA rotation if .status.credentials.rotation.certificateAuthorities.phase is not 'Completed'"]
      else [])
    allErrs
  else if operation = OperationRotateCAComplete then
    allErrs ++
      (if GetShootCARotationPhase shoot.Status.Credentials ≠ RotationPrepared then
        [Forbidden fldPath "cannot complete CA rotation if .status.credentials.rotation.certificateAuthorities.phase is not 'Prepared'"]
      else [])
  else if operation = OperationRotateServiceAccountKeyStart then
    let allErrs := allErrs ++
      (if !isShootReadyForRotationStart shoot.Status.LastOperation then
        [Forbidden fldPath "cannot start service account key rotation if shoot was not yet created successfully or is not ready for reconciliation"]
      else [])
    let allErrs := allErrs ++
      (if phaseBlocksStart (GetShootServiceAccountKeyRotationPhase shoot.Status.Credentials) then
        [Forbidden fldPath "cannot start service account key rotation if .status.credentials.rotation.serviceAccountKey.phase is not 'Completed'"]
      else [])
    allErrs
  else if operation = OperationRotateServiceAccountKeyComplete then
    allErrs ++
      (if GetShootServiceAccountKeyRotationPhase shoot.Status.Credentials ≠ RotationPrepared then
        [Forbidden fldPath "cannot complete service account key rotation if .status.credentials.rotation.serviceAccountKey.phase is not 'Prepared'"]
      else [])
  else if operation = OperationRotateETCDEncryptionKeyStart then
    let allErrs := allErrs ++
      (if !isShootReadyForRotationStart shoot.Status.LastOperation then
        [Forbidden fldPath "cannot start ETCD encryption key rotation if shoot was not yet created successfully or is not ready for reconciliation"]
      else [])
    let allErrs := allErrs ++
      (if phaseBlocksStart (GetShootETCDEncryptionKeyRotationPhase shoot.Status.Credentials) then
        [Forbidden fldPath "cannot start ETCD encryption key rotation if .status.credentials.rotation.etcdEncryptionKey.phase is not 'Completed'"]
      else [])
    allErrs
  else if operation = OperationRotateETCDEncryptionKeyComplete then
    allErrs ++
      (if GetShootETCDEncryptionKeyRotationPhase shoot.Status.Credentials ≠ RotationPrepared then
        [Forbidden fldPath "cannot complete ETCD encryption key rotation if .status.credentials.rotation.etcdEncryptionKey.phase is not 'Prepared'"]
      else [])
  else allErrs

/-- `validateShootOperation` (shoot.go 2112-2148). -/
def validateShootOperation (X : Collaborators) (operation maintenanceOperation : String)
    (shoot : Shoot) (fldPath : Path) : ErrorList :=
  let allErrs : ErrorList := []
  if operation = "" ∧ maintenanceOperation = "" then allErrs
  else
    let fldPathOp := fldPath.Key GardenerOperation
    let fldPathMaintOp := fldPath.Key GardenerMaintenanceOperation
    let allErrs := allErrs ++
      (if operation = maintenanceOperation then
        [Forbidden fldPath ("annotations " ++ fldPathOp.String ++ " and "
          ++ fldPathMaintOp.String ++ " must not be equal")]
      else [])
    let allErrs := allErrs ++
      (if operation ≠ "" then
        (if ¬ operation ∈ availableShootOperations then
          [NotSupported fldPathOp operation (setsList availableShootOperations)]
        else []) ++
        (if X.HibernationIsEnabled shoot ∧ operation ∈ forbiddenShootOperationsWhenHibernated then
          [Forbidden fldPathOp "operation is not permitted when shoot is hibernated"]
        else [])
      else [])
    let allErrs := allErrs ++
      (if maintenanceOperation ≠ "" then
        (if ¬ maintenanceOperation ∈ availableShootMaintenanceOperations then
          [NotSupported fldPathMaintOp maintenanceOperation
            (setsList availableShootMaintenanceOperations)]
        else []) ++
        (if X.HibernationIsEnabled shoot ∧
            maintenanceOperation ∈ forbiddenShootOperationsWhenHibernated then
          [Forbidden fldPathMaintOp "operation is not permitted when shoot is hibernated"]
        else [])
      else [])
    let allErrs := allErrs ++ validateShootOperationContext operation shoot fldPathOp
    let allErrs := allErrs ++ validateShootOperationContext maintenanceOperation shoot fldPathMaintOp
    allErrs

/-! ## Version update rules -/

/-- `ValidateKubernetesVersionUpdate` (shoot.go 586-620). `none` is the run-time failure
of the source when `semver.NewVersion(old)` fails: `oldVersion` is then `nil` and
`oldVersion.IncMinor()` dereferences it. -/
def ValidateKubernetesVersionUpdate (new old : String) (fldPath : Path) : Option ErrorList :=
  if new.length = 0 then
    some [Invalid fldPath new "cannot validate kubernetes version upgrade because it is unset"]
  else
    let allErrs : ErrorList := []
    -- Forbid Kubernetes version downgrade
    let (downgrade, err) := CompareVersions new "<" old
    let allErrs := match err with
      | some e => allErrs ++ [Invalid fldPath new e]
      | none => allErrs
    let allErrs :=
      if downgrade then
        allErrs ++ [Forbidden fldPath "kubernetes version downgrade is not supported"]
      else allErrs
    -- Forbid Kubernetes version upgrade which skips a minor version
    match NewVersion old with
    | none => none
    | some oldVersion =>
      let nextMinorVersion := oldVersion.IncMinor.IncMinor
      let (skippingMinorVersion, err) := CompareVersions new ">=" nextMinorVersion.String
      let allErrs := match err with
        | some e => allErrs ++ [Invalid fldPath new e]
        | none => allErrs
      let allErrs :=
        if skippingMinorVersion then
          allErrs ++ [Forbidden fldPath "kubernetes version upgrade cannot skip a minor version"]
        else allErrs
      some allErrs

/-- `validateWorkerGroupAndControlPlaneKubernetesVersion` (shoot.go 650-679). `none` is the
run-time failure of the source when `semver.NewVersion(workerGroupVersion)` fails:
`workerVersion` is then `nil` and `workerVersion.IncMinor()` dereferences it. -/
def validateWorkerGroupAndControlPlaneKubernetesVersion
    (controlPlaneVersion workerGroupVersion : String) (fldPath : Path) : Option ErrorList :=
  let allErrs : ErrorList := []
  -- worker group kubernetes version must not be higher than controlplane version
  let (uplift, err) := CompareVersions workerGroupVersion ">" controlPlaneVersion
  let allErrs := match err with
    | some e => allErrs ++ [Invalid fldPath controlPlaneVersion e]
    | none => allErrs
  let allErrs :=
    if uplift then
      allErrs ++ [Forbidden fldPath
        "worker group kubernetes version must not be higher than control plane version"]
    else allErrs
  -- Forbid Kubernetes version upgrade which skips a minor version
  match NewVersion workerGroupVersion with
  | none => none
  | some workerVersion =>
    let threeMinorSkewVersion := workerVersion.IncMinor.IncMinor.IncMinor
    let (versionSkewViolation, err) :=
      CompareVersions controlPlaneVersion ">=" threeMinorSkewVersion.String
    let allErrs := match err with
      | some e => allErrs ++ [Invalid fldPath controlPlaneVersion e]
      | none => allErrs
    let allErrs :=
      if versionSkewViolation then
        allErrs ++ [Forbidden fldPath
          "worker group kubernetes version must be at most two minor versions behind control plane version"]
      else allErrs
    some allErrs

/-! ## Addons, DNS, extensions, resources -/

/-- `availableShootPurposes` (shoot.go 88-93). -/
def availableShootPurposes : List String :=
  [ShootPurposeEvaluation, ShootPurposeTesting, ShootPurposeDevelopment, ShootPurposeProduction]

/-- `availableNginxIngressExternalTrafficPolicies` (shoot.go 64-67). -/
def availableNginxIngressExternalTrafficPolicies : List String := ["Cluster", "Local"]

/-- `availableKubernetesDashboardAuthenticationModes` (shoot.go 61-63). -/
def availableKubernetesDashboardAuthenticationModes : List String := ["token"]

/-- `availableOIDCSigningAlgs` (shoot.go 114-125). -/
def availableOIDCSigningAlgs : List String :=
  ["RS256", "RS384", "RS512", "ES256", "ES384", "ES512", "PS256", "PS384", "PS512", "none"]

/-- `isDockerConfigured` (shoot.go 261-268). -/
def isDockerConfigured (workers : List Worker) : Bool :=
  workers.any (fun worker =>
    match worker.CRI with
    | none => true
    | some cri => decide (cri.Name = CRINameDocker))

/-- `validateAddons` (shoot.go 412-442). -/
def validateAddons (addons : Option Addons) (kubernetes : Kubernetes) (purpose : Option String)
    (workerless : Bool) (fldPath : Path) : ErrorList :=
  let allErrs : ErrorList := []
  if workerless ∧ addons.isSome then
    allErrs ++ [Forbidden fldPath "addons cannot be enabled for Workerless Shoot clusters"]
  else
    let versionGreaterOrEqual122 := (CheckVersionMeetsConstraint kubernetes.Version ">= 1.22").1
    let allErrs := allErrs ++
      (if (NginxIngressEnabled addons || KubernetesDashboardEnabled addons) &&
          versionGreaterOrEqual122 &&
          (match purpose with
            | some p => decide (p ≠ ShootPurposeEvaluation)
            | none => false) then
        [Forbidden fldPath "for Kubernetes versions >= 1.22 addons can only be enabled on shoots with .spec.purpose=evaluation"]
      else [])
    let allErrs := allErrs ++
      (if NginxIngressEnabled addons then
        match addons with
        | some a =>
          match a.NginxIngress with
          | some nginx =>
            match nginx.ExternalTrafficPolicy with
            | some policy =>
              if ¬ policy ∈ availableNginxIngressExternalTrafficPolicies then
                [NotSupported ((fldPath.Child "nginxIngress").Child "externalTrafficPolicy")
                  policy (setsList availableNginxIngressExternalTrafficPolicies)]
              else []
            | none => []
          | none => []
        | none => []
      else [])
    let allErrs := allErrs ++
      (if KubernetesDashboardEnabled addons then
        match addons with
        | some a =>
          match a.KubernetesDashboard with
          | some dashboard =>
            match dashboard.AuthenticationMode with
            | some authMode =>
              if ¬ authMode ∈ availableKubernetesDashboardAuthenticationModes then
                [NotSupported ((fldPath.Child "kubernetesDashboard").Child "authenticationMode")
                  authMode (setsList availableKubernetesDashboardAuthenticationModes)]
              else []
            | none => []
          | none => []
        | none => []
      else [])
    allErrs

/-- The name `secretName`/`type` give to a DNS provider, when both are set
(shoot.go 706-707). -/
def dnsProviderName (X : Collaborators) (provider : DNSProvider) : Option String :=
  match provider.SecretName, provider.Type_ with
  | some secretName, some type => some (X.GenerateDNSProviderName secretName type)
  | _, _ => none

/-- The loop body of `validateDNS` after the name check (shoot.go 718-735), with the
errors `allErrs` of this iteration so far: the errors of the iteration and the updated
`names` and `primaryFound`. Each early exit is a `continue` of the source. -/
def validateDNSProviderRest (idxPath : Path) (provider : DNSProvider) (allErrs : ErrorList)
    (names : List String) (primaryFound : Bool) : ErrorList × List String × Bool :=
  if provider.Primary = some true ∧ primaryFound = true then
    (allErrs ++ [Forbidden (idxPath.Child "primary")
      "multiple primary DNS providers are not supported"], names, primaryFound)
  else
    let primaryFound := primaryFound || decide (provider.Primary = some true)
    if provider.Type_ = some DNSUnmanaged ∧ provider.SecretName.isSome then
      (allErrs ++ [Invalid (idxPath.Child "secretName") (ptrText provider.SecretName)
        ("secretName must not be set when type is \"" ++ DNSUnmanaged ++ "\"")], names,
        primaryFound)
    else
      (allErrs ++
        (if provider.SecretName.isSome ∧ provider.Type_.isNone then
          [Required (idxPath.Child "type") "type must be set when secretName is set"]
        else []), names, primaryFound)

/-- One iteration of the provider loop of `validateDNS` (shoot.go 703-736): the errors it
appends and the updated `names` and `primaryFound`. -/
def validateDNSProvider (X : Collaborators) (idxPath : Path) (provider : DNSProvider)
    (names : List String) (primaryFound : Bool) : ErrorList × List String × Bool :=
  match dnsProviderName X provider with
  | some providerName =>
    if providerName ∈ names then
      ([Invalid idxPath providerName
        "combination of .secretName and .type must be unique across dns providers"], names,
        primaryFound)
    else
      validateDNSProviderRest idxPath provider
        ((X.IsDNS1123Subdomain providerName).map (fun err =>
          Invalid idxPath providerName
            ("combination of .secretName and .type is invalid: \"" ++ err ++ "\"")))
        (names ++ [providerName]) primaryFound
  | none => validateDNSProviderRest idxPath provider [] names primaryFound

/-- The provider loop of `validateDNS` (shoot.go 703-736). -/
def validateDNSProviders (X : Collaborators) (fldPath : Path) :
    List DNSProvider → Nat → List String → Bool → ErrorList
  | [], _, _, _ => []
  | provider :: rest, i, names, primaryFound =>
    let r := validateDNSProvider X ((fldPath.Child "providers").Index i) provider names
      primaryFound
    r.1 ++ validateDNSProviders X fldPath rest (i + 1) r.2.1 r.2.2

/-- `validateDNS` (shoot.go 681-739). -/
def validateDNS (X : Collaborators) (dns : Option DNS) (fldPath : Path) : ErrorList :=
  let allErrs : ErrorList := []
  match dns with
  | none => allErrs
  | some dns =>
    let allErrs := allErrs ++
      (match dns.Domain with
        | some domain => X.ValidateDNS1123Subdomain domain (fldPath.Child "domain")
        | none => [])
    let allErrs := allErrs ++
      (match FindPrimaryDNSProvider dns.Providers with
        | some primaryDNSProvider =>
          match primaryDNSProvider.Type_ with
          | some type =>
            if type ≠ DNSUnmanaged ∧ dns.Domain.isNone then
              [Required (fldPath.Child "domain")
                ("domain must be set when primary provider type is not set to \""
                  ++ DNSUnmanaged ++ "\"")]
            else []
          | none => []
        | none => [])
    allErrs ++ validateDNSProviders X fldPath dns.Providers 0 [] false

/-- `validateExtensions` (shoot.go 741-749), from index `i` on. -/
def validateExtensionsFrom (fldPath : Path) : List Extension → Nat → ErrorList
  | [], _ => []
  | extension :: rest, i =>
    (if extension.Type_ = "" then
      [Required ((fldPath.Index i).Child "type") "field must not be empty"]
    else []) ++ validateExtensionsFrom fldPath rest (i + 1)

/-- `validateExtensions` (shoot.go 741-749). -/
def validateExtensions (extensions : List Extension) (fldPath : Path) : ErrorList :=
  validateExtensionsFrom fldPath extensions 0

/-- The loop of `validateResources` (shoot.go 754-763) from index `i` on, with the names
seen so far. -/
def validateResourcesFrom (X : Collaborators) (fldPath : Path) :
    List NamedResourceReference → Nat → List String → ErrorList
  | [], _, _ => []
  | resource :: rest, i, names =>
    let here : ErrorList :=
      if resource.Name = "" then
        [Required ((fldPath.Index i).Child "name") "field must not be empty"]
      else if resource.Name ∈ names then
        [Duplicate ((fldPath.Index i).Child "name") resource.Name]
      else []
    let names :=
      if resource.Name = "" then names
      else if resource.Name ∈ names then names
      else names ++ [resource.Name]
    here ++ X.validateCrossVersionObjectReference resource.ResourceRef
        ((fldPath.Index i).Child "resourceRef") ++
      validateResourcesFrom X fldPath rest (i + 1) names

/-- `validateResources` (shoot.go 751-765). -/
def validateResources (X : Collaborators) (resources : List NamedResourceReference)
    (fldPath : Path) : ErrorList :=
  validateResourcesFrom X fldPath resources 0 []

/-! ## Kubernetes components -/

/-- `fieldNilOrEmptyString` (shoot.go 840-842). -/
def fieldNilOrEmptyString (field : Option String) : Bool :=
  match field with
  | none => true
  | some v => decide (v.length = 0)

/-- The loop over `oidc.SigningAlgs` in `ValidateKubeAPIServer` (shoot.go 1076-1080). -/
def validateSigningAlgsFrom (oidcPath : Path) : List String → Nat → ErrorList
  | [], _ => []
  | alg :: rest, i =>
    (if ¬ alg ∈ availableOIDCSigningAlgs then
      [NotSupported ((oidcPath.Child "signingAlgs").Index i) alg
        (setsList availableOIDCSigningAlgs)]
    else []) ++ validateSigningAlgsFrom oidcPath rest (i + 1)

/-- The loop of `ValidateWatchCacheSizes` over `sizes.Resources` (shoot.go 921-927). -/
def validateWatchCacheResourcesFrom (fldPath : Path) :
    List ResourceWatchCacheSize → Nat → ErrorList
  | [], _ => []
  | r :: rest, idx =>
    (if r.Resource.length = 0 then
      [Required (((fldPath.Child "resources").Index idx).Child "resource") "must not be empty"]
    else []) ++
    ValidateNonnegativeField r.CacheSize (((fldPath.Child "resources").Index idx).Child "size") ++
    validateWatchCacheResourcesFrom fldPath rest (idx + 1)

/-- `ValidateWatchCacheSizes` (shoot.go 913-930). -/
def ValidateWatchCacheSizes (sizes : Option WatchCacheSizes) (fldPath : Path) : ErrorList :=
  match sizes with
  | some sizes =>
    (match sizes.Default with
      | some defaultSize => ValidateNonnegativeField defaultSize (fldPath.Child "default")
      | none => []) ++
    validateWatchCacheResourcesFrom fldPath sizes.Resources 0
  | none => []

/-- `ValidateKubeAPIServerLogging` (shoot.go 932-944). -/
def ValidateKubeAPIServerLogging (loggingConfig : Option KubeAPIServerLogging) (fldPath : Path) :
    ErrorList :=
  match loggingConfig with
  | some loggingConfig =>
    (match loggingConfig.Verbosity with
      | some verbosity => ValidateNonnegativeField verbosity (fldPath.Child "verbosity")
      | none => []) ++
    (match loggingConfig.HTTPAccessVerbosity with
      | some httpAccessVerbosity =>
        ValidateNonnegativeField httpAccessVerbosity (fldPath.Child "httpAccessVerbosity")
      | none => [])
  | none => []

/-- The OIDC block of `ValidateKubeAPIServer` (shoot.go 1036-1087). -/
def validateOIDCConfig (X : Collaborators) (oidc : OIDCConfig) (oidcPath : Path) : ErrorList :=
  (if fieldNilOrEmptyString oidc.ClientID then
    (if oidc.ClientID.isSome then
      [Invalid (oidcPath.Child "clientID") (ptrText oidc.ClientID)
        "clientID cannot be empty when key is provided"]
    else []) ++
    (if !fieldNilOrEmptyString oidc.IssuerURL then
      [Invalid (oidcPath.Child "clientID") (ptrText oidc.ClientID)
        "clientID must be set when issuerURL is provided"]
    else [])
  else []) ++
  (if fieldNilOrEmptyString oidc.IssuerURL then
    (if oidc.IssuerURL.isSome then
      [Invalid (oidcPath.Child "issuerURL") (ptrText oidc.IssuerURL)
        "issuerURL cannot be empty when key is provided"]
    else []) ++
    (if !fieldNilOrEmptyString oidc.ClientID then
      [Invalid (oidcPath.Child "issuerURL") (ptrText oidc.IssuerURL)
        "issuerURL must be set when clientID is provided"]
    else [])
  else
    (match X.urlParse (stringDeref oidc.IssuerURL) with
      | none =>
        [Invalid (oidcPath.Child "issuerURL") (ptrText oidc.IssuerURL)
          "must be a valid URL and have https scheme"]
      | some issuer =>
        (if issuer.Host.length = 0 then
          [Invalid (oidcPath.Child "issuerURL") (ptrText oidc.IssuerURL)
            "must be a valid URL and have https scheme"]
        else []) ++
        (if issuer.Scheme ≠ "https" then
          [Invalid (oidcPath.Child "issuerURL") (ptrText oidc.IssuerURL)
            "must have https scheme"]
        else []))) ++
  (match oidc.CABundle with
    | some caBundle =>
      if !X.DecodeCertificate caBundle then
        [Invalid (oidcPath.Child "caBundle") caBundle
          "caBundle is not a valid PEM-encoded certificate"]
      else []
    | none => []) ++
  (match oidc.GroupsClaim with
    | some v =>
      if v.length = 0 then
        [Invalid (oidcPath.Child "groupsClaim") v
          "groupsClaim cannot be empty when key is provided"]
      else []
    | none => []) ++
  (match oidc.GroupsPrefix with
    | some v =>
      if v.length = 0 then
        [Invalid (oidcPath.Child "groupsPrefix") v
          "groupsPrefix cannot be empty when key is provided"]
      else []
    | none => []) ++
  validateSigningAlgsFrom oidcPath oidc.SigningAlgs 0 ++
  (match oidc.UsernameClaim with
    | some v =>
      if v.length = 0 then
        [Invalid (oidcPath.Child "usernameClaim") v
          "usernameClaim cannot be empty when key is provided"]
      else []
    | none => []) ++
  (match oidc.UsernamePrefix with
    | some v =>
      if v.length = 0 then
        [Invalid (oidcPath.Child "usernamePrefix") v
          "usernamePrefix cannot be empty when key is provided"]
      else []
    | none => [])

/-- The `requests` block of `ValidateKubeAPIServer` (shoot.go 1109-1129). -/
def validateKubeAPIServerRequests (requests : KubeAPIServerRequests) (fldPath : Path) :
    ErrorList :=
  (match requests.MaxNonMutatingInflight with
    | some v =>
      ValidateNonnegativeField v ((fldPath.Child "requests").Child "maxNonMutatingInflight") ++
      (if v > 800 then
        [Invalid ((fldPath.Child "requests").Child "maxNonMutatingInflight") (toString v)
          "cannot set higher than 800"]
      else [])
    | none => []) ++
  (match requests.MaxMutatingInflight with
    | some v =>
      ValidateNonnegativeField v ((fldPath.Child "requests").Child "maxMutatingInflight") ++
      (if v > 400 then
        [Invalid ((fldPath.Child "requests").Child "maxMutatingInflight") (toString v)
          "cannot set higher than 400"]
      else [])
    | none => [])

/-- The `serviceAccountConfig` block of `ValidateKubeAPIServer` (shoot.go 1131-1150). -/
def validateServiceAccountConfig (sa : ServiceAccountConfig) (version : String)
    (fldPath : Path) : ErrorList :=
  (match sa.MaxTokenExpiration with
    | some duration =>
      (if duration < 0 then
        [Invalid ((fldPath.Child "serviceAccountConfig").Child "maxTokenExpiration")
          (toString duration) "can not be negative"]
      else []) ++
      (if duration > 0 ∧ duration < 720 * timeHour then
        [Forbidden ((fldPath.Child "serviceAccountConfig").Child "maxTokenExpiration")
          "must be at least 720h (30d)"]
      else []) ++
      (if duration > 2160 * timeHour then
        [Forbidden ((fldPath.Child "serviceAccountConfig").Child "maxTokenExpiration")
          "must be at most 2160h (90d)"]
      else [])
    | none => []) ++
  (if sa.AcceptedIssuers.isSome ∧ (CheckVersionMeetsConstraint version ">= 1.22").1 = false then
    [Forbidden ((fldPath.Child "serviceAccountConfig").Child "acceptedIssuers")
      "this field is only available in Kubernetes v1.22+"]
  else [])

/-- `ValidateKubeAPIServer` (shoot.go 1028-1164). -/
def ValidateKubeAPIServer (X : Collaborators) (kubeAPIServer : Option KubeAPIServerConfig)
    (version : String) (kubeconfigAllowedForAdmissionPlugins : Bool) (fldPath : Path) :
    ErrorList :=
  match kubeAPIServer with
  | none => []
  | some kubeAPIServer =>
    (match kubeAPIServer.OIDCConfig with
      | some oidc => validateOIDCConfig X oidc (fldPath.Child "oidcConfig")
      | none => []) ++
    X.ValidateAdmissionPlugins kubeAPIServer.AdmissionPlugins version
      kubeconfigAllowedForAdmissionPlugins (fldPath.Child "admissionPlugins") ++
    (match kubeAPIServer.AuditConfig with
      | some auditConfig =>
        match auditConfig.AuditPolicy with
        | some auditPolicy =>
          match auditPolicy.ConfigMapRef with
          | some ref =>
            X.validateAuditPolicyConfigMapReference ref
              (((fldPath.Child "auditConfig").Child "auditPolicy").Child "configMapRef")
          | none => []
        | none => []
      | none => []) ++
    ValidateWatchCacheSizes kubeAPIServer.WatchCacheSizes (fldPath.Child "watchCacheSizes") ++
    ValidateKubeAPIServerLogging kubeAPIServer.Logging (fldPath.Child "logging") ++
    (match kubeAPIServer.DefaultNotReadyTolerationSeconds with
      | some v => ValidateNonnegativeField v (fldPath.Child "defaultNotReadyTolerationSeconds")
      | none => []) ++
    (match kubeAPIServer.DefaultUnreachableTolerationSeconds with
      | some v => ValidateNonnegativeField v (fldPath.Child "defaultUnreachableTolerationSeconds")
      | none => []) ++
    (match kubeAPIServer.Requests with
      | some requests => validateKubeAPIServerRequests requests fldPath
      | none => []) ++
    (match kubeAPIServer.ServiceAccountConfig with
      | some sa => validateServiceAccountConfig sa version fldPath
      | none => []) ++
    (match kubeAPIServer.EventTTL with
      | some eventTTL =>
        (if eventTTL < 0 then
          [Invalid (fldPath.Child "eventTTL") (toString eventTTL) "can not be negative"]
        else []) ++
        (if eventTTL > timeHour * 24 * 7 then
          [Invalid (fldPath.Child "eventTTL") (toString eventTTL) "can not be longer than 7d"]
        else [])
      | none => []) ++
    X.ValidateFeatureGates kubeAPIServer.FeatureGates version (fldPath.Child "featureGates")

/-- `ValidateKubeControllerManager` (shoot.go 1166-1228). -/
def ValidateKubeControllerManager (X : Collaborators) (kcm : Option KubeControllerManagerConfig)
    (networking : Option Networking) (version : String) (workerless : Bool) (fldPath : Path) :
    ErrorList :=
  match kcm with
  | none => []
  | some kcm =>
    (if !workerless then
      (match kcm.NodeCIDRMaskSize, networking with
        | some maskSize, some networking =>
          if X.IsIPv4SingleStack networking.IPFamilies then
            if maskSize < 16 ∨ maskSize > 28 then
              [Invalid (fldPath.Child "nodeCIDRMaskSize") (toString maskSize)
                "nodeCIDRMaskSize must be between 16 and 28"]
            else []
          else []
        | _, _ => []) ++
      (match kcm.PodEvictionTimeout with
        | some podEvictionTimeout =>
          if podEvictionTimeout ≤ 0 then
            [Invalid (fldPath.Child "podEvictionTimeout") (toString podEvictionTimeout)
              "podEvictionTimeout must be larger than 0"]
          else []
        | none => []) ++
      (match kcm.NodeMonitorGracePeriod with
        | some nodeMonitorGracePeriod =>
          if nodeMonitorGracePeriod ≤ 0 then
            [Invalid (fldPath.Child "nodeMonitorGracePeriod") (toString nodeMonitorGracePeriod)
              "nodeMonitorGracePeriod must be larger than 0"]
          else []
        | none => []) ++
      (match kcm.HorizontalPodAutoscalerConfig with
        | some hpa =>
          let hpaPath := fldPath.Child "horizontalPodAutoscaler"
          (match hpa.SyncPeriod with
            | some d =>
              if d < 1 * timeSecond then
                [Invalid (hpaPath.Child "syncPeriod") (toString d)
                  "syncPeriod must not be less than a second"]
              else []
            | none => []) ++
          (match hpa.Tolerance with
            | some t =>
              if t ≤ 0 then
                [Invalid (hpaPath.Child "tolerance") (toString t)
                  "tolerance of must be greater than 0"]
              else []
            | none => []) ++
          (match hpa.DownscaleStabilization with
            | some d =>
              if d < 1 * timeSecond then
                [Invalid (hpaPath.Child "downscaleStabilization") (toString d)
                  "downScale stabilization must not be less than a second"]
              else []
            | none => []) ++
          (match hpa.InitialReadinessDelay with
            | some d =>
              if d ≤ 0 then
                [Invalid (hpaPath.Child "initialReadinessDelay") (toString d)
                  "initial readiness delay must be greater than 0"]
              else []
            | none => []) ++
          (match hpa.CPUInitializationPeriod with
            | some d =>
              if d < 1 * timeSecond then
                [Invalid (hpaPath.Child "cpuInitializationPeriod") (toString d)
                  "cpu initialization period must not be less than a second"]
              else []
            | none => [])
        | none => [])
    else
      (if kcm.NodeCIDRMaskSize.isSome then
        [Forbidden (fldPath.Child "nodeCIDRMaskSize") workerlessErrorMsg]
      else []) ++
      (if kcm.HorizontalPodAutoscalerConfig.isSome then
        [Forbidden (fldPath.Child "horizontalPodAutoscaler") workerlessErrorMsg]
      else []) ++
      (if kcm.PodEvictionTimeout.isSome then
        [Forbidden (fldPath.Child "podEvictionTimeout") workerlessErrorMsg]
      else []) ++
      (if kcm.NodeMonitorGracePeriod.isSome then
        [Forbidden (fldPath.Child "nodeMonitorGracePeriod") workerlessErrorMsg]
      else [])) ++
    X.ValidateFeatureGates kcm.FeatureGates version (fldPath.Child "featureGates")

/-- `validateKubernetesForWorkerlessShoot` (shoot.go 810-838). -/
def validateKubernetesForWorkerlessShoot (kubernetes : Kubernetes) (fldPath : Path) :
    ErrorList :=
  (if kubernetes.KubeScheduler.isSome then
    [Forbidden (fldPath.Child "kubeScheduler") workerlessErrorMsg]
  else []) ++
  (if kubernetes.KubeProxy.isSome then
    [Forbidden (fldPath.Child "kubeProxy") workerlessErrorMsg]
  else []) ++
  (if kubernetes.Kubelet.isSome then
    [Forbidden (fldPath.Child "kubelet") workerlessErrorMsg]
  else []) ++
  (if kubernetes.ClusterAutoscaler.isSome then
    [Forbidden (fldPath.Child "clusterAutoScaler") workerlessErrorMsg]
  else []) ++
  (if kubernetes.VerticalPodAutoscaler.isSome then
    [Forbidden (fldPath.Child "verticalPodAutoScaler") workerlessErrorMsg]
  else []) ++
  (if kubernetes.AllowPrivilegedContainers.isSome then
    [Forbidden (fldPath.Child "allowPrivilegedContainers") workerlessErrorMsg]
  else [])

/-- `validateKubernetes` (shoot.go 767-808). -/
def validateKubernetes (X : Collaborators) (W : WorkerValidators) (kubernetes : Kubernetes)
    (networking : Option Networking) (dockerConfigured workerless : Bool) (fldPath : Path) :
    ErrorList :=
  let allErrs : ErrorList := []
  if kubernetes.Version.length = 0 then
    allErrs ++ [Required (fldPath.Child "version") "kubernetes version must not be empty"]
  else
    let k8sGreaterEqual127 := (CheckVersionMeetsConstraint kubernetes.Version ">= 1.27").1
    let allErrs := allErrs ++
      (if k8sGreaterEqual127 && boolDeref kubernetes.EnableStaticTokenKubeconfig then
        [Invalid (fldPath.Child "enableStaticTokenKubeconfig")
          (toString (boolDeref kubernetes.EnableStaticTokenKubeconfig))
          "for Kubernetes versions >= 1.27, enableStaticTokenKubeconfig field cannot not be set to true, please see https://github.com/gardener/gardener/blob/master/docs/usage/shoot_access.md#static-token-kubeconfig"]
      else [])
    let allErrs := allErrs ++
      ValidateKubeAPIServer X kubernetes.KubeAPIServer kubernetes.Version false
        (fldPath.Child "kubeAPIServer")
    let allErrs := allErrs ++
      ValidateKubeControllerManager X kubernetes.KubeControllerManager networking
        kubernetes.Version workerless (fldPath.Child "kubeControllerManager")
    if workerless then
      allErrs ++ validateKubernetesForWorkerlessShoot kubernetes fldPath
    else
      let allErrs := allErrs ++
        W.validateKubeScheduler kubernetes.KubeScheduler kubernetes.Version
          (fldPath.Child "kubeScheduler")
      let allErrs := allErrs ++
        W.validateKubeProxy kubernetes.KubeProxy kubernetes.Version (fldPath.Child "kubeProxy")
      let allErrs := allErrs ++
        (match kubernetes.Kubelet with
          | some kubelet =>
            W.ValidateKubeletConfig kubelet kubernetes.Version dockerConfigured
              (fldPath.Child "kubelet")
          | none => [])
      let allErrs := allErrs ++
        (match kubernetes.ClusterAutoscaler with
          | some clusterAutoscaler =>
            W.ValidateClusterAutoscaler clusterAutoscaler kubernetes.Version
              (fldPath.Child "clusterAutoscaler")
          | none => [])
      let allErrs := allErrs ++
        (match kubernetes.VerticalPodAutoscaler with
          | some verticalPodAutoscaler =>
            W.ValidateVerticalPodAutoscaler verticalPodAutoscaler
              (fldPath.Child "verticalPodAutoscaler")
          | none => [])
      let k8sGreaterEqual125 := (CheckVersionMeetsConstraint kubernetes.Version ">= 1.25").1
      allErrs ++
        (if k8sGreaterEqual125 && kubernetes.AllowPrivilegedContainers.isSome then
          [Forbidden (fldPath.Child "allowPrivilegedContainers")
            "for Kubernetes versions >= 1.25, allowPrivilegedContainers field should not be set, please see https://github.com/gardener/gardener/blob/master/docs/usage/pod-security.md#speckubernetesallowprivilegedcontainers-in-the-shoot-spec"]
        else [])

/-! ## Networking, maintenance, monitoring, hibernation, system components -/

/-- The three checks of one CIDR field in `validateNetworking` (shoot.go 883-908). -/
def validateNetworkingCIDR (X : Collaborators) (value : String) (path : Path)
    (primaryIPFamily : IPFamily) : ErrorList :=
  X.cidrValidateParse value path ++ X.cidrValidateIPFamily value path primaryIPFamily ++
    X.ValidateCIDRIsCanonical path value

/-- The part of `validateNetworking` after the workerless switch (shoot.go 876-910). -/
def validateNetworkingFamilies (X : Collaborators) (networking : Networking)
    (allErrs : ErrorList) (fldPath : Path) : ErrorList :=
  let errs := X.ValidateIPFamilies networking.IPFamilies (fldPath.Child "ipFamilies")
  if errs.length > 0 then allErrs ++ errs
  else
    let primaryIPFamily := X.DeterminePrimaryIPFamily networking.IPFamilies
    let allErrs := allErrs ++
      (match networking.Nodes with
        | some nodes => validateNetworkingCIDR X nodes (fldPath.Child "nodes") primaryIPFamily
        | none => [])
    let allErrs := allErrs ++
      (match networking.Pods with
        | some pods => validateNetworkingCIDR X pods (fldPath.Child "pods") primaryIPFamily
        | none => [])
    let allErrs := allErrs ++
      (match networking.Services with
        | some services =>
          validateNetworkingCIDR X services (fldPath.Child "services") primaryIPFamily
        | none => [])
    allErrs

/-- `validateNetworking` (shoot.go 844-911). -/
def validateNetworking (X : Collaborators) (networking : Option Networking) (workerless : Bool)
    (fldPath : Path) : ErrorList :=
  let allErrs : ErrorList := []
  if workerless then
    match networking with
    | none => allErrs
    | some networking =>
      let allErrs := allErrs ++
        (if networking.Type_.isSome then
          [Forbidden (fldPath.Child "type") workerlessErrorMsg]
        else [])
      let allErrs := allErrs ++
        (if networking.ProviderConfig.isSome then
          [Forbidden (fldPath.Child "providerConfig") workerlessErrorMsg]
        else [])
      let allErrs := allErrs ++
        (if networking.Pods.isSome then
          [Forbidden (fldPath.Child "pods") workerlessErrorMsg]
        else [])
      let allErrs := allErrs ++
        (if networking.Nodes.isSome then
          [Forbidden (fldPath.Child "nodes") workerlessErrorMsg]
        else [])
      validateNetworkingFamilies X networking allErrs fldPath
  else
    match networking with
    | none =>
      allErrs ++ [Required fldPath "networking should not be nil for a Shoot with workers"]
    | some networking =>
      let allErrs := allErrs ++
        (if (stringDeref networking.Type_).length = 0 then
          [Required (fldPath.Child "type") "networking type must be provided"]
        else [])
      validateNetworkingFamilies X networking allErrs fldPath

/-- `validateMaintenance` (shoot.go 1284-1315). -/
def validateMaintenance (X : Collaborators) (maintenance : Option Maintenance)
    (fldPath : Path) (workerless : Bool) : ErrorList :=
  let allErrs : ErrorList := []
  match maintenance with
  | none => allErrs
  | some maintenance =>
    let allErrs := allErrs ++
      (match maintenance.AutoUpdate with
        | some autoUpdate =>
          if workerless ∧ autoUpdate.MachineImageVersion.isSome then
            [Forbidden ((fldPath.Child "autoUpdate").Child "machineImageVersion")
              workerlessErrorMsg]
          else []
        | none => [])
    match maintenance.TimeWindow with
    | some timeWindow =>
      match X.ParseMaintenanceTimeWindow timeWindow.Begin timeWindow.End with
      | Except.error err =>
        allErrs ++ [Invalid ((fldPath.Child "timeWindow").Child "begin/end")
          (timeWindow.Begin ++ " " ++ timeWindow.End) err]
      | Except.ok duration =>
        if duration > X.MaintenanceTimeWindowDurationMaximum then
          allErrs ++ [Invalid (fldPath.Child "timeWindow") (toString duration)
            ("time window must not be greater than "
              ++ toString X.MaintenanceTimeWindowDurationMaximum)]
        else if duration < X.MaintenanceTimeWindowDurationMinimum then
          allErrs ++ [Invalid (fldPath.Child "timeWindow") (toString duration)
            ("time window must not be smaller than "
              ++ toString X.MaintenanceTimeWindowDurationMinimum)]
        else allErrs
    | none => allErrs

/-- The loop of `validateAlerting` (shoot.go 1270-1280) from index `i` on, with the emails
seen so far. -/
def validateAlertingFrom (X : Collaborators) (fldPath : Path) :
    List String → Nat → List String → ErrorList
  | [], _, _ => []
  | email :: rest, i, emails =>
    (if !X.TestEmail email then
      [Invalid ((fldPath.Child "emailReceivers").Index i) email "must provide a valid email"]
    else []) ++
    (if email ∈ emails then [Duplicate ((fldPath.Child "emailReceivers").Index i) email]
    else []) ++
    validateAlertingFrom X fldPath rest (i + 1) (if email ∈ emails then emails else emails ++ [email])

/-- `validateAlerting` (shoot.go 1267-1282). -/
def validateAlerting (X : Collaborators) (alerting : Alerting) (fldPath : Path) : ErrorList :=
  validateAlertingFrom X fldPath alerting.EmailReceivers 0 []

/-- `validateMonitoring` (shoot.go 1259-1265). -/
def validateMonitoring (X : Collaborators) (monitoring : Option Monitoring) (fldPath : Path) :
    ErrorList :=
  match monitoring with
  | some monitoring =>
    match monitoring.Alerting with
    | some alerting => validateAlerting X alerting (fldPath.Child "alerting")
    | none => []
  | none => []

/-- `ValidateHibernationCronSpec` (shoot.go 1881-1896): the errors and the updated set of
seen specs. -/
def ValidateHibernationCronSpec (X : Collaborators) (seenSpecs : List String) (spec : String)
    (fldPath : Path) : ErrorList × List String :=
  match X.cronParseStandard spec with
  | some err => ([Invalid fldPath spec ("not a valid cron spec: " ++ err)], seenSpecs)
  | none =>
    if spec ∈ seenSpecs then ([Duplicate fldPath spec], seenSpecs)
    else ([], seenSpecs ++ [spec])

/-- `ValidateHibernationScheduleLocation` (shoot.go 1898-1907). -/
def ValidateHibernationScheduleLocation (X : Collaborators) (location : String)
    (fldPath : Path) : ErrorList :=
  match X.timeLoadLocation location with
  | some err => [Invalid fldPath location ("not a valid location: " ++ err)]
  | none => []

/-- `ValidateHibernationSchedule` (shoot.go 1909-1928): the errors and the updated set of
seen specs. -/
def ValidateHibernationSchedule (X : Collaborators) (seenSpecs : List String)
    (schedule : HibernationSchedule) (fldPath : Path) : ErrorList × List String :=
  let allErrs : ErrorList :=
    if schedule.Start.isNone ∧ schedule.End.isNone then
      [Required (fldPath.Child "start/end") "either start or end has to be provided"]
    else []
  let r1 : ErrorList × List String :=
    match schedule.Start with
    | some start => ValidateHibernationCronSpec X seenSpecs start (fldPath.Child "start")
    | none => ([], seenSpecs)
  let r2 : ErrorList × List String :=
    match schedule.End with
    | some end_ => ValidateHibernationCronSpec X r1.2 end_ (fldPath.Child "end")
    | none => ([], r1.2)
  let locErrs : ErrorList :=
    match schedule.Location with
    | some location => ValidateHibernationScheduleLocation X location (fldPath.Child "location")
    | none => []
  (allErrs ++ r1.1 ++ r2.1 ++ locErrs, r2.2)

/-- The loop of `ValidateHibernationSchedules` (shoot.go 1874-1876) from index `i` on. -/
def validateHibernationSchedulesFrom (X : Collaborators) (fldPath : Path) :
    List HibernationSchedule → Nat → List String → ErrorList
  | [], _, _ => []
  | schedule :: rest, i, seen =>
    let r := ValidateHibernationSchedule X seen schedule (fldPath.Index i)
    r.1 ++ validateHibernationSchedulesFrom X fldPath rest (i + 1) r.2

/-- `ValidateHibernationSchedules` (shoot.go 1867-1879). -/
def ValidateHibernationSchedules (X : Collaborators) (schedules : List HibernationSchedule)
    (fldPath : Path) : ErrorList :=
  validateHibernationSchedulesFrom X fldPath schedules 0 []

/-- `ValidateHibernation` (shoot.go 1851-1865). -/
def ValidateHibernation (X : Collaborators) (annotations : List (String × String))
    (hibernation : Option Hibernation) (fldPath : Path) : ErrorList :=
  match hibernation with
  | none => []
  | some hibernation =>
    let maintenanceOp := mapGet annotations GardenerMaintenanceOperation
    (if maintenanceOp ∈ forbiddenShootOperationsWhenHibernated ∧
        boolDeref hibernation.Enabled = true then
      [Forbidden (fldPath.Child "enabled")
        ("shoot cannot be hibernated when " ++ GardenerMaintenanceOperation ++ "="
          ++ maintenanceOp ++ " annotation is set")]
    else []) ++
    ValidateHibernationSchedules X hibernation.Schedules (fldPath.Child "schedules")

/-- `ValidateSystemComponents` (shoot.go 2054-2068). -/
def ValidateSystemComponents (W : WorkerValidators) (systemComponents : Option SystemComponents)
    (fldPath : Path) (workerless : Bool) : ErrorList :=
  match systemComponents with
  | none => []
  | some systemComponents =>
    if workerless then [Forbidden fldPath workerlessErrorMsg]
    else W.validateCoreDNS systemComponents.CoreDNS (fldPath.Child "coreDNS")

/-! ## Update validators -/

/-- `apivalidation.FieldImmutableErrorMsg` of the Kubernetes API machinery. -/
def FieldImmutableErrorMsg : String := "field is immutable"

/-- `apivalidation.ValidateImmutableField(newVal, oldVal, fldPath)` of the Kubernetes API
machinery: an `Invalid` error at `fldPath` unless `apiequality.Semantic.DeepEqual(oldVal,
newVal)`. `deepEqual` is that comparison, `text` renders the echoed new value. -/
def ValidateImmutableFieldBy {α : Type} (deepEqual : α → α → Bool) (text : α → String)
    (newVal oldVal : α) (fldPath : Path) : ErrorList :=
  if deepEqual oldVal newVal then [] else [Invalid fldPath (text newVal) FieldImmutableErrorMsg]

/-- `apivalidation.ValidateImmutableField` on values whose semantic equality is equality of
the values: strings, pointers to strings and integers (compared by their targets), and
slices of strings. -/
def ValidateImmutableField {α : Type} [DecidableEq α] (text : α → String) (newVal oldVal : α)
    (fldPath : Path) : ErrorList :=
  ValidateImmutableFieldBy (fun a b => decide (a = b)) text newVal oldVal fldPath

/-- Text of an `*int32` as an echoed bad value. -/
def ptrIntText (p : Option Int) : String :=
  match p with
  | some v => toString v
  | none => ""

/-- `validateWorkerUpdate` (shoot.go 326-335); `none` is the `nil` error. -/
def validateWorkerUpdate (newHasWorkers oldHasWorkers : Bool) (fldPath : Path) : Option Error :=
  if oldHasWorkers && !newHasWorkers then
    some (Forbidden fldPath "cannot switch from a Shoot with workers to a workerless Shoot")
  else if !oldHasWorkers && newHasWorkers then
    some (Forbidden fldPath "cannot switch from a workerless Shoot to a Shoot with workers")
  else none

/-- `ValidateProviderUpdate` (shoot.go 337-340). -/
def ValidateProviderUpdate (newProvider oldProvider : Provider) (fldPath : Path) : ErrorList :=
  ValidateImmutableField id newProvider.Type_ oldProvider.Type_ (fldPath.Child "type")

/-- `validateKubeControllerManagerUpdate` (shoot.go 529-547). -/
def validateKubeControllerManagerUpdate (newConfig oldConfig : Option KubeControllerManagerConfig)
    (fldPath : Path) : ErrorList :=
  let allErrs : ErrorList := []
  let nodeCIDRMaskNew : Option Int :=
    match newConfig with
    | some c => c.NodeCIDRMaskSize
    | none => none
  let nodeCIDRMaskOld : Option Int :=
    match oldConfig with
    | some c => c.NodeCIDRMaskSize
    | none => none
  allErrs ++ ValidateImmutableField ptrIntText nodeCIDRMaskNew nodeCIDRMaskOld
    (fldPath.Child "nodeCIDRMaskSize")

/-- The `Type` of a primary DNS provider, when the provider exists and has one. -/
def primaryType (primary : Option DNSProvider) : Option String :=
  match primary with
  | some p => p.Type_
  | none => none

/-- `validateDNSUpdate` (shoot.go 549-584). The source guards the domain check by the
pointer comparison `new.Domain != old.Domain`; two equal pointers have equal targets, for
which `ValidateImmutableField` returns nothing, so the guard is the test of `old.Domain`
alone. -/
def validateDNSUpdate (new old : Option DNS) (seedGotAssigned : Bool) (fldPath : Path) :
    ErrorList :=
  let allErrs : ErrorList := []
  let allErrs := allErrs ++
    (if old.isSome ∧ new.isNone then
      ValidateImmutableField (fun _ => "") new old fldPath
    else [])
  match new, old with
  | some new, some old =>
    let allErrs := allErrs ++
      (if old.Domain.isSome then
        ValidateImmutableField ptrText new.Domain old.Domain (fldPath.Child "domain")
      else [])
    -- allow to finalize DNS configuration during seed assignment
    if !seedGotAssigned then
      let primaryOld := FindPrimaryDNSProvider old.Providers
      let primaryNew := FindPrimaryDNSProvider new.Providers
      allErrs ++
        (if primaryOld.isSome ∧ primaryNew.isNone then
          [Forbidden (fldPath.Child "providers") "removing a primary provider is not allowed"]
        else []) ++
        (if (primaryType primaryOld).isSome ∧ primaryNew.isSome ∧
            (primaryType primaryNew).isNone then
          [Forbidden (fldPath.Child "providers")
            "removing the primary provider type is not allowed"]
        else []) ++
        (if (primaryType primaryOld).isSome ∧ (primaryType primaryNew).isSome ∧
            primaryType primaryOld ≠ primaryType primaryNew then
          [Forbidden (fldPath.Child "providers")
            "changing primary provider type is not allowed"]
        else [])
    else allErrs
  | _, _ => allErrs

/-- `validateNetworkingUpdate` (shoot.go 622-648). -/
def validateNetworkingUpdate (X : Collaborators) (newNetworking oldNetworking : Option Networking)
    (fldPath : Path) : ErrorList :=
  let allErrs : ErrorList := []
  match oldNetworking with
  | none =>
    -- if the old networking is nil, we cannot validate immutability anyway, so exit early
    allErrs
  | some oldNetworking =>
    match newNetworking with
    | none =>
      allErrs ++ [Forbidden fldPath "networking cannot be set to nil if it's already set"]
    | some newNetworking =>
      allErrs ++
        ValidateImmutableField ptrText newNetworking.Type_ oldNetworking.Type_
          (fldPath.Child "type") ++
        ValidateImmutableField (fun l => toString l) newNetworking.IPFamilies
          oldNetworking.IPFamilies (fldPath.Child "ipFamilies") ++
        (if oldNetworking.Pods.isSome then
          ValidateImmutableField ptrText newNetworking.Pods oldNetworking.Pods
            (fldPath.Child "pods")
        else []) ++
        (if oldNetworking.Services.isSome then
          ValidateImmutableField ptrText newNetworking.Services oldNetworking.Services
            (fldPath.Child "services")
        else []) ++
        (if X.MutableShootSpecNetworkingNodes = false ∧ oldNetworking.Nodes.isSome then
          ValidateImmutableField ptrText newNetworking.Nodes oldNetworking.Nodes
            (fldPath.Child "nodes")
        else [])

/-- The Kubernetes version of a worker pool: its own version, else `version`
(shoot.go 308-315). -/
def workerKubernetesVersion (worker : Worker) (version : String) : String :=
  match worker.Kubernetes with
  | some k =>
    match k.Version with
    | some v => v
    | none => version
  | none => version

/-- The old worker pool a new pool is compared with (shoot.go 299-305): the first old pool
of the same name, else the new pool itself. -/
def oldWorkerFor (oldWorkers : List Worker) (newWorker : Worker) : Worker :=
  match oldWorkers.find? (fun ow => decide (ow.Name = newWorker.Name)) with
  | some ow => ow
  | none => newWorker

/-- The worker loop of `ValidateShootSpecUpdate` (shoot.go 298-319), from index `i` on. -/
def validateWorkerVersionUpdates (newSpec oldSpec : ShootSpec) (fldPath : Path) :
    List Worker → Nat → Option ErrorList
  | [], _ => some []
  | newWorker :: rest, i =>
    let oldWorker := oldWorkerFor oldSpec.Provider.Workers newWorker
    let idxPath := ((fldPath.Child "provider").Child "workers").Index i
    let oldKubernetesVersion := workerKubernetesVersion oldWorker oldSpec.Kubernetes.Version
    let newKubernetesVersion := workerKubernetesVersion newWorker newSpec.Kubernetes.Version
    -- worker kubernetes versions must not be downgraded and must not skip a minor
    match ValidateKubernetesVersionUpdate newKubernetesVersion oldKubernetesVersion
        ((idxPath.Child "kubernetes").Child "version") with
    | none => none
    | some errs =>
      match validateWorkerVersionUpdates newSpec oldSpec fldPath rest (i + 1) with
      | none => none
      | some more => some (errs ++ more)

/-- The field-level checks of `ValidateShootSpecUpdate` (shoot.go 281-323). `none` is a
run-time failure of one of the version checks. -/
def validateShootSpecUpdateFields (X : Collaborators) (newSpec oldSpec : ShootSpec)
    (fldPath : Path) : Option ErrorList :=
  let allErrs : ErrorList := []
  let allErrs := allErrs ++
    ValidateImmutableField id newSpec.Region oldSpec.Region (fldPath.Child "region")
  let allErrs := allErrs ++
    ValidateImmutableField id newSpec.CloudProfileName oldSpec.CloudProfileName
      (fldPath.Child "cloudProfileName")
  let allErrs := allErrs ++
    ValidateImmutableField ptrText newSpec.SecretBindingName oldSpec.SecretBindingName
      (fldPath.Child "secretBindingName")
  let allErrs := allErrs ++
    ValidateImmutableField ptrText newSpec.ExposureClassName oldSpec.ExposureClassName
      (fldPath.Child "exposureClassName")
  let allErrs := allErrs ++
    validateDNSUpdate newSpec.DNS oldSpec.DNS newSpec.SeedName.isSome (fldPath.Child "dns")
  match ValidateKubernetesVersionUpdate newSpec.Kubernetes.Version oldSpec.Kubernetes.Version
      ((fldPath.Child "kubernetes").Child "version") with
  | none => none
  | some versionErrs =>
    let allErrs := allErrs ++ versionErrs
    let allErrs := allErrs ++
      validateKubeControllerManagerUpdate newSpec.Kubernetes.KubeControllerManager
        oldSpec.Kubernetes.KubeControllerManager
        ((fldPath.Child "kubernetes").Child "kubeControllerManager")
    match validateWorkerUpdate (decide (newSpec.Provider.Workers.length > 0))
        (decide (oldSpec.Provider.Workers.length > 0))
        ((fldPath.Child "provider").Child "workers") with
    | some err => some (allErrs ++ [err])
    | none =>
      let allErrs := allErrs ++
        ValidateProviderUpdate newSpec.Provider oldSpec.Provider (fldPath.Child "provider")
      match validateWorkerVersionUpdates newSpec oldSpec fldPath newSpec.Provider.Workers 0 with
      | none => none
      | some workerErrs =>
        let allErrs := allErrs ++ workerErrs
        some (allErrs ++
          validateNetworkingUpdate X newSpec.Networking oldSpec.Networking
            (fldPath.Child "networking"))

/-- `ValidateShootSpecUpdate` (shoot.go 270-324). `none` is a run-time failure of one of
the version checks. -/
def ValidateShootSpecUpdate (X : Collaborators) (newSpec oldSpec : ShootSpec)
    (newObjectMeta : ObjectMeta) (fldPath : Path) : Option ErrorList :=
  if newObjectMeta.DeletionTimestamp.isSome ∧ X.SemanticDeepEqual newSpec oldSpec = false then
    let diff := X.deepEqual newSpec oldSpec
    if diff ≠ [] then some [Forbidden fldPath (",".intercalate diff)]
    else some (ValidateImmutableFieldBy X.SemanticDeepEqual (fun _ => "") newSpec oldSpec fldPath)
  else validateShootSpecUpdateFields X newSpec oldSpec fldPath

/-- `validateShootHAControlPlaneSpecUpdate` (shoot.go 2239-2267). -/
def validateShootHAControlPlaneSpecUpdate (newShoot oldShoot : Shoot) (fldPath : Path) :
    ErrorList :=
  let allErrs : ErrorList := []
  let shootIsScheduled := newShoot.Spec.SeedName.isSome
  let oldHA : Option HighAvailability :=
    match oldShoot.Spec.ControlPlane with
    | some cp => cp.HighAvailability
    | none => none
  let oldVal : String :=
    match oldHA with
    | some ha => ha.FailureTolerance.Type_
    | none => ""
  let oldValExists : Bool := oldHA.isSome
  let newHA : Option HighAvailability :=
    match newShoot.Spec.ControlPlane with
    | some cp => cp.HighAvailability
    | none => none
  let newVal : String :=
    match newHA with
    | some ha => ha.FailureTolerance.Type_
    | none => ""
  let typePath := ((fldPath.Child "highAvailability").Child "failureTolerance").Child "type"
  let allErrs := allErrs ++
    (if newHA.isSome ∧ oldValExists = false ∧ isShootInHibernation newShoot = true then
      [Forbidden typePath
        "Shoot is currently hibernated and cannot be scaled up to HA. Please make sure your cluster has woken up before scaling it up to HA"]
    else [])
  allErrs ++
    (if oldValExists = true ∧ shootIsScheduled = true then
      -- If the HighAvailability field is already set for the shoot then enforce that it cannot be changed.
      ValidateImmutableField id newVal oldVal typePath
    else [])

/-- `ValidateShootHAConfigUpdate` (shoot.go 2224-2229). -/
def ValidateShootHAConfigUpdate (newShoot oldShoot : Shoot) : ErrorList :=
  validateShootHAControlPlaneSpecUpdate newShoot oldShoot (NewPath "spec.controlPlane")

/-- The errors `ValidateShootSpecUpdate` collects for the immutable top-level fields and
the DNS settings (shoot.go 281-286), ahead of the version checks. -/
def immutableSpecFieldErrors (newSpec oldSpec : ShootSpec) (fldPath : Path) : ErrorList :=
  ValidateImmutableField id newSpec.Region oldSpec.Region (fldPath.Child "region") ++
  ValidateImmutableField id newSpec.CloudProfileName oldSpec.CloudProfileName
    (fldPath.Child "cloudProfileName") ++
  ValidateImmutableField ptrText newSpec.SecretBindingName oldSpec.SecretBindingName
    (fldPath.Child "secretBindingName") ++
  ValidateImmutableField ptrText newSpec.ExposureClassName oldSpec.ExposureClassName
    (fldPath.Child "exposureClassName") ++
  validateDNSUpdate newSpec.DNS oldSpec.DNS newSpec.SeedName.isSome (fldPath.Child "dns")

/-- Whether an update switches between a shoot with workers and a workerless shoot. -/
def WorkerFlip (newSpec oldSpec : ShootSpec) : Prop :=
  ¬ (newSpec.Provider.Workers.length > 0 ↔ oldSpec.Provider.Workers.length > 0)

instance (newSpec oldSpec : ShootSpec) : Decidable (WorkerFlip newSpec oldSpec) := by
  unfold WorkerFlip; infer_instance

/-- The old versions the version checks of `ValidateShootSpecUpdate` parse: the old
control plane version and, for every new worker pool, the version of the old pool it is
compared with. -/
def OldVersionsParse (newSpec oldSpec : ShootSpec) : Prop :=
  (NewVersion oldSpec.Kubernetes.Version).isSome ∧
  ∀ w ∈ newSpec.Provider.Workers,
    (NewVersion (workerKubernetesVersion (oldWorkerFor oldSpec.Provider.Workers w)
      oldSpec.Kubernetes.Version)).isSome

/-! ## Worker pools -/

/-- `corev1.TaintEffectNoSchedule`. -/
def TaintEffectNoSchedule : String := "NoSchedule"

/-- `corev1.TaintEffectPreferNoSchedule`. -/
def TaintEffectPreferNoSchedule : String := "PreferNoSchedule"

/-- `corev1.TaintEffectNoExecute`. -/
def TaintEffectNoExecute : String := "NoExecute"

/-- `reservedTaintKeys` (shoot.go 1685). -/
def reservedTaintKeys (X : Collaborators) : List String :=
  [X.TaintNodeCriticalComponentsNotReady]

/-- `validateTaintEffect` (shoot.go 1753-1770). -/
def validateTaintEffect (effect : String) (allowEmpty : Bool) (fldPath : Path) : ErrorList :=
  if allowEmpty = false ∧ effect.length = 0 then [Required fldPath ""]
  else
    if effect = TaintEffectNoSchedule ∨ effect = TaintEffectPreferNoSchedule ∨
        effect = TaintEffectNoExecute then []
    else
      [NotSupported fldPath effect
        [TaintEffectNoSchedule, TaintEffectPreferNoSchedule, TaintEffectNoExecute]]

/-- The text echoed for a taint in a `Duplicate` error. -/
def taintText (taint : Taint) : String :=
  taint.Key ++ "=" ++ taint.Value ++ ":" ++ taint.Effect

/-- The error `validateTaints` appends for a repeated taint (shoot.go 1737-1739). -/
def duplicatedTaintError (idxPath : Path) (taint : Taint) : Error :=
  { Duplicate idxPath (taintText taint) with
    Detail := "taints must be unique by key and effect pair" }

/-- The loop of `validateTaints` (shoot.go 1718-1748), from index `i` on. The map
`uniqueTaints` from an effect to the set of keys seen with it is kept as the list of
`(effect, key)` pairs it holds. -/
def validateTaintsFrom (X : Collaborators) (fldPath : Path) :
    List Taint → Nat → List (String × String) → ErrorList
  | [], _, _ => []
  | taint :: rest, i, uniqueTaints =>
    let idxPath := fldPath.Index i
    -- validate the taint key
    let allErrs := X.ValidateLabelName taint.Key (idxPath.Child "key")
    -- deny reserved taint keys
    let allErrs := allErrs ++
      (if taint.Key ∈ reservedTaintKeys X then
        [Forbidden (idxPath.Child "key") "taint key is reserved by gardener"]
      else [])
    -- validate the taint value
    let allErrs := allErrs ++
      (if (X.IsValidLabelValue taint.Value).length ≠ 0 then
        [Invalid (idxPath.Child "value") taint.Value
          (";".intercalate (X.IsValidLabelValue taint.Value))]
      else [])
    -- validate the taint effect
    let allErrs := allErrs ++ validateTaintEffect taint.Effect false (idxPath.Child "effect")
    -- validate if taint is unique by <key, effect>
    if (taint.Effect, taint.Key) ∈ uniqueTaints then
      allErrs ++ [duplicatedTaintError idxPath taint] ++
        validateTaintsFrom X fldPath rest (i + 1) uniqueTaints
    else
      allErrs ++
        validateTaintsFrom X fldPath rest (i + 1) ((taint.Effect, taint.Key) :: uniqueTaints)

/-- `validateTaints` (shoot.go 1713-1750). -/
def validateTaints (X : Collaborators) (taints : List Taint) (fldPath : Path) : ErrorList :=
  validateTaintsFrom X fldPath taints 0 []

/-- The loop of `ValidateWorkers` (shoot.go 1779-1784), from index `i` on, with the names
seen so far. -/
def validateWorkersFrom (fldPath : Path) : List Worker → Nat → List String → ErrorList
  | [], _, _ => []
  | worker :: rest, i, workerNames =>
    (if worker.Name ∈ workerNames then
      [Duplicate ((fldPath.Index i).Child "name") worker.Name]
    else []) ++
    validateWorkersFrom fldPath rest (i + 1) (worker.Name :: workerNames)

/-- `ValidateWorkers` (shoot.go 1773-1787). -/
def ValidateWorkers (workers : List Worker) (fldPath : Path) : ErrorList :=
  validateWorkersFrom fldPath workers 0 []

/-- Assignment `m[key] = value` on a Go map kept as a list of entries. -/
def mapSet (m : List (String × Nat)) (key : String) (value : Nat) : List (String × Nat) :=
  if m.any (fun kv => decide (kv.1 = key)) then
    m.map (fun kv => if kv.1 = key then (key, value) else kv)
  else m ++ [(key, value)]

/-- The call `delete(m, key)` on a Go map kept as a list of entries. -/
def mapDelete (m : List (String × Nat)) (key : String) : List (String × Nat) :=
  m.filter (fun kv => decide (kv.1 ≠ key))

/-- The key of a worker pool in `ValidateSystemComponentWorkers` (shoot.go 1814-1819):
the sorted distinct zone names, joined by `--`. -/
def workerPoolKey (zones : List String) : String :=
  "--".intercalate (setsList zones.dedup)

/-- The state of the loop of `ValidateSystemComponentWorkers`: whether an active pool was
seen, the keys of the sufficient pools, and the map from the keys of the insufficient pools
to a pool index. -/
structure SystemComponentWorkersState where
  atLeastOnePoolWithAllowedSystemComponents : Bool := false
  workerPoolsWithSufficientWorkers : List String := []
  workerPoolsWithInsufficientWorkers : List (String × Nat) := []
deriving DecidableEq, Repr

/-- One iteration of the loop of `ValidateSystemComponentWorkers` (shoot.go 1799-1832). -/
def systemComponentWorkersStep (X : Collaborators) (st : SystemComponentWorkersState)
    (i : Nat) (worker : Worker) : SystemComponentWorkersState :=
  -- check if system component worker pool is configured
  if X.SystemComponentsAllowed worker = false then st
  else if worker.Minimum = 0 ∨ worker.Maximum = 0 then st
  else
    let key := workerPoolKey worker.Zones
    let hasSufficientWorkers : Bool := decide (worker.Maximum ≥ (worker.Zones.length : Int))
    if hasSufficientWorkers then
      { atLeastOnePoolWithAllowedSystemComponents := true
        workerPoolsWithSufficientWorkers := key :: st.workerPoolsWithSufficientWorkers
        workerPoolsWithInsufficientWorkers :=
          mapDelete st.workerPoolsWithInsufficientWorkers key }
    else if key ∈ st.workerPoolsWithSufficientWorkers then
      { st with atLeastOnePoolWithAllowedSystemComponents := true }
    else
      { st with
        atLeastOnePoolWithAllowedSystemComponents := true
        workerPoolsWithInsufficientWorkers :=
          mapSet st.workerPoolsWithInsufficientWorkers key i }

/-- The loop of `ValidateSystemComponentWorkers` (shoot.go 1799-1832), from index `i` on. -/
def systemComponentWorkersLoop (X : Collaborators) :
    List Worker → Nat → SystemComponentWorkersState → SystemComponentWorkersState
  | [], _, st => st
  | worker :: rest, i, st =>
    systemComponentWorkersLoop X rest (i + 1) (systemComponentWorkersStep X st i worker)

/-- `ValidateSystemComponentWorkers` (shoot.go 1790-1848). The errors at the `maximum`
paths follow the order in which the run time ranges over the map of insufficient pools. -/
def ValidateSystemComponentWorkers (X : Collaborators) (workers : List Worker)
    (kubernetesVersion : String) (fldPath : Path) : ErrorList :=
  let st := systemComponentWorkersLoop X workers 0 {}
  let k8sGreaterEqual127 := (CheckVersionMeetsConstraint kubernetesVersion ">= 1.27").1
  (if k8sGreaterEqual127 then
    (X.mapRange st.workerPoolsWithInsufficientWorkers).map (fun kv =>
      Forbidden ((fldPath.Index kv.2).Child "maximum")
        "maximum node count should be greater than or equal to the number of zones specified for this pool")
  else []) ++
  (if st.atLeastOnePoolWithAllowedSystemComponents = false then
    [Forbidden fldPath "at least one active worker pool with allowSystemComponents=true needed"]
  else [])

/-- The sum of the pools' `maximum` values, an `int64` (shoot.go 495-498). -/
def totalNodes (workers : List Worker) : Int :=
  workers.foldl (fun acc worker => acc + worker.Maximum) 0

/-- `ValidateTotalNodeCountWithPodCIDR` (shoot.go 482-527). The function reads
`shoot.Spec.Networking` without a test against `nil`: `none` is the run-time failure on a
shoot without networking. The mask sizes and the power are `big.Int` values. -/
def ValidateTotalNodeCountWithPodCIDR (X : Collaborators) (shoot : Shoot) : Option ErrorList :=
  match shoot.Spec.Networking with
  | none => none
  | some networking =>
    let allErrs : ErrorList := []
    let nodeCIDRMaskSize : Int :=
      if IsIPv6SingleStack networking.IPFamilies then defaultNodeCIDRMaskSizeV6
      else defaultNodeCIDRMaskSizeV4
    let nodeCIDRMaskSize : Int :=
      match shoot.Spec.Kubernetes.KubeControllerManager with
      | some kcm =>
        match kcm.NodeCIDRMaskSize with
        | some size => size
        | none => nodeCIDRMaskSize
      | none => nodeCIDRMaskSize
    -- calculate maximum number of total nodes
    let totalNodes := totalNodes shoot.Spec.Provider.Workers
    let podNetworkCIDR :=
      match networking.Pods with
      | some pods => pods
      | none => X.DefaultPodNetworkCIDR
    match X.ParseCIDR podNetworkCIDR with
    | none =>
      some (allErrs ++ [Invalid (((NewPath "spec").Child "networking").Child "pods")
        podNetworkCIDR ("cannot parse shoot's pod network cidr : " ++ podNetworkCIDR)])
    | some (podCIDRMaskSize, podNetwork) =>
      if podCIDRMaskSize = 0 then
        some (allErrs ++ [Invalid (((NewPath "spec").Child "networking").Child "pods")
          podNetwork ("incorrect pod network mask : " ++ podNetwork ++
            ". Please ensure the mask is in proper form")])
      else
        let bitLen : Int := nodeCIDRMaskSize - (podCIDRMaskSize : Int)
        let maxNodeCount := bigExp2 bitLen
        if maxNodeCount < totalNodes then
          some (allErrs ++ [Invalid (((NewPath "spec").Child "provider").Child "workers")
            (toString totalNodes)
            ("worker configuration incorrect. The podCIDRs in `spec.networking.pod` can only support a maximum of " ++ toString maxNodeCount ++
              " nodes. The total number of worker pool nodes should be less than " ++
              toString maxNodeCount ++ " ")])
        else some allErrs

/-! ## Kubelet configuration -/

/-- `PodPIDsLimitMinimum` (shoot.go 1496). -/
def PodPIDsLimitMinimum : Int := 100

/-- `ValidatePositiveDuration` (shoot.go 1931-1941). -/
def ValidatePositiveDuration (duration : Option Duration) (fldPath : Path) : ErrorList :=
  match duration with
  | none => []
  | some d =>
    if d < 0 then [Invalid fldPath (toString d) "must be non-negative"] else []

/-- `ValidateResourceQuantityOrPercent` (shoot.go 1943-1967). -/
def ValidateResourceQuantityOrPercent (X : Collaborators) (valuePtr : Option String)
    (fldPath : Path) (key : String) : ErrorList :=
  match valuePtr with
  | none => []
  | some value =>
    -- check for resource quantity
    let isQuantity : Bool :=
      match X.ParseQuantity value with
      | some quantity =>
        decide ((X.ValidateResourceQuantityValue key quantity fldPath).length = 0)
      | none => false
    if isQuantity then []
    else if X.IsValidPercent value ≠ [] then
      [Invalid (fldPath.Child key) value
        "field must be either a valid resource quantity (e.g 200Mi) or a percentage (e.g '5%')"]
    else
      let percentValue := X.Atoi (String.mk value.data.dropLast)
      if percentValue > 100 ∨ percentValue < 0 then
        [Invalid (fldPath.Child key) value
          "must not be greater than 100% and not smaller than 0%"]
      else []

/-- `enforceNodeAllocatableNone` (shoot.go 1601). -/
def enforceNodeAllocatableNone : String := "none"

/-- `validEnforceNodeAllocatable` (shoot.go 1603). -/
def validEnforceNodeAllocatable : List String :=
  [enforceNodeAllocatableNone, "pods", "system-reserved", "kube-reserved"]

/-- The loop of `validateKubeletConfigEnforceNodeAllocatable` (shoot.go 1613-1623), from
index `i` on, with the entries seen so far. -/
def validateEnforceNodeAllocatableFrom (fldPath : Path) :
    List String → Nat → List String → ErrorList
  | [], _, _ => []
  | entry :: rest, i, hasSeen =>
    (if entry ∈ hasSeen then [Duplicate (fldPath.Index i) entry] else []) ++
    (if entry ∉ validEnforceNodeAllocatable then
      [NotSupported (fldPath.Index i) entry (setsList validEnforceNodeAllocatable)]
    else []) ++
    validateEnforceNodeAllocatableFrom fldPath rest (i + 1) (entry :: hasSeen)

/-- `validateKubeletConfigEnforceNodeAllocatable` (shoot.go 1605-1626). -/
def validateKubeletConfigEnforceNodeAllocatable (enforceNodeAllocatable : List String)
    (fldPath : Path) : ErrorList :=
  if enforceNodeAllocatableNone ∈ enforceNodeAllocatable ∧ enforceNodeAllocatable.length > 1 then
    [Invalid fldPath (toString enforceNodeAllocatable)
      "If none is specified, no additional options must be set"]
  else validateEnforceNodeAllocatableFrom fldPath enforceNodeAllocatable 0 []

/-- `validateKubeletConfigEviction` (shoot.go 1628-1636). -/
def validateKubeletConfigEviction (X : Collaborators) (eviction : KubeletConfigEviction)
    (fldPath : Path) : ErrorList :=
  let allErrs : ErrorList := []
  let allErrs := allErrs ++
    ValidateResourceQuantityOrPercent X eviction.MemoryAvailable fldPath "memoryAvailable"
  let allErrs := allErrs ++
    ValidateResourceQuantityOrPercent X eviction.ImageFSAvailable fldPath "imagefsAvailable"
  let allErrs := allErrs ++
    ValidateResourceQuantityOrPercent X eviction.ImageFSInodesFree fldPath "imagefsInodesFree"
  let allErrs := allErrs ++
    ValidateResourceQuantityOrPercent X eviction.NodeFSAvailable fldPath "nodefsAvailable"
  let allErrs := allErrs ++
    ValidateResourceQuantityOrPercent X eviction.ImageFSInodesFree fldPath "imagefsInodesFree"
  allErrs

/-- `validateKubeletConfigEvictionMinimumReclaim` (shoot.go 1638-1656). -/
def validateKubeletConfigEvictionMinimumReclaim (X : Collaborators)
    (eviction : KubeletConfigEvictionMinimumReclaim) (fldPath : Path) : ErrorList :=
  (match eviction.MemoryAvailable with
    | some q => X.ValidateResourceQuantityValue "memoryAvailable" q
        (fldPath.Child "memoryAvailable")
    | none => []) ++
  (match eviction.ImageFSAvailable with
    | some q => X.ValidateResourceQuantityValue "imagefsAvailable" q
        (fldPath.Child "imagefsAvailable")
    | none => []) ++
  (match eviction.ImageFSInodesFree with
    | some q => X.ValidateResourceQuantityValue "imagefsInodesFree" q
        (fldPath.Child "imagefsInodesFree")
    | none => []) ++
  (match eviction.NodeFSAvailable with
    | some q => X.ValidateResourceQuantityValue "nodefsAvailable" q
        (fldPath.Child "nodefsAvailable")
    | none => []) ++
  (match eviction.ImageFSInodesFree with
    | some q => X.ValidateResourceQuantityValue "imagefsInodesFree" q
        (fldPath.Child "imagefsInodesFree")
    | none => [])

/-- `validateKubeletConfigEvictionSoftGracePeriod` (shoot.go 1658-1666). -/
def validateKubeletConfigEvictionSoftGracePeriod
    (eviction : KubeletConfigEvictionSoftGracePeriod) (fldPath : Path) : ErrorList :=
  ValidatePositiveDuration eviction.MemoryAvailable (fldPath.Child "memoryAvailable") ++
  ValidatePositiveDuration eviction.ImageFSAvailable (fldPath.Child "imagefsAvailable") ++
  ValidatePositiveDuration eviction.ImageFSInodesFree (fldPath.Child "imagefsInodesFree") ++
  ValidatePositiveDuration eviction.NodeFSAvailable (fldPath.Child "nodefsAvailable") ++
  ValidatePositiveDuration eviction.ImageFSInodesFree (fldPath.Child "imagefsInodesFree")

/-- `validateKubeletConfigReserved` (shoot.go 1668-1683). -/
def validateKubeletConfigReserved (X : Collaborators) (reserved : KubeletConfigReserved)
    (fldPath : Path) : ErrorList :=
  (match reserved.CPU with
    | some q => X.ValidateResourceQuantityValue "cpu" q (fldPath.Child "cpu")
    | none => []) ++
  (match reserved.Memory with
    | some q => X.ValidateResourceQuantityValue "memory" q (fldPath.Child "memory")
    | none => []) ++
  (match reserved.EphemeralStorage with
    | some q => X.ValidateResourceQuantityValue "ephemeralStorage" q
        (fldPath.Child "ephemeralStorage")
    | none => []) ++
  (match reserved.PID with
    | some q => X.ValidateResourceQuantityValue "pid" q (fldPath.Child "pid")
    | none => [])

/-- The lookup `value, ok := featureGates[name]` on a Go map kept as a list of entries;
`none` stands for `ok == false`. -/
def featureGate (featureGates : List (String × Bool)) (name : String) : Option Bool :=
  (featureGates.find? (fun kv => decide (kv.1 = name))).map (fun kv => kv.2)

/-- The checks of `ValidateKubeletConfig` on `memorySwap` (shoot.go 1584-1596). -/
def validateKubeletConfigMemorySwap (kubeletConfig : KubeletConfig) (version : String)
    (fldPath : Path) : ErrorList :=
  match kubeletConfig.MemorySwap with
  | none => []
  | some v =>
    (if (CompareVersions version "<" "1.22").1 then
      [Forbidden (fldPath.Child "memorySwap")
        "configuring swap behaviour is not available for kubernetes versions < 1.22"]
    else []) ++
    (if boolDeref kubeletConfig.FailSwapOn then
      [Forbidden (fldPath.Child "memorySwap")
        "configuring swap behaviour is not available when the kubelet is configured with 'FailSwapOn=true'"]
    else []) ++
    (match featureGate kubeletConfig.FeatureGates "NodeSwap" with
      | none =>
        [Forbidden (fldPath.Child "memorySwap")
          "configuring swap behaviour is not available when kubelet's 'NodeSwap' feature gate is not set"]
      | some featureGateEnabled =>
        if featureGateEnabled = false ∧ v.SwapBehavior.isSome then
          [Forbidden (fldPath.Child "memorySwap")
            "configuring swap behaviour is not available when kubelet's 'NodeSwap' feature gate is not set"]
        else [])

/-- `ValidateKubeletConfig` (shoot.go 1499-1599). -/
def ValidateKubeletConfig (X : Collaborators) (kubeletConfig : KubeletConfig)
    (version : String) (dockerConfigured : Bool) (fldPath : Path) : ErrorList :=
  (match kubeletConfig.MaxPods with
    | some maxPods => ValidateNonnegativeField maxPods (fldPath.Child "maxPods")
    | none => []) ++
  (match kubeletConfig.PodPIDsLimit with
    | some value =>
      if value < PodPIDsLimitMinimum then
        [Invalid (fldPath.Child "podPIDsLimit") (toString value)
          ("podPIDsLimit value must be at least " ++ toString PodPIDsLimitMinimum)]
      else []
    | none => []) ++
  (match kubeletConfig.ImagePullProgressDeadline with
    | some d =>
      (if dockerConfigured = false then
        [Forbidden (fldPath.Child "imagePullProgressDeadline")
          "can only be configured when a worker pool is configured with 'docker'. This setting has no effect for other container runtimes."]
      else []) ++
      ValidatePositiveDuration (some d) (fldPath.Child "imagePullProgressDeadline")
    | none => []) ++
  (match kubeletConfig.EnforceNodeAllocatable with
    | some enforceNodeAllocatable =>
      validateKubeletConfigEnforceNodeAllocatable enforceNodeAllocatable
        (fldPath.Child "enforceNodeAllocatable")
    | none => []) ++
  (match kubeletConfig.EvictionPressureTransitionPeriod with
    | some d => ValidatePositiveDuration (some d) (fldPath.Child "evictionPressureTransitionPeriod")
    | none => []) ++
  (match kubeletConfig.EvictionMaxPodGracePeriod with
    | some v => ValidateNonnegativeField v (fldPath.Child "evictionMaxPodGracePeriod")
    | none => []) ++
  (match kubeletConfig.EvictionHard with
    | some eviction => validateKubeletConfigEviction X eviction (fldPath.Child "evictionHard")
    | none => []) ++
  (match kubeletConfig.EvictionSoft with
    | some eviction => validateKubeletConfigEviction X eviction (fldPath.Child "evictionSoft")
    | none => []) ++
  (match kubeletConfig.EvictionMinimumReclaim with
    | some eviction =>
      validateKubeletConfigEvictionMinimumReclaim X eviction
        (fldPath.Child "evictionMinimumReclaim")
    | none => []) ++
  (match kubeletConfig.EvictionSoftGracePeriod with
    | some eviction =>
      validateKubeletConfigEvictionSoftGracePeriod eviction
        (fldPath.Child "evictionSoftGracePeriod")
    | none => []) ++
  (match kubeletConfig.KubeReserved with
    | some reserved => validateKubeletConfigReserved X reserved (fldPath.Child "kubeReserved")
    | none => []) ++
  (match kubeletConfig.SystemReserved with
    | some reserved => validateKubeletConfigReserved X reserved (fldPath.Child "systemReserved")
    | none => []) ++
  (match kubeletConfig.ImageGCHighThresholdPercent with
    | some v =>
      if v < 0 ∨ v > 100 then
        [Invalid (fldPath.Child "imageGCHighThresholdPercent") (toString v)
          "value must be in [0,100]"]
      else []
    | none => []) ++
  (match kubeletConfig.ImageGCLowThresholdPercent with
    | some v =>
      if v < 0 ∨ v > 100 then
        [Invalid (fldPath.Child "imageGCLowThresholdPercent") (toString v)
          "value must be in [0,100]"]
      else []
    | none => []) ++
  (match kubeletConfig.ImageGCHighThresholdPercent, kubeletConfig.ImageGCLowThresholdPercent with
    | some high, some low =>
      if low ≥ high then
        [Forbidden (fldPath.Child "imageGCLowThresholdPercent")
          "imageGCLowThresholdPercent must be less than imageGCHighThresholdPercent"]
      else []
    | _, _ => []) ++
  X.ValidateFeatureGates kubeletConfig.FeatureGates version (fldPath.Child "featureGates") ++
  (match kubeletConfig.RegistryPullQPS with
    | some v => ValidateNonnegativeField v (fldPath.Child "registryPullQPS")
    | none => []) ++
  (match kubeletConfig.RegistryBurst with
    | some v => ValidateNonnegativeField v (fldPath.Child "registryBurst")
    | none => []) ++
  (match kubeletConfig.SeccompDefault with
    | some v =>
      (if (CompareVersions version "<" "1.25").1 then
        [Forbidden (fldPath.Child "seccompDefault")
          "seccomp defaulting is not available for kubernetes versions < 1.25"]
      else []) ++
      (match featureGate kubeletConfig.FeatureGates "SeccompDefault" with
        | some featureGateEnabled =>
          if featureGateEnabled = false ∧ v = true then
            [Forbidden (fldPath.Child "seccompDefault")
              "seccomp defaulting is not available when kubelet's 'SeccompDefault' feature gate is disabled"]
          else []
        | none => [])
    | none => []) ++
  (if kubeletConfig.ContainerLogMaxSize.isSome ∧ dockerConfigured = true then
    [Forbidden (fldPath.Child "containerLogMaxSize")
      "can only be configured with containerd runtime. This setting has no effect for docker container runtime."]
  else []) ++
  (match kubeletConfig.ContainerLogMaxFiles with
    | some v =>
      (if dockerConfigured = true then
        [Forbidden (fldPath.Child "containerLogMaxFiles")
          "can only be configured with containerd runtime. This setting has no effect for docker container runtime."]
      else []) ++
      (if v < 2 then
        [Invalid (fldPath.Child "containerLogMaxFiles") (toString v) "value must be >= 2."]
      else [])
    | none => []) ++
  (match kubeletConfig.StreamingConnectionIdleTimeout with
    | some v =>
      if v < timeSecond * 30 ∨ timeHour * 4 < v then
        [Invalid (fldPath.Child "streamingConnectionIdleTimeout") (toString v)
          "value must be between 30s and 4h"]
      else []
    | none => []) ++
  validateKubeletConfigMemorySwap kubeletConfig version fldPath

/-! ## A single worker pool -/

/-- `maxWorkerNameLength` (shoot.go 1367). -/
def maxWorkerNameLength : Nat := 15

/-- `maxVolumeNameLength` (shoot.go 1370). -/
def maxVolumeNameLength : Nat := 15

/-- The text echoed for an `intstr.IntOrString`. -/
def intOrStringText : Option IntOrString → String
  | none => "null"
  | some (IntOrString.int v) => toString v
  | some (IntOrString.str s) => s

/-- `ValidatePositiveIntOrPercent` (shoot.go 1969-1986). -/
def ValidatePositiveIntOrPercent (X : Collaborators) (intOrPercent : Option IntOrString)
    (fldPath : Path) : ErrorList :=
  match intOrPercent with
  | none => []
  | some (IntOrString.str s) =>
    if X.IsValidPercent s ≠ [] then
      [Invalid fldPath (intOrStringText intOrPercent)
        "must be an integer or percentage (e.g '5%')"]
    else []
  | some (IntOrString.int v) => ValidateNonnegativeField v fldPath

/-- `IsNotMoreThan100Percent` (shoot.go 1988-2004). -/
def IsNotMoreThan100Percent (X : Collaborators) (intOrStringValue : Option IntOrString)
    (fldPath : Path) : ErrorList :=
  match intOrStringValue with
  | none => []
  | some v =>
    let (value, isPercent) := X.getPercentValue v
    if isPercent = false ∨ value ≤ 100 then []
    else [Invalid fldPath (intOrStringText intOrStringValue) "must not be greater than 100%"]

/-- `core.CRINameContainerD`. -/
def CRINameContainerD : String := "containerd"

/-- `availableWorkerCRINames` (shoot.go 94-97). -/
def availableWorkerCRINames : List String := [CRINameContainerD, CRINameDocker]

/-- The loop of `ValidateContainerRuntimes` (shoot.go 2029-2037), from index `i` on, with
the types seen so far. -/
def validateContainerRuntimesFrom (fldPath : Path) :
    List ContainerRuntime → Nat → List String → ErrorList
  | [], _, _ => []
  | cr :: rest, i, crSet =>
    (if cr.Type_.length = 0 then
      [Required ((fldPath.Index i).Child "type") "must specify a container runtime type"]
    else []) ++
    (if cr.Type_ ∈ crSet then
      [Duplicate ((fldPath.Index i).Child "type")
        ("must specify different type, " ++ cr.Type_ ++ " already exist")]
    else []) ++
    validateContainerRuntimesFrom fldPath rest (i + 1) (cr.Type_ :: crSet)

/-- `ValidateContainerRuntimes` (shoot.go 2025-2040). -/
def ValidateContainerRuntimes (containerRuntime : List ContainerRuntime) (fldPath : Path) :
    ErrorList :=
  validateContainerRuntimesFrom fldPath containerRuntime 0 []

/-- `ValidateCRI` (shoot.go 2006-2023). -/
def ValidateCRI (cri : CRI) (kubernetesVersion : String) (fldPath : Path) : ErrorList :=
  let k8sVersionIs123OrGreater := (CompareVersions kubernetesVersion ">=" "1.23").1
  (if k8sVersionIs123OrGreater = true ∧ cri.Name = CRINameDocker then
    [Forbidden (fldPath.Child "name") "'docker' is only allowed for kubernetes versions < 1.23"]
  else []) ++
  (if cri.Name ∉ availableWorkerCRINames then
    [NotSupported (fldPath.Child "name") cri.Name (setsList availableWorkerCRINames)]
  else []) ++
  ValidateContainerRuntimes cri.ContainerRuntimes (fldPath.Child "containerruntimes")

/-- `ValidateArchitecture` (shoot.go 2042-2050). -/
def ValidateArchitecture (X : Collaborators) (arch : String) (fldPath : Path) : ErrorList :=
  if arch ∉ X.ValidArchitectures then [NotSupported fldPath arch X.ValidArchitectures]
  else []

/-- Whether a text matches `volumeSizeRegex`, the pattern `^(\d)+Gi$` (shoot.go 1438): one
or more decimal digits followed by `Gi`. -/
def volumeSizeMatches (size : String) : Bool :=
  let digits := size.data.takeWhile Char.isDigit
  decide (digits ≠ []) && decide (size.data.dropWhile Char.isDigit = ['G', 'i'])

/-- The text of `volumeSizeRegex`. -/
def volumeSizeRegexText : String := "^(\\d)+Gi$"

/-- The loop of `ValidateWorker` over the data volumes (shoot.go 1451-1469), from index
`idx` on, with the names seen so far. -/
def validateDataVolumesFrom (X : Collaborators) (fldPath : Path) :
    List DataVolume → Nat → List String → ErrorList
  | [], _, _ => []
  | volume :: rest, idx, volumeNames =>
    let idxPath := (fldPath.Child "dataVolumes").Index idx
    (if volume.Name.length = 0 then [Required (idxPath.Child "name") "must specify a name"]
    else X.validateDNS1123Label volume.Name (idxPath.Child "name")) ++
    (if volume.Name.utf8ByteSize > maxVolumeNameLength then
      [TooLong (idxPath.Child "name") volume.Name maxVolumeNameLength]
    else []) ++
    (if volume.Name ∈ volumeNames then [Duplicate (idxPath.Child "name") volume.Name]
    else []) ++
    (if volumeSizeMatches volume.VolumeSize = false then
      [Invalid (idxPath.Child "size") volume.VolumeSize
        ("data volume size must match the regex " ++ volumeSizeRegexText)]
    else []) ++
    validateDataVolumesFrom X fldPath rest (idx + 1)
      (if volume.Name ∈ volumeNames then volumeNames else volume.Name :: volumeNames)

/-- The checks of `ValidateWorker` on the name and the machine of the pool
(shoot.go 1378-1392). -/
def validateWorkerMachine (X : Collaborators) (worker : Worker) (fldPath : Path)
    (inTemplate : Bool) : ErrorList :=
  X.validateDNS1123Label worker.Name (fldPath.Child "name") ++
  (if worker.Name.utf8ByteSize > maxWorkerNameLength then
    [TooLong (fldPath.Child "name") worker.Name maxWorkerNameLength]
  else []) ++
  (if worker.Machine.Type_.length = 0 then
    [Required ((fldPath.Child "machine").Child "type") "must specify a machine type"]
  else []) ++
  (match worker.Machine.Image with
    | some image =>
      (if image.Name.length = 0 then
        [Required (((fldPath.Child "machine").Child "image").Child "name")
          "must specify a machine image name"]
      else []) ++
      (if inTemplate = false ∧ image.Version.length = 0 then
        [Required (((fldPath.Child "machine").Child "image").Child "version")
          "must specify a machine image version"]
      else [])
    | none => [])

/-- The checks of `ValidateWorker` on `minimum` and `maximum` (shoot.go 1393-1401). -/
def validateWorkerReplicas (worker : Worker) (fldPath : Path) : ErrorList :=
  (if worker.Minimum < 0 then
    [Invalid (fldPath.Child "minimum") (toString worker.Minimum)
      "minimum value must not be negative"]
  else []) ++
  (if worker.Maximum < 0 then
    [Invalid (fldPath.Child "maximum") (toString worker.Maximum)
      "maximum value must not be negative"]
  else []) ++
  (if worker.Maximum < worker.Minimum then
    [Forbidden (fldPath.Child "maximum") "maximum value must not be less than minimum value"]
  else [])

/-- The checks of `ValidateWorker` on `maxSurge` and `maxUnavailable`
(shoot.go 1403-1410). -/
def validateWorkerRollout (X : Collaborators) (worker : Worker) (fldPath : Path) : ErrorList :=
  ValidatePositiveIntOrPercent X worker.MaxSurge (fldPath.Child "maxSurge") ++
  ValidatePositiveIntOrPercent X worker.MaxUnavailable (fldPath.Child "maxUnavailable") ++
  IsNotMoreThan100Percent X worker.MaxUnavailable (fldPath.Child "maxUnavailable") ++
  (if (match worker.MaxUnavailable with
        | none => true
        | some v => decide (X.getIntOrPercentValue v = 0)) = true ∧
      (match worker.MaxSurge with
        | none => false
        | some v => decide (X.getIntOrPercentValue v = 0)) = true then
    -- Both MaxSurge and MaxUnavailable cannot be zero.
    [Invalid (fldPath.Child "maxUnavailable") (intOrStringText worker.MaxUnavailable)
      "may not be 0 when `maxSurge` is 0"]
  else [])

/-- The checks of `ValidateWorker` on labels, annotations and taints
(shoot.go 1412-1416). -/
def validateWorkerMetadata (X : Collaborators) (worker : Worker) (fldPath : Path) : ErrorList :=
  X.ValidateLabels worker.Labels (fldPath.Child "labels") ++
  X.ValidateAnnotations worker.Annotations (fldPath.Child "annotations") ++
  (if worker.Taints.length > 0 then validateTaints X worker.Taints (fldPath.Child "taints")
  else [])

/-- The checks of `ValidateWorker` before the Kubernetes version of the pool is read
(shoot.go 1378-1416). -/
def validateWorkerHead (X : Collaborators) (worker : Worker) (fldPath : Path)
    (inTemplate : Bool) : ErrorList :=
  validateWorkerMachine X worker fldPath inTemplate ++ validateWorkerReplicas worker fldPath ++
    validateWorkerRollout X worker fldPath ++ validateWorkerMetadata X worker fldPath

/-- The checks of `ValidateWorker` after the version of the pool is compared with the
version of the control plane (shoot.go 1425-1490); `kubernetesVersion` is the version of
the pool. -/
def validateWorkerTail (X : Collaborators) (worker : Worker) (kubernetes : Kubernetes)
    (kubernetesVersion : String) (fldPath : Path) : ErrorList :=
  (match worker.Kubernetes with
    | some workerKubernetes =>
      match workerKubernetes.Kubelet with
      | some kubelet =>
        ValidateKubeletConfig X kubelet kubernetesVersion (isDockerConfigured [worker])
          ((fldPath.Child "kubernetes").Child "kubelet")
      | none =>
        match kubernetes.Kubelet with
        | some kubelet =>
          ValidateKubeletConfig X kubelet kubernetesVersion (isDockerConfigured [worker])
            ((fldPath.Child "kubernetes").Child "kubelet")
        | none => []
    | none => []) ++
  (match worker.CABundle with
    | some caBundle =>
      if X.DecodeCertificate caBundle = false then
        [Invalid (fldPath.Child "caBundle") caBundle
          "caBundle is not a valid PEM-encoded certificate"]
      else []
    | none => []) ++
  (match worker.Volume with
    | some volume =>
      if volumeSizeMatches volume.VolumeSize = false then
        [Invalid ((fldPath.Child "volume").Child "size") volume.VolumeSize
          ("volume size must match the regex " ++ volumeSizeRegexText)]
      else []
    | none => []) ++
  (if worker.DataVolumes.length > 0 ∧ worker.Volume.isNone then
    [Required (fldPath.Child "volume")
      "a worker volume must be defined if data volumes are defined"]
  else []) ++
  validateDataVolumesFrom X fldPath worker.DataVolumes 0 [] ++
  (match worker.KubeletDataVolumeName with
    | some name =>
      if worker.DataVolumes.any (fun volume => decide (volume.Name = name)) = false then
        [Invalid (fldPath.Child "kubeletDataVolumeName") name
          ("KubeletDataVolumeName refers to unrecognized data volume " ++ name)]
      else []
    | none => []) ++
  (match worker.CRI with
    | some cri => ValidateCRI cri kubernetesVersion (fldPath.Child "cri")
    | none => []) ++
  (match worker.Machine.Architecture with
    | some arch => ValidateArchitecture X arch ((fldPath.Child "machine").Child "architecture")
    | none => [])

/-- The comparison of the version of the pool with the version of the control plane in
`ValidateWorker` (shoot.go 1417-1423); `none` is the run-time failure of
`validateWorkerGroupAndControlPlaneKubernetesVersion`. -/
def validateWorkerVersion (worker : Worker) (kubernetes : Kubernetes) (fldPath : Path) :
    Option ErrorList :=
  match worker.Kubernetes with
  | some workerKubernetes =>
    match workerKubernetes.Version with
    | some workerGroupKubernetesVersion =>
      validateWorkerGroupAndControlPlaneKubernetesVersion kubernetes.Version
        workerGroupKubernetesVersion ((fldPath.Child "kubernetes").Child "version")
    | none => some []
  | none => some []

/-- `ValidateWorker` (shoot.go 1374-1493). `none` is the run-time failure of the version
comparison on a pool whose version does not parse. -/
def ValidateWorker (X : Collaborators) (worker : Worker) (kubernetes : Kubernetes)
    (fldPath : Path) (inTemplate : Bool) : Option ErrorList :=
  match validateWorkerVersion worker kubernetes fldPath with
  | none => none
  | some versionErrs =>
    some (validateWorkerHead X worker fldPath inTemplate ++ versionErrs ++
      validateWorkerTail X worker kubernetes
        (workerKubernetesVersion worker kubernetes.Version) fldPath)

/-! ## The provider and the specification as a whole -/

/-- The worker loop of `validateProvider` (shoot.go 1342-1348): the errors of
`ValidateWorker` for every pool in order, and the running maximum of `maxPods`. `none` is
the run-time failure of `ValidateWorker` on one of the pools. -/
def validateProviderWorkers (X : Collaborators) (kubernetes : Kubernetes) (fldPath : Path)
    (inTemplate : Bool) : List Worker → Nat → ErrorList → Int → Option (ErrorList × Int)
  | [], _, allErrs, maxPod => some (allErrs, maxPod)
  | worker :: rest, i, allErrs, maxPod =>
    match ValidateWorker X worker kubernetes ((fldPath.Child "workers").Index i)
        inTemplate with
    | none => none
    | some workerErrs =>
      let allErrs := allErrs ++ workerErrs
      let maxPod :=
        match worker.Kubernetes with
        | some k =>
          match k.Kubelet with
          | some kubelet =>
            match kubelet.MaxPods with
            | some m => if m > maxPod then m else maxPod
            | none => maxPod
          | none => maxPod
        | none => maxPod
      validateProviderWorkers X kubernetes fldPath inTemplate rest (i + 1) allErrs maxPod

/-- `validateProvider` (shoot.go 1317-1363). `none` is the run-time failure of
`ValidateWorker` on one of the pools. -/
def validateProvider (X : Collaborators) (provider : Provider) (kubernetes : Kubernetes)
    (networking : Option Networking) (workerless : Bool) (fldPath : Path) (inTemplate : Bool) :
    Option ErrorList :=
  let allErrs : ErrorList := []
  let maxPod : Int := 0
  let allErrs := allErrs ++
    (if provider.Type_.length = 0 then
      [Required (fldPath.Child "type") "must specify a provider type"]
    else [])
  let r : Option (ErrorList × Int) :=
    if workerless then
      some (allErrs ++
        (if provider.InfrastructureConfig.isSome then
          [Forbidden (fldPath.Child "infrastructureConfig") workerlessErrorMsg]
        else []) ++
        (if provider.ControlPlaneConfig.isSome then
          [Forbidden (fldPath.Child "controlPlaneConfig") workerlessErrorMsg]
        else []) ++
        (if provider.WorkersSettings.isSome then
          [Forbidden (fldPath.Child "workersSettings") workerlessErrorMsg]
        else []), maxPod)
    else
      let maxPod :=
        match kubernetes.Kubelet with
        | some kubelet =>
          match kubelet.MaxPods with
          | some m => m
          | none => maxPod
        | none => maxPod
      match validateProviderWorkers X kubernetes fldPath inTemplate provider.Workers 0
          allErrs maxPod with
      | none => none
      | some r =>
        some (r.1 ++ ValidateWorkers provider.Workers (fldPath.Child "workers") ++
          ValidateSystemComponentWorkers X provider.Workers kubernetes.Version
            (fldPath.Child "workers"), r.2)
  match r with
  | none => none
  | some r =>
    let allErrs := r.1
    let maxPod := r.2
    match kubernetes.KubeControllerManager with
    | some kcm =>
      match kcm.NodeCIDRMaskSize, networking with
      | some nodeCIDRMaskSize, some networking =>
        let maxPod := if maxPod = 0 then 110 else maxPod
        some (allErrs ++ ValidateNodeCIDRMaskWithMaxPod maxPod nodeCIDRMaskSize networking)
      | _, _ => some allErrs
    | none => some allErrs

/-- `ValidateShootSpec` (shoot.go 210-259). `none` is the run-time failure of
`validateProvider`, which is called first. -/
def ValidateShootSpec (X : Collaborators) (W : WorkerValidators) (meta : ObjectMeta)
    (spec : ShootSpec) (fldPath : Path) (inTemplate : Bool) : Option ErrorList :=
  let workerless : Bool := decide (spec.Provider.Workers.length = 0)
  match validateProvider X spec.Provider spec.Kubernetes spec.Networking workerless
      (fldPath.Child "provider") inTemplate with
  | none => none
  | some providerErrs =>
    some (providerErrs ++
      validateAddons spec.Addons spec.Kubernetes spec.Purpose workerless (fldPath.Child "addons") ++
      validateDNS X spec.DNS (fldPath.Child "dns") ++
      validateExtensions spec.Extensions (fldPath.Child "extensions") ++
      validateResources X spec.Resources (fldPath.Child "resources") ++
      validateKubernetes X W spec.Kubernetes spec.Networking
        (isDockerConfigured spec.Provider.Workers) workerless (fldPath.Child "kubernetes") ++
      validateNetworking X spec.Networking workerless (fldPath.Child "networking") ++
      validateMaintenance X spec.Maintenance (fldPath.Child "maintenance") workerless ++
      validateMonitoring X spec.Monitoring (fldPath.Child "monitoring") ++
      ValidateHibernation X meta.Annotations spec.Hibernation (fldPath.Child "hibernation") ++
      (if spec.Region.length = 0 then
        [Required (fldPath.Child "region") "must specify a region"]
      else []) ++
      (if spec.CloudProfileName.length = 0 then
        [Required (fldPath.Child "cloudProfileName") "must specify a cloud profile"]
      else []) ++
      (if spec.SecretBindingName.isSome ∧ workerless = true then
        [Forbidden (fldPath.Child "secretBindingName") workerlessErrorMsg]
      else if (stringDeref spec.SecretBindingName).length = 0 ∧ workerless = false then
        [Required (fldPath.Child "secretBindingName") "must specify a name"]
      else []) ++
      (match spec.SeedName with
        | some seedName =>
          if seedName.length = 0 then
            [Invalid (fldPath.Child "seedName") seedName
              "seed name must not be empty when providing the key"]
          else []
        | none => []) ++
      (match spec.SeedSelector with
        | some seedSelector =>
          X.ValidateLabelSelector seedSelector.LabelSelector (fldPath.Child "seedSelector")
        | none => []) ++
      (match spec.Purpose with
        | some purpose =>
          let allowedShootPurposes :=
            if meta.Namespace = GardenNamespace ∨ inTemplate = true then
              setsList availableShootPurposes ++ [ShootPurposeInfrastructure]
            else availableShootPurposes
          if ¬ purpose ∈ allowedShootPurposes then
            [NotSupported (fldPath.Child "purpose") purpose (setsList allowedShootPurposes)]
          else []
        | none => []) ++
      X.ValidateTolerations spec.Tolerations (fldPath.Child "tolerations") ++
      ValidateSystemComponents W spec.SystemComponents (fldPath.Child "systemComponents")
        workerless)

/-! ## Shoots and shoot templates as a whole -/

/-- `core.ShootTemplate`. -/
structure ShootTemplate where
  ObjectMeta : ObjectMeta := {}
  Spec : ShootSpec := {}
deriving Repr

/-- The lookup `value, ok := m[key]` on a Go `map[string]string`; `none` stands for
`ok == false`. -/
def mapLookup (m : List (String × String)) (key : String) : Option String :=
  (m.find? (fun kv => decide (kv.1 = key))).map (fun kv => kv.2)

/-- `validateHAShootControlPlaneConfigurationValue` (shoot.go 2231-2237). -/
def validateHAShootControlPlaneConfigurationValue (X : Collaborators) (shoot : Shoot) :
    ErrorList :=
  match shoot.Spec.ControlPlane with
  | some controlPlane =>
    match controlPlane.HighAvailability with
    | some highAvailability =>
      X.ValidateFailureToleranceTypeValue highAvailability.FailureTolerance.Type_
        (((((NewPath "spec").Child "controlPlane").Child "highAvailability").Child
          "failureTolerance").Child "type")
    | none => []
  | none => []

/-- `ValidateShootHAConfig` (shoot.go 2218-2222). -/
def ValidateShootHAConfig (X : Collaborators) (shoot : Shoot) : ErrorList :=
  validateHAShootControlPlaneConfigurationValue X shoot

/-- `ValidateShoot` (shoot.go 131-141). `none` is the run-time failure of
`ValidateShootSpec`. -/
def ValidateShoot (X : Collaborators) (W : WorkerValidators) (shoot : Shoot) :
    Option ErrorList :=
  let allErrs : ErrorList := []
  let allErrs := allErrs ++ X.ValidateObjectMeta shoot.ObjectMeta (NewPath "metadata")
  let allErrs := allErrs ++
    X.validateNameConsecutiveHyphens shoot.ObjectMeta.Name ((NewPath "metadata").Child "name")
  let allErrs := allErrs ++
    validateShootOperation X (mapGet shoot.ObjectMeta.Annotations GardenerOperation)
      (mapGet shoot.ObjectMeta.Annotations GardenerMaintenanceOperation) shoot
      ((NewPath "metadata").Child "annotations")
  match ValidateShootSpec X W shoot.ObjectMeta shoot.Spec (NewPath "spec") false with
  | none => none
  | some specErrs =>
    let allErrs := allErrs ++ specErrs
    let allErrs := allErrs ++ ValidateShootHAConfig X shoot
    some allErrs

/-- `validateShootKubeconfigRotation` (shoot.go 190-208). -/
def validateShootKubeconfigRotation (newMeta oldMeta : ObjectMeta) (fldPath : Path) :
    ErrorList :=
  if newMeta.DeletionTimestamp.isNone then []
  -- already set operation is valid use case
  else if mapLookup oldMeta.Annotations GardenerOperation =
      some ShootOperationRotateKubeconfigCredentials then []
  -- disallow kubeconfig rotation
  else if mapLookup newMeta.Annotations GardenerOperation =
      some ShootOperationRotateKubeconfigCredentials then
    [Invalid ((fldPath.Child "annotations").Key GardenerOperation)
      ShootOperationRotateKubeconfigCredentials
      "kubeconfig rotations is not allowed for clusters in deletion"]
  else []

/-- `ValidateShootObjectMetaUpdate` (shoot.go 183-187). -/
def ValidateShootObjectMetaUpdate (newMeta oldMeta : ObjectMeta) (fldPath : Path) :
    ErrorList :=
  validateShootKubeconfigRotation newMeta oldMeta fldPath

/-- `isPSPDisabled` (shoot.go 1018-1027). -/
def isPSPDisabled (kubeAPIServerConfig : Option KubeAPIServerConfig) : Bool :=
  match kubeAPIServerConfig with
  | some config =>
    config.AdmissionPlugins.any (fun plugin =>
      decide (plugin.Name = "PodSecurityPolicy") && boolDeref plugin.Disabled)
  | none => false

/-- `validateKubernetesVersionUpdate125` (shoot.go 992-1016). -/
def validateKubernetesVersionUpdate125 (X : Collaborators) (new old : Shoot) : ErrorList :=
  let allErrs : ErrorList := []
  let versionPath := ((NewPath "spec").Child "kubernetes").Child "version"
  let (newShootVersionGreaterEqual125, err) :=
    CheckVersionMeetsConstraint new.Spec.Kubernetes.Version ">= 1.25"
  let allErrs := allErrs ++
    (if err.isSome then
      [Invalid versionPath new.Spec.Kubernetes.Version "Invalid new kubernetes version"]
    else [])
  let (oldShootVersionLess125, err) :=
    CheckVersionMeetsConstraint old.Spec.Kubernetes.Version "< 1.25"
  let allErrs := allErrs ++
    (if err.isSome then
      [Invalid versionPath old.Spec.Kubernetes.Version "Invalid old kubernetes version"]
    else [])
  -- since we have disabled the policy/v1beta1/podsecuritypolicies API for workerless shoots, we only need to check for disabled PSPs for regular shoots.
  if X.IsWorkerless new = false ∧ newShootVersionGreaterEqual125 = true ∧
      oldShootVersionLess125 = true then
    let pspDisabledInNewSpec := isPSPDisabled new.Spec.Kubernetes.KubeAPIServer
    let pspDisabledInOldSpec := isPSPDisabled old.Spec.Kubernetes.KubeAPIServer
    if pspDisabledInNewSpec = false ∨ pspDisabledInOldSpec = false then
      allErrs ++ [Forbidden versionPath
        "admission plugin \"PodSecurityPolicy\" should be disabled for Kubernetes versions >=1.25, please check https://github.com/gardener/gardener/blob/master/docs/usage/pod-security.md#migrating-from-podsecuritypolicys-to-podsecurity-admission-controller"]
    else if (X.shootReconciliationSuccessful old).1 = false then
      allErrs ++ [Forbidden versionPath
        ("Shoot should have been reconciled successfully before upgrading to v1.25; error: " ++
          (X.shootReconciliationSuccessful old).2)]
    else allErrs
  else allErrs

/-- `ValidateShootUpdate` (shoot.go 144-156). `none` is the run-time failure of
`ValidateShootSpecUpdate` or, after it, of `ValidateShoot`. -/
def ValidateShootUpdate (X : Collaborators) (W : WorkerValidators) (newShoot oldShoot : Shoot) :
    Option ErrorList :=
  let allErrs : ErrorList := []
  let allErrs := allErrs ++
    X.ValidateObjectMetaUpdate newShoot.ObjectMeta oldShoot.ObjectMeta (NewPath "metadata")
  let allErrs := allErrs ++
    ValidateShootObjectMetaUpdate newShoot.ObjectMeta oldShoot.ObjectMeta (NewPath "metadata")
  match ValidateShootSpecUpdate X newShoot.Spec oldShoot.Spec newShoot.ObjectMeta
      (NewPath "spec") with
  | none => none
  | some specErrs =>
    let allErrs := allErrs ++ specErrs
    -- validate version updates only to kubernetes 1.25
    let allErrs := allErrs ++ validateKubernetesVersionUpdate125 X newShoot oldShoot
    match ValidateShoot X W newShoot with
    | none => none
    | some shootErrs =>
      let allErrs := allErrs ++ shootErrs
      let allErrs := allErrs ++ ValidateShootHAConfigUpdate newShoot oldShoot
      some allErrs

/-- `ValidateShootTemplateUpdate` (shoot.go 170-180). The new template's
`Spec.Networking.Nodes` is read whenever the old template has `Spec.Networking.Nodes` set,
without a test of the new `Spec.Networking` against `nil`: `none` is that run-time failure,
or the failure of `ValidateShootSpecUpdate`. -/
def ValidateShootTemplateUpdate (X : Collaborators) (newShootTemplate oldShootTemplate : ShootTemplate)
    (fldPath : Path) : Option ErrorList :=
  match ValidateShootSpecUpdate X newShootTemplate.Spec oldShootTemplate.Spec
      newShootTemplate.ObjectMeta (fldPath.Child "spec") with
  | none => none
  | some allErrs =>
    match oldShootTemplate.Spec.Networking with
    | some oldNetworking =>
      if oldNetworking.Nodes.isSome then
        match newShootTemplate.Spec.Networking with
        | some newNetworking =>
          some (allErrs ++
            ValidateImmutableField ptrText newNetworking.Nodes oldNetworking.Nodes
              (((fldPath.Child "spec").Child "networking").Child "nodes"))
        | none => none
      else some allErrs
    | none => some allErrs

/-! ## Concrete collaborators for witnesses and counterexamples -/

/-- A concrete choice of the collaborators: hibernation as the spec describes it (the
enabled flag or the observed status), the absent field validators accept every value, the
parsers know the few texts the examples use. -/
def specCollaborators : Collaborators where
  HibernationIsEnabled := HibernationIsEnabled
  ValidateDNS1123Subdomain := fun _ _ => []
  GenerateDNSProviderName := fun secretName providerType => providerType ++ "-" ++ secretName
  IsDNS1123Subdomain := fun _ => []
  validateCrossVersionObjectReference := fun _ _ => []
  urlParse := fun rawURL =>
    if rawURL = "https://issuer.example.com" then
      some { Scheme := "https", Host := "issuer.example.com" }
    else if rawURL = "https://issuer.example.com/realm?x=1#top" then
      some { Scheme := "https", Host := "issuer.example.com", Path := "/realm",
             RawQuery := "x=1", Fragment := "top" }
    else if rawURL = "http://issuer.example.com" then
      some { Scheme := "http", Host := "issuer.example.com" }
    else none
  DecodeCertificate := fun _ => true
  ValidateAdmissionPlugins := fun _ _ _ _ => []
  validateAuditPolicyConfigMapReference := fun _ _ => []
  ValidateFeatureGates := fun _ _ _ => []
  IsIPv4SingleStack := fun ipFamilies =>
    decide (ipFamilies.length = 0) ||
      (decide (ipFamilies.length = 1) && decide (ipFamilies.head? = some IPFamilyIPv4))
  ValidateIPFamilies := fun _ _ => []
  DeterminePrimaryIPFamily := fun ipFamilies => ipFamilies.headD IPFamilyIPv4
  cidrValidateParse := fun _ _ => []
  cidrValidateIPFamily := fun _ _ _ => []
  ValidateCIDRIsCanonical := fun _ _ => []
  ParseMaintenanceTimeWindow := fun _ _ => Except.ok timeHour
  MaintenanceTimeWindowDurationMinimum := timeHour / 2
  MaintenanceTimeWindowDurationMaximum := 6 * timeHour
  TestEmail := fun _ => true
  cronParseStandard := fun _ => none
  timeLoadLocation := fun _ => none
  ValidateLabelSelector := fun _ _ => []
  ValidateTolerations := fun _ _ => []
  SemanticDeepEqual := fun a b =>
    decide (a.Region = b.Region) && decide (a.CloudProfileName = b.CloudProfileName) &&
      decide (a.Kubernetes.Version = b.Kubernetes.Version) &&
      decide (a.Provider.Type_ = b.Provider.Type_) &&
      decide (a.Provider.Workers.length = b.Provider.Workers.length) &&
      decide (a.Networking = b.Networking) && decide (a.DNS = b.DNS) &&
      decide (a.SeedName = b.SeedName)
  deepEqual := fun a b =>
    (if a.Region = b.Region then [] else ["Region: " ++ a.Region ++ " != " ++ b.Region]) ++
    (if a.Provider.Type_ = b.Provider.Type_ then []
     else ["Provider.Type: " ++ a.Provider.Type_ ++ " != " ++ b.Provider.Type_])
  MutableShootSpecNetworkingNodes := false
  validateDNS1123Label := fun _ _ => []
  ValidateLabels := fun _ _ => []
  ValidateAnnotations := fun _ _ => []
  ValidateLabelName := fun _ _ => []
  IsValidLabelValue := fun _ => []
  IsValidPercent := fun value =>
    if value.data.getLast? = some '%' ∧ value.data.dropLast ≠ [] ∧
        value.data.dropLast.all Char.isDigit then []
    else ["a valid percent string must be a numeric string followed by an ending '%'"]
  getPercentValue := fun v =>
    match v with
    | IntOrString.int _ => (0, false)
    | IntOrString.str _ => (0, true)
  getIntOrPercentValue := fun v =>
    match v with
    | IntOrString.int i => i
    | IntOrString.str _ => 0
  ParseQuantity := fun q => if q ∈ ["100Mi", "200Mi", "1Gi", "5"] then some q else none
  ValidateResourceQuantityValue := fun _ _ _ => []
  Atoi := fun text =>
    match parseNat text.data with
    | some n => n
    | none => 0
  ValidArchitectures := ["amd64", "arm64"]
  ParseCIDR := fun c =>
    if c = "100.96.0.0/11" then some (11, c)
    else if c = "10.0.0.0/16" then some (16, c)
    else if c = "10.0.0.0/24" then some (24, c)
    else if c = "0.0.0.0/0" then some (0, c)
    else none
  DefaultPodNetworkCIDR := "100.96.0.0/11"
  mapRange := fun m => m
  ValidateFailureToleranceTypeValue := fun _ _ => []
  TaintNodeCriticalComponentsNotReady := "node.gardener.cloud/critical-components-not-ready"
  SystemComponentsAllowed := fun worker =>
    match worker.SystemComponents with
    | none => true
    | some systemComponents => systemComponents.Allow
  ValidateObjectMeta := fun _ _ => []
  validateNameConsecutiveHyphens := fun _ _ => []
  ValidateObjectMetaUpdate := fun _ _ _ => []
  shootReconciliationSuccessful := fun shoot =>
    match shoot.Status.LastOperation with
    | some op =>
      if op.State = LastOperationStateSucceeded then (true, "")
      else (false, "last operation was not successful")
    | none => (false, "shoot has no last operation")
  IsWorkerless := fun shoot => decide (shoot.Spec.Provider.Workers.length = 0)

/-- Component validators that report nothing; `ValidateShootSpec` does not reach them on
a workerless shoot. -/
def silentWorkerValidators : WorkerValidators where
  validateKubeScheduler := fun _ _ _ => []
  validateKubeProxy := fun _ _ _ => []
  ValidateKubeletConfig := fun _ _ _ _ => []
  ValidateClusterAutoscaler := fun _ _ _ => []
  ValidateVerticalPodAutoscaler := fun _ _ => []
  validateCoreDNS := fun _ _ => []

/-! ## Inputs used in witnesses and counterexamples, and the spec's conditions -/

/-- The start precondition as the spec states it (4.4): the last operation was a
successful Create or Restore, or is of type Reconcile, and the phase is empty or
`Completed`. -/
def RotationStartLegal (lastOperation : Option LastOperation)
    (phase : CredentialsRotationPhase) : Prop :=
  (∃ op, lastOperation = some op ∧
    (((op.Type_ = LastOperationTypeCreate ∨ op.Type_ = LastOperationTypeRestore) ∧
        op.State = LastOperationStateSucceeded) ∨
      op.Type_ = LastOperationTypeReconcile)) ∧
  (phase = "" ∨ phase = RotationCompleted)

/-- The start precondition in the stricter wording of the spec's testable properties (8):
the phase is empty or `Completed` and the last operation is a Create, Restore or Reconcile
in state `Succeeded`. -/
def RotationStartLegalIfSucceeded (lastOperation : Option LastOperation)
    (phase : CredentialsRotationPhase) : Prop :=
  (phase = "" ∨ phase = RotationCompleted) ∧
  (∃ op, lastOperation = some op ∧
    (op.Type_ = LastOperationTypeCreate ∨ op.Type_ = LastOperationTypeRestore ∨
      op.Type_ = LastOperationTypeReconcile) ∧
    op.State = LastOperationStateSucceeded)

/-- The eight rotation operation values. -/
def rotationOperations : List String :=
  [OperationRotateCredentialsStart, OperationRotateCredentialsComplete,
   OperationRotateCAStart, OperationRotateCAComplete,
   OperationRotateServiceAccountKeyStart, OperationRotateServiceAccountKeyComplete,
   OperationRotateETCDEncryptionKeyStart, OperationRotateETCDEncryptionKeyComplete]

/-- A hibernated shoot whose last operation is a succeeded Reconcile and whose rotation
phases are unset. -/
def hibernatedShoot : Shoot :=
  { Spec := { Hibernation := some { Enabled := some true } },
    Status := { IsHibernated := true,
                LastOperation := some { Type_ := "Reconcile", State := "Succeeded" } } }

/-- A shoot whose last operation is a failed Reconcile and whose rotation phases are
unset. -/
def reconcileFailedShoot : Shoot :=
  { Status := { LastOperation := some { Type_ := "Reconcile", State := "Failed" } } }

/-- Rotation status with all three phases `Prepared`. -/
def preparedRotation : ShootCredentialsRotation :=
  { CertificateAuthorities := some { Phase := "Prepared" },
    ServiceAccountKey := some { Phase := "Prepared" },
    ETCDEncryptionKey := some { Phase := "Prepared" } }

/-- A shoot whose three rotation phases are `Prepared`. -/
def preparedShoot : Shoot :=
  { Status := { Credentials := some { Rotation := some preparedRotation } } }

/-- The path `metadata.annotations`. -/
def annotationsPath : Path := (NewPath "metadata").Child "annotations"

/-- The errors of `l` located exactly at the path `p`. -/
def errorsAt (p : Path) (l : ErrorList) : ErrorList := l.filter (fun e => decide (e.Field = p))

/-- The path at which `ValidateNodeCIDRMaskWithMaxPod` reports, whatever path its callers
were handed. -/
def nodeCIDRMaskSizePath : Path :=
  (((NewPath "spec").Child "kubernetes").Child "kubeControllerManager").Child "nodeCIDRMaskSize"

/-- A workerless spec with an empty Kubernetes version and a kube-scheduler configuration. -/
def workerlessNoVersionSpec : ShootSpec := { Kubernetes := { KubeScheduler := some {} } }

/-- A workerless spec with Kubernetes 1.26.0, a networking type, addons, system components
and a kube-scheduler configuration. -/
def workerlessFullSpec : ShootSpec :=
  { Kubernetes := { Version := "1.26.0", KubeScheduler := some {} },
    Networking := some { Type_ := some "calico" },
    Addons := some {},
    SystemComponents := some {} }

/-- A scheduled shoot specification: one worker pool, Kubernetes 1.25.0, provider `aws`,
networking `calico`, a primary DNS provider of type `aws-route53`. -/
def scheduledSpec : ShootSpec :=
  { Region := "eu-1", CloudProfileName := "profile", Kubernetes := { Version := "1.25.0" },
    Provider := { Type_ := "aws", Workers := [{ Name := "pool" }] },
    Networking := some { Type_ := some "calico" },
    DNS := some { Providers := [{ Primary := some true, Type_ := some "aws-route53" }] },
    SeedName := some "seed" }

/-- The specification `scheduledSpec` with another region. -/
def regionChangedSpec : ShootSpec := { scheduledSpec with Region := "eu-2" }

/-- The specification `scheduledSpec` without workers, with another provider type and
another networking type. -/
def workerlessTypeChangedSpec : ShootSpec :=
  { scheduledSpec with
    Provider := { Type_ := "gcp", Workers := [] },
    Networking := some { Type_ := some "cilium" } }

/-- The specification `scheduledSpec` with a primary DNS provider of another type. -/
def primaryTypeChangedSpec : ShootSpec :=
  { scheduledSpec with
    DNS := some { Providers := [{ Primary := some true, Type_ := some "gcp-clouddns" }] } }

/-- Object metadata with a deletion timestamp. -/
def deletingMeta : ObjectMeta := { DeletionTimestamp := some "2023-06-01T00:00:00Z" }

/-- Whether the list holds an error of the given kind at the given path. -/
def ReportsAt (t : ErrorType) (p : Path) (l : ErrorList) : Prop :=
  ∃ e ∈ l, e.Type_ = t ∧ e.Field = p

instance (t : ErrorType) (p : Path) (l : ErrorList) : Decidable (ReportsAt t p l) := by
  unfold ReportsAt; infer_instance

/-- Whether the DNS provider `q` has a `secretName`/`type` name that is among `names` or
that one of the providers `pre` has: the loop of `validateDNS`, started with the seen names
`names`, then leaves `q` after the uniqueness error. -/
def RepeatsName (X : Collaborators) (names : List String) (pre : List DNSProvider)
    (q : DNSProvider) : Prop :=
  ∃ n, dnsProviderName X q = some n ∧ (n ∈ names ∨ ∃ r ∈ pre, dnsProviderName X r = some n)

/-- The error of `validateDNS` for a further primary provider at index `k`. -/
def multiplePrimaryError (fldPath : Path) (k : Nat) : Error :=
  Forbidden (((fldPath.Child "providers").Index k).Child "primary")
    "multiple primary DNS providers are not supported"

/-- Two primary DNS providers with the same `secretName` and `type`. -/
def twinPrimaryDNS : DNS :=
  { Domain := some "example.com",
    Providers := [{ Primary := some true, SecretName := some "secret", Type_ := some "aws-route53" },
                  { Primary := some true, SecretName := some "secret", Type_ := some "aws-route53" }] }

/-- Two primary DNS providers with different types. -/
def twoPrimaryDNS : DNS :=
  { Domain := some "example.com",
    Providers := [{ Primary := some true, SecretName := some "secret", Type_ := some "aws-route53" },
                  { Primary := some true, SecretName := some "secret", Type_ := some "gcp-clouddns" }] }

/-- The failure tolerance type of a shoot: the empty type when the shoot has no
high-availability configuration. -/
def failureToleranceTypeOf (shoot : Shoot) : String :=
  match shoot.Spec.ControlPlane with
  | some cp =>
    match cp.HighAvailability with
    | some ha => ha.FailureTolerance.Type_
    | none => ""
  | none => ""

/-- A scheduled shoot with failure tolerance type `node`. -/
def haNodeShoot : Shoot :=
  { Spec := { SeedName := some "seed",
              ControlPlane := some { HighAvailability := some { FailureTolerance := { Type_ := "node" } } } } }

/-- A scheduled shoot with failure tolerance type `zone`. -/
def haZoneShoot : Shoot :=
  { Spec := { SeedName := some "seed",
              ControlPlane := some { HighAvailability := some { FailureTolerance := { Type_ := "zone" } } } } }

/-- An API server configuration whose service account tokens expire after the duration `d`. -/
def tokenExpirationConfig (d : Duration) : KubeAPIServerConfig :=
  { ServiceAccountConfig := some { MaxTokenExpiration := some d } }

/-- An API server configuration with the OIDC client `client` and the given issuer URL. -/
def oidcIssuerConfig (issuerURL : String) : KubeAPIServerConfig :=
  { OIDCConfig := some { ClientID := some "client", IssuerURL := some issuerURL } }

/-- The path `spec.kubernetes.kubeAPIServer`. -/
def kubeAPIServerPath : Path := ((NewPath "spec").Child "kubernetes").Child "kubeAPIServer"

/-- The cron specs of a hibernation schedule in the order they are validated: the start,
then the end. -/
def scheduleSpecs (schedule : HibernationSchedule) : List String :=
  schedule.Start.toList ++ schedule.End.toList

/-- The errors `ValidateHibernationCronSpec` reports for the cron spec `spec` at `fldPath`,
given whether an equal spec occurs at an earlier position: `Invalid` for a spec that does
not parse, `Duplicate` for a valid spec that occurred before. -/
def cronSpecErrors (X : Collaborators) (occursEarlier : Prop) [Decidable occursEarlier]
    (spec : String) (fldPath : Path) : ErrorList :=
  match X.cronParseStandard spec with
  | some err => [Invalid fldPath spec ("not a valid cron spec: " ++ err)]
  | none => if occursEarlier then [Duplicate fldPath spec] else []

/-- Hibernation schedules: the second repeats the start of the first as its end, the third
has neither start nor end. -/
def repeatedSchedules : List HibernationSchedule :=
  [{ Start := some "0 20 * * *", End := some "0 6 * * *" },
   { Start := some "0 21 * * *", End := some "0 20 * * *" },
   {}]

/-- Whether every error of `l` lies at or below `p` and none lies at the child `a` of
`p`. -/
def ErrorsBeside (p : Path) (a : String) (l : ErrorList) : Prop :=
  errorsAt (p.Child a) l = [] ∧ ErrorsUnder p l

/-- The errors of one iteration of the loop of `validateTaints` ahead of the uniqueness
check (shoot.go 1719-1733). -/
def taintFieldErrors (X : Collaborators) (idxPath : Path) (taint : Taint) : ErrorList :=
  X.ValidateLabelName taint.Key (idxPath.Child "key") ++
  (if taint.Key ∈ reservedTaintKeys X then
    [Forbidden (idxPath.Child "key") "taint key is reserved by gardener"]
  else []) ++
  (if (X.IsValidLabelValue taint.Value).length ≠ 0 then
    [Invalid (idxPath.Child "value") taint.Value
      (";".intercalate (X.IsValidLabelValue taint.Value))]
  else []) ++
  validateTaintEffect taint.Effect false (idxPath.Child "effect")

/-- Two taints with the same key and effect, and a third with the same key and another
effect. -/
def repeatedTaints : List Taint :=
  [{ Key := "dedicated", Value := "a", Effect := "NoSchedule" },
   { Key := "dedicated", Value := "b", Effect := "NoSchedule" },
   { Key := "dedicated", Value := "c", Effect := "NoExecute" }]

/-- A kubelet configuration with `memorySwap` set, no swap behaviour, and the `NodeSwap`
feature gate set to `false`. -/
def swapGateOffConfig : KubeletConfig :=
  { MemorySwap := some {}, FeatureGates := [("NodeSwap", false)] }

/-- A kubelet configuration with the swap behaviour `LimitedSwap` and the `NodeSwap`
feature gate set to `false`. -/
def limitedSwapGateOffConfig : KubeletConfig :=
  { MemorySwap := some { SwapBehavior := some "LimitedSwap" },
    FeatureGates := [("NodeSwap", false)] }

/-- The condition under which `ValidateKubeletConfig` forbids `memorySwap`: the version is
below 1.22, `failSwapOn` is true, the `NodeSwap` feature gate is absent, or it is set to
`false` and a swap behaviour is configured. -/
def SwapForbidden (c : KubeletConfig) (swap : MemorySwapConfiguration) (version : String) :
    Prop :=
  (CompareVersions version "<" "1.22").1 = true ∨ c.FailSwapOn = some true ∨
    featureGate c.FeatureGates "NodeSwap" = none ∨
    (featureGate c.FeatureGates "NodeSwap" = some false ∧ swap.SwapBehavior.isSome = true)

/-- A worker pool with `minimum` 3 and `maximum` 1. -/
def invertedBoundsWorker : Worker :=
  { Name := "pool", Machine := { Type_ := "m5.large" }, Minimum := 3, Maximum := 1 }

/-- The pool `invertedBoundsWorker` with the Kubernetes version `abc` of its own. -/
def invertedBoundsWorkerBadVersion : Worker :=
  { invertedBoundsWorker with Kubernetes := some { Version := some "abc" } }

/-- A worker pool with `maxSurge` 0 and `maxUnavailable` unset. -/
def zeroSurgeWorker : Worker :=
  { Name := "pool", Machine := { Type_ := "m5.large" }, Minimum := 1, Maximum := 2,
    MaxSurge := some (IntOrString.int 0) }

/-- The pool `zeroSurgeWorker` with the Kubernetes version `abc` of its own. -/
def zeroSurgeWorkerBadVersion : Worker :=
  { zeroSurgeWorker with Kubernetes := some { Version := some "abc" } }

/-- The path of the first worker pool of a shoot. -/
def firstWorkerPath : Path := (((NewPath "spec").Child "provider").Child "workers").Index 0

/-- The message of `ValidateWorker` for `maxSurge` and `maxUnavailable` both zero. -/
def bothZeroMsg : String := "may not be 0 when `maxSurge` is 0"

/-- The condition of `ValidateWorker` for the error on `maxUnavailable`: `maxSurge` is set
and has the value 0, and `maxUnavailable` is unset or has the value 0. -/
def SurgeAndUnavailableZero (X : Collaborators) (worker : Worker) : Prop :=
  (∃ s, worker.MaxSurge = some s ∧ X.getIntOrPercentValue s = 0) ∧
    (worker.MaxUnavailable = none ∨
      ∃ u, worker.MaxUnavailable = some u ∧ X.getIntOrPercentValue u = 0)

/-- The error of `validateDNS` for a provider at index `k` that repeats the name `n`. -/
def repeatedProviderError (fldPath : Path) (k : Nat) (n : String) : Error :=
  Invalid ((fldPath.Child "providers").Index k) n
    "combination of .secretName and .type must be unique across dns providers"

/-- Two DNS providers with the same `secretName` and `type`, none of them primary. -/
def twinDNS : DNS :=
  { Providers := [{ SecretName := some "secret", Type_ := some "aws-route53" },
                  { SecretName := some "secret", Type_ := some "aws-route53" }] }

/-- The error of `ValidateSystemComponentWorkers` when no active pool allows system
components. -/
def noSystemComponentPoolError (fldPath : Path) : Error :=
  Forbidden fldPath "at least one active worker pool with allowSystemComponents=true needed"

/-- The error of `ValidateSystemComponentWorkers` at the `maximum` of the pool with
index `i`. -/
def insufficientMaximumError (fldPath : Path) (i : Nat) : Error :=
  Forbidden ((fldPath.Index i).Child "maximum")
    "maximum node count should be greater than or equal to the number of zones specified for this pool"

/-- Whether a pool counts as active for system components in
`ValidateSystemComponentWorkers`: system components are allowed, and neither `minimum` nor
`maximum` is zero. -/
def ActiveSystemComponentPool (X : Collaborators) (worker : Worker) : Prop :=
  X.SystemComponentsAllowed worker = true ∧ worker.Minimum ≠ 0 ∧ worker.Maximum ≠ 0

/-- The path of the worker pools of a shoot. -/
def workersPath : Path := ((NewPath "spec").Child "provider").Child "workers"

/-- A pool that allows system components, with `minimum` -1 and `maximum` 2. -/
def negativeMinimumWorker : Worker := { Name := "pool", Minimum := -1, Maximum := 2 }

/-- The collaborators `specCollaborators` with a run time that ranges over a map in the
reverse order. -/
def reversedRangeCollaborators : Collaborators :=
  { specCollaborators with mapRange := fun m => m.reverse }

/-- Two pools with one node at most and two zones each, in different zones. -/
def twoInsufficientPools : List Worker :=
  [{ Name := "a", Minimum := 1, Maximum := 1, Zones := ["eu-1a", "eu-1b"] },
   { Name := "b", Minimum := 1, Maximum := 1, Zones := ["eu-1c", "eu-1d"] }]

/-- Two pools with one node at most and two zones each; the zone names differ, and the
sorted zone names joined by `--` agree. -/
def collidingInsufficientPools : List Worker :=
  [{ Name := "a", Minimum := 1, Maximum := 1, Zones := ["a", "b--c"] },
   { Name := "b", Minimum := 1, Maximum := 1, Zones := ["a--b", "c"] }]

/-- A pool with one node at most in the two zones `a` and `b`, and a pool with one node at
most in the one zone `a--b`. -/
def collidingSufficientPools : List Worker :=
  [{ Name := "a", Minimum := 1, Maximum := 1, Zones := ["a", "b"] },
   { Name := "b", Minimum := 1, Maximum := 1, Zones := ["a--b"] }]

/-- The effective node CIDR mask size of a shoot with the given networking: the size
configured for the kube-controller-manager, else 64 on an IPv6 single-stack shoot and 24
otherwise. -/
def effectiveNodeCIDRMaskSize (shoot : Shoot) (networking : Networking) : Int :=
  match shoot.Spec.Kubernetes.KubeControllerManager with
  | some kcm =>
    match kcm.NodeCIDRMaskSize with
    | some size => size
    | none => if IsIPv6SingleStack networking.IPFamilies then 64 else 24
  | none => if IsIPv6SingleStack networking.IPFamilies then 64 else 24

/-- The pod network CIDR of a shoot with the given networking: the configured one, else the
default. -/
def effectivePodNetworkCIDR (X : Collaborators) (networking : Networking) : String :=
  match networking.Pods with
  | some pods => pods
  | none => X.DefaultPodNetworkCIDR

/-- The sum of the `maximum` values of the worker pools. -/
def sumOfMaximum (workers : List Worker) : Int := (workers.map (fun w => w.Maximum)).sum

/-- The error of `ValidateTotalNodeCountWithPodCIDR` at `spec.provider.workers`. -/
def totalNodeCountError (total maxNodeCount : Int) : Error :=
  Invalid (((NewPath "spec").Child "provider").Child "workers") (toString total)
    ("worker configuration incorrect. The podCIDRs in `spec.networking.pod` can only support a maximum of " ++
      toString maxNodeCount ++
      " nodes. The total number of worker pool nodes should be less than " ++
      toString maxNodeCount ++ " ")

/-- A shoot with node CIDR mask size `size`, the pod network `pods` and one worker pool
with the given `maximum`. -/
def nodeCountShoot (size : Int) (pods : String) (maximum : Int) : Shoot :=
  { Spec :=
    { Kubernetes := { KubeControllerManager := some { NodeCIDRMaskSize := some size } },
      Networking := some { Pods := some pods },
      Provider := { Workers := [{ Name := "pool", Minimum := 1, Maximum := maximum }] } } }

/-- A worker pool has a Kubernetes version of its own that is no semantic version: the
condition under which `ValidateWorker` fails at run time. -/
def PoolVersionUnparsable (worker : Worker) : Prop :=
  ∃ wk v, worker.Kubernetes = some wk ∧ wk.Version = some v ∧ NewVersion v = none

/-- The `maxPods` of the shoot-level kubelet configuration, if configured. -/
def shootLevelMaxPods (kubernetes : Kubernetes) : Option Int :=
  kubernetes.Kubelet.bind (fun kubelet => kubelet.MaxPods)

/-- The `maxPods` of the kubelet configuration of a worker pool, if configured. -/
def workerMaxPods (worker : Worker) : Option Int :=
  (worker.Kubernetes.bind (fun k => k.Kubelet)).bind (fun kubelet => kubelet.MaxPods)

/-- The highest `maxPods` as `validateProvider` computes it: the shoot-level value, 0 when
it is not configured, raised by every pool value above it. -/
def highestMaxPods (kubernetes : Kubernetes) (workers : List Worker) : Int :=
  (workers.filterMap workerMaxPods).foldl max ((shootLevelMaxPods kubernetes).getD 0)

/-- The `maxPods` value `validateProvider` hands to the node CIDR mask check: the highest
value, and the default 110 when that value is 0. -/
def effectiveMaxPods (kubernetes : Kubernetes) (workers : List Worker) : Int :=
  if highestMaxPods kubernetes workers = 0 then 110 else highestMaxPods kubernetes workers

/-- A Kubernetes configuration with the shoot-level `maxPods` 0 and the node CIDR mask
size 26. -/
def zeroMaxPodsKubernetes : Kubernetes :=
  { Version := "1.26.0", Kubelet := some { MaxPods := some 0 },
    KubeControllerManager := some { NodeCIDRMaskSize := some 26 } }

/-- A provider with one worker pool without a kubelet configuration. -/
def onePoolProvider : Provider :=
  { Type_ := "aws",
    Workers :=
      [{ Name := "pool", Machine := { Type_ := "m5.large" }, Minimum := 1, Maximum := 2 }] }

/-- The variant of `validateKubeletConfigEviction` the spec describes: each of
`memoryAvailable`, `imagefsAvailable`, `imagefsInodesFree` and `nodefsAvailable` is
validated exactly once. -/
def validateKubeletConfigEvictionOnce (X : Collaborators) (eviction : KubeletConfigEviction)
    (fldPath : Path) : ErrorList :=
  ValidateResourceQuantityOrPercent X eviction.MemoryAvailable fldPath "memoryAvailable" ++
  ValidateResourceQuantityOrPercent X eviction.ImageFSAvailable fldPath "imagefsAvailable" ++
  ValidateResourceQuantityOrPercent X eviction.ImageFSInodesFree fldPath "imagefsInodesFree" ++
  ValidateResourceQuantityOrPercent X eviction.NodeFSAvailable fldPath "nodefsAvailable"

/-- The message of `ValidateResourceQuantityOrPercent` for a value that is neither a
quantity nor a percentage. -/
def quantityOrPercentMsg : String :=
  "field must be either a valid resource quantity (e.g 200Mi) or a percentage (e.g '5%')"

/-- Component validators that report one error at the path they are handed: they show
under which path `validateKubernetes` validates a component. -/
def visitingWorkerValidators : WorkerValidators where
  validateKubeScheduler := fun _ _ p => [Invalid p "" "visited"]
  validateKubeProxy := fun _ _ p => [Invalid p "" "visited"]
  ValidateKubeletConfig := fun _ _ _ p => [Invalid p "" "visited"]
  ValidateClusterAutoscaler := fun _ _ p => [Invalid p "" "visited"]
  ValidateVerticalPodAutoscaler := fun _ p => [Invalid p "" "visited"]
  validateCoreDNS := fun _ p => [Invalid p "" "visited"]

/-- A Kubernetes configuration of version 1.24.0 with every component configuration that
is forbidden on a workerless shoot. -/
def allComponentsKubernetes : Kubernetes :=
  { Version := "1.24.0", KubeScheduler := some {}, KubeProxy := some {}, Kubelet := some {},
    ClusterAutoscaler := some {}, VerticalPodAutoscaler := some {} }

/-- The paths of the errors of a list, as text. -/
def errorPaths (l : ErrorList) : List String := l.map (fun e => e.Field.String)

/-- A shoot template with the specification `scheduledSpec` and the node network
`10.250.0.0/16`. -/
def templateWithNodes : ShootTemplate :=
  { Spec := { scheduledSpec with
      Networking := some { Type_ := some "calico", Nodes := some "10.250.0.0/16" } } }

/-- The template `templateWithNodes` with `spec.networking` unset. -/
def templateWithoutNetworking : ShootTemplate :=
  { Spec := { scheduledSpec with Networking := none } }

/-- The path `fldPath.provider.workers[i].kubernetes.version` at which
`ValidateShootSpecUpdate` reports the version errors of the new worker pool `i`. -/
def workerVersionPath (fldPath : Path) (i : Nat) : Path :=
  ((((fldPath.Child "provider").Child "workers").Index i).Child "kubernetes").Child "version"

/-- A new specification with two worker pools: `pool-a` sets the version 1.24.0, `pool-b`
sets none and follows the control plane version 1.25.0. -/
def downgradedPoolSpec : ShootSpec :=
  { Kubernetes := { Version := "1.25.0" },
    Provider :=
      { Type_ := "aws",
        Workers :=
          [{ Name := "pool-a", Kubernetes := some { Version := some "1.24.0" } },
           { Name := "pool-b" }] } }

/-- An old specification with the same two worker pools: `pool-a` at 1.25.0, `pool-b` with
a version that is no semantic version. -/
def unparsablePoolSpec : ShootSpec :=
  { Kubernetes := { Version := "1.25.0" },
    Provider :=
      { Type_ := "aws",
        Workers :=
          [{ Name := "pool-a", Kubernetes := some { Version := some "1.25.0" } },
           { Name := "pool-b", Kubernetes := some { Version := some "abc" } }] } }

/-- A workerless shoot with Kubernetes 1.26.0. -/
def upgradedWorkerlessShoot : Shoot :=
  { ObjectMeta := { Name := "shoot" }, Spec := { Kubernetes := { Version := "1.26.0" } } }

/-- The stored state of `upgradedWorkerlessShoot`, with a Kubernetes version that is no
semantic version. -/
def unparsableVersionShoot : Shoot :=
  { ObjectMeta := { Name := "shoot" }, Spec := { Kubernetes := { Version := "abc" } } }

/-! # Theorems -/

/-! ## Version parsing and the version update rule -/

theorem digit_toNat (d : Nat) (h : d < 10) : (Char.ofNat (48 + d)).toNat = 48 + d := by
  interval_cases d <;> rfl

theorem isDigit_ne_dot {c : Char} (h : IsDigit c) : c ≠ '.' := by
  rintro rfl
  exact absurd h (by unfold IsDigit; decide)

theorem isDigit_ne_v {c : Char} (h : IsDigit c) : c ≠ 'v' := by
  rintro rfl
  exact absurd h (by unfold IsDigit; decide)

theorem parseDigits_append (xs ys : List Char) (acc : Nat) :
    parseDigits (xs ++ ys) acc = (parseDigits xs acc).bind (parseDigits ys) := by
  induction xs generalizing acc with
  | nil => simp [parseDigits]
  | cons c cs ih =>
    simp only [List.cons_append, parseDigits]
    split
    · exact ih _
    · simp

theorem digitsAux_spec (fuel : Nat) : ∀ (n : Nat) (acc : List Char), n < fuel →
    ∃ ds, digitsAux fuel n acc = ds ++ acc ∧ ds ≠ [] ∧ (∀ c ∈ ds, IsDigit c) ∧
      parseDigits ds 0 = some n := by
  induction fuel with
  | zero => intro n acc h; omega
  | succ fuel ih =>
    intro n acc h
    have hd : (Char.ofNat (48 + n % 10)).toNat = 48 + n % 10 :=
      digit_toNat _ (Nat.mod_lt _ (by omega))
    have hdig : IsDigit (Char.ofNat (48 + n % 10)) := by
      unfold IsDigit; rw [hd]; omega
    unfold digitsAux
    by_cases h0 : n / 10 = 0
    · refine ⟨[Char.ofNat (48 + n % 10)], ?_, by simp, ?_, ?_⟩
      · simp [h0]
      · intro c hc; simp at hc; subst hc; exact hdig
      · have hn : n % 10 = n := by omega
        rw [hn] at hd
        simp only [hn, parseDigits, hd]
        have : n < 10 := by omega
        simp; omega
    · obtain ⟨ds, h1, h2, h3, h4⟩ := ih (n / 10) (Char.ofNat (48 + n % 10) :: acc) (by omega)
      refine ⟨ds ++ [Char.ofNat (48 + n % 10)], ?_, by simp, ?_, ?_⟩
      · simp [h0, h1]
      · intro c hc
        rcases List.mem_append.1 hc with hc | hc
        · exact h3 c hc
        · simp at hc; subst hc; exact hdig
      · rw [parseDigits_append, h4]
        simp [parseDigits, hd]
        omega

theorem renderNat_spec (n : Nat) :
    renderNat n ≠ [] ∧ (∀ c ∈ renderNat n, IsDigit c) ∧ parseNat (renderNat n) = some n := by
  obtain ⟨ds, h1, h2, h3, h4⟩ := digitsAux_spec (n + 1) n [] (by omega)
  have : renderNat n = ds := by simp [renderNat, h1]
  rw [this]
  refine ⟨h2, h3, ?_⟩
  cases ds with
  | nil => exact absurd rfl h2
  | cons c cs => simpa [parseNat] using h4

theorem splitDots_nodot (ds : List Char) (h : ∀ c ∈ ds, c ≠ '.') : splitDots ds = [ds] := by
  induction ds with
  | nil => rfl
  | cons c cs ih =>
    have hc : c ≠ '.' := h c (by simp)
    have := ih (fun x hx => h x (by simp [hx]))
    simp [splitDots, hc, this]

theorem splitDots_append_dot (ds rest : List Char) (h : ∀ c ∈ ds, c ≠ '.') :
    splitDots (ds ++ '.' :: rest) = ds :: splitDots rest := by
  induction ds with
  | nil => simp [splitDots]
  | cons c cs ih =>
    have hc : c ≠ '.' := h c (by simp)
    have := ih (fun x hx => h x (by simp [hx]))
    simp [splitDots, hc, this]

theorem NewVersion_String (v : Version) : NewVersion v.String = some v := by
  obtain ⟨a1, a2, a3⟩ := renderNat_spec v.major
  obtain ⟨b1, b2, b3⟩ := renderNat_spec v.minor
  obtain ⟨c1, c2, c3⟩ := renderNat_spec v.patch
  have hsplit : splitDots (renderNat v.major ++ '.' :: (renderNat v.minor ++ '.' :: renderNat v.patch))
      = [renderNat v.major, renderNat v.minor, renderNat v.patch] := by
    rw [splitDots_append_dot _ _ (fun c hc => isDigit_ne_dot (a2 c hc)),
      splitDots_append_dot _ _ (fun c hc => isDigit_ne_dot (b2 c hc)),
      splitDots_nodot _ (fun c hc => isDigit_ne_dot (c2 c hc))]
  unfold NewVersion Version.String
  cases hM : renderNat v.major with
  | nil => exact absurd hM a1
  | cons c t =>
    have hcv : c ≠ 'v' := isDigit_ne_v (a2 c (by simp [hM]))
    rw [hM] at hsplit a3
    simp only [List.cons_append] at hsplit ⊢
    have hstrip : (match c :: (t ++ '.' :: (renderNat v.minor ++ '.' :: renderNat v.patch)) with
        | 'v' :: t => t
        | l => l) = c :: (t ++ '.' :: (renderNat v.minor ++ '.' :: renderNat v.patch)) := by
      split
      · rename_i heq
        simp only [List.cons.injEq] at heq
        exact absurd heq.1 hcv
      · rfl
    simp only [hstrip, hsplit, a3, b3, c3, Option.bind, Option.map]

theorem Version.Compare_neg_iff (v w : Version) : v.Compare w < 0 ↔ v < w := by
  show _ ↔ Version.Less v w
  unfold Version.Compare Version.Less
  split_ifs <;> simp <;> omega

theorem Version.Compare_nonneg_iff (v w : Version) : v.Compare w ≥ 0 ↔ w ≤ v := by
  have h := Version.Compare_neg_iff v w
  show _ ↔ ¬ (v < w)
  rw [← h]; omega

theorem NewVersion_ne_empty {s : String} {v : Version} (h : NewVersion s = some v) :
    s.length ≠ 0 := by
  intro h0
  have : s = "" := by
    cases s with
    | mk l => cases l with
      | nil => rfl
      | cons c t => simp [String.length] at h0
  subst this
  have h2 : NewVersion "" = none := by decide
  rw [h2] at h
  exact Option.noConfusion h

/-- C1: for parseable versions `old` and `new`, `ValidateKubernetesVersionUpdate new old`
returns an error list, and that list is non-empty if and only if `new < old` or
`new >= old.Major.(old.Minor+2).0`. -/
theorem kubernetes_version_update_rejected_iff (new old : String) (vn vo : Version) (fldPath : Path)
    (hn : NewVersion new = some vn) (ho : NewVersion old = some vo) :
    ∃ errs, ValidateKubernetesVersionUpdate new old fldPath = some errs ∧
      (errs ≠ [] ↔ (vn < vo ∨ Version.mk vo.major (vo.minor + 2) 0 ≤ vn)) := by
  have hlen := NewVersion_ne_empty hn
  have hnext : NewVersion (vo.IncMinor.IncMinor).String = some ⟨vo.major, vo.minor + 2, 0⟩ := by
    rw [NewVersion_String]; rfl
  simp only [ValidateKubernetesVersionUpdate, hlen, if_false, CompareVersions, hn, ho, hnext]
  simp only [Version.Compare_neg_iff, Version.Compare_nonneg_iff]
  by_cases h1 : vn < vo <;> by_cases h2 : Version.mk vo.major (vo.minor + 2) 0 ≤ vn <;>
    simp [h1, h2]

/-- Witness of C1: `1.24.3 -> 1.23.0` is rejected as a downgrade, `1.24.0 -> 1.26.0` as a
minor skip, `1.24.0 -> 1.25.2` is accepted. -/
theorem kubernetes_version_update_rejected_iff_witness :
    (∃ errs, ValidateKubernetesVersionUpdate "1.23.0" "1.24.3" (NewPath "version") = some errs ∧
      (errs ≠ [] ↔ ((⟨1, 23, 0⟩ : Version) < ⟨1, 24, 3⟩ ∨
        Version.mk 1 (24 + 2) 0 ≤ (⟨1, 23, 0⟩ : Version)))) ∧
    ValidateKubernetesVersionUpdate "1.23.0" "1.24.3" (NewPath "version") =
      some [Forbidden (NewPath "version") "kubernetes version downgrade is not supported"] ∧
    ValidateKubernetesVersionUpdate "1.26.0" "1.24.0" (NewPath "version") =
      some [Forbidden (NewPath "version")
        "kubernetes version upgrade cannot skip a minor version"] ∧
    ValidateKubernetesVersionUpdate "1.25.2" "1.24.0" (NewPath "version") = some [] :=
  ⟨kubernetes_version_update_rejected_iff "1.23.0" "1.24.3" ⟨1, 23, 0⟩ ⟨1, 24, 3⟩
      (NewPath "version") (by decide) (by decide),
    by decide, by decide, by decide⟩

/-! ## Node CIDR mask capacity -/

theorem wrapInt32_of_isInt32 (x : Int) (h : IsInt32 x) : wrapInt32 x = x := by
  unfold IsInt32 at h
  unfold wrapInt32
  omega

theorem bigExp2_eq (y : Int) : bigExp2 y = 2 ^ y.toNat := by
  unfold bigExp2
  split_ifs with h
  · have : y.toNat = 0 := by omega
    rw [this]; rfl
  · rfl

/-- As long as `bits - nodeCIDRMaskSize` fits `int32` (bits is 128 for IPv6 single-stack and
32 otherwise), `ValidateNodeCIDRMaskWithMaxPod` reports an error, a single `Invalid` at
`spec.kubernetes.kubeControllerManager.nodeCIDRMaskSize`, if and only if
`2^(bits - nodeCIDRMaskSize) - 2 < maxPod` in exact arithmetic. -/
theorem nodeCIDRMask_error_iff_of_no_wraparound (maxPod nodeCIDRMaskSize : Int)
    (networking : Networking)
    (hfit : IsInt32 ((if IsIPv6SingleStack networking.IPFamilies then 128 else 32)
      - nodeCIDRMaskSize)) :
    (ValidateNodeCIDRMaskWithMaxPod maxPod nodeCIDRMaskSize networking ≠ [] ↔
      (2 : Int) ^ ((if IsIPv6SingleStack networking.IPFamilies then 128 else 32)
        - nodeCIDRMaskSize).toNat - 2 < maxPod) ∧
    (∀ e ∈ ValidateNodeCIDRMaskWithMaxPod maxPod nodeCIDRMaskSize networking,
      e.Type_ = ErrorType.Invalid ∧
      e.Field = (((NewPath "spec").Child "kubernetes").Child "kubeControllerManager").Child
        "nodeCIDRMaskSize") ∧
    (ValidateNodeCIDRMaskWithMaxPod maxPod nodeCIDRMaskSize networking).length ≤ 1 := by
  unfold ValidateNodeCIDRMaskWithMaxPod
  simp only [List.nil_append]
  have hbits : (if IsIPv6SingleStack networking.IPFamilies = true then (16 * 8 : Int) else 4 * 8)
      = (if IsIPv6SingleStack networking.IPFamilies = true then 128 else 32) := by
    split_ifs <;> rfl
  rw [hbits, wrapInt32_of_isInt32 _ hfit, bigExp2_eq]
  split_ifs with h6 h <;> simp_all [Invalid]

theorem two_pow_sub_two_ge (n : Nat) (h : 7 ≤ n) : ¬ ((2 : Int) ^ n - 2 < 110) := by
  have h1 : (2 : Int) ^ 7 ≤ 2 ^ n := pow_le_pow_right₀ (by norm_num) h
  have h2 : (2 : Int) ^ 7 = 128 := by norm_num
  omega

/-- C2, failing input: IPv4, `maxPod = 110`, `nodeCIDRMaskSize = -2147483648`. The `int32`
subtraction `32 - nodeCIDRMaskSize` wraps to `-2147483616`, `big.Int.Exp` returns `1` for
the negative exponent and the validator reports an error, although in exact arithmetic
`2^(32 - nodeCIDRMaskSize) - 2` is not below `110`. -/
theorem nodeCIDRMask_int32_wraparound :
    IsInt32 (-2147483648) ∧
    wrapInt32 (32 - (-2147483648)) = -2147483616 ∧
    (ValidateNodeCIDRMaskWithMaxPod 110 (-2147483648) { IPFamilies := [IPFamilyIPv4] }).length
      = 1 ∧
    ¬ ((2 : Int) ^ (32 - (-2147483648 : Int)).toNat - 2 < 110) := by
  refine ⟨by unfold IsInt32; decide, by decide, by decide, ?_⟩
  exact two_pow_sub_two_ge _ (by decide)

/-- The examples of the spec: IPv4 with mask 24 and 110 pods is accepted, mask 27 is
rejected, IPv6 with mask 64 is accepted. -/
theorem nodeCIDRMask_examples :
    ValidateNodeCIDRMaskWithMaxPod 110 24 { IPFamilies := [IPFamilyIPv4] } = [] ∧
    (ValidateNodeCIDRMaskWithMaxPod 110 27 { IPFamilies := [IPFamilyIPv4] }).length = 1 ∧
    ValidateNodeCIDRMaskWithMaxPod 110 64 { IPFamilies := [IPFamilyIPv6] } = [] := by
  refine ⟨by decide, by decide, ?_⟩
  have h := (nodeCIDRMask_error_iff_of_no_wraparound 110 64 { IPFamilies := [IPFamilyIPv6] }
    (by unfold IsInt32; decide)).1
  by_contra hne
  have h2 := h.1 hne
  have h3 : IsIPv6SingleStack ({ IPFamilies := [IPFamilyIPv6] } : Networking).IPFamilies = true := by
    decide
  rw [h3] at h2
  simp only [if_true] at h2
  have h4 : ((128 : Int) - 64).toNat = 64 := by decide
  rw [h4] at h2
  norm_num at h2

/-! ## Credential rotation and operation annotations -/

theorem string_length_eq_zero (s : String) : s.length = 0 ↔ s = "" := by
  constructor
  · intro h
    cases s with
    | mk l =>
      cases l with
      | nil => rfl
      | cons c t => simp [String.length] at h
  · rintro rfl; rfl

theorem phaseBlocksStart_eq_false (phase : CredentialsRotationPhase) :
    phaseBlocksStart phase = false ↔ (phase = "" ∨ phase = RotationCompleted) := by
  unfold phaseBlocksStart
  have h := string_length_eq_zero phase
  by_cases h1 : phase = ""
  · subst h1; simp
  · have h3 : phase.length ≠ 0 := fun hh => h1 (h.1 hh)
    have h4 : phase.length > 0 := Nat.pos_of_ne_zero h3
    simp [h1, h4]

theorem isShootReadyForRotationStart_iff (lastOperation : Option LastOperation) :
    isShootReadyForRotationStart lastOperation = true ↔
      ∃ op, lastOperation = some op ∧
        (((op.Type_ = LastOperationTypeCreate ∨ op.Type_ = LastOperationTypeRestore) ∧
            op.State = LastOperationStateSucceeded) ∨
          op.Type_ = LastOperationTypeReconcile) := by
  cases lastOperation with
  | none => simp [isShootReadyForRotationStart]
  | some op =>
    simp only [isShootReadyForRotationStart, Option.some.injEq, exists_eq_left']
    by_cases h1 : op.Type_ = LastOperationTypeCreate <;>
    by_cases h2 : op.Type_ = LastOperationTypeRestore <;>
    by_cases h3 : op.State = LastOperationStateSucceeded <;>
    by_cases h4 : op.Type_ = LastOperationTypeReconcile <;>
    simp [h1, h2, h3, h4]

/-! ### Evaluation of `validateShootOperationContext` at each rotation operation -/

theorem ctx_credentialsStart (shoot : Shoot) (p : Path) :
    validateShootOperationContext OperationRotateCredentialsStart shoot p =
      (if !isShootReadyForRotationStart shoot.Status.LastOperation then
        [Forbidden p "cannot start rotation of all credentials if shoot was not yet created successfully or is not ready for reconciliation"]
      else []) ++
      ((if phaseBlocksStart (GetShootCARotationPhase shoot.Status.Credentials) then
        [Forbidden p "cannot start rotation of all credentials if .status.credentials.rotation.certificateAuthorities.phase is not 'Completed'"]
      else []) ++
      ((if phaseBlocksStart (GetShootServiceAccountKeyRotationPhase shoot.Status.Credentials) then
        [Forbidden p "cannot start rotation of all credentials if .status.credentials.rotation.serviceAccountKey.phase is not 'Completed'"]
      else []) ++
      (if phaseBlocksStart (GetShootETCDEncryptionKeyRotationPhase shoot.Status.Credentials) then
        [Forbidden p "cannot start rotation of all credentials if .status.credentials.rotation.etcdEncryptionKey.phase is not 'Completed'"]
      else []))) := by
  simp [validateShootOperationContext]

theorem ctx_credentialsComplete (shoot : Shoot) (p : Path) :
    validateShootOperationContext OperationRotateCredentialsComplete shoot p =
      (if GetShootCARotationPhase shoot.Status.Credentials ≠ RotationPrepared then
        [Forbidden p "cannot complete rotation of all credentials if .status.credentials.rotation.certificateAuthorities.phase is not 'Prepared'"]
      else []) ++
      ((if GetShootServiceAccountKeyRotationPhase shoot.Status.Credentials ≠ RotationPrepared then
        [Forbidden p "cannot complete rotation of all credentials if .status.credentials.rotation.serviceAccountKey.phase is not 'Prepared'"]
      else []) ++
      (if GetShootETCDEncryptionKeyRotationPhase shoot.Status.Credentials ≠ RotationPrepared then
        [Forbidden p "cannot complete rotation of all credentials if .status.credentials.rotation.etcdEncryptionKey.phase is not 'Prepared'"]
      else [])) := by
  simp [validateShootOperationContext, OperationRotateCredentialsStart,
    OperationRotateCredentialsComplete]

theorem ctx_caStart (shoot : Shoot) (p : Path) :
    validateShootOperationContext OperationRotateCAStart shoot p =
      (if !isShootReadyForRotationStart shoot.Status.LastOperation then
        [Forbidden p "cannot start CA rotation if shoot was not yet created successfully or is not ready for reconciliation"]
      else []) ++
      (if phaseBlocksStart (GetShootCARotationPhase shoot.Status.Credentials) then
        [Forbidden p "cannot start CA rotation if .status.credentials.rotation.certificateAuthorities.phase is not 'Completed'"]
      else []) := by
  simp [validateShootOperationContext, OperationRotateCAStart, OperationRotateCredentialsStart,
    OperationRotateCredentialsComplete]

theorem ctx_caComplete (shoot : Shoot) (p : Path) :
    validateShootOperationContext OperationRotateCAComplete shoot p =
      (if GetShootCARotationPhase shoot.Status.Credentials ≠ RotationPrepared then
        [Forbidden p "cannot complete CA rotation if .status.credentials.rotation.certificateAuthorities.phase is not 'Prepared'"]
      else []) := by
  simp [validateShootOperationContext, OperationRotateCAStart, OperationRotateCAComplete,
    OperationRotateCredentialsStart, OperationRotateCredentialsComplete]

theorem ctx_serviceAccountKeyStart (shoot : Shoot) (p : Path) :
    validateShootOperationContext OperationRotateServiceAccountKeyStart shoot p =
      (if !isShootReadyForRotationStart shoot.Status.LastOperation then
        [Forbidden p "cannot start service account key rotation if shoot was not yet created successfully or is not ready for reconciliation"]
      else []) ++
      (if phaseBlocksStart (GetShootServiceAccountKeyRotationPhase shoot.Status.Credentials) then
        [Forbidden p "cannot start service account key rotation if .status.credentials.rotation.serviceAccountKey.phase is not 'Completed'"]
      else []) := by
  simp [validateShootOperationContext, OperationRotateCAStart, OperationRotateCAComplete,
    OperationRotateCredentialsStart, OperationRotateCredentialsComplete,
    OperationRotateServiceAccountKeyStart]

theorem ctx_serviceAccountKeyComplete (shoot : Shoot) (p : Path) :
    validateShootOperationContext OperationRotateServiceAccountKeyComplete shoot p =
      (if GetShootServiceAccountKeyRotationPhase shoot.Status.Credentials ≠ RotationPrepared then
        [Forbidden p "cannot complete service account key rotation if .status.credentials.rotation.serviceAccountKey.phase is not 'Prepared'"]
      else []) := by
  simp [validateShootOperationContext, OperationRotateCAStart, OperationRotateCAComplete,
    OperationRotateCredentialsStart, OperationRotateCredentialsComplete,
    OperationRotateServiceAccountKeyStart, OperationRotateServiceAccountKeyComplete]

theorem ctx_etcdEncryptionKeyStart (shoot : Shoot) (p : Path) :
    validateShootOperationContext OperationRotateETCDEncryptionKeyStart shoot p =
      (if !isShootReadyForRotationStart shoot.Status.LastOperation then
        [Forbidden p "cannot start ETCD encryption key rotation if shoot was not yet created successfully or is not ready for reconciliation"]
      else []) ++
      (if phaseBlocksStart (GetShootETCDEncryptionKeyRotationPhase shoot.Status.Credentials) then
        [Forbidden p "cannot start ETCD encryption key rotation if .status.credentials.rotation.etcdEncryptionKey.phase is not 'Completed'"]
      else []) := by
  simp [validateShootOperationContext, OperationRotateCAStart, OperationRotateCAComplete,
    OperationRotateCredentialsStart, OperationRotateCredentialsComplete,
    OperationRotateServiceAccountKeyStart, OperationRotateServiceAccountKeyComplete,
    OperationRotateETCDEncryptionKeyStart]

theorem ctx_etcdEncryptionKeyComplete (shoot : Shoot) (p : Path) :
    validateShootOperationContext OperationRotateETCDEncryptionKeyComplete shoot p =
      (if GetShootETCDEncryptionKeyRotationPhase shoot.Status.Credentials ≠ RotationPrepared then
        [Forbidden p "cannot complete ETCD encryption key rotation if .status.credentials.rotation.etcdEncryptionKey.phase is not 'Prepared'"]
      else []) := by
  simp [validateShootOperationContext, OperationRotateCAStart, OperationRotateCAComplete,
    OperationRotateCredentialsStart, OperationRotateCredentialsComplete,
    OperationRotateServiceAccountKeyStart, OperationRotateServiceAccountKeyComplete,
    OperationRotateETCDEncryptionKeyStart, OperationRotateETCDEncryptionKeyComplete]

/-- A start check passes exactly when the shoot is ready and the phase does not block. -/
theorem start_pair_nil_iff (ready blocks : Bool) (e1 e2 : Error) :
    ((if !ready then [e1] else []) ++ (if blocks then [e2] else []) = ([] : ErrorList)) ↔
      (ready = true ∧ blocks = false) := by
  cases ready <;> cases blocks <;> simp

theorem ctx_other (operation : String) (shoot : Shoot) (p : Path)
    (h1 : operation ≠ OperationRotateCredentialsStart)
    (h2 : operation ≠ OperationRotateCredentialsComplete)
    (h3 : operation ≠ OperationRotateCAStart)
    (h4 : operation ≠ OperationRotateCAComplete)
    (h5 : operation ≠ OperationRotateServiceAccountKeyStart)
    (h6 : operation ≠ OperationRotateServiceAccountKeyComplete)
    (h7 : operation ≠ OperationRotateETCDEncryptionKeyStart)
    (h8 : operation ≠ OperationRotateETCDEncryptionKeyComplete) :
    validateShootOperationContext operation shoot p = [] := by
  unfold validateShootOperationContext
  simp only [h1, h2, h3, h4, h5, h6, h7, h8, if_false]

theorem forbiddenAt_ite (c : Prop) [Decidable c] (p : Path) (d : String) :
    ∀ e ∈ (if c then [Forbidden p d] else ([] : ErrorList)),
      e.Type_ = ErrorType.Forbidden ∧ e.Field = p := by
  intro e he
  split_ifs at he
  · simp only [List.mem_singleton] at he
    subst he
    exact ⟨rfl, rfl⟩
  · simp at he

theorem forbiddenAt_append (p : Path) (l1 l2 : ErrorList)
    (h1 : ∀ e ∈ l1, e.Type_ = ErrorType.Forbidden ∧ e.Field = p)
    (h2 : ∀ e ∈ l2, e.Type_ = ErrorType.Forbidden ∧ e.Field = p) :
    ∀ e ∈ l1 ++ l2, e.Type_ = ErrorType.Forbidden ∧ e.Field = p := by
  intro e he
  rcases List.mem_append.1 he with h | h
  · exact h1 e h
  · exact h2 e h

/-- Every error of `validateShootOperationContext` is a `Forbidden` error at the path
handed in. -/
theorem validateShootOperationContext_errors (operation : String) (shoot : Shoot) (p : Path) :
    ∀ e ∈ validateShootOperationContext operation shoot p,
      e.Type_ = ErrorType.Forbidden ∧ e.Field = p := by
  by_cases h1 : operation = OperationRotateCredentialsStart
  · subst h1; rw [ctx_credentialsStart]
    exact forbiddenAt_append _ _ _ (forbiddenAt_ite _ _ _)
      (forbiddenAt_append _ _ _ (forbiddenAt_ite _ _ _)
        (forbiddenAt_append _ _ _ (forbiddenAt_ite _ _ _) (forbiddenAt_ite _ _ _)))
  by_cases h2 : operation = OperationRotateCredentialsComplete
  · subst h2; rw [ctx_credentialsComplete]
    exact forbiddenAt_append _ _ _ (forbiddenAt_ite _ _ _)
      (forbiddenAt_append _ _ _ (forbiddenAt_ite _ _ _) (forbiddenAt_ite _ _ _))
  by_cases h3 : operation = OperationRotateCAStart
  · subst h3; rw [ctx_caStart]
    exact forbiddenAt_append _ _ _ (forbiddenAt_ite _ _ _) (forbiddenAt_ite _ _ _)
  by_cases h4 : operation = OperationRotateCAComplete
  · subst h4; rw [ctx_caComplete]; exact forbiddenAt_ite _ _ _
  by_cases h5 : operation = OperationRotateServiceAccountKeyStart
  · subst h5; rw [ctx_serviceAccountKeyStart]
    exact forbiddenAt_append _ _ _ (forbiddenAt_ite _ _ _) (forbiddenAt_ite _ _ _)
  by_cases h6 : operation = OperationRotateServiceAccountKeyComplete
  · subst h6; rw [ctx_serviceAccountKeyComplete]; exact forbiddenAt_ite _ _ _
  by_cases h7 : operation = OperationRotateETCDEncryptionKeyStart
  · subst h7; rw [ctx_etcdEncryptionKeyStart]
    exact forbiddenAt_append _ _ _ (forbiddenAt_ite _ _ _) (forbiddenAt_ite _ _ _)
  by_cases h8 : operation = OperationRotateETCDEncryptionKeyComplete
  · subst h8; rw [ctx_etcdEncryptionKeyComplete]; exact forbiddenAt_ite _ _ _
  rw [ctx_other operation shoot p h1 h2 h3 h4 h5 h6 h7 h8]
  intro e he
  simp at he

/-- C3: for each single-kind start operation (rotate-ca-start,
rotate-serviceaccount-key-start, rotate-etcd-encryption-key-start),
`validateShootOperationContext` returns no error if and only if the last operation is a
succeeded Create or Restore or is of type Reconcile, and the rotation phase of that
credential kind is empty or `Completed`; a shoot without last operation is rejected. -/
theorem rotation_start_accepted_iff (shoot : Shoot) (fldPath : Path) :
    (validateShootOperationContext OperationRotateCAStart shoot fldPath = [] ↔
      RotationStartLegal shoot.Status.LastOperation
        (GetShootCARotationPhase shoot.Status.Credentials)) ∧
    (validateShootOperationContext OperationRotateServiceAccountKeyStart shoot fldPath = [] ↔
      RotationStartLegal shoot.Status.LastOperation
        (GetShootServiceAccountKeyRotationPhase shoot.Status.Credentials)) ∧
    (validateShootOperationContext OperationRotateETCDEncryptionKeyStart shoot fldPath = [] ↔
      RotationStartLegal shoot.Status.LastOperation
        (GetShootETCDEncryptionKeyRotationPhase shoot.Status.Credentials)) ∧
    (shoot.Status.LastOperation = none →
      validateShootOperationContext OperationRotateCAStart shoot fldPath ≠ [] ∧
      validateShootOperationContext OperationRotateServiceAccountKeyStart shoot fldPath ≠ [] ∧
      validateShootOperationContext OperationRotateETCDEncryptionKeyStart shoot fldPath ≠ []) := by
  rw [ctx_caStart, ctx_serviceAccountKeyStart, ctx_etcdEncryptionKeyStart]
  simp only [start_pair_nil_iff, RotationStartLegal, isShootReadyForRotationStart_iff,
    phaseBlocksStart_eq_false, ne_eq, true_and]
  intro h
  simp [h]

/-- Witness of C3 at a shoot that has no last operation. -/
theorem rotation_start_accepted_iff_witness :
    validateShootOperationContext OperationRotateCAStart {} annotationsPath ≠ [] ∧
    validateShootOperationContext OperationRotateServiceAccountKeyStart {} annotationsPath ≠ [] ∧
    validateShootOperationContext OperationRotateETCDEncryptionKeyStart {} annotationsPath ≠ [] :=
  (rotation_start_accepted_iff {} annotationsPath).2.2.2 rfl

theorem complete_single_nil_iff (phase : CredentialsRotationPhase) (e : Error) :
    ((if phase ≠ RotationPrepared then [e] else []) = ([] : ErrorList)) ↔
      phase = RotationPrepared := by
  by_cases h : phase = RotationPrepared <;> simp [h]

/-- C4: for each single-kind complete operation (rotate-ca-complete,
rotate-serviceaccount-key-complete, rotate-etcd-encryption-key-complete),
`validateShootOperationContext` returns no error if and only if the rotation phase of that
credential kind is exactly `Prepared`; an unset phase, `Preparing`, `Completing` and
`Completed` are rejected, every error is a `Forbidden` error at the given path, and the
result depends on the credentials status only, not on the last operation. -/
theorem rotation_complete_accepted_iff (shoot : Shoot) (fldPath : Path) :
    (validateShootOperationContext OperationRotateCAComplete shoot fldPath = [] ↔
      GetShootCARotationPhase shoot.Status.Credentials = RotationPrepared) ∧
    (validateShootOperationContext OperationRotateServiceAccountKeyComplete shoot fldPath = [] ↔
      GetShootServiceAccountKeyRotationPhase shoot.Status.Credentials = RotationPrepared) ∧
    (validateShootOperationContext OperationRotateETCDEncryptionKeyComplete shoot fldPath = [] ↔
      GetShootETCDEncryptionKeyRotationPhase shoot.Status.Credentials = RotationPrepared) ∧
    (∀ ph ∈ ["", RotationPreparing, RotationCompleting, RotationCompleted],
      (GetShootCARotationPhase shoot.Status.Credentials = ph →
        validateShootOperationContext OperationRotateCAComplete shoot fldPath ≠ []) ∧
      (GetShootServiceAccountKeyRotationPhase shoot.Status.Credentials = ph →
        validateShootOperationContext OperationRotateServiceAccountKeyComplete shoot fldPath
          ≠ []) ∧
      (GetShootETCDEncryptionKeyRotationPhase shoot.Status.Credentials = ph →
        validateShootOperationContext OperationRotateETCDEncryptionKeyComplete shoot fldPath
          ≠ [])) ∧
    (∀ op ∈ [OperationRotateCAComplete, OperationRotateServiceAccountKeyComplete,
        OperationRotateETCDEncryptionKeyComplete],
      (∀ e ∈ validateShootOperationContext op shoot fldPath,
        e.Type_ = ErrorType.Forbidden ∧ e.Field = fldPath) ∧
      (∀ other : Shoot, other.Status.Credentials = shoot.Status.Credentials →
        validateShootOperationContext op other fldPath =
          validateShootOperationContext op shoot fldPath)) := by
  refine ⟨?_, ?_, ?_, ?_, ?_⟩
  · rw [ctx_caComplete]; exact complete_single_nil_iff _ _
  · rw [ctx_serviceAccountKeyComplete]; exact complete_single_nil_iff _ _
  · rw [ctx_etcdEncryptionKeyComplete]; exact complete_single_nil_iff _ _
  · intro ph hph
    have hne : ph ≠ RotationPrepared := by
      simp only [List.mem_cons, List.mem_singleton, List.not_mem_nil, or_false] at hph
      rcases hph with h | h | h | h <;> subst h <;> decide
    refine ⟨?_, ?_, ?_⟩
    · intro h; rw [ctx_caComplete, ne_eq, complete_single_nil_iff, h]; exact hne
    · intro h; rw [ctx_serviceAccountKeyComplete, ne_eq, complete_single_nil_iff, h]; exact hne
    · intro h; rw [ctx_etcdEncryptionKeyComplete, ne_eq, complete_single_nil_iff, h]; exact hne
  · intro op hop
    refine ⟨validateShootOperationContext_errors op shoot fldPath, ?_⟩
    intro other hother
    simp only [List.mem_cons, List.mem_singleton, List.not_mem_nil, or_false] at hop
    rcases hop with h | h | h <;> subst h
    · rw [ctx_caComplete, ctx_caComplete, hother]
    · rw [ctx_serviceAccountKeyComplete, ctx_serviceAccountKeyComplete, hother]
    · rw [ctx_etcdEncryptionKeyComplete, ctx_etcdEncryptionKeyComplete, hother]

/-- Witness of C4: the shoot without credentials status (phase unset) is rejected for
rotate-ca-complete, and its last operation does not matter. -/
theorem rotation_complete_accepted_iff_witness :
    validateShootOperationContext OperationRotateCAComplete {} annotationsPath ≠ [] ∧
    validateShootOperationContext OperationRotateCAComplete reconcileFailedShoot annotationsPath =
      validateShootOperationContext OperationRotateCAComplete {} annotationsPath :=
  ⟨((rotation_complete_accepted_iff {} annotationsPath).2.2.2.1 "" (by simp)).1 rfl,
   ((rotation_complete_accepted_iff {} annotationsPath).2.2.2.2 OperationRotateCAComplete
      (by simp)).2 reconcileFailedShoot rfl⟩

/-- C5, counterexample: with a failed Reconcile as last operation and the CA phase unset,
rotate-ca-start is accepted although the last operation did not succeed. -/
theorem rotate_ca_start_requires_success_counterexample :
    validateShootOperationContext OperationRotateCAStart reconcileFailedShoot annotationsPath
      = [] ∧
    ¬ RotationStartLegalIfSucceeded reconcileFailedShoot.Status.LastOperation
        (GetShootCARotationPhase reconcileFailedShoot.Status.Credentials) ∧
    ¬ (∀ (shoot : Shoot) (op : LastOperation), shoot.Status.LastOperation = some op →
        op.State ≠ LastOperationStateSucceeded →
        ∃ e ∈ validateShootOperationContext OperationRotateCAStart shoot annotationsPath,
          e.Type_ = ErrorType.Forbidden) := by
  refine ⟨by decide, ?_, ?_⟩
  · rintro ⟨_, op, hop, _, hs⟩
    have : op = { Type_ := "Reconcile", State := "Failed" } := by
      simp [reconcileFailedShoot] at hop; exact hop.symm
    subst this
    exact absurd hs (by decide)
  · intro h
    obtain ⟨e, he, _⟩ := h reconcileFailedShoot { Type_ := "Reconcile", State := "Failed" } rfl
      (by decide)
    have hnil : validateShootOperationContext OperationRotateCAStart reconcileFailedShoot
        annotationsPath = [] := by decide
    rw [hnil] at he
    simp at he

/-- C5, amended: rotate-ca-start is accepted if and only if the CA rotation phase is empty
or `Completed` and the last operation is a Create or Restore in state `Succeeded` or is of
type Reconcile (in any state); a shoot whose last operation is neither in state
`Succeeded` nor of type Reconcile is rejected with a `Forbidden` error. -/
theorem rotate_ca_start_accepted_iff (shoot : Shoot) (fldPath : Path) :
    (validateShootOperationContext OperationRotateCAStart shoot fldPath = [] ↔
      (GetShootCARotationPhase shoot.Status.Credentials = "" ∨
        GetShootCARotationPhase shoot.Status.Credentials = RotationCompleted) ∧
      ∃ op, shoot.Status.LastOperation = some op ∧
        (((op.Type_ = LastOperationTypeCreate ∨ op.Type_ = LastOperationTypeRestore) ∧
            op.State = LastOperationStateSucceeded) ∨
          op.Type_ = LastOperationTypeReconcile)) ∧
    (∀ op, shoot.Status.LastOperation = some op →
      op.State ≠ LastOperationStateSucceeded → op.Type_ ≠ LastOperationTypeReconcile →
      Forbidden fldPath "cannot start CA rotation if shoot was not yet created successfully or is not ready for reconciliation"
        ∈ validateShootOperationContext OperationRotateCAStart shoot fldPath) := by
  rw [ctx_caStart]
  refine ⟨?_, ?_⟩
  · simp only [start_pair_nil_iff, isShootReadyForRotationStart_iff, phaseBlocksStart_eq_false]
    exact and_comm
  · intro op hop hs hr
    have hnr : isShootReadyForRotationStart shoot.Status.LastOperation = false := by
      rw [Bool.eq_false_iff, ne_eq, isShootReadyForRotationStart_iff]
      rintro ⟨op2, hop2, h⟩
      rw [hop] at hop2
      cases hop2
      rcases h with ⟨_, h⟩ | h
      · exact hs h
      · exact hr h
    simp [hnr]

/-- Witness of the amended C5: a shoot whose last operation is a failed Create is rejected
with the readiness error. -/
theorem rotate_ca_start_accepted_iff_witness :
    Forbidden annotationsPath "cannot start CA rotation if shoot was not yet created successfully or is not ready for reconciliation"
      ∈ validateShootOperationContext OperationRotateCAStart
          { Status := { LastOperation := some { Type_ := "Create", State := "Failed" } } }
          annotationsPath :=
  (rotate_ca_start_accepted_iff
    { Status := { LastOperation := some { Type_ := "Create", State := "Failed" } } }
    annotationsPath).2 { Type_ := "Create", State := "Failed" } rfl (by decide) (by decide)

/-- C6: the compound rotate-credentials-start is accepted if and only if all three
single-kind start operations are accepted, and rotate-credentials-complete if and only if
all three single-kind complete operations are accepted. -/
theorem rotate_credentials_iff_all_three (shoot : Shoot) (fldPath : Path) :
    (validateShootOperationContext OperationRotateCredentialsStart shoot fldPath = [] ↔
      validateShootOperationContext OperationRotateCAStart shoot fldPath = [] ∧
      validateShootOperationContext OperationRotateServiceAccountKeyStart shoot fldPath = [] ∧
      validateShootOperationContext OperationRotateETCDEncryptionKeyStart shoot fldPath = []) ∧
    (validateShootOperationContext OperationRotateCredentialsComplete shoot fldPath = [] ↔
      validateShootOperationContext OperationRotateCAComplete shoot fldPath = [] ∧
      validateShootOperationContext OperationRotateServiceAccountKeyComplete shoot fldPath = [] ∧
      validateShootOperationContext OperationRotateETCDEncryptionKeyComplete shoot fldPath
        = []) := by
  rw [ctx_credentialsStart, ctx_credentialsComplete, ctx_caStart, ctx_caComplete,
    ctx_serviceAccountKeyStart, ctx_serviceAccountKeyComplete, ctx_etcdEncryptionKeyStart,
    ctx_etcdEncryptionKeyComplete]
  constructor
  · cases isShootReadyForRotationStart shoot.Status.LastOperation <;>
    cases phaseBlocksStart (GetShootCARotationPhase shoot.Status.Credentials) <;>
    cases phaseBlocksStart (GetShootServiceAccountKeyRotationPhase shoot.Status.Credentials) <;>
    cases phaseBlocksStart (GetShootETCDEncryptionKeyRotationPhase shoot.Status.Credentials) <;>
    simp
  · by_cases h1 : GetShootCARotationPhase shoot.Status.Credentials = RotationPrepared <;>
    by_cases h2 : GetShootServiceAccountKeyRotationPhase shoot.Status.Credentials
      = RotationPrepared <;>
    by_cases h3 : GetShootETCDEncryptionKeyRotationPhase shoot.Status.Credentials
      = RotationPrepared <;>
    simp [h1, h2, h3]

theorem path_append_singleton_ne (p : Path) (e : PathElem) : p ++ [e] ≠ p := by
  intro h
  have := congrArg List.length h
  simp at this

/-- C7, counterexample: on a hibernated shoot (enabled flag and observed status both true)
the rotation operations rotate-ca-start and rotate-ca-complete are not rejected for
hibernation; rotate-ca-start yields no error at all, as operation and as maintenance
operation. -/
theorem rotation_forbidden_when_hibernated_counterexample :
    OperationRotateCAStart ∈ rotationOperations ∧
    specCollaborators.HibernationIsEnabled hibernatedShoot = true ∧
    isShootInHibernation hibernatedShoot = true ∧
    validateShootOperation specCollaborators OperationRotateCAStart "" hibernatedShoot
      annotationsPath = [] ∧
    validateShootOperation specCollaborators "" OperationRotateCAStart hibernatedShoot
      annotationsPath = [] := by
  decide

/-- C7, amended: for every shoot that `helper.HibernationIsEnabled` reports as hibernated
and every operation in `forbiddenShootOperationsWhenHibernated` (rotate-credentials-start
and -complete, rotate-serviceaccount-key-start and -complete,
rotate-etcd-encryption-key-start and -complete), `validateShootOperation` returns the
`Forbidden` error "operation is not permitted when shoot is hibernated" at the path of the
annotation that carries it, the operation or the maintenance-operation annotation. -/
theorem rotation_forbidden_when_hibernated (X : Collaborators) (shoot : Shoot)
    (fldPath : Path) (op other : String)
    (hhib : X.HibernationIsEnabled shoot = true)
    (hop : op ∈ forbiddenShootOperationsWhenHibernated) :
    Forbidden (fldPath.Key GardenerOperation) "operation is not permitted when shoot is hibernated"
      ∈ validateShootOperation X op other shoot fldPath ∧
    Forbidden (fldPath.Key GardenerMaintenanceOperation)
        "operation is not permitted when shoot is hibernated"
      ∈ validateShootOperation X other op shoot fldPath := by
  have hne : op ≠ "" := by
    rintro rfl
    exact absurd hop (by decide)
  constructor
  · unfold validateShootOperation
    simp [hne, hhib, hop]
  · unfold validateShootOperation
    simp [hne, hhib, hop]

/-- Witness of the amended C7 at rotate-etcd-encryption-key-start on the hibernated
shoot. -/
theorem rotation_forbidden_when_hibernated_witness :
    Forbidden (annotationsPath.Key GardenerOperation)
        "operation is not permitted when shoot is hibernated"
      ∈ validateShootOperation specCollaborators OperationRotateETCDEncryptionKeyStart ""
          hibernatedShoot annotationsPath ∧
    Forbidden (annotationsPath.Key GardenerMaintenanceOperation)
        "operation is not permitted when shoot is hibernated"
      ∈ validateShootOperation specCollaborators "" OperationRotateETCDEncryptionKeyStart
          hibernatedShoot annotationsPath :=
  rotation_forbidden_when_hibernated specCollaborators hibernatedShoot annotationsPath
    OperationRotateETCDEncryptionKeyStart "" (by decide) (by decide)

/-- C8: the result of `validateShootOperation` contains the `Forbidden` error
"annotations ... must not be equal" at the annotations path if and only if the operation
and maintenance-operation values are equal and non-empty; no other error is located at
that path; when both values are empty the result is the empty list. -/
theorem operation_annotations_equal_iff (X : Collaborators) (operation maintenanceOperation : String)
    (shoot : Shoot) (fldPath : Path) :
    (Forbidden fldPath ("annotations " ++ (fldPath.Key GardenerOperation).String ++ " and "
        ++ (fldPath.Key GardenerMaintenanceOperation).String ++ " must not be equal")
      ∈ validateShootOperation X operation maintenanceOperation shoot fldPath ↔
      (operation = maintenanceOperation ∧ operation ≠ "")) ∧
    ((∃ e ∈ validateShootOperation X operation maintenanceOperation shoot fldPath,
        e.Field = fldPath) ↔
      (operation = maintenanceOperation ∧ operation ≠ "")) ∧
    (operation = "" ∧ maintenanceOperation = "" →
      validateShootOperation X operation maintenanceOperation shoot fldPath = []) := by
  have hctx : ∀ (op : String) (k : String) (e : Error),
      e ∈ validateShootOperationContext op shoot (fldPath.Key k) → e.Field ≠ fldPath := by
    intro op k e he
    rw [(validateShootOperationContext_errors op shoot _ e he).2]
    exact path_append_singleton_ne _ _
  have hother : ∀ e ∈ validateShootOperation X operation maintenanceOperation shoot fldPath,
      e.Field = fldPath → operation = maintenanceOperation ∧ operation ≠ "" := by
    intro e he hf
    unfold validateShootOperation at he
    by_cases hboth : operation = "" ∧ maintenanceOperation = ""
    · simp [hboth] at he
    · simp only [hboth, if_false, List.nil_append, List.mem_append] at he
      have hkey : ∀ k, (fldPath.Key k) ≠ fldPath := fun k => path_append_singleton_ne _ _
      rcases he with (((he | he) | he) | he) | he
      · split_ifs at he with heq
        · refine ⟨heq, ?_⟩
          intro h0
          exact hboth ⟨h0, heq ▸ h0⟩
        · simp at he
      · split_ifs at he <;>
          simp only [List.mem_append, List.mem_singleton, List.not_mem_nil, List.append_nil,
            List.nil_append, or_false, false_or] at he
        all_goals first
          | (rcases he with he | he <;> subst he <;> exact absurd hf (hkey _))
          | (subst he; exact absurd hf (hkey _))
      · split_ifs at he <;>
          simp only [List.mem_append, List.mem_singleton, List.not_mem_nil, List.append_nil,
            List.nil_append, or_false, false_or] at he
        all_goals first
          | (rcases he with he | he <;> subst he <;> exact absurd hf (hkey _))
          | (subst he; exact absurd hf (hkey _))
      · exact absurd hf (hctx _ _ e he)
      · exact absurd hf (hctx _ _ e he)
  have hmem : operation = maintenanceOperation ∧ operation ≠ "" →
      Forbidden fldPath ("annotations " ++ (fldPath.Key GardenerOperation).String ++ " and "
        ++ (fldPath.Key GardenerMaintenanceOperation).String ++ " must not be equal")
      ∈ validateShootOperation X operation maintenanceOperation shoot fldPath := by
    rintro ⟨heq, hne⟩
    unfold validateShootOperation
    have hboth : ¬ (operation = "" ∧ maintenanceOperation = "") := fun h => hne h.1
    rw [if_neg hboth]
    simp only [heq, if_true, List.nil_append, List.mem_append, List.mem_singleton, true_or]
  refine ⟨⟨fun h => hother _ h rfl, hmem⟩, ⟨?_, fun h => ⟨_, hmem h, rfl⟩⟩, ?_⟩
  · rintro ⟨e, he, hf⟩
    exact hother e he hf
  · intro h
    unfold validateShootOperation
    simp [h]

/-- Witness of C8: with both annotations empty the result is empty. -/
theorem operation_annotations_equal_iff_witness :
    validateShootOperation specCollaborators "" "" hibernatedShoot annotationsPath = [] :=
  (operation_annotations_equal_iff specCollaborators "" "" hibernatedShoot annotationsPath).2.2
    ⟨rfl, rfl⟩

/-! ## Locality of the validators: errors lie at or below the path handed in -/

theorem ErrorsUnder.nil (p : Path) : ErrorsUnder p [] := by
  intro e he; simp at he

theorem ErrorsUnder.append {p : Path} {l1 l2 : ErrorList} (h1 : ErrorsUnder p l1)
    (h2 : ErrorsUnder p l2) : ErrorsUnder p (l1 ++ l2) := by
  intro e he
  rcases List.mem_append.1 he with h | h
  · exact h1 e h
  · exact h2 e h

theorem ErrorsUnder.mono {p q : Path} {l : ErrorList} (hpq : q <+: p) (h : ErrorsUnder p l) :
    ErrorsUnder q l :=
  fun e he => List.IsPrefix.trans hpq (h e he)

theorem ErrorsUnder.single {p : Path} {e : Error} (h : p <+: e.Field) : ErrorsUnder p [e] := by
  intro x hx
  simp only [List.mem_singleton] at hx
  subst hx; exact h

theorem ErrorsUnder.ite {p : Path} (c : Prop) [Decidable c] {l1 l2 : ErrorList}
    (h1 : ErrorsUnder p l1) (h2 : ErrorsUnder p l2) : ErrorsUnder p (if c then l1 else l2) := by
  split_ifs
  · exact h1
  · exact h2

theorem ErrorsUnder.map {p : Path} {α : Type} (f : α → Error) (l : List α)
    (h : ∀ a, p <+: (f a).Field) : ErrorsUnder p (l.map f) := by
  intro e he
  obtain ⟨a, _, rfl⟩ := List.mem_map.1 he
  exact h a

theorem prefix_child (p : Path) (a : String) : p <+: p.Child a := List.prefix_append _ _

theorem prefix_index (p : Path) (i : Nat) : p <+: p.Index i := List.prefix_append _ _

theorem prefix_child2 (p : Path) (a b : String) : p <+: (p.Child a).Child b :=
  (prefix_child p a).trans (prefix_child _ b)

theorem prefix_child3 (p : Path) (a b c : String) : p <+: ((p.Child a).Child b).Child c :=
  (prefix_child2 p a b).trans (prefix_child _ c)

theorem ValidateNonnegativeField_under (v : Int) (p : Path) :
    ErrorsUnder p (ValidateNonnegativeField v p) := by
  unfold ValidateNonnegativeField
  exact ErrorsUnder.ite _ (ErrorsUnder.single (List.prefix_refl _)) (ErrorsUnder.nil _)

theorem validateExtensionsFrom_under (p : Path) (l : List Extension) (i : Nat) :
    ErrorsUnder p (validateExtensionsFrom p l i) := by
  induction l generalizing i with
  | nil => exact ErrorsUnder.nil _
  | cons x xs ih =>
    unfold validateExtensionsFrom
    exact ErrorsUnder.append
      (ErrorsUnder.ite _ (ErrorsUnder.single ((prefix_index p i).trans (prefix_child _ _)))
        (ErrorsUnder.nil _))
      (ih _)

@[simp] theorem errorsUnder_nil (p : Path) : ErrorsUnder p [] ↔ True := by
  simp [ErrorsUnder]

@[simp] theorem errorsUnder_append (p : Path) (l1 l2 : ErrorList) :
    ErrorsUnder p (l1 ++ l2) ↔ ErrorsUnder p l1 ∧ ErrorsUnder p l2 := by
  simp only [ErrorsUnder, List.mem_append]
  constructor
  · intro h; exact ⟨fun e he => h e (Or.inl he), fun e he => h e (Or.inr he)⟩
  · rintro ⟨h1, h2⟩ e (he | he)
    · exact h1 e he
    · exact h2 e he

@[simp] theorem errorsUnder_cons (p : Path) (e : Error) (l : ErrorList) :
    ErrorsUnder p (e :: l) ↔ p <+: e.Field ∧ ErrorsUnder p l := by
  simp [ErrorsUnder]

theorem validateSigningAlgsFrom_under (p : Path) (l : List String) (i : Nat) :
    ErrorsUnder p (validateSigningAlgsFrom p l i) := by
  induction l generalizing i with
  | nil => simp [validateSigningAlgsFrom]
  | cons x xs ih =>
    unfold validateSigningAlgsFrom
    simp only [errorsUnder_append]
    refine ⟨?_, ih _⟩
    split <;> simp [NotSupported, Path.Child, Path.Index]

theorem validateOIDCConfig_under (X : Collaborators) (oidc : OIDCConfig) (p : Path) :
    ErrorsUnder p (validateOIDCConfig X oidc p) := by
  unfold validateOIDCConfig
  simp only [errorsUnder_append]
  repeat' apply And.intro
  all_goals repeat' split
  all_goals first
    | exact validateSigningAlgsFrom_under _ _ _
    | simp [Invalid, Path.Child]

theorem validateWatchCacheResourcesFrom_under (p : Path) (l : List ResourceWatchCacheSize)
    (i : Nat) : ErrorsUnder p (validateWatchCacheResourcesFrom p l i) := by
  induction l generalizing i with
  | nil => simp [validateWatchCacheResourcesFrom]
  | cons x xs ih =>
    unfold validateWatchCacheResourcesFrom
    simp only [errorsUnder_append]
    refine ⟨⟨?_, ?_⟩, ih _⟩
    · split <;> simp [Required, Path.Child, Path.Index]
    · exact (ValidateNonnegativeField_under _ _).mono (by simp [Path.Child, Path.Index])

theorem ValidateWatchCacheSizes_under (sizes : Option WatchCacheSizes) (p : Path) :
    ErrorsUnder p (ValidateWatchCacheSizes sizes p) := by
  unfold ValidateWatchCacheSizes
  repeat' split
  all_goals simp only [errorsUnder_append, errorsUnder_nil, true_and, and_true]
  all_goals first
    | exact validateWatchCacheResourcesFrom_under _ _ _
    | exact ⟨(ValidateNonnegativeField_under _ _).mono (prefix_child _ _),
        validateWatchCacheResourcesFrom_under _ _ _⟩

theorem ValidateKubeAPIServerLogging_under (c : Option KubeAPIServerLogging) (p : Path) :
    ErrorsUnder p (ValidateKubeAPIServerLogging c p) := by
  unfold ValidateKubeAPIServerLogging
  split
  · simp only [errorsUnder_append]
    constructor <;> split <;>
      first
        | exact (ValidateNonnegativeField_under _ _).mono (prefix_child _ _)
        | simp
  · simp

theorem validateKubeAPIServerRequests_under (r : KubeAPIServerRequests) (p : Path) :
    ErrorsUnder p (validateKubeAPIServerRequests r p) := by
  unfold validateKubeAPIServerRequests
  simp only [errorsUnder_append]
  constructor <;> split <;> simp only [errorsUnder_append, errorsUnder_nil]
  all_goals first
    | trivial
    | (refine ⟨(ValidateNonnegativeField_under _ _).mono (prefix_child2 _ _ _), ?_⟩
       split <;> simp [Invalid, Path.Child])

theorem validateServiceAccountConfig_under (sa : ServiceAccountConfig) (v : String) (p : Path) :
    ErrorsUnder p (validateServiceAccountConfig sa v p) := by
  unfold validateServiceAccountConfig
  simp only [errorsUnder_append]
  repeat' apply And.intro
  all_goals repeat' split
  all_goals simp [Invalid, Forbidden, Path.Child]

theorem ValidateKubeAPIServer_under (X : Collaborators) (hX : X.Local)
    (c : Option KubeAPIServerConfig) (v : String) (k : Bool) (p : Path) :
    ErrorsUnder p (ValidateKubeAPIServer X c v k p) := by
  unfold ValidateKubeAPIServer
  split
  · simp
  · simp only [errorsUnder_append]
    repeat' apply And.intro
    all_goals repeat' split
    all_goals first
      | exact (validateOIDCConfig_under _ _ _).mono (prefix_child _ _)
      | exact (hX.ValidateAdmissionPlugins _ _ _ _).mono (prefix_child _ _)
      | exact (hX.validateAuditPolicyConfigMapReference _ _).mono (prefix_child3 _ _ _ _)
      | exact (ValidateWatchCacheSizes_under _ _).mono (prefix_child _ _)
      | exact (ValidateKubeAPIServerLogging_under _ _).mono (prefix_child _ _)
      | exact (ValidateNonnegativeField_under _ _).mono (prefix_child _ _)
      | exact validateKubeAPIServerRequests_under _ _
      | exact validateServiceAccountConfig_under _ _ _
      | exact (hX.ValidateFeatureGates _ _ _).mono (prefix_child _ _)
      | simp [Invalid, Path.Child]

theorem ValidateKubeControllerManager_under (X : Collaborators) (hX : X.Local)
    (c : Option KubeControllerManagerConfig) (n : Option Networking) (v : String) (w : Bool)
    (p : Path) : ErrorsUnder p (ValidateKubeControllerManager X c n v w p) := by
  unfold ValidateKubeControllerManager
  split
  · simp
  · simp only [errorsUnder_append]
    refine ⟨?_, (hX.ValidateFeatureGates _ _ _).mono (prefix_child _ _)⟩
    split
    · simp only [errorsUnder_append]
      repeat' apply And.intro
      all_goals repeat' split
      all_goals simp [Invalid, Path.Child]
    · simp only [errorsUnder_append]
      repeat' apply And.intro
      all_goals repeat' split
      all_goals simp [Forbidden, Path.Child]

theorem validateKubernetesForWorkerlessShoot_under (k : Kubernetes) (p : Path) :
    ErrorsUnder p (validateKubernetesForWorkerlessShoot k p) := by
  unfold validateKubernetesForWorkerlessShoot
  simp only [errorsUnder_append]
  repeat' apply And.intro
  all_goals split
  all_goals simp [Forbidden, Path.Child]

theorem validateKubernetes_workerless_under (X : Collaborators) (hX : X.Local)
    (W : WorkerValidators) (k : Kubernetes) (n : Option Networking) (d : Bool) (p : Path) :
    ErrorsUnder p (validateKubernetes X W k n d true p) := by
  unfold validateKubernetes
  split
  · simp [Required, Path.Child]
  · simp only [if_true, errorsUnder_append, List.nil_append]
    refine ⟨⟨⟨?_, ?_⟩, ?_⟩, ?_⟩
    · split <;> simp [Invalid, Path.Child]
    · exact (ValidateKubeAPIServer_under X hX _ _ _ _).mono (prefix_child _ _)
    · exact (ValidateKubeControllerManager_under X hX _ _ _ _ _).mono (prefix_child _ _)
    · exact validateKubernetesForWorkerlessShoot_under _ _

theorem validateAddons_under (a : Option Addons) (k : Kubernetes) (pu : Option String)
    (w : Bool) (p : Path) : ErrorsUnder p (validateAddons a k pu w p) := by
  unfold validateAddons
  split
  · simp [Forbidden]
  · simp only [errorsUnder_append, List.nil_append]
    repeat' apply And.intro
    all_goals repeat' split
    all_goals simp [Forbidden, NotSupported, Path.Child]

theorem validateDNSProviderRest_under (p : Path) (d : DNSProvider) (allErrs : ErrorList)
    (names : List String) (f : Bool) (h : ErrorsUnder p allErrs) :
    ErrorsUnder p (validateDNSProviderRest p d allErrs names f).1 := by
  unfold validateDNSProviderRest
  repeat' split
  all_goals simp [Invalid, Forbidden, Required, Path.Child, h]

theorem validateDNSProvider_under (X : Collaborators) (p : Path) (d : DNSProvider)
    (names : List String) (f : Bool) : ErrorsUnder p (validateDNSProvider X p d names f).1 := by
  unfold validateDNSProvider
  split
  · split
    · simp [Invalid]
    · exact validateDNSProviderRest_under _ _ _ _ _
        (ErrorsUnder.map _ _ (fun _ => List.prefix_refl _))
  · exact validateDNSProviderRest_under _ _ _ _ _ (ErrorsUnder.nil _)

theorem validateDNSProviders_under (X : Collaborators) (p : Path) (l : List DNSProvider)
    (i : Nat) (names : List String) (f : Bool) :
    ErrorsUnder p (validateDNSProviders X p l i names f) := by
  induction l generalizing i names f with
  | nil => simp [validateDNSProviders]
  | cons x xs ih =>
    unfold validateDNSProviders
    simp only [errorsUnder_append]
    exact ⟨(validateDNSProvider_under X _ _ _ _).mono
      ((prefix_child _ _).trans (prefix_index _ _)), ih _ _ _⟩

theorem validateDNS_under (X : Collaborators) (hX : X.Local) (dns : Option DNS) (p : Path) :
    ErrorsUnder p (validateDNS X dns p) := by
  unfold validateDNS
  split
  · simp
  · simp only [errorsUnder_append, List.nil_append]
    refine ⟨⟨?_, ?_⟩, validateDNSProviders_under _ _ _ _ _ _⟩
    · split
      · exact (hX.ValidateDNS1123Subdomain _ _).mono (prefix_child _ _)
      · simp
    · repeat' split
      all_goals simp [Required, Path.Child]

theorem validateExtensions_under (l : List Extension) (p : Path) :
    ErrorsUnder p (validateExtensions l p) :=
  validateExtensionsFrom_under p l 0

theorem validateResourcesFrom_under (X : Collaborators) (hX : X.Local) (p : Path)
    (l : List NamedResourceReference) (i : Nat) (names : List String) :
    ErrorsUnder p (validateResourcesFrom X p l i names) := by
  induction l generalizing i names with
  | nil => simp [validateResourcesFrom]
  | cons x xs ih =>
    unfold validateResourcesFrom
    simp only [errorsUnder_append]
    refine ⟨⟨?_, ?_⟩, ih _ _⟩
    · repeat' split
      all_goals simp [Required, Duplicate, Path.Child, Path.Index]
    · exact (hX.validateCrossVersionObjectReference _ _).mono
        ((prefix_index _ _).trans (prefix_child _ _))

theorem validateResources_under (X : Collaborators) (hX : X.Local)
    (l : List NamedResourceReference) (p : Path) : ErrorsUnder p (validateResources X l p) :=
  validateResourcesFrom_under X hX p l 0 []

theorem validateNetworkingCIDR_under (X : Collaborators) (hX : X.Local) (v : String) (p : Path)
    (f : IPFamily) : ErrorsUnder p (validateNetworkingCIDR X v p f) := by
  unfold validateNetworkingCIDR
  simp only [errorsUnder_append]
  exact ⟨⟨hX.cidrValidateParse _ _, hX.cidrValidateIPFamily _ _ _⟩,
    hX.ValidateCIDRIsCanonical _ _⟩

theorem validateNetworkingFamilies_under (X : Collaborators) (hX : X.Local) (n : Networking)
    (allErrs : ErrorList) (p : Path) (h : ErrorsUnder p allErrs) :
    ErrorsUnder p (validateNetworkingFamilies X n allErrs p) := by
  unfold validateNetworkingFamilies
  by_cases hc : (X.ValidateIPFamilies n.IPFamilies (p.Child "ipFamilies")).length > 0
  · simp only [hc, if_true, errorsUnder_append]
    exact ⟨h, (hX.ValidateIPFamilies _ _).mono (prefix_child _ _)⟩
  · simp only [hc, if_false, errorsUnder_append]
    refine ⟨⟨⟨h, ?_⟩, ?_⟩, ?_⟩
    all_goals split
    all_goals first
      | exact (validateNetworkingCIDR_under X hX _ _ _).mono (prefix_child _ _)
      | simp

theorem validateNetworking_under (X : Collaborators) (hX : X.Local) (n : Option Networking)
    (w : Bool) (p : Path) : ErrorsUnder p (validateNetworking X n w p) := by
  unfold validateNetworking
  split
  · split
    · simp
    · apply validateNetworkingFamilies_under X hX
      simp only [errorsUnder_append, List.nil_append]
      repeat' apply And.intro
      all_goals split
      all_goals simp [Forbidden, Path.Child]
  · split
    · simp [Required]
    · apply validateNetworkingFamilies_under X hX
      simp only [List.nil_append]
      split <;> simp [Required, Path.Child]

theorem validateMaintenance_under (X : Collaborators) (m : Option Maintenance) (p : Path)
    (w : Bool) : ErrorsUnder p (validateMaintenance X m p w) := by
  unfold validateMaintenance
  repeat' split
  all_goals simp [Forbidden, Invalid, Path.Child]

theorem validateAlertingFrom_under (X : Collaborators) (p : Path) (l : List String) (i : Nat)
    (emails : List String) : ErrorsUnder p (validateAlertingFrom X p l i emails) := by
  induction l generalizing i emails with
  | nil => simp [validateAlertingFrom]
  | cons x xs ih =>
    unfold validateAlertingFrom
    simp only [errorsUnder_append]
    refine ⟨⟨?_, ?_⟩, ih _ _⟩
    all_goals split
    all_goals simp [Invalid, Duplicate, Path.Child, Path.Index]

theorem validateMonitoring_under (X : Collaborators) (m : Option Monitoring) (p : Path) :
    ErrorsUnder p (validateMonitoring X m p) := by
  unfold validateMonitoring
  repeat' split
  all_goals first
    | exact (validateAlertingFrom_under X _ _ _ _).mono (prefix_child _ _)
    | simp

theorem ValidateHibernationCronSpec_under (X : Collaborators) (seen : List String)
    (spec : String) (p : Path) : ErrorsUnder p (ValidateHibernationCronSpec X seen spec p).1 := by
  unfold ValidateHibernationCronSpec
  repeat' split
  all_goals simp [Invalid, Duplicate]

theorem ValidateHibernationSchedule_under (X : Collaborators) (seen : List String)
    (s : HibernationSchedule) (p : Path) :
    ErrorsUnder p (ValidateHibernationSchedule X seen s p).1 := by
  unfold ValidateHibernationSchedule
  simp only [errorsUnder_append]
  refine ⟨⟨⟨?_, ?_⟩, ?_⟩, ?_⟩
  · split <;> simp [Required, Path.Child]
  · split
    · exact (ValidateHibernationCronSpec_under X _ _ _).mono (prefix_child _ _)
    · simp
  · split
    · exact (ValidateHibernationCronSpec_under X _ _ _).mono (prefix_child _ _)
    · simp
  · unfold ValidateHibernationScheduleLocation
    repeat' split
    all_goals simp [Invalid, Path.Child]

theorem validateHibernationSchedulesFrom_under (X : Collaborators) (p : Path)
    (l : List HibernationSchedule) (i : Nat) (seen : List String) :
    ErrorsUnder p (validateHibernationSchedulesFrom X p l i seen) := by
  induction l generalizing i seen with
  | nil => simp [validateHibernationSchedulesFrom]
  | cons x xs ih =>
    unfold validateHibernationSchedulesFrom
    simp only [errorsUnder_append]
    exact ⟨(ValidateHibernationSchedule_under X _ _ _).mono (prefix_index _ _), ih _ _⟩

theorem ValidateHibernation_under (X : Collaborators) (a : List (String × String))
    (h : Option Hibernation) (p : Path) : ErrorsUnder p (ValidateHibernation X a h p) := by
  unfold ValidateHibernation
  split
  · simp
  · simp only [errorsUnder_append]
    refine ⟨?_, (validateHibernationSchedulesFrom_under X _ _ _ _).mono (prefix_child _ _)⟩
    split <;> simp [Forbidden, Path.Child]

theorem ValidateSystemComponents_workerless_under (W : WorkerValidators)
    (s : Option SystemComponents) (p : Path) :
    ErrorsUnder p (ValidateSystemComponents W s p true) := by
  unfold ValidateSystemComponents
  split <;> simp [Forbidden]

/-! ## Errors at a given path -/

@[simp] theorem errorsAt_nil (p : Path) : errorsAt p [] = [] := rfl

@[simp] theorem errorsAt_append (p : Path) (l1 l2 : ErrorList) :
    errorsAt p (l1 ++ l2) = errorsAt p l1 ++ errorsAt p l2 := by
  simp [errorsAt]

theorem errorsAt_cons (p : Path) (e : Error) (l : ErrorList) :
    errorsAt p (e :: l) = (if e.Field = p then [e] else []) ++ errorsAt p l := by
  unfold errorsAt
  by_cases h : e.Field = p <;> simp [List.filter_cons, h]

theorem errorsAt_eq_nil_of_under {q p : Path} {l : ErrorList} (h : ErrorsUnder q l)
    (hq : ¬ q <+: p) : errorsAt p l = [] := by
  unfold errorsAt
  rw [List.filter_eq_nil_iff]
  intro e he heq
  simp only [decide_eq_true_eq] at heq
  exact hq (heq ▸ h e he)

theorem not_prefix_sibling (p : Path) (a b : String) (rest : Path) (h : a ≠ b) :
    ¬ (p.Child b <+: p ++ PathElem.name a :: rest) := by
  unfold Path.Child
  rw [List.prefix_append_right_inj]
  intro hp
  have := (List.cons_prefix_cons.1 hp).1
  simp only [PathElem.name.injEq] at this
  exact h this.symm

theorem errorsAt_nil_of_under_child (p : Path) (a b : String) (rest : Path) (l : ErrorList)
    (h : ErrorsUnder (p.Child b) l) (hab : a ≠ b) :
    errorsAt (p ++ PathElem.name a :: rest) l = [] :=
  errorsAt_eq_nil_of_under h (not_prefix_sibling p a b rest hab)

theorem ValidateNodeCIDRMaskWithMaxPod_field (maxPod size : Int) (n : Networking) :
    ∀ e ∈ ValidateNodeCIDRMaskWithMaxPod maxPod size n, e.Field = nodeCIDRMaskSizePath := by
  intro e he
  unfold ValidateNodeCIDRMaskWithMaxPod at he
  simp only [List.nil_append] at he
  split_ifs at he <;> simp [Invalid] at he <;> (subst he; rfl)

theorem errorsAt_ValidateNodeCIDRMaskWithMaxPod (p : Path) (hp : p ≠ nodeCIDRMaskSizePath)
    (maxPod size : Int) (n : Networking) :
    errorsAt p (ValidateNodeCIDRMaskWithMaxPod maxPod size n) = [] := by
  unfold errorsAt
  rw [List.filter_eq_nil_iff]
  intro e he heq
  simp only [decide_eq_true_eq] at heq
  exact hp (heq ▸ ValidateNodeCIDRMaskWithMaxPod_field _ _ _ e he)

theorem validateProvider_workerless_isSome (X : Collaborators) (provider : Provider)
    (k : Kubernetes) (n : Option Networking) (p : Path) (inTemplate : Bool) :
    ∃ errs, validateProvider X provider k n true p inTemplate = some errs := by
  unfold validateProvider
  simp only [if_true, List.nil_append]
  split
  · split
    · exact ⟨_, rfl⟩
    · exact ⟨_, rfl⟩
  · exact ⟨_, rfl⟩

theorem errorsAt_validateProvider_workerless (X : Collaborators) (provider : Provider)
    (k : Kubernetes) (n : Option Networking) (inTemplate : Bool) (p : Path) (a : String)
    (rest : Path) (ha : a ≠ "provider")
    (hp : p ++ PathElem.name a :: rest ≠ nodeCIDRMaskSizePath) (errs : ErrorList)
    (h : validateProvider X provider k n true (p.Child "provider") inTemplate = some errs) :
    errorsAt (p ++ PathElem.name a :: rest) errs = [] := by
  have hunder : ∀ l, ErrorsUnder (p.Child "provider") l →
      errorsAt (p ++ PathElem.name a :: rest) l = [] :=
    fun l h => errorsAt_nil_of_under_child p a "provider" rest l h ha
  have hmain : errorsAt (p ++ PathElem.name a :: rest)
      ((if provider.Type_.length = 0 then
          [Required ((p.Child "provider").Child "type") "must specify a provider type"]
        else []) ++
        (if provider.InfrastructureConfig.isSome then
          [Forbidden ((p.Child "provider").Child "infrastructureConfig") workerlessErrorMsg]
        else []) ++
        (if provider.ControlPlaneConfig.isSome then
          [Forbidden ((p.Child "provider").Child "controlPlaneConfig") workerlessErrorMsg]
        else []) ++
        (if provider.WorkersSettings.isSome then
          [Forbidden ((p.Child "provider").Child "workersSettings") workerlessErrorMsg]
        else [])) = [] := by
    apply hunder
    simp only [errorsUnder_append]
    repeat' apply And.intro
    all_goals split
    all_goals simp [Required, Forbidden, Path.Child]
  unfold validateProvider at h
  simp only [if_true, List.nil_append] at h
  split at h
  · split at h
    · simp only [Option.some.injEq] at h
      subst h
      rw [errorsAt_append, hmain, errorsAt_ValidateNodeCIDRMaskWithMaxPod _ hp]
      rfl
    · simp only [Option.some.injEq] at h
      subst h
      exact hmain
  · simp only [Option.some.injEq] at h
    subst h
    exact hmain

/-! ## Workerless shoots -/

theorem errorsAt_validateNetworkingFamilies (X : Collaborators) (hX : X.Local) (n : Networking)
    (allErrs : ErrorList) (p : Path) (a : String) (rest : Path)
    (ha : a ∉ ["ipFamilies", "nodes", "pods", "services"]) :
    errorsAt (p ++ PathElem.name a :: rest) (validateNetworkingFamilies X n allErrs p) =
      errorsAt (p ++ PathElem.name a :: rest) allErrs := by
  simp only [List.mem_cons, List.mem_singleton, List.not_mem_nil, or_false, not_or] at ha
  obtain ⟨h1, h2, h3, h4⟩ := ha
  have hcidr : ∀ (v : String) (b : String) (f : IPFamily), a ≠ b →
      errorsAt (p ++ PathElem.name a :: rest) (validateNetworkingCIDR X v (p.Child b) f) = [] :=
    fun v b f hab =>
      errorsAt_nil_of_under_child p a b rest _ (validateNetworkingCIDR_under X hX _ _ _) hab
  unfold validateNetworkingFamilies
  by_cases hc : (X.ValidateIPFamilies n.IPFamilies (p.Child "ipFamilies")).length > 0
  · simp only [hc, if_true, errorsAt_append]
    rw [errorsAt_nil_of_under_child p a "ipFamilies" rest _ (hX.ValidateIPFamilies _ _) h1]
    simp
  · simp only [hc, if_false, errorsAt_append]
    cases n.Nodes <;> cases n.Pods <;> cases n.Services <;>
      simp [hcidr _ _ _ h2, hcidr _ _ _ h3, hcidr _ _ _ h4]

theorem errorsAt_single_child (p : Path) (a b : String) (t : ErrorType) (v d : String) :
    errorsAt (p.Child a) [⟨t, p.Child b, v, d⟩] = if b = a then [⟨t, p.Child b, v, d⟩] else [] := by
  rw [errorsAt_cons]
  simp [Path.Child]

/-- On a workerless shoot with networking set, the errors of `validateNetworking` at
`type` are the one `Forbidden` error if the type is set, and none otherwise. -/
theorem errorsAt_validateNetworking_workerless_type (X : Collaborators) (hX : X.Local)
    (n : Networking) (p : Path) :
    errorsAt (p.Child "type") (validateNetworking X (some n) true p) =
      if n.Type_.isSome then [Forbidden (p.Child "type") workerlessErrorMsg] else [] := by
  unfold validateNetworking
  simp only [if_true, List.nil_append]
  have h := errorsAt_validateNetworkingFamilies X hX n
    ((((if n.Type_.isSome then [Forbidden (p.Child "type") workerlessErrorMsg] else []) ++
      (if n.ProviderConfig.isSome then
        [Forbidden (p.Child "providerConfig") workerlessErrorMsg] else [])) ++
      (if n.Pods.isSome then [Forbidden (p.Child "pods") workerlessErrorMsg] else [])) ++
      (if n.Nodes.isSome then [Forbidden (p.Child "nodes") workerlessErrorMsg] else []))
    p "type" [] (by decide)
  have hp : p ++ [PathElem.name "type"] = p.Child "type" := rfl
  rw [hp] at h
  rw [h]
  simp only [errorsAt_append]
  unfold Forbidden
  by_cases h1 : n.Type_.isSome <;> by_cases h2 : n.ProviderConfig.isSome <;>
    by_cases h3 : n.Pods.isSome <;> by_cases h4 : n.Nodes.isSome <;>
    simp [h1, h2, h3, h4, errorsAt_single_child]

theorem errorsAt_validateKubernetes_workerless (X : Collaborators) (hX : X.Local)
    (W : WorkerValidators) (k : Kubernetes) (n : Option Networking) (d : Bool) (p : Path)
    (c : String) (rest : Path)
    (hc : c ∉ ["version", "enableStaticTokenKubeconfig", "kubeAPIServer",
      "kubeControllerManager"]) :
    errorsAt (p ++ PathElem.name c :: rest) (validateKubernetes X W k n d true p) =
      if k.Version.length = 0 then []
      else errorsAt (p ++ PathElem.name c :: rest) (validateKubernetesForWorkerlessShoot k p) := by
  simp only [List.mem_cons, List.mem_singleton, List.not_mem_nil, or_false, not_or] at hc
  obtain ⟨h1, h2, h3, h4⟩ := hc
  unfold validateKubernetes
  by_cases hv : k.Version.length = 0
  · simp only [hv, if_true, List.nil_append]
    exact errorsAt_nil_of_under_child p c "version" rest _
      (ErrorsUnder.single (List.prefix_refl _)) h1
  · simp only [hv, if_false, if_true, List.nil_append, errorsAt_append]
    rw [errorsAt_nil_of_under_child p c "kubeAPIServer" rest _
        (ValidateKubeAPIServer_under X hX _ _ _ _) h3,
      errorsAt_nil_of_under_child p c "kubeControllerManager" rest _
        (ValidateKubeControllerManager_under X hX _ _ _ _ _) h4]
    have hs : errorsAt (p ++ PathElem.name c :: rest)
        (if ((CheckVersionMeetsConstraint k.Version ">= 1.27").1 &&
            boolDeref k.EnableStaticTokenKubeconfig) = true then
          [Invalid (p.Child "enableStaticTokenKubeconfig")
            (toString (boolDeref k.EnableStaticTokenKubeconfig))
            "for Kubernetes versions >= 1.27, enableStaticTokenKubeconfig field cannot not be set to true, please see https://github.com/gardener/gardener/blob/master/docs/usage/shoot_access.md#static-token-kubeconfig"]
        else []) = [] := by
      apply errorsAt_nil_of_under_child p c "enableStaticTokenKubeconfig" rest _ _ h2
      split
      · exact ErrorsUnder.single (List.prefix_refl _)
      · exact ErrorsUnder.nil _
    rw [hs]
    simp

/-- The errors of `validateKubernetesForWorkerlessShoot` at the paths of the kube-scheduler,
kube-proxy and kubelet configurations. -/
theorem errorsAt_validateKubernetesForWorkerlessShoot (k : Kubernetes) (p : Path) :
    errorsAt (p.Child "kubeScheduler") (validateKubernetesForWorkerlessShoot k p) =
      (if k.KubeScheduler.isSome then [Forbidden (p.Child "kubeScheduler") workerlessErrorMsg]
        else []) ∧
    errorsAt (p.Child "kubeProxy") (validateKubernetesForWorkerlessShoot k p) =
      (if k.KubeProxy.isSome then [Forbidden (p.Child "kubeProxy") workerlessErrorMsg]
        else []) ∧
    errorsAt (p.Child "kubelet") (validateKubernetesForWorkerlessShoot k p) =
      (if k.Kubelet.isSome then [Forbidden (p.Child "kubelet") workerlessErrorMsg]
        else []) := by
  unfold validateKubernetesForWorkerlessShoot Forbidden
  simp only [errorsAt_append]
  refine ⟨?_, ?_, ?_⟩ <;>
  · cases k.KubeScheduler <;> cases k.KubeProxy <;> cases k.Kubelet <;>
      cases k.ClusterAutoscaler <;> cases k.VerticalPodAutoscaler <;>
      cases k.AllowPrivilegedContainers <;>
      simp [errorsAt_single_child]

theorem ValidateShootSpec_workerless_isSome (X : Collaborators) (W : WorkerValidators)
    (meta : ObjectMeta) (spec : ShootSpec) (fldPath : Path) (inTemplate : Bool)
    (hw : spec.Provider.Workers = []) :
    ∃ errs, ValidateShootSpec X W meta spec fldPath inTemplate = some errs := by
  obtain ⟨pe, hpe⟩ := validateProvider_workerless_isSome X spec.Provider spec.Kubernetes
    spec.Networking (fldPath.Child "provider") inTemplate
  unfold ValidateShootSpec
  simp only [hw, List.length_nil, decide_True, hpe]
  exact ⟨_, rfl⟩

/-- On a workerless spec, the errors of `ValidateShootSpec` at a path below `addons`,
`kubernetes`, `networking` or `systemComponents` come from the validator of that
subtree. -/
theorem errorsAt_ValidateShootSpec_workerless (X : Collaborators) (hX : X.Local)
    (W : WorkerValidators) (meta : ObjectMeta) (spec : ShootSpec) (fldPath : Path)
    (inTemplate : Bool) (hw : spec.Provider.Workers = []) (a : String) (rest : Path)
    (ha : a ∈ ["addons", "kubernetes", "networking", "systemComponents"])
    (hp : fldPath ++ PathElem.name a :: rest ≠ nodeCIDRMaskSizePath) (errs : ErrorList)
    (h : ValidateShootSpec X W meta spec fldPath inTemplate = some errs) :
    errorsAt (fldPath ++ PathElem.name a :: rest) errs =
      errorsAt (fldPath ++ PathElem.name a :: rest)
        (validateAddons spec.Addons spec.Kubernetes spec.Purpose true (fldPath.Child "addons")) ++
      errorsAt (fldPath ++ PathElem.name a :: rest)
        (validateKubernetes X W spec.Kubernetes spec.Networking
          (isDockerConfigured spec.Provider.Workers) true (fldPath.Child "kubernetes")) ++
      errorsAt (fldPath ++ PathElem.name a :: rest)
        (validateNetworking X spec.Networking true (fldPath.Child "networking")) ++
      errorsAt (fldPath ++ PathElem.name a :: rest)
        (ValidateSystemComponents W spec.SystemComponents (fldPath.Child "systemComponents")
          true) := by
  have hne : ∀ b ∈ ["provider", "dns", "extensions", "resources", "maintenance", "monitoring",
      "hibernation", "region", "cloudProfileName", "secretBindingName", "seedName",
      "seedSelector", "purpose", "tolerations"], a ≠ b := by
    simp only [List.mem_cons, List.mem_singleton, List.not_mem_nil, or_false] at ha
    rcases ha with rfl | rfl | rfl | rfl <;> decide
  have hz : ∀ (b : String) (l : ErrorList), b ∈ ["provider", "dns", "extensions", "resources",
      "maintenance", "monitoring", "hibernation", "region", "cloudProfileName",
      "secretBindingName", "seedName", "seedSelector", "purpose", "tolerations"] →
      ErrorsUnder (fldPath.Child b) l →
      errorsAt (fldPath ++ PathElem.name a :: rest) l = [] :=
    fun b l hb h => errorsAt_nil_of_under_child fldPath a b rest l h (hne b hb)
  unfold ValidateShootSpec at h
  simp only [hw, List.length_nil, decide_True] at h
  split at h
  · exact Option.noConfusion h
  rename_i providerErrs hprov
  simp only [Option.some.injEq] at h
  subst h
  simp only [hw, errorsAt_append, and_true, if_true, Bool.true_eq_false, and_false, if_false]
  rw [errorsAt_validateProvider_workerless X _ _ _ _ fldPath a rest (hne _ (by simp)) hp _ hprov,
    hz "dns" _ (by simp) (validateDNS_under X hX _ _),
    hz "extensions" _ (by simp) (validateExtensions_under _ _),
    hz "resources" _ (by simp) (validateResources_under X hX _ _),
    hz "maintenance" _ (by simp) (validateMaintenance_under X _ _ _),
    hz "monitoring" _ (by simp) (validateMonitoring_under X _ _),
    hz "hibernation" _ (by simp) (ValidateHibernation_under X _ _ _),
    hz "tolerations" _ (by simp) (hX.ValidateTolerations _ _)]
  have r1 : errorsAt (fldPath ++ PathElem.name a :: rest)
      (if spec.Region.length = 0 then
        [Required (fldPath.Child "region") "must specify a region"] else []) = [] := by
    apply hz "region" _ (by simp)
    split <;> simp [Required]
  have r2 : errorsAt (fldPath ++ PathElem.name a :: rest)
      (if spec.CloudProfileName.length = 0 then
        [Required (fldPath.Child "cloudProfileName") "must specify a cloud profile"]
      else []) = [] := by
    apply hz "cloudProfileName" _ (by simp)
    split <;> simp [Required]
  have r3 : errorsAt (fldPath ++ PathElem.name a :: rest)
      (if spec.SecretBindingName.isSome = true then
        [Forbidden (fldPath.Child "secretBindingName") workerlessErrorMsg]
      else []) = [] := by
    apply hz "secretBindingName" _ (by simp)
    split <;> simp [Forbidden]
  have r4 : ∀ v : String, errorsAt (fldPath ++ PathElem.name a :: rest)
      (if v.length = 0 then
        [Invalid (fldPath.Child "seedName") v "seed name must not be empty when providing the key"]
      else []) = [] := by
    intro v
    apply hz "seedName" _ (by simp)
    split <;> simp [Invalid]
  have r5 : ∀ s : LabelSelector, errorsAt (fldPath ++ PathElem.name a :: rest)
      (X.ValidateLabelSelector s (fldPath.Child "seedSelector")) = [] :=
    fun s => hz "seedSelector" _ (by simp) (hX.ValidateLabelSelector _ _)
  have r6 : ∀ (v : String) (allowed : List String),
      errorsAt (fldPath ++ PathElem.name a :: rest)
        (if v ∉ allowed then [NotSupported (fldPath.Child "purpose") v (setsList allowed)]
        else []) = [] := by
    intro v allowed
    apply hz "purpose" _ (by simp)
    split <;> simp [NotSupported]
  rw [r1, r2, r3]
  cases spec.SeedName <;> cases spec.SeedSelector <;> cases spec.Purpose <;>
    simp only [List.nil_append, List.append_nil, errorsAt_nil, r4, r5, r6]

theorem ne_nodeCIDRMaskSizePath (p q : Path) (x : String) (hx : x ≠ "nodeCIDRMaskSize") :
    p ++ (q ++ [PathElem.name x]) ≠ nodeCIDRMaskSizePath := by
  intro h
  have h2 := congrArg List.getLast? h
  rw [← List.append_assoc, List.getLast?_append] at h2
  simp [nodeCIDRMaskSizePath, NewPath, Path.Child] at h2
  exact hx h2

theorem validateAddons_workerless (a : Option Addons) (k : Kubernetes) (pu : Option String)
    (p : Path) :
    validateAddons a k pu true p =
      if a.isSome then [Forbidden p "addons cannot be enabled for Workerless Shoot clusters"]
      else [] := by
  cases a with
  | none => simp [validateAddons, NginxIngressEnabled, KubernetesDashboardEnabled]
  | some v => simp [validateAddons]

theorem ValidateSystemComponents_workerless (W : WorkerValidators)
    (s : Option SystemComponents) (p : Path) :
    ValidateSystemComponents W s p true =
      if s.isSome then [Forbidden p workerlessErrorMsg] else [] := by
  cases s <;> simp [ValidateSystemComponents]

theorem specCollaborators_local : specCollaborators.Local := by
  constructor <;> intros <;> exact ErrorsUnder.nil _

theorem errorsAt_self_single (p : Path) (t : ErrorType) (v d : String) :
    errorsAt p [⟨t, p, v, d⟩] = [⟨t, p, v, d⟩] := by
  rw [errorsAt_cons]; simp

/-- C10: on a spec with zero workers whose `networking.type` is set, `ValidateShootSpec`
returns a result, and the result has exactly one error at `networking.type` below the spec
path: the `Forbidden` error for workerless shoots; with networking unset,
`validateNetworking` returns the empty list for a workerless shoot. The absent helper
validators are assumed to report at or below the path they are handed. -/
theorem workerless_networking_type_forbidden (X : Collaborators) (hX : X.Local)
    (W : WorkerValidators) (meta : ObjectMeta) (spec : ShootSpec) (fldPath : Path)
    (inTemplate : Bool) (hw : spec.Provider.Workers = []) (n : Networking)
    (hn : spec.Networking = some n) (ht : n.Type_.isSome = true) :
    (∃ errs, ValidateShootSpec X W meta spec fldPath inTemplate = some errs ∧
      errorsAt ((fldPath.Child "networking").Child "type") errs =
        [Forbidden ((fldPath.Child "networking").Child "type") workerlessErrorMsg]) ∧
    validateNetworking X none true (fldPath.Child "networking") = [] := by
  constructor
  · obtain ⟨errs, h⟩ := ValidateShootSpec_workerless_isSome X W meta spec fldPath inTemplate hw
    refine ⟨errs, h, ?_⟩
    have hP : (fldPath.Child "networking").Child "type" =
        fldPath ++ PathElem.name "networking" :: [PathElem.name "type"] := by
      simp [Path.Child]
    have hdec := errorsAt_ValidateShootSpec_workerless X hX W meta spec fldPath inTemplate hw
      "networking" [PathElem.name "type"] (by simp)
      (ne_nodeCIDRMaskSizePath fldPath [PathElem.name "networking"] "type" (by decide)) errs h
    rw [hP, hdec]
    rw [errorsAt_nil_of_under_child fldPath "networking" "addons" _ _
        (validateAddons_under _ _ _ _ _) (by decide),
      errorsAt_nil_of_under_child fldPath "networking" "kubernetes" _ _
        (validateKubernetes_workerless_under X hX W _ _ _ _) (by decide),
      errorsAt_nil_of_under_child fldPath "networking" "systemComponents" _ _
        (ValidateSystemComponents_workerless_under W _ _) (by decide)]
    rw [← hP, hn, errorsAt_validateNetworking_workerless_type X hX n, ht]
    simp
  · simp [validateNetworking]

/-- Witness of C10: the workerless spec with networking type `calico`. -/
theorem workerless_networking_type_forbidden_witness :
    (∃ errs, ValidateShootSpec specCollaborators silentWorkerValidators {} workerlessFullSpec
        (NewPath "spec") false = some errs ∧
      errorsAt (((NewPath "spec").Child "networking").Child "type") errs =
        [Forbidden (((NewPath "spec").Child "networking").Child "type") workerlessErrorMsg]) ∧
    validateNetworking specCollaborators none true ((NewPath "spec").Child "networking") = [] :=
  workerless_networking_type_forbidden specCollaborators specCollaborators_local
    silentWorkerValidators {} workerlessFullSpec (NewPath "spec") false rfl
    { Type_ := some "calico" } rfl rfl

/-- C9, counterexample: a workerless spec with an empty Kubernetes version and
`kubernetes.kubeScheduler` set. `validateKubernetes` returns after the `Required` error for
the version, so the result `ValidateShootSpec` returns holds no `Forbidden` error at all,
in particular none for the kube-scheduler configuration. -/
theorem workerless_exclusive_fields_counterexample :
    workerlessNoVersionSpec.Provider.Workers = [] ∧
    workerlessNoVersionSpec.Kubernetes.KubeScheduler.isSome = true ∧
    (ValidateShootSpec specCollaborators silentWorkerValidators {} workerlessNoVersionSpec
        (NewPath "spec") false).map
      (fun errs => errs.filter (fun e => decide (e.Type_ = ErrorType.Forbidden))) = some [] ∧
    (ValidateShootSpec specCollaborators silentWorkerValidators {} workerlessNoVersionSpec
        (NewPath "spec") false).map
      (errorsAt (((NewPath "spec").Child "kubernetes").Child "kubeScheduler")) = some [] :=
  ⟨rfl, rfl, by decide, by decide⟩

/-- C9, amended: on a spec with zero workers `ValidateShootSpec` returns a result, and
its errors at `networking.type`, `addons` and `systemComponents` are exactly one
`Forbidden` error when the field is set and none when it is unset; the same holds at
`kubernetes.kubeScheduler`, `kubernetes.kubeProxy` and `kubernetes.kubelet` when
`kubernetes.version` is non-empty, and with an empty version no error is reported at these
three paths. The absent helper validators are assumed to report at or below the path they
are handed. -/
theorem workerless_exclusive_fields (X : Collaborators) (hX : X.Local)
    (W : WorkerValidators) (meta : ObjectMeta) (spec : ShootSpec) (fldPath : Path)
    (inTemplate : Bool) (hw : spec.Provider.Workers = []) :
    ∃ errs, ValidateShootSpec X W meta spec fldPath inTemplate = some errs ∧
      errorsAt ((fldPath.Child "networking").Child "type") errs =
        (if (spec.Networking.bind (fun n => n.Type_)).isSome then
          [Forbidden ((fldPath.Child "networking").Child "type") workerlessErrorMsg]
        else []) ∧
      errorsAt (fldPath.Child "addons") errs =
        (if spec.Addons.isSome then
          [Forbidden (fldPath.Child "addons")
            "addons cannot be enabled for Workerless Shoot clusters"]
        else []) ∧
      errorsAt (fldPath.Child "systemComponents") errs =
        (if spec.SystemComponents.isSome then
          [Forbidden (fldPath.Child "systemComponents") workerlessErrorMsg]
        else []) ∧
      errorsAt ((fldPath.Child "kubernetes").Child "kubeScheduler") errs =
        (if spec.Kubernetes.Version.length ≠ 0 ∧ spec.Kubernetes.KubeScheduler.isSome then
          [Forbidden ((fldPath.Child "kubernetes").Child "kubeScheduler") workerlessErrorMsg]
        else []) ∧
      errorsAt ((fldPath.Child "kubernetes").Child "kubeProxy") errs =
        (if spec.Kubernetes.Version.length ≠ 0 ∧ spec.Kubernetes.KubeProxy.isSome then
          [Forbidden ((fldPath.Child "kubernetes").Child "kubeProxy") workerlessErrorMsg]
        else []) ∧
      errorsAt ((fldPath.Child "kubernetes").Child "kubelet") errs =
        (if spec.Kubernetes.Version.length ≠ 0 ∧ spec.Kubernetes.Kubelet.isSome then
          [Forbidden ((fldPath.Child "kubernetes").Child "kubelet") workerlessErrorMsg]
        else []) := by
  obtain ⟨errs, h⟩ := ValidateShootSpec_workerless_isSome X W meta spec fldPath inTemplate hw
  refine ⟨errs, h, ?_⟩
  have hdec := fun a rest ha hp =>
    errorsAt_ValidateShootSpec_workerless X hX W meta spec fldPath inTemplate hw a rest ha hp
      errs h
  have hA := fun a rest (h : a ≠ "addons") =>
    errorsAt_nil_of_under_child fldPath a "addons" rest _
      (validateAddons_under spec.Addons spec.Kubernetes spec.Purpose true
        (fldPath.Child "addons")) h
  have hK := fun a rest (h : a ≠ "kubernetes") =>
    errorsAt_nil_of_under_child fldPath a "kubernetes" rest _
      (validateKubernetes_workerless_under X hX W spec.Kubernetes spec.Networking
        (isDockerConfigured spec.Provider.Workers) (fldPath.Child "kubernetes")) h
  have hN := fun a rest (h : a ≠ "networking") =>
    errorsAt_nil_of_under_child fldPath a "networking" rest _
      (validateNetworking_under X hX spec.Networking true (fldPath.Child "networking")) h
  have hS := fun a rest (h : a ≠ "systemComponents") =>
    errorsAt_nil_of_under_child fldPath a "systemComponents" rest _
      (ValidateSystemComponents_workerless_under W spec.SystemComponents
        (fldPath.Child "systemComponents")) h
  have hKube : ∀ c : String, c ∈ ["kubeScheduler", "kubeProxy", "kubelet"] →
      errorsAt ((fldPath.Child "kubernetes").Child c) errs =
        if spec.Kubernetes.Version.length = 0 then []
        else errorsAt ((fldPath.Child "kubernetes").Child c)
          (validateKubernetesForWorkerlessShoot spec.Kubernetes (fldPath.Child "kubernetes")) := by
    intro c hc
    have hP : (fldPath.Child "kubernetes").Child c =
        fldPath ++ PathElem.name "kubernetes" :: [PathElem.name c] := by
      simp [Path.Child]
    have hne : c ≠ "nodeCIDRMaskSize" := by
      simp only [List.mem_cons, List.mem_singleton, List.not_mem_nil, or_false] at hc
      rcases hc with rfl | rfl | rfl <;> decide
    have hnot : c ∉ ["version", "enableStaticTokenKubeconfig", "kubeAPIServer",
        "kubeControllerManager"] := by
      simp only [List.mem_cons, List.mem_singleton, List.not_mem_nil, or_false] at hc
      rcases hc with rfl | rfl | rfl <;> decide
    rw [hP, hdec "kubernetes" [PathElem.name c] (by simp)
      (ne_nodeCIDRMaskSizePath fldPath [PathElem.name "kubernetes"] c hne),
      hA _ _ (by decide), hN _ _ (by decide), hS _ _ (by decide)]
    have hk := errorsAt_validateKubernetes_workerless X hX W spec.Kubernetes spec.Networking
      (isDockerConfigured spec.Provider.Workers) (fldPath.Child "kubernetes") c [] hnot
    have hP2 : fldPath.Child "kubernetes" ++ [PathElem.name c] =
        fldPath ++ PathElem.name "kubernetes" :: [PathElem.name c] := by
      simp [Path.Child]
    rw [hP2] at hk
    rw [hk]
    simp
  obtain ⟨k1, k2, k3⟩ := errorsAt_validateKubernetesForWorkerlessShoot spec.Kubernetes
    (fldPath.Child "kubernetes")
  refine ⟨?_, ?_, ?_, ?_, ?_, ?_⟩
  · have hP : (fldPath.Child "networking").Child "type" =
        fldPath ++ PathElem.name "networking" :: [PathElem.name "type"] := by
      simp [Path.Child]
    rw [hP, hdec "networking" [PathElem.name "type"] (by simp)
      (ne_nodeCIDRMaskSizePath fldPath [PathElem.name "networking"] "type" (by decide)),
      hA _ _ (by decide), hK _ _ (by decide), hS _ _ (by decide), ← hP]
    cases hn : spec.Networking with
    | none => simp [validateNetworking]
    | some n =>
      rw [errorsAt_validateNetworking_workerless_type X hX n]
      simp
  · have hP : fldPath.Child "addons" = fldPath ++ PathElem.name "addons" :: [] := rfl
    rw [hP, hdec "addons" [] (by simp)
      (ne_nodeCIDRMaskSizePath fldPath [] "addons" (by decide)),
      hK _ _ (by decide), hN _ _ (by decide), hS _ _ (by decide), ← hP,
      validateAddons_workerless]
    unfold Forbidden
    split <;> simp [errorsAt_self_single]
  · have hP : fldPath.Child "systemComponents" =
        fldPath ++ PathElem.name "systemComponents" :: [] := rfl
    rw [hP, hdec "systemComponents" [] (by simp)
      (ne_nodeCIDRMaskSizePath fldPath [] "systemComponents" (by decide)),
      hA _ _ (by decide), hK _ _ (by decide), hN _ _ (by decide), ← hP,
      ValidateSystemComponents_workerless]
    unfold Forbidden
    split <;> simp [errorsAt_self_single]
  · rw [hKube "kubeScheduler" (by simp), k1]
    by_cases hv : spec.Kubernetes.Version.length = 0 <;> simp [hv]
  · rw [hKube "kubeProxy" (by simp), k2]
    by_cases hv : spec.Kubernetes.Version.length = 0 <;> simp [hv]
  · rw [hKube "kubelet" (by simp), k3]
    by_cases hv : spec.Kubernetes.Version.length = 0 <;> simp [hv]

/-- Witness of the amended C9 at the workerless spec with Kubernetes 1.26.0, networking
type, addons, system components and a kube-scheduler configuration. -/
theorem workerless_exclusive_fields_witness :
    ∃ errs, ValidateShootSpec specCollaborators silentWorkerValidators {} workerlessFullSpec
        (NewPath "spec") false = some errs ∧
      errorsAt (((NewPath "spec").Child "kubernetes").Child "kubeScheduler") errs =
        (if workerlessFullSpec.Kubernetes.Version.length ≠ 0 ∧
            workerlessFullSpec.Kubernetes.KubeScheduler.isSome then
          [Forbidden (((NewPath "spec").Child "kubernetes").Child "kubeScheduler")
            workerlessErrorMsg]
        else []) :=
  (workerless_exclusive_fields specCollaborators specCollaborators_local
    silentWorkerValidators {} workerlessFullSpec (NewPath "spec") false rfl).imp
    (fun _ h => ⟨h.1, h.2.2.2.2.1⟩)

/-! ## Worker pool version against the control plane version -/

theorem Version.Compare_pos_iff (v w : Version) : v.Compare w > 0 ↔ w < v := by
  show _ ↔ Version.Less w v
  unfold Version.Compare Version.Less
  split_ifs <;> simp <;> omega

/-- C16: for parseable versions, `validateWorkerGroupAndControlPlaneKubernetesVersion`
returns an error list, and that list is empty if and only if the worker pool version is not
above the control plane version and the control plane version is below
`W.Major.(W.Minor+3).0`. -/
theorem worker_version_skew_accepted_iff (controlPlane worker : String) (vc vw : Version)
    (fldPath : Path) (hc : NewVersion controlPlane = some vc)
    (hw : NewVersion worker = some vw) :
    ∃ errs, validateWorkerGroupAndControlPlaneKubernetesVersion controlPlane worker fldPath =
        some errs ∧
      (errs = [] ↔ (vw ≤ vc ∧ vc < Version.mk vw.major (vw.minor + 3) 0)) := by
  have hskew : NewVersion (vw.IncMinor.IncMinor.IncMinor).String =
      some ⟨vw.major, vw.minor + 3, 0⟩ := by
    rw [NewVersion_String]; rfl
  simp only [validateWorkerGroupAndControlPlaneKubernetesVersion, CompareVersions, hc, hw, hskew]
  simp only [Version.Compare_pos_iff, Version.Compare_nonneg_iff]
  have hle : vw ≤ vc ↔ ¬ (vc < vw) := Iff.rfl
  have hle2 : Version.mk vw.major (vw.minor + 3) 0 ≤ vc ↔
      ¬ (vc < Version.mk vw.major (vw.minor + 3) 0) := Iff.rfl
  by_cases h1 : vc < vw <;> by_cases h2 : vc < Version.mk vw.major (vw.minor + 3) 0 <;>
    simp [h1, h2, hle, hle2]

/-- Witness of C16: control plane `1.25.0` with worker pool `1.22.9` is rejected, control
plane `1.24.9` with worker pool `1.22.0` is accepted. -/
theorem worker_version_skew_accepted_iff_witness :
    (∃ errs, validateWorkerGroupAndControlPlaneKubernetesVersion "1.25.0" "1.22.9"
        (NewPath "version") = some errs ∧
      (errs = [] ↔ ((⟨1, 22, 9⟩ : Version) ≤ ⟨1, 25, 0⟩ ∧
        (⟨1, 25, 0⟩ : Version) < Version.mk 1 (22 + 3) 0))) ∧
    validateWorkerGroupAndControlPlaneKubernetesVersion "1.25.0" "1.22.9" (NewPath "version") =
      some [Forbidden (NewPath "version")
        "worker group kubernetes version must be at most two minor versions behind control plane version"] ∧
    validateWorkerGroupAndControlPlaneKubernetesVersion "1.24.9" "1.22.0" (NewPath "version") =
      some [] :=
  ⟨worker_version_skew_accepted_iff "1.25.0" "1.22.9" ⟨1, 25, 0⟩ ⟨1, 22, 9⟩
      (NewPath "version") (by decide) (by decide),
    by decide, by decide⟩

theorem ValidateKubernetesVersionUpdate_none_iff (new old : String) (fldPath : Path) :
    ValidateKubernetesVersionUpdate new old fldPath = none ↔
      new.length ≠ 0 ∧ NewVersion old = none := by
  unfold ValidateKubernetesVersionUpdate
  by_cases h : new.length = 0
  · simp [h]
  · simp only [h, if_false]
    cases ho : NewVersion old <;> simp [h]

theorem validateWorkerGroupAndControlPlaneKubernetesVersion_none_iff
    (controlPlane worker : String) (fldPath : Path) :
    validateWorkerGroupAndControlPlaneKubernetesVersion controlPlane worker fldPath = none ↔
      NewVersion worker = none := by
  unfold validateWorkerGroupAndControlPlaneKubernetesVersion
  cases hw : NewVersion worker <;> simp

/-- C17: at the old version `abc`, which is no semantic version,
`ValidateKubernetesVersionUpdate "1.25.0" "abc"` returns no error list: the source
dereferences the `nil` result of the failed parse. The same holds for
`validateWorkerGroupAndControlPlaneKubernetesVersion "1.25.0" "abc"`. -/
theorem version_checks_fail_on_unparsable_version :
    NewVersion "abc" = none ∧
    ValidateKubernetesVersionUpdate "1.25.0" "abc" (NewPath "version") = none ∧
    validateWorkerGroupAndControlPlaneKubernetesVersion "1.25.0" "abc" (NewPath "version") =
      none := by
  refine ⟨by decide, by decide, by decide⟩

/-! ## Update validators: immutable fields -/

theorem ValidateImmutableField_eq {α : Type} [DecidableEq α] (text : α → String) (n o : α)
    (p : Path) :
    ValidateImmutableField text n o p =
      if o = n then [] else [Invalid p (text n) FieldImmutableErrorMsg] := by
  simp [ValidateImmutableField, ValidateImmutableFieldBy]

theorem ValidateImmutableField_under {α : Type} [DecidableEq α] (text : α → String) (n o : α)
    (p : Path) : ErrorsUnder p (ValidateImmutableField text n o p) := by
  rw [ValidateImmutableField_eq]
  exact ErrorsUnder.ite _ (ErrorsUnder.nil _) (ErrorsUnder.single (List.prefix_refl _))

theorem errorsAt_ValidateImmutableField {α : Type} [DecidableEq α] (text : α → String)
    (n o : α) (p q : Path) :
    errorsAt q (ValidateImmutableField text n o p) =
      if p = q ∧ o ≠ n then [Invalid p (text n) FieldImmutableErrorMsg] else [] := by
  rw [ValidateImmutableField_eq]
  by_cases h : o = n
  · simp [h]
  · by_cases hq : p = q
    · simp [h, hq, errorsAt_cons, Invalid]
    · simp [h, hq, errorsAt_cons, Invalid]

theorem child_ne_child (p : Path) {a b : String} (h : a ≠ b) : p.Child a ≠ p.Child b := by
  simp [Path.Child, h]

/-- C14: `validateWorkerUpdate`, called as `ValidateShootSpecUpdate` calls it, returns an
error if and only if exactly one of the new and the old specification has a worker pool;
the error is `Forbidden` at the path handed in. Both specifications are arbitrary, so this
holds for every Kubernetes version. -/
theorem worker_update_forbidden_iff (newSpec oldSpec : ShootSpec) (fldPath : Path) :
    ((∃ e, validateWorkerUpdate (decide (newSpec.Provider.Workers.length > 0))
          (decide (oldSpec.Provider.Workers.length > 0)) fldPath = some e ∧
          e.Type_ = ErrorType.Forbidden ∧ e.Field = fldPath) ↔
      ¬ (newSpec.Provider.Workers.length > 0 ↔ oldSpec.Provider.Workers.length > 0)) ∧
    ((newSpec.Provider.Workers.length > 0 ↔ oldSpec.Provider.Workers.length > 0) →
      validateWorkerUpdate (decide (newSpec.Provider.Workers.length > 0))
        (decide (oldSpec.Provider.Workers.length > 0)) fldPath = none) := by
  unfold validateWorkerUpdate
  by_cases h1 : newSpec.Provider.Workers.length > 0 <;>
    by_cases h2 : oldSpec.Provider.Workers.length > 0 <;>
    simp [h1, h2, Forbidden]

theorem errorsAt_guarded_immutable_ne {α : Type} [DecidableEq α] (c : Prop) [Decidable c]
    (text : α → String) (n o : α) (p q : Path) (h : p ≠ q) :
    errorsAt q (if c then ValidateImmutableField text n o p else []) = [] := by
  split
  · rw [errorsAt_ValidateImmutableField, if_neg (fun hc => h hc.1)]
  · rfl

theorem errorsAt_guarded_immutable_self {α : Type} [DecidableEq α] (c : Prop) [Decidable c]
    (text : α → String) (n o : α) (p : Path) :
    errorsAt p (if c then ValidateImmutableField text n o p else []) ≠ [] ↔ (c ∧ n ≠ o) := by
  by_cases hc : c
  · by_cases hno : o = n
    · simp [hc, hno, errorsAt_ValidateImmutableField]
    · have : n ≠ o := fun h => hno h.symm
      simp [hc, hno, this, errorsAt_ValidateImmutableField]
  · simp [hc]

theorem errorsAt_immutable_ne {α : Type} [DecidableEq α] (text : α → String) (n o : α)
    (p q : Path) (h : p ≠ q) : errorsAt q (ValidateImmutableField text n o p) = [] := by
  rw [errorsAt_ValidateImmutableField, if_neg (fun hc => h hc.1)]

/-- C18: with old and new networking set, `validateNetworkingUpdate` reports at
`pods` (`services`) if and only if the old value is set and the new value differs from it,
and at `nodes` if and only if moreover the feature gate `MutableShootSpecNetworkingNodes` is
disabled; with old networking set and new networking unset it returns the single
`Forbidden` error at the networking path. -/
theorem networking_update_immutable_iff (X : Collaborators) (newNetworking oldNetworking : Networking)
    (fldPath : Path) :
    (errorsAt (fldPath.Child "pods")
        (validateNetworkingUpdate X (some newNetworking) (some oldNetworking) fldPath) ≠ [] ↔
      (oldNetworking.Pods.isSome ∧ newNetworking.Pods ≠ oldNetworking.Pods)) ∧
    (errorsAt (fldPath.Child "services")
        (validateNetworkingUpdate X (some newNetworking) (some oldNetworking) fldPath) ≠ [] ↔
      (oldNetworking.Services.isSome ∧ newNetworking.Services ≠ oldNetworking.Services)) ∧
    (errorsAt (fldPath.Child "nodes")
        (validateNetworkingUpdate X (some newNetworking) (some oldNetworking) fldPath) ≠ [] ↔
      (X.MutableShootSpecNetworkingNodes = false ∧ oldNetworking.Nodes.isSome ∧
        newNetworking.Nodes ≠ oldNetworking.Nodes)) ∧
    validateNetworkingUpdate X none (some oldNetworking) fldPath =
      [Forbidden fldPath "networking cannot be set to nil if it's already set"] := by
  have hne : ∀ a b : String, a ≠ b → fldPath.Child a ≠ fldPath.Child b :=
    fun a b h => child_ne_child fldPath h
  refine ⟨?_, ?_, ?_, rfl⟩
  · simp only [validateNetworkingUpdate, List.nil_append, errorsAt_append]
    rw [errorsAt_immutable_ne _ _ _ _ _ (hne "type" "pods" (by decide)),
      errorsAt_immutable_ne _ _ _ _ _ (hne "ipFamilies" "pods" (by decide)),
      errorsAt_guarded_immutable_ne _ _ _ _ _ _ (hne "services" "pods" (by decide)),
      errorsAt_guarded_immutable_ne _ _ _ _ _ _ (hne "nodes" "pods" (by decide))]
    simpa using errorsAt_guarded_immutable_self (oldNetworking.Pods.isSome = true) ptrText
      newNetworking.Pods oldNetworking.Pods (fldPath.Child "pods")
  · simp only [validateNetworkingUpdate, List.nil_append, errorsAt_append]
    rw [errorsAt_immutable_ne _ _ _ _ _ (hne "type" "services" (by decide)),
      errorsAt_immutable_ne _ _ _ _ _ (hne "ipFamilies" "services" (by decide)),
      errorsAt_guarded_immutable_ne _ _ _ _ _ _ (hne "pods" "services" (by decide)),
      errorsAt_guarded_immutable_ne _ _ _ _ _ _ (hne "nodes" "services" (by decide))]
    simpa using errorsAt_guarded_immutable_self (oldNetworking.Services.isSome = true) ptrText
      newNetworking.Services oldNetworking.Services (fldPath.Child "services")
  · simp only [validateNetworkingUpdate, List.nil_append, errorsAt_append]
    rw [errorsAt_immutable_ne _ _ _ _ _ (hne "type" "nodes" (by decide)),
      errorsAt_immutable_ne _ _ _ _ _ (hne "ipFamilies" "nodes" (by decide)),
      errorsAt_guarded_immutable_ne _ _ _ _ _ _ (hne "pods" "nodes" (by decide)),
      errorsAt_guarded_immutable_ne _ _ _ _ _ _ (hne "services" "nodes" (by decide))]
    simpa [and_assoc] using errorsAt_guarded_immutable_self
      (X.MutableShootSpecNetworkingNodes = false ∧ oldNetworking.Nodes.isSome = true) ptrText
      newNetworking.Nodes oldNetworking.Nodes (fldPath.Child "nodes")

/-! ## Update validators: locality and the shape of `ValidateShootSpecUpdate` -/

theorem ValidateKubernetesVersionUpdate_field (new old : String) (p : Path) (errs : ErrorList)
    (h : ValidateKubernetesVersionUpdate new old p = some errs) : ∀ e ∈ errs, e.Field = p := by
  unfold ValidateKubernetesVersionUpdate at h
  by_cases hl : new.length = 0
  · simp only [hl, if_true, Option.some.injEq] at h
    subst h; intro e he; simp at he; subst he; rfl
  · simp only [hl, if_false] at h
    cases ho : NewVersion old with
    | none => simp [ho] at h
    | some vo =>
      simp only [ho, Option.some.injEq] at h
      subst h
      rcases CompareVersions new "<" old with ⟨b1, e1⟩
      rcases CompareVersions new ">=" vo.IncMinor.IncMinor.String with ⟨b2, e2⟩
      cases b1 <;> cases e1 <;> cases b2 <;> cases e2 <;> simp [Invalid, Forbidden]

theorem validateWorkerVersionUpdates_field (newSpec oldSpec : ShootSpec) (p : Path)
    (ws : List Worker) (i : Nat) (errs : ErrorList)
    (h : validateWorkerVersionUpdates newSpec oldSpec p ws i = some errs) :
    ∀ e ∈ errs, ∃ j, e.Field =
      (((((p.Child "provider").Child "workers").Index j).Child "kubernetes").Child "version") := by
  induction ws generalizing i errs with
  | nil =>
    simp only [validateWorkerVersionUpdates, Option.some.injEq] at h
    subst h; intro e he; simp at he
  | cons w ws ih =>
    simp only [validateWorkerVersionUpdates] at h
    split at h
    · exact Option.noConfusion h
    · rename_i errs1 h1
      split at h
      · exact Option.noConfusion h
      · rename_i more h2
        simp only [Option.some.injEq] at h
        subst h
        intro e he
        rcases List.mem_append.1 he with he | he
        · exact ⟨i, ValidateKubernetesVersionUpdate_field _ _ _ _ h1 e he⟩
        · exact ih _ _ h2 e he

theorem validateWorkerVersionUpdates_under (newSpec oldSpec : ShootSpec) (p : Path)
    (ws : List Worker) (i : Nat) (errs : ErrorList)
    (h : validateWorkerVersionUpdates newSpec oldSpec p ws i = some errs) :
    ErrorsUnder ((p.Child "provider").Child "workers") errs := by
  intro e he
  obtain ⟨j, hj⟩ := validateWorkerVersionUpdates_field _ _ _ _ _ _ h e he
  rw [hj]
  exact (prefix_index _ _).trans (prefix_child2 _ _ _)

theorem validateDNSUpdate_under (new old : Option DNS) (s : Bool) (p : Path) :
    ErrorsUnder p (validateDNSUpdate new old s p) := by
  unfold validateDNSUpdate
  have h0 : ErrorsUnder p (if old.isSome ∧ new.isNone then
      ValidateImmutableField (fun _ => "") new old p else []) :=
    ErrorsUnder.ite _ (ValidateImmutableField_under _ _ _ _) (ErrorsUnder.nil _)
  cases new with
  | none => simpa using h0
  | some n =>
    cases old with
    | none => simp
    | some o =>
      simp only [List.nil_append]
      have h1 : ErrorsUnder p (if o.Domain.isSome then
          ValidateImmutableField ptrText n.Domain o.Domain (p.Child "domain") else []) :=
        ErrorsUnder.ite _ ((ValidateImmutableField_under _ _ _ _).mono (prefix_child _ _))
          (ErrorsUnder.nil _)
      split
      · simp only [errorsUnder_append]
        refine ⟨⟨⟨⟨h0, h1⟩, ?_⟩, ?_⟩, ?_⟩ <;>
          exact ErrorsUnder.ite _ (ErrorsUnder.single (prefix_child _ _)) (ErrorsUnder.nil _)
      · exact ErrorsUnder.append h0 h1

theorem validateKubeControllerManagerUpdate_under (n o : Option KubeControllerManagerConfig)
    (p : Path) : ErrorsUnder p (validateKubeControllerManagerUpdate n o p) := by
  unfold validateKubeControllerManagerUpdate
  simp only [List.nil_append]
  exact (ValidateImmutableField_under _ _ _ _).mono (prefix_child _ _)

theorem validateNetworkingUpdate_under (X : Collaborators) (n o : Option Networking) (p : Path) :
    ErrorsUnder p (validateNetworkingUpdate X n o p) := by
  unfold validateNetworkingUpdate
  cases o with
  | none => exact ErrorsUnder.nil _
  | some o =>
    cases n with
    | none => exact ErrorsUnder.single (List.prefix_refl _)
    | some n =>
      simp only [List.nil_append, errorsUnder_append]
      refine ⟨⟨⟨⟨?_, ?_⟩, ?_⟩, ?_⟩, ?_⟩
      · exact (ValidateImmutableField_under _ _ _ _).mono (prefix_child _ _)
      · exact (ValidateImmutableField_under _ _ _ _).mono (prefix_child _ _)
      all_goals
        exact ErrorsUnder.ite _ ((ValidateImmutableField_under _ _ _ _).mono (prefix_child _ _))
          (ErrorsUnder.nil _)

theorem validateWorkerUpdate_field (n o : Bool) (p : Path) (e : Error)
    (h : validateWorkerUpdate n o p = some e) : e.Type_ = ErrorType.Forbidden ∧ e.Field = p := by
  unfold validateWorkerUpdate at h
  cases n <;> cases o <;> simp [Forbidden] at h <;> subst h <;> exact ⟨rfl, rfl⟩

theorem validateWorkerUpdate_isSome_iff (newSpec oldSpec : ShootSpec) (p : Path) :
    (validateWorkerUpdate (decide (newSpec.Provider.Workers.length > 0))
      (decide (oldSpec.Provider.Workers.length > 0)) p).isSome ↔ WorkerFlip newSpec oldSpec := by
  unfold validateWorkerUpdate WorkerFlip
  by_cases h1 : newSpec.Provider.Workers.length > 0 <;>
    by_cases h2 : oldSpec.Provider.Workers.length > 0 <;> simp [h1, h2]

/-- The shape of the result of the field-level checks: the immutable-field errors, the
version errors, the kube-controller-manager errors, and then either the flip error alone
or the provider, worker-version and networking errors. -/
theorem validateShootSpecUpdateFields_some (X : Collaborators) (newSpec oldSpec : ShootSpec)
    (p : Path) (errs : ErrorList)
    (h : validateShootSpecUpdateFields X newSpec oldSpec p = some errs) :
    ∃ versionErrs,
      ValidateKubernetesVersionUpdate newSpec.Kubernetes.Version oldSpec.Kubernetes.Version
        ((p.Child "kubernetes").Child "version") = some versionErrs ∧
      ((WorkerFlip newSpec oldSpec ∧ ∃ err,
          validateWorkerUpdate (decide (newSpec.Provider.Workers.length > 0))
            (decide (oldSpec.Provider.Workers.length > 0))
            ((p.Child "provider").Child "workers") = some err ∧
          errs = immutableSpecFieldErrors newSpec oldSpec p ++ versionErrs ++
            validateKubeControllerManagerUpdate newSpec.Kubernetes.KubeControllerManager
              oldSpec.Kubernetes.KubeControllerManager
              ((p.Child "kubernetes").Child "kubeControllerManager") ++ [err]) ∨
       (¬ WorkerFlip newSpec oldSpec ∧ ∃ workerErrs,
          validateWorkerVersionUpdates newSpec oldSpec p newSpec.Provider.Workers 0 =
            some workerErrs ∧
          errs = immutableSpecFieldErrors newSpec oldSpec p ++ versionErrs ++
            validateKubeControllerManagerUpdate newSpec.Kubernetes.KubeControllerManager
              oldSpec.Kubernetes.KubeControllerManager
              ((p.Child "kubernetes").Child "kubeControllerManager") ++
            ValidateProviderUpdate newSpec.Provider oldSpec.Provider (p.Child "provider") ++
            workerErrs ++
            validateNetworkingUpdate X newSpec.Networking oldSpec.Networking
              (p.Child "networking"))) := by
  have hflip := validateWorkerUpdate_isSome_iff newSpec oldSpec ((p.Child "provider").Child "workers")
  unfold validateShootSpecUpdateFields at h
  simp only [List.nil_append] at h
  split at h
  · exact Option.noConfusion h
  · rename_i versionErrs hv
    refine ⟨versionErrs, hv, ?_⟩
    split at h
    · rename_i err herr
      left
      refine ⟨hflip.1 (by rw [herr]; rfl), err, herr, ?_⟩
      simp only [Option.some.injEq] at h
      rw [← h]; simp [immutableSpecFieldErrors]
    · rename_i herr
      right
      refine ⟨fun hf => by have := hflip.2 hf; rw [herr] at this; exact absurd this (by simp), ?_⟩
      split at h
      · exact Option.noConfusion h
      · rename_i workerErrs hw
        refine ⟨workerErrs, hw, ?_⟩
        simp only [Option.some.injEq] at h
        rw [← h]; simp [immutableSpecFieldErrors]

theorem validateWorkerVersionUpdates_isSome (newSpec oldSpec : ShootSpec) (p : Path)
    (ws : List Worker) (i : Nat)
    (h : ∀ w ∈ ws, (NewVersion (workerKubernetesVersion (oldWorkerFor oldSpec.Provider.Workers w)
      oldSpec.Kubernetes.Version)).isSome) :
    (validateWorkerVersionUpdates newSpec oldSpec p ws i).isSome := by
  induction ws generalizing i with
  | nil => rfl
  | cons w ws ih =>
    have hw := h w (by simp)
    have hrest := ih (i + 1) (fun x hx => h x (by simp [hx]))
    simp only [validateWorkerVersionUpdates]
    split
    · rename_i hnone
      rw [ValidateKubernetesVersionUpdate_none_iff] at hnone
      rw [hnone.2] at hw
      exact absurd hw (by simp)
    · split
      · rename_i hnone
        rw [hnone] at hrest
        exact absurd hrest (by simp)
      · rfl

theorem validateShootSpecUpdateFields_isSome (X : Collaborators) (newSpec oldSpec : ShootSpec)
    (p : Path) (h : OldVersionsParse newSpec oldSpec) :
    ∃ errs, validateShootSpecUpdateFields X newSpec oldSpec p = some errs := by
  have hw := validateWorkerVersionUpdates_isSome newSpec oldSpec p newSpec.Provider.Workers 0 h.2
  unfold validateShootSpecUpdateFields
  simp only [List.nil_append]
  split
  · rename_i hnone
    rw [ValidateKubernetesVersionUpdate_none_iff] at hnone
    have := h.1
    rw [hnone.2] at this
    exact absurd this (by simp)
  · split
    · exact ⟨_, rfl⟩
    · split
      · rename_i hnone
        rw [hnone] at hw
        exact absurd hw (by simp)
      · exact ⟨_, rfl⟩

theorem ValidateShootSpecUpdate_of_no_deletion (X : Collaborators) (newSpec oldSpec : ShootSpec)
    (newObjectMeta : ObjectMeta) (p : Path) (h : newObjectMeta.DeletionTimestamp = none) :
    ValidateShootSpecUpdate X newSpec oldSpec newObjectMeta p =
      validateShootSpecUpdateFields X newSpec oldSpec p := by
  simp [ValidateShootSpecUpdate, h]

theorem errorsAt_child_of_under (p : Path) (a b : String) (l : ErrorList)
    (h : ErrorsUnder (p.Child b) l) (hab : a ≠ b) : errorsAt (p.Child a) l = [] :=
  errorsAt_nil_of_under_child p a b [] l h hab

theorem errorsAt_child2_of_under (p : Path) (a c b : String) (l : ErrorList)
    (h : ErrorsUnder (p.Child b) l) (hab : a ≠ b) : errorsAt ((p.Child a).Child c) l = [] := by
  have := errorsAt_nil_of_under_child p a b [PathElem.name c] l h hab
  simpa [Path.Child] using this

theorem immutableSpecFieldErrors_parts (newSpec oldSpec : ShootSpec) (p : Path) (a : String)
    (rest : Path) (hd : a ≠ "dns") :
    errorsAt (p ++ PathElem.name a :: rest) (immutableSpecFieldErrors newSpec oldSpec p) =
      errorsAt (p ++ PathElem.name a :: rest)
        (ValidateImmutableField id newSpec.Region oldSpec.Region (p.Child "region") ++
          ValidateImmutableField id newSpec.CloudProfileName oldSpec.CloudProfileName
            (p.Child "cloudProfileName") ++
          ValidateImmutableField ptrText newSpec.SecretBindingName oldSpec.SecretBindingName
            (p.Child "secretBindingName") ++
          ValidateImmutableField ptrText newSpec.ExposureClassName oldSpec.ExposureClassName
            (p.Child "exposureClassName")) := by
  unfold immutableSpecFieldErrors
  rw [errorsAt_append, errorsAt_nil_of_under_child p a "dns" rest _ (validateDNSUpdate_under _ _ _ _) hd,
    List.append_nil]

/-- Errors of `validateShootSpecUpdateFields` at a path below `p` whose first element is
none of `dns`, `kubernetes`, `provider`, `networking`: they are those of the four immutable
top-level fields. -/
theorem errorsAt_updateFields_top (X : Collaborators) (newSpec oldSpec : ShootSpec) (p : Path)
    (errs : ErrorList) (h : validateShootSpecUpdateFields X newSpec oldSpec p = some errs)
    (a : String) (rest : Path) (hd : a ≠ "dns") (hk : a ≠ "kubernetes") (hp : a ≠ "provider")
    (hn : a ≠ "networking") :
    errorsAt (p ++ PathElem.name a :: rest) errs =
      errorsAt (p ++ PathElem.name a :: rest)
        (ValidateImmutableField id newSpec.Region oldSpec.Region (p.Child "region") ++
          ValidateImmutableField id newSpec.CloudProfileName oldSpec.CloudProfileName
            (p.Child "cloudProfileName") ++
          ValidateImmutableField ptrText newSpec.SecretBindingName oldSpec.SecretBindingName
            (p.Child "secretBindingName") ++
          ValidateImmutableField ptrText newSpec.ExposureClassName oldSpec.ExposureClassName
            (p.Child "exposureClassName")) := by
  obtain ⟨versionErrs, hv, hshape⟩ := validateShootSpecUpdateFields_some X newSpec oldSpec p errs h
  have hV : errorsAt (p ++ PathElem.name a :: rest) versionErrs = [] := by
    apply errorsAt_nil_of_under_child p a "kubernetes" rest _ _ hk
    intro e he
    rw [ValidateKubernetesVersionUpdate_field _ _ _ _ hv e he]
    exact prefix_child _ _
  have hK : errorsAt (p ++ PathElem.name a :: rest)
      (validateKubeControllerManagerUpdate newSpec.Kubernetes.KubeControllerManager
        oldSpec.Kubernetes.KubeControllerManager
        ((p.Child "kubernetes").Child "kubeControllerManager")) = [] :=
    errorsAt_nil_of_under_child p a "kubernetes" rest _
      ((validateKubeControllerManagerUpdate_under _ _ _).mono (prefix_child _ _)) hk
  rcases hshape with ⟨_, err, herr, rfl⟩ | ⟨_, workerErrs, hw, rfl⟩
  · have hE : errorsAt (p ++ PathElem.name a :: rest) [err] = [] := by
      apply errorsAt_nil_of_under_child p a "provider" rest _ _ hp
      apply ErrorsUnder.single
      rw [(validateWorkerUpdate_field _ _ _ _ herr).2]
      exact prefix_child _ _
    simp only [errorsAt_append, hV, hK, hE, List.append_nil]
    rw [immutableSpecFieldErrors_parts newSpec oldSpec p a rest hd]
    simp only [errorsAt_append]
  · have hP : errorsAt (p ++ PathElem.name a :: rest)
        (ValidateProviderUpdate newSpec.Provider oldSpec.Provider (p.Child "provider")) = [] :=
      errorsAt_nil_of_under_child p a "provider" rest _
        ((ValidateImmutableField_under _ _ _ _).mono (prefix_child _ _)) hp
    have hW : errorsAt (p ++ PathElem.name a :: rest) workerErrs = [] :=
      errorsAt_nil_of_under_child p a "provider" rest _
        ((validateWorkerVersionUpdates_under _ _ _ _ _ _ hw).mono (prefix_child _ _)) hp
    have hN : errorsAt (p ++ PathElem.name a :: rest)
        (validateNetworkingUpdate X newSpec.Networking oldSpec.Networking
          (p.Child "networking")) = [] :=
      errorsAt_nil_of_under_child p a "networking" rest _
        (validateNetworkingUpdate_under _ _ _ _) hn
    simp only [errorsAt_append, hV, hK, hP, hW, hN, List.append_nil]
    rw [immutableSpecFieldErrors_parts newSpec oldSpec p a rest hd]
    simp only [errorsAt_append]

/-! ## Updates of the specification -/

theorem errorsAt_immutable_self {α : Type} [DecidableEq α] (text : α → String) (n o : α)
    (p : Path) :
    errorsAt p (ValidateImmutableField text n o p) =
      if n ≠ o then [Invalid p (text n) FieldImmutableErrorMsg] else [] := by
  rw [errorsAt_ValidateImmutableField]
  by_cases h : n = o
  · simp [h]
  · have : ¬ o = n := fun h2 => h h2.symm
    simp [h, this]

theorem specCollaborators_symm (a b : ShootSpec) :
    specCollaborators.SemanticDeepEqual a b = specCollaborators.SemanticDeepEqual b a := by
  simp only [specCollaborators]
  rw [Bool.eq_iff_iff]
  simp only [Bool.and_eq_true, decide_eq_true_eq]
  constructor <;> intro h <;>
    exact ⟨⟨⟨⟨⟨⟨⟨h.1.1.1.1.1.1.1.symm, h.1.1.1.1.1.1.2.symm⟩, h.1.1.1.1.1.2.symm⟩,
      h.1.1.1.1.2.symm⟩, h.1.1.1.2.symm⟩, h.1.1.2.symm⟩, h.1.2.symm⟩, h.2.symm⟩

/-- C12: with a deletion timestamp on the new object and specifications that are not
semantically equal, `ValidateShootSpecUpdate` returns exactly one error, at the path of the
specification: the `Forbidden` error listing the differences, or the immutability error when
no difference is listed; the field-level checks do not contribute. With semantically equal
specifications the result is the one without a deletion timestamp. Semantic equality is
taken as symmetric. -/
theorem spec_update_in_deletion (X : Collaborators)
    (hsym : ∀ a b, X.SemanticDeepEqual a b = X.SemanticDeepEqual b a)
    (newSpec oldSpec : ShootSpec) (newObjectMeta : ObjectMeta) (fldPath : Path) :
    (newObjectMeta.DeletionTimestamp.isSome → X.SemanticDeepEqual newSpec oldSpec = false →
      ∃ e, ValidateShootSpecUpdate X newSpec oldSpec newObjectMeta fldPath = some [e] ∧
        e.Field = fldPath ∧
        e = (if X.deepEqual newSpec oldSpec ≠ [] then
              Forbidden fldPath (",".intercalate (X.deepEqual newSpec oldSpec))
            else Invalid fldPath "" FieldImmutableErrorMsg)) ∧
    (X.SemanticDeepEqual newSpec oldSpec = true →
      ValidateShootSpecUpdate X newSpec oldSpec newObjectMeta fldPath =
        ValidateShootSpecUpdate X newSpec oldSpec
          { newObjectMeta with DeletionTimestamp := none } fldPath) := by
  constructor
  · intro hdel hne
    have hne2 : X.SemanticDeepEqual oldSpec newSpec = false := by rw [hsym]; exact hne
    unfold ValidateShootSpecUpdate
    rw [if_pos ⟨hdel, hne⟩]
    by_cases hd : X.deepEqual newSpec oldSpec ≠ []
    · simp only [if_pos hd]
      exact ⟨_, rfl, rfl, rfl⟩
    · simp only [if_neg hd, ValidateImmutableFieldBy, hne2]
      exact ⟨_, rfl, rfl, rfl⟩
  · intro heq
    simp [ValidateShootSpecUpdate, heq]

/-- Witness of C12: a region change on an object in deletion yields the single `Forbidden`
error at `spec`. -/
theorem spec_update_in_deletion_witness :
    ∃ e, ValidateShootSpecUpdate specCollaborators regionChangedSpec scheduledSpec deletingMeta
        (NewPath "spec") = some [e] ∧
      e.Field = NewPath "spec" ∧
      e = (if specCollaborators.deepEqual regionChangedSpec scheduledSpec ≠ [] then
            Forbidden (NewPath "spec")
              (",".intercalate (specCollaborators.deepEqual regionChangedSpec scheduledSpec))
          else Invalid (NewPath "spec") "" FieldImmutableErrorMsg) :=
  (spec_update_in_deletion specCollaborators specCollaborators_symm regionChangedSpec
    scheduledSpec deletingMeta (NewPath "spec")).1 rfl (by decide)

/-- C13, counterexample: changing `spec.region` from `eu-1` to `eu-2` on an object without
deletion timestamp yields one error at `spec.region`, of kind `Invalid`; no error of kind
`Forbidden` is reported at `spec.region`. -/
theorem immutable_region_forbidden_counterexample :
    regionChangedSpec.Region ≠ scheduledSpec.Region ∧
    ValidateShootSpecUpdate specCollaborators regionChangedSpec scheduledSpec {}
        (NewPath "spec") =
      some [Invalid ((NewPath "spec").Child "region") "eu-2" "field is immutable"] ∧
    ¬ ReportsAt ErrorType.Forbidden ((NewPath "spec").Child "region")
      [Invalid ((NewPath "spec").Child "region") "eu-2" "field is immutable"] := by
  refine ⟨by decide, by decide, by decide⟩

/-- C13, amended: without deletion timestamp, every result of `ValidateShootSpecUpdate`
holds at `region` (`cloudProfileName`, `secretBindingName`, `exposureClassName`) exactly the
`Invalid` error "field is immutable" when the new value differs from the old one, and no
error otherwise; a result is returned whenever the old versions parse. -/
theorem immutable_spec_fields_invalid (X : Collaborators) (newSpec oldSpec : ShootSpec)
    (newObjectMeta : ObjectMeta) (fldPath : Path)
    (hdel : newObjectMeta.DeletionTimestamp = none) :
    (∀ errs, ValidateShootSpecUpdate X newSpec oldSpec newObjectMeta fldPath = some errs →
      errorsAt (fldPath.Child "region") errs =
        (if newSpec.Region ≠ oldSpec.Region then
          [Invalid (fldPath.Child "region") newSpec.Region FieldImmutableErrorMsg] else []) ∧
      errorsAt (fldPath.Child "cloudProfileName") errs =
        (if newSpec.CloudProfileName ≠ oldSpec.CloudProfileName then
          [Invalid (fldPath.Child "cloudProfileName") newSpec.CloudProfileName
            FieldImmutableErrorMsg] else []) ∧
      errorsAt (fldPath.Child "secretBindingName") errs =
        (if newSpec.SecretBindingName ≠ oldSpec.SecretBindingName then
          [Invalid (fldPath.Child "secretBindingName") (ptrText newSpec.SecretBindingName)
            FieldImmutableErrorMsg] else []) ∧
      errorsAt (fldPath.Child "exposureClassName") errs =
        (if newSpec.ExposureClassName ≠ oldSpec.ExposureClassName then
          [Invalid (fldPath.Child "exposureClassName") (ptrText newSpec.ExposureClassName)
            FieldImmutableErrorMsg] else [])) ∧
    (OldVersionsParse newSpec oldSpec →
      ∃ errs, ValidateShootSpecUpdate X newSpec oldSpec newObjectMeta fldPath = some errs) := by
  rw [ValidateShootSpecUpdate_of_no_deletion X newSpec oldSpec newObjectMeta fldPath hdel]
  refine ⟨?_, validateShootSpecUpdateFields_isSome X newSpec oldSpec fldPath⟩
  intro errs h
  have key := fun a (h1 : a ≠ "dns") (h2 : a ≠ "kubernetes") (h3 : a ≠ "provider")
      (h4 : a ≠ "networking") =>
    errorsAt_updateFields_top X newSpec oldSpec fldPath errs h a [] h1 h2 h3 h4
  have hne : ∀ a b : String, a ≠ b → fldPath.Child a ≠ fldPath.Child b :=
    fun a b h => child_ne_child fldPath h
  refine ⟨?_, ?_, ?_, ?_⟩
  · have := key "region" (by decide) (by decide) (by decide) (by decide)
    rw [show fldPath.Child "region" = fldPath ++ [PathElem.name "region"] from rfl, this]
    simp only [errorsAt_append]
    rw [show fldPath ++ [PathElem.name "region"] = fldPath.Child "region" from rfl,
      errorsAt_immutable_self,
      errorsAt_immutable_ne _ _ _ _ _ (hne "cloudProfileName" "region" (by decide)),
      errorsAt_immutable_ne _ _ _ _ _ (hne "secretBindingName" "region" (by decide)),
      errorsAt_immutable_ne _ _ _ _ _ (hne "exposureClassName" "region" (by decide))]
    simp
  · have := key "cloudProfileName" (by decide) (by decide) (by decide) (by decide)
    rw [show fldPath.Child "cloudProfileName" = fldPath ++ [PathElem.name "cloudProfileName"]
      from rfl, this]
    simp only [errorsAt_append]
    rw [show fldPath ++ [PathElem.name "cloudProfileName"] = fldPath.Child "cloudProfileName"
        from rfl,
      errorsAt_immutable_self,
      errorsAt_immutable_ne _ _ _ _ _ (hne "region" "cloudProfileName" (by decide)),
      errorsAt_immutable_ne _ _ _ _ _ (hne "secretBindingName" "cloudProfileName" (by decide)),
      errorsAt_immutable_ne _ _ _ _ _ (hne "exposureClassName" "cloudProfileName" (by decide))]
    simp
  · have := key "secretBindingName" (by decide) (by decide) (by decide) (by decide)
    rw [show fldPath.Child "secretBindingName" = fldPath ++ [PathElem.name "secretBindingName"]
      from rfl, this]
    simp only [errorsAt_append]
    rw [show fldPath ++ [PathElem.name "secretBindingName"] = fldPath.Child "secretBindingName"
        from rfl,
      errorsAt_immutable_self,
      errorsAt_immutable_ne _ _ _ _ _ (hne "region" "secretBindingName" (by decide)),
      errorsAt_immutable_ne _ _ _ _ _ (hne "cloudProfileName" "secretBindingName" (by decide)),
      errorsAt_immutable_ne _ _ _ _ _ (hne "exposureClassName" "secretBindingName" (by decide))]
    simp
  · have := key "exposureClassName" (by decide) (by decide) (by decide) (by decide)
    rw [show fldPath.Child "exposureClassName" = fldPath ++ [PathElem.name "exposureClassName"]
      from rfl, this]
    simp only [errorsAt_append]
    rw [show fldPath ++ [PathElem.name "exposureClassName"] = fldPath.Child "exposureClassName"
        from rfl,
      errorsAt_immutable_self,
      errorsAt_immutable_ne _ _ _ _ _ (hne "region" "exposureClassName" (by decide)),
      errorsAt_immutable_ne _ _ _ _ _ (hne "cloudProfileName" "exposureClassName" (by decide)),
      errorsAt_immutable_ne _ _ _ _ _ (hne "secretBindingName" "exposureClassName" (by decide))]
    simp

/-- Witness of C13: the region change of `regionChangedSpec`. -/
theorem immutable_spec_fields_invalid_witness :
    (∀ errs, ValidateShootSpecUpdate specCollaborators regionChangedSpec scheduledSpec {}
        (NewPath "spec") = some errs →
      errorsAt ((NewPath "spec").Child "region") errs =
        [Invalid ((NewPath "spec").Child "region") "eu-2" FieldImmutableErrorMsg]) ∧
    (∃ errs, ValidateShootSpecUpdate specCollaborators regionChangedSpec scheduledSpec {}
        (NewPath "spec") = some errs) :=
  ⟨fun errs h => ((immutable_spec_fields_invalid specCollaborators regionChangedSpec
      scheduledSpec {} (NewPath "spec") rfl).1 errs h).1,
    ⟨_, (by decide : ValidateShootSpecUpdate specCollaborators regionChangedSpec scheduledSpec {}
        (NewPath "spec") =
      some [Invalid ((NewPath "spec").Child "region") "eu-2" "field is immutable"])⟩⟩

theorem mem_updateFields_of_mem_immutable (X : Collaborators) (newSpec oldSpec : ShootSpec)
    (p : Path) (errs : ErrorList)
    (h : validateShootSpecUpdateFields X newSpec oldSpec p = some errs) (e : Error)
    (he : e ∈ immutableSpecFieldErrors newSpec oldSpec p) : e ∈ errs := by
  obtain ⟨versionErrs, _, hshape⟩ := validateShootSpecUpdateFields_some X newSpec oldSpec p errs h
  rcases hshape with ⟨_, err, _, rfl⟩ | ⟨_, workerErrs, _, rfl⟩ <;>
    simp only [List.mem_append] <;> tauto

/-- Errors of `validateShootSpecUpdateFields` at a path below `p.dns`: they are those of
`validateDNSUpdate`. -/
theorem errorsAt_updateFields_dns (X : Collaborators) (newSpec oldSpec : ShootSpec) (p : Path)
    (errs : ErrorList) (h : validateShootSpecUpdateFields X newSpec oldSpec p = some errs)
    (rest : Path) :
    errorsAt (p ++ PathElem.name "dns" :: rest) errs =
      errorsAt (p ++ PathElem.name "dns" :: rest)
        (validateDNSUpdate newSpec.DNS oldSpec.DNS newSpec.SeedName.isSome (p.Child "dns")) := by
  obtain ⟨versionErrs, hv, hshape⟩ := validateShootSpecUpdateFields_some X newSpec oldSpec p errs h
  have hsib : ∀ (b : String) (l : ErrorList), ErrorsUnder (p.Child b) l → "dns" ≠ b →
      errorsAt (p ++ PathElem.name "dns" :: rest) l = [] :=
    fun b l hl hb => errorsAt_nil_of_under_child p "dns" b rest l hl hb
  have hI : errorsAt (p ++ PathElem.name "dns" :: rest) (immutableSpecFieldErrors newSpec oldSpec p)
      = errorsAt (p ++ PathElem.name "dns" :: rest)
        (validateDNSUpdate newSpec.DNS oldSpec.DNS newSpec.SeedName.isSome (p.Child "dns")) := by
    unfold immutableSpecFieldErrors
    simp only [errorsAt_append]
    rw [hsib "region" _ (ValidateImmutableField_under _ _ _ _) (by decide),
      hsib "cloudProfileName" _ (ValidateImmutableField_under _ _ _ _) (by decide),
      hsib "secretBindingName" _ (ValidateImmutableField_under _ _ _ _) (by decide),
      hsib "exposureClassName" _ (ValidateImmutableField_under _ _ _ _) (by decide)]
    simp
  have hV : errorsAt (p ++ PathElem.name "dns" :: rest) versionErrs = [] := by
    apply hsib "kubernetes" _ _ (by decide)
    intro e he
    rw [ValidateKubernetesVersionUpdate_field _ _ _ _ hv e he]
    exact prefix_child _ _
  have hK := hsib "kubernetes" _
    ((validateKubeControllerManagerUpdate_under newSpec.Kubernetes.KubeControllerManager
      oldSpec.Kubernetes.KubeControllerManager
      ((p.Child "kubernetes").Child "kubeControllerManager")).mono (prefix_child _ _)) (by decide)
  rcases hshape with ⟨_, err, herr, rfl⟩ | ⟨_, workerErrs, hw, rfl⟩
  · have hE : errorsAt (p ++ PathElem.name "dns" :: rest) [err] = [] := by
      apply hsib "provider" _ _ (by decide)
      apply ErrorsUnder.single
      rw [(validateWorkerUpdate_field _ _ _ _ herr).2]
      exact prefix_child _ _
    simp only [errorsAt_append, hV, hK, hE, hI, List.append_nil]
  · have hP := hsib "provider" _
      ((ValidateImmutableField_under id newSpec.Provider.Type_ oldSpec.Provider.Type_
        ((p.Child "provider").Child "type")).mono (prefix_child _ _)) (by decide)
    have hW := hsib "provider" _
      ((validateWorkerVersionUpdates_under _ _ _ _ _ _ hw).mono (prefix_child _ _)) (by decide)
    have hN := hsib "networking" _
      (validateNetworkingUpdate_under X newSpec.Networking oldSpec.Networking
        (p.Child "networking")) (by decide)
    unfold ValidateProviderUpdate
    simp only [errorsAt_append, hV, hK, hP, hW, hN, hI, List.append_nil]

theorem primaryType_isSome {primary : Option DNSProvider} (h : (primaryType primary).isSome) :
    primary.isSome := by
  cases primary with
  | none => simp [primaryType] at h
  | some _ => rfl

/-- The primary-provider checks of `validateDNSUpdate`: when the old primary provider has
a type and the new one is missing, has no type or another type, a `Forbidden` error at
`providers` is reported if `seedGotAssigned` is false, and nothing is reported at
`providers` if it is true. -/
theorem validateDNSUpdate_primary (new old : DNS) (p : Path) (t : String)
    (hot : primaryType (FindPrimaryDNSProvider old.Providers) = some t)
    (hnt : primaryType (FindPrimaryDNSProvider new.Providers) ≠ some t) :
    ReportsAt ErrorType.Forbidden (p.Child "providers")
      (validateDNSUpdate (some new) (some old) false p) ∧
    errorsAt (p.Child "providers") (validateDNSUpdate (some new) (some old) true p) = [] := by
  have hoS : (FindPrimaryDNSProvider old.Providers).isSome := primaryType_isSome (by rw [hot]; rfl)
  constructor
  · unfold ReportsAt validateDNSUpdate
    simp only [Option.isSome_some, Option.isNone_some, Bool.false_eq_true, and_false, if_false,
      List.nil_append, Bool.not_false, if_true, hot, hoS, true_and]
    cases hN : FindPrimaryDNSProvider new.Providers with
    | none =>
      refine ⟨Forbidden (p.Child "providers") "removing a primary provider is not allowed", ?_,
        rfl, rfl⟩
      simp
    | some pn =>
      cases hT : primaryType (FindPrimaryDNSProvider new.Providers) with
      | none =>
        refine ⟨Forbidden (p.Child "providers")
          "removing the primary provider type is not allowed", ?_, rfl, rfl⟩
        rw [hN] at hT
        simp [hT]
      | some t2 =>
        have hne : t ≠ t2 := by
          intro h; apply hnt; rw [hT, h]
        refine ⟨Forbidden (p.Child "providers")
          "changing primary provider type is not allowed", ?_, rfl, rfl⟩
        rw [hN] at hT
        simp [hT, hne]
  · unfold validateDNSUpdate
    simp only [Option.isSome_some, Option.isNone_some, Bool.false_eq_true, and_false, if_false,
      List.nil_append, Bool.not_true]
    exact errorsAt_guarded_immutable_ne _ _ _ _ _ _ (child_ne_child p (by decide))

/-- C19: on a scheduled shoot (`seedName` set in the old and in the new specification)
the type of the primary DNS provider changes from `aws-route53` to `gcp-clouddns`. The
update is not the assignment of the seed, and `ValidateShootSpecUpdate` accepts it: the
checks of the primary provider are skipped whenever the new specification has a
`seedName`. -/
theorem primary_dns_provider_change_counterexample :
    scheduledSpec.SeedName = some "seed" ∧ primaryTypeChangedSpec.SeedName = some "seed" ∧
    (scheduledSpec.DNS.map (fun d => primaryType (FindPrimaryDNSProvider d.Providers))) =
      some (some "aws-route53") ∧
    (primaryTypeChangedSpec.DNS.map (fun d => primaryType (FindPrimaryDNSProvider d.Providers))) =
      some (some "gcp-clouddns") ∧
    ValidateShootSpecUpdate specCollaborators primaryTypeChangedSpec scheduledSpec {}
      (NewPath "spec") = some [] := by
  refine ⟨rfl, rfl, by decide, by decide, by decide⟩

/-- The checks of the primary DNS provider in a result of `ValidateShootSpecUpdate`: when
old and new DNS are set, the old primary provider has a type and the new primary provider
is missing, has no type or another type, every result of
`ValidateShootSpecUpdate` (no deletion timestamp) holds a `Forbidden` error at
`dns.providers` if the new specification has no `seedName`, and no error at `dns.providers`
if the new specification has a `seedName`, whatever the old `seedName`; a result is
returned whenever the old versions parse. -/
theorem primary_dns_provider_change (X : Collaborators) (newSpec oldSpec : ShootSpec)
    (newObjectMeta : ObjectMeta) (fldPath : Path) (newDNS oldDNS : DNS) (t : String)
    (hdel : newObjectMeta.DeletionTimestamp = none)
    (hn : newSpec.DNS = some newDNS) (ho : oldSpec.DNS = some oldDNS)
    (hot : primaryType (FindPrimaryDNSProvider oldDNS.Providers) = some t)
    (hnt : primaryType (FindPrimaryDNSProvider newDNS.Providers) ≠ some t) :
    (∀ errs, ValidateShootSpecUpdate X newSpec oldSpec newObjectMeta fldPath = some errs →
      (newSpec.SeedName = none →
        ReportsAt ErrorType.Forbidden ((fldPath.Child "dns").Child "providers") errs) ∧
      (newSpec.SeedName ≠ none →
        errorsAt ((fldPath.Child "dns").Child "providers") errs = [])) ∧
    (OldVersionsParse newSpec oldSpec →
      ∃ errs, ValidateShootSpecUpdate X newSpec oldSpec newObjectMeta fldPath = some errs) := by
  rw [ValidateShootSpecUpdate_of_no_deletion X newSpec oldSpec newObjectMeta fldPath hdel]
  refine ⟨?_, validateShootSpecUpdateFields_isSome X newSpec oldSpec fldPath⟩
  intro errs h
  have hprim := validateDNSUpdate_primary newDNS oldDNS (fldPath.Child "dns") t hot hnt
  constructor
  · intro hseed
    obtain ⟨e, he, h1, h2⟩ := hprim.1
    refine ⟨e, ?_, h1, h2⟩
    apply mem_updateFields_of_mem_immutable X newSpec oldSpec fldPath errs h
    unfold immutableSpecFieldErrors
    rw [hn, ho, hseed]
    exact List.mem_append_right _ he
  · intro hseed
    have hs : newSpec.SeedName.isSome = true := by
      cases hS : newSpec.SeedName with
      | none => exact absurd hS hseed
      | some _ => rfl
    have := errorsAt_updateFields_dns X newSpec oldSpec fldPath errs h [PathElem.name "providers"]
    rw [hn, ho, hs] at this
    have hpath : (fldPath.Child "dns").Child "providers" =
        fldPath ++ PathElem.name "dns" :: [PathElem.name "providers"] := by
      simp [Path.Child]
    rw [hpath, this, ← hpath]
    exact hprim.2

/-- An instance of `primary_dns_provider_change`: the primary provider type changes while
the new specification has no `seedName`. -/
theorem primary_dns_provider_change_witness :
    (∀ errs, ValidateShootSpecUpdate specCollaborators
        { primaryTypeChangedSpec with SeedName := none } { scheduledSpec with SeedName := none }
        {} (NewPath "spec") = some errs →
      ReportsAt ErrorType.Forbidden (((NewPath "spec").Child "dns").Child "providers") errs) ∧
    ValidateShootSpecUpdate specCollaborators
        { primaryTypeChangedSpec with SeedName := none } { scheduledSpec with SeedName := none }
        {} (NewPath "spec") =
      some [Forbidden (((NewPath "spec").Child "dns").Child "providers")
        "changing primary provider type is not allowed"] :=
  ⟨fun errs h => ((primary_dns_provider_change specCollaborators
      { primaryTypeChangedSpec with SeedName := none } { scheduledSpec with SeedName := none }
      {} (NewPath "spec") { Providers := [{ Primary := some true, Type_ := some "gcp-clouddns" }] }
      { Providers := [{ Primary := some true, Type_ := some "aws-route53" }] } "aws-route53"
      rfl rfl rfl (by decide) (by decide)).1 errs h).1 rfl,
    by decide⟩

/-- Errors of `validateShootSpecUpdateFields` at `p.provider.type`: none after a flip
between a shoot with workers and a workerless shoot, else those of `ValidateProviderUpdate`. -/
theorem errorsAt_updateFields_providerType (X : Collaborators) (newSpec oldSpec : ShootSpec)
    (p : Path) (errs : ErrorList)
    (h : validateShootSpecUpdateFields X newSpec oldSpec p = some errs) :
    errorsAt ((p.Child "provider").Child "type") errs =
      if WorkerFlip newSpec oldSpec then []
      else ValidateImmutableField id newSpec.Provider.Type_ oldSpec.Provider.Type_
        ((p.Child "provider").Child "type") := by
  obtain ⟨versionErrs, hv, hshape⟩ := validateShootSpecUpdateFields_some X newSpec oldSpec p errs h
  have hpath : (p.Child "provider").Child "type" =
      p ++ PathElem.name "provider" :: [PathElem.name "type"] := by
    simp [Path.Child]
  have hsib : ∀ (b : String) (l : ErrorList), ErrorsUnder (p.Child b) l → "provider" ≠ b →
      errorsAt ((p.Child "provider").Child "type") l = [] := by
    intro b l hl hb
    rw [hpath]
    exact errorsAt_nil_of_under_child p "provider" b _ l hl hb
  have hI : errorsAt ((p.Child "provider").Child "type")
      (immutableSpecFieldErrors newSpec oldSpec p) = [] := by
    unfold immutableSpecFieldErrors
    simp only [errorsAt_append]
    rw [hsib "region" _ (ValidateImmutableField_under _ _ _ _) (by decide),
      hsib "cloudProfileName" _ (ValidateImmutableField_under _ _ _ _) (by decide),
      hsib "secretBindingName" _ (ValidateImmutableField_under _ _ _ _) (by decide),
      hsib "exposureClassName" _ (ValidateImmutableField_under _ _ _ _) (by decide),
      hsib "dns" _ (validateDNSUpdate_under _ _ _ _) (by decide)]
    rfl
  have hV : errorsAt ((p.Child "provider").Child "type") versionErrs = [] := by
    apply hsib "kubernetes" _ _ (by decide)
    intro e he
    rw [ValidateKubernetesVersionUpdate_field _ _ _ _ hv e he]
    exact prefix_child _ _
  have hK := hsib "kubernetes" _
    ((validateKubeControllerManagerUpdate_under newSpec.Kubernetes.KubeControllerManager
      oldSpec.Kubernetes.KubeControllerManager
      ((p.Child "kubernetes").Child "kubeControllerManager")).mono (prefix_child _ _)) (by decide)
  rcases hshape with ⟨hf, err, herr, rfl⟩ | ⟨hf, workerErrs, hw, rfl⟩
  · have hE : errorsAt ((p.Child "provider").Child "type") [err] = [] := by
      apply errorsAt_child_of_under (p.Child "provider") "type" "workers" _ _ (by decide)
      apply ErrorsUnder.single
      rw [(validateWorkerUpdate_field _ _ _ _ herr).2]
    simp only [errorsAt_append, hV, hK, hE, hI, List.append_nil, if_pos hf]
  · have hW : errorsAt ((p.Child "provider").Child "type") workerErrs = [] :=
      errorsAt_child_of_under (p.Child "provider") "type" "workers" _
        (validateWorkerVersionUpdates_under _ _ _ _ _ _ hw) (by decide)
    have hN := hsib "networking" _
      (validateNetworkingUpdate_under X newSpec.Networking oldSpec.Networking
        (p.Child "networking")) (by decide)
    unfold ValidateProviderUpdate
    simp only [errorsAt_append, hV, hK, hW, hN, hI, List.append_nil, List.nil_append, if_neg hf]
    rw [errorsAt_immutable_self, ValidateImmutableField_eq]
    by_cases hT : newSpec.Provider.Type_ = oldSpec.Provider.Type_
    · simp [hT]
    · have : ¬ oldSpec.Provider.Type_ = newSpec.Provider.Type_ := fun h2 => hT h2.symm
      simp [hT, this]

/-- Errors of `validateShootSpecUpdateFields` at a path below `p.networking`: none after a
flip between a shoot with workers and a workerless shoot, else those of
`validateNetworkingUpdate`. -/
theorem errorsAt_updateFields_networking (X : Collaborators) (newSpec oldSpec : ShootSpec)
    (p : Path) (errs : ErrorList)
    (h : validateShootSpecUpdateFields X newSpec oldSpec p = some errs) (rest : Path) :
    errorsAt (p ++ PathElem.name "networking" :: rest) errs =
      if WorkerFlip newSpec oldSpec then []
      else errorsAt (p ++ PathElem.name "networking" :: rest)
        (validateNetworkingUpdate X newSpec.Networking oldSpec.Networking
          (p.Child "networking")) := by
  obtain ⟨versionErrs, hv, hshape⟩ := validateShootSpecUpdateFields_some X newSpec oldSpec p errs h
  have hsib : ∀ (b : String) (l : ErrorList), ErrorsUnder (p.Child b) l → "networking" ≠ b →
      errorsAt (p ++ PathElem.name "networking" :: rest) l = [] :=
    fun b l hl hb => errorsAt_nil_of_under_child p "networking" b rest l hl hb
  have hI : errorsAt (p ++ PathElem.name "networking" :: rest)
      (immutableSpecFieldErrors newSpec oldSpec p) = [] := by
    unfold immutableSpecFieldErrors
    simp only [errorsAt_append]
    rw [hsib "region" _ (ValidateImmutableField_under _ _ _ _) (by decide),
      hsib "cloudProfileName" _ (ValidateImmutableField_under _ _ _ _) (by decide),
      hsib "secretBindingName" _ (ValidateImmutableField_under _ _ _ _) (by decide),
      hsib "exposureClassName" _ (ValidateImmutableField_under _ _ _ _) (by decide),
      hsib "dns" _ (validateDNSUpdate_under _ _ _ _) (by decide)]
    rfl
  have hV : errorsAt (p ++ PathElem.name "networking" :: rest) versionErrs = [] := by
    apply hsib "kubernetes" _ _ (by decide)
    intro e he
    rw [ValidateKubernetesVersionUpdate_field _ _ _ _ hv e he]
    exact prefix_child _ _
  have hK := hsib "kubernetes" _
    ((validateKubeControllerManagerUpdate_under newSpec.Kubernetes.KubeControllerManager
      oldSpec.Kubernetes.KubeControllerManager
      ((p.Child "kubernetes").Child "kubeControllerManager")).mono (prefix_child _ _)) (by decide)
  rcases hshape with ⟨hf, err, herr, rfl⟩ | ⟨hf, workerErrs, hw, rfl⟩
  · have hE : errorsAt (p ++ PathElem.name "networking" :: rest) [err] = [] := by
      apply hsib "provider" _ _ (by decide)
      apply ErrorsUnder.single
      rw [(validateWorkerUpdate_field _ _ _ _ herr).2]
      exact prefix_child _ _
    simp only [errorsAt_append, hV, hK, hE, hI, List.append_nil, if_pos hf]
  · have hP := hsib "provider" _
      ((ValidateImmutableField_under id newSpec.Provider.Type_ oldSpec.Provider.Type_
        ((p.Child "provider").Child "type")).mono (prefix_child _ _)) (by decide)
    have hW := hsib "provider" _
      ((validateWorkerVersionUpdates_under _ _ _ _ _ _ hw).mono (prefix_child _ _)) (by decide)
    unfold ValidateProviderUpdate
    simp only [errorsAt_append, hV, hK, hP, hW, hI, List.append_nil, List.nil_append, if_neg hf]

/-- C15, counterexample: the update removes the only worker pool, changes the provider type
from `aws` to `gcp` and the networking type from `calico` to `cilium`. The result of
`ValidateShootSpecUpdate` is the flip error alone: nothing is reported at
`spec.provider.type` or at `spec.networking.type`. -/
theorem provider_type_change_lost_counterexample :
    workerlessTypeChangedSpec.Provider.Type_ ≠ scheduledSpec.Provider.Type_ ∧
    ValidateShootSpecUpdate specCollaborators workerlessTypeChangedSpec scheduledSpec {}
        (NewPath "spec") =
      some [Forbidden (((NewPath "spec").Child "provider").Child "workers")
        "cannot switch from a Shoot with workers to a workerless Shoot"] ∧
    errorsAt (((NewPath "spec").Child "provider").Child "type")
      [Forbidden (((NewPath "spec").Child "provider").Child "workers")
        "cannot switch from a Shoot with workers to a workerless Shoot"] = [] ∧
    errorsAt (((NewPath "spec").Child "networking").Child "type")
      [Forbidden (((NewPath "spec").Child "provider").Child "workers")
        "cannot switch from a Shoot with workers to a workerless Shoot"] = [] := by
  refine ⟨by decide, by decide, by decide, by decide⟩

/-- C15, amended: without deletion timestamp and without a flip between a shoot with
workers and a workerless shoot, every result of `ValidateShootSpecUpdate` holds at
`provider.type` exactly the `Invalid` error "field is immutable" when the provider type
changed, and, when old and new networking are set, at `networking.type` exactly that error
when the networking type changed. After a flip nothing is reported at `provider.type` or
below `networking`. A result is returned whenever the old versions parse. -/
theorem provider_and_networking_type_immutable (X : Collaborators) (newSpec oldSpec : ShootSpec)
    (newObjectMeta : ObjectMeta) (fldPath : Path)
    (hdel : newObjectMeta.DeletionTimestamp = none) :
    (∀ errs, ValidateShootSpecUpdate X newSpec oldSpec newObjectMeta fldPath = some errs →
      (¬ WorkerFlip newSpec oldSpec →
        errorsAt ((fldPath.Child "provider").Child "type") errs =
          (if newSpec.Provider.Type_ ≠ oldSpec.Provider.Type_ then
            [Invalid ((fldPath.Child "provider").Child "type") newSpec.Provider.Type_
              FieldImmutableErrorMsg] else [])) ∧
      (¬ WorkerFlip newSpec oldSpec → ∀ newNetworking oldNetworking,
        newSpec.Networking = some newNetworking → oldSpec.Networking = some oldNetworking →
        errorsAt ((fldPath.Child "networking").Child "type") errs =
          (if newNetworking.Type_ ≠ oldNetworking.Type_ then
            [Invalid ((fldPath.Child "networking").Child "type") (ptrText newNetworking.Type_)
              FieldImmutableErrorMsg] else [])) ∧
      (WorkerFlip newSpec oldSpec →
        errorsAt ((fldPath.Child "provider").Child "type") errs = [] ∧
        ∀ rest, errorsAt (fldPath ++ PathElem.name "networking" :: rest) errs = [])) ∧
    (OldVersionsParse newSpec oldSpec →
      ∃ errs, ValidateShootSpecUpdate X newSpec oldSpec newObjectMeta fldPath = some errs) := by
  rw [ValidateShootSpecUpdate_of_no_deletion X newSpec oldSpec newObjectMeta fldPath hdel]
  refine ⟨?_, validateShootSpecUpdateFields_isSome X newSpec oldSpec fldPath⟩
  intro errs h
  have hP := errorsAt_updateFields_providerType X newSpec oldSpec fldPath errs h
  have hN := errorsAt_updateFields_networking X newSpec oldSpec fldPath errs h
  refine ⟨?_, ?_, ?_⟩
  · intro hf
    rw [hP, if_neg hf, ValidateImmutableField_eq]
    by_cases hT : newSpec.Provider.Type_ = oldSpec.Provider.Type_
    · simp [hT]
    · have : ¬ oldSpec.Provider.Type_ = newSpec.Provider.Type_ := fun h2 => hT h2.symm
      simp [hT, this]
  · intro hf nn oo hn ho
    have hpath : (fldPath.Child "networking").Child "type" =
        fldPath ++ PathElem.name "networking" :: [PathElem.name "type"] := by
      simp [Path.Child]
    have hne : ∀ a b : String, a ≠ b →
        (fldPath.Child "networking").Child a ≠ (fldPath.Child "networking").Child b :=
      fun a b h => child_ne_child _ h
    rw [hpath, hN, if_neg hf, ← hpath, hn, ho]
    simp only [validateNetworkingUpdate, List.nil_append, errorsAt_append]
    rw [errorsAt_immutable_self,
      errorsAt_immutable_ne _ _ _ _ _ (hne "ipFamilies" "type" (by decide)),
      errorsAt_guarded_immutable_ne _ _ _ _ _ _ (hne "pods" "type" (by decide)),
      errorsAt_guarded_immutable_ne _ _ _ _ _ _ (hne "services" "type" (by decide)),
      errorsAt_guarded_immutable_ne _ _ _ _ _ _ (hne "nodes" "type" (by decide))]
    simp
  · intro hf
    refine ⟨by rw [hP, if_pos hf], fun rest => by rw [hN, if_pos hf]⟩

/-- Witness of C15: with the worker pool kept, the changed provider type is reported at
`spec.provider.type`. -/
theorem provider_and_networking_type_immutable_witness :
    (∀ errs, ValidateShootSpecUpdate specCollaborators
        { scheduledSpec with Provider := { Type_ := "gcp", Workers := [{ Name := "pool" }] } }
        scheduledSpec {} (NewPath "spec") = some errs →
      errorsAt (((NewPath "spec").Child "provider").Child "type") errs =
        [Invalid (((NewPath "spec").Child "provider").Child "type") "gcp"
          FieldImmutableErrorMsg]) ∧
    ValidateShootSpecUpdate specCollaborators
        { scheduledSpec with Provider := { Type_ := "gcp", Workers := [{ Name := "pool" }] } }
        scheduledSpec {} (NewPath "spec") =
      some [Invalid (((NewPath "spec").Child "provider").Child "type") "gcp"
        "field is immutable"] :=
  ⟨fun errs h => ((provider_and_networking_type_immutable specCollaborators
      { scheduledSpec with Provider := { Type_ := "gcp", Workers := [{ Name := "pool" }] } }
      scheduledSpec {} (NewPath "spec") rfl).1 errs h).1 (by decide),
    by decide⟩

/-! ## DNS providers -/

theorem index_child_ne (p : Path) (i j : Nat) (rest : Path) (h : i ≠ j) :
    ¬ (p.Index i <+: p ++ PathElem.index j :: rest) := by
  unfold Path.Index
  rw [List.prefix_append_right_inj]
  intro hp
  have := (List.cons_prefix_cons.1 hp).1
  simp only [PathElem.index.injEq] at this
  exact h this

/-- Every error of the provider loop lies below the path of a provider with an index in the
range of the loop. -/
theorem validateDNSProviders_index (X : Collaborators) (fldPath : Path) (ps : List DNSProvider)
    (i : Nat) (names : List String) (pf : Bool) :
    ∀ e ∈ validateDNSProviders X fldPath ps i names pf,
      ∃ j, i ≤ j ∧ j < i + ps.length ∧ (fldPath.Child "providers").Index j <+: e.Field := by
  induction ps generalizing i names pf with
  | nil => intro e he; simp [validateDNSProviders] at he
  | cons q qs ih =>
    intro e he
    simp only [validateDNSProviders, List.mem_append] at he
    rcases he with he | he
    · exact ⟨i, le_refl _, by simp, validateDNSProvider_under X _ q names pf e he⟩
    · obtain ⟨j, h1, h2, h3⟩ := ih _ _ _ e he
      exact ⟨j, by omega, by simp only [List.length_cons]; omega, h3⟩

theorem multiplePrimaryError_not_mem_of_under (fldPath : Path) (j k : Nat) (l : ErrorList)
    (h : ErrorsUnder ((fldPath.Child "providers").Index j) l) (hjk : j ≠ k) :
    multiplePrimaryError fldPath k ∉ l := by
  intro he
  apply index_child_ne (fldPath.Child "providers") j k [PathElem.name "primary"] hjk
  simpa [multiplePrimaryError, Forbidden, Path.Child, Path.Index] using h _ he

theorem multiplePrimaryError_not_mem_of_index (X : Collaborators) (fldPath : Path)
    (ps : List DNSProvider) (i : Nat) (names : List String) (pf : Bool) (k : Nat)
    (hk : k < i ∨ i + ps.length ≤ k) :
    multiplePrimaryError fldPath k ∉ validateDNSProviders X fldPath ps i names pf := by
  intro he
  obtain ⟨j, h1, h2, h3⟩ := validateDNSProviders_index X fldPath ps i names pf _ he
  have hjk : j ≠ k := by omega
  apply index_child_ne (fldPath.Child "providers") j k [PathElem.name "primary"] hjk
  simpa [multiplePrimaryError, Forbidden, Path.Child, Path.Index] using h3

theorem validateDNSProviderRest_spec (fldPath : Path) (i : Nat) (q : DNSProvider)
    (allErrs : ErrorList) (names : List String) (pf : Bool)
    (h : multiplePrimaryError fldPath i ∉ allErrs) :
    (multiplePrimaryError fldPath i ∈
        (validateDNSProviderRest ((fldPath.Child "providers").Index i) q allErrs names pf).1 ↔
      (q.Primary = some true ∧ pf = true)) ∧
    (validateDNSProviderRest ((fldPath.Child "providers").Index i) q allErrs names pf).2.1 =
      names ∧
    ((validateDNSProviderRest ((fldPath.Child "providers").Index i) q allErrs names pf).2.2 =
      true ↔ (pf = true ∨ q.Primary = some true)) := by
  unfold validateDNSProviderRest
  by_cases hc : q.Primary = some true ∧ pf = true
  · simp only [if_pos hc]
    refine ⟨?_, ?_, ?_⟩
    · simp [multiplePrimaryError, hc]
    · trivial
    · simp [hc.2]
  · simp only [if_neg hc]
    have hno : ∀ l : ErrorList, (∀ e ∈ l, e.Type_ ≠ ErrorType.Forbidden) →
        multiplePrimaryError fldPath i ∉ allErrs ++ l := by
      intro l hl hmem
      rcases List.mem_append.1 hmem with h1 | h1
      · exact h h1
      · exact hl _ h1 rfl
    split
    · refine ⟨?_, rfl, by simp⟩
      constructor
      · intro hmem
        exact absurd hmem (hno _ (by simp [Invalid]))
      · intro h2; exact absurd h2 hc
    · refine ⟨?_, rfl, by simp⟩
      constructor
      · intro hmem
        refine absurd hmem (hno _ ?_)
        intro e he
        split at he <;> simp [Required] at he
        subst he; simp
      · intro h2; exact absurd h2 hc


theorem repeatsName_nil_iff (X : Collaborators) (names : List String) (q : DNSProvider) :
    RepeatsName X names [] q ↔ ∃ n, dnsProviderName X q = some n ∧ n ∈ names := by
  simp [RepeatsName]

theorem validateDNSProvider_spec (X : Collaborators) (fldPath : Path) (i : Nat)
    (q : DNSProvider) (names : List String) (pf : Bool) :
    (multiplePrimaryError fldPath i ∈
        (validateDNSProvider X ((fldPath.Child "providers").Index i) q names pf).1 ↔
      (q.Primary = some true ∧ pf = true ∧ ¬ RepeatsName X names [] q)) ∧
    (∀ n, n ∈ (validateDNSProvider X ((fldPath.Child "providers").Index i) q names pf).2.1 ↔
      (n ∈ names ∨ dnsProviderName X q = some n)) ∧
    ((validateDNSProvider X ((fldPath.Child "providers").Index i) q names pf).2.2 = true ↔
      (pf = true ∨ (q.Primary = some true ∧ ¬ RepeatsName X names [] q))) := by
  rw [repeatsName_nil_iff]
  unfold validateDNSProvider
  cases hn : dnsProviderName X q with
  | none =>
    obtain ⟨h1, h2, h3⟩ := validateDNSProviderRest_spec fldPath i q [] names pf (by simp)
    simp only [h1, h2, h3]
    simp
  | some n =>
    simp only []
    by_cases hmem : n ∈ names
    · simp only [if_pos hmem]
      refine ⟨?_, ?_, ?_⟩
      · simp [multiplePrimaryError, Invalid, Forbidden, hmem]
      · intro m
        constructor
        · intro h; exact Or.inl h
        · rintro (h | h)
          · exact h
          · simp only [Option.some.injEq] at h; subst h; exact hmem
      · simp [hmem]
    · simp only [if_neg hmem]
      obtain ⟨h1, h2, h3⟩ := validateDNSProviderRest_spec fldPath i q
        ((X.IsDNS1123Subdomain n).map (fun err =>
          Invalid ((fldPath.Child "providers").Index i) n
            ("combination of .secretName and .type is invalid: \"" ++ err ++ "\"")))
        (names ++ [n]) pf
        (by simp [multiplePrimaryError, Invalid, Forbidden])
      simp only [h1, h2, h3]
      refine ⟨by simp [hmem], ?_, by simp [hmem]⟩
      intro m
      simp [eq_comm]

/-- The provider loop of `validateDNS` on `pre ++ q :: post`: the error for a further
primary provider is reported at the position of `q` if and only if `q` is primary, does not
repeat a name, and the loop has seen a primary provider that did not repeat a name. -/
theorem validateDNSProviders_multiplePrimary (X : Collaborators) (fldPath : Path)
    (pre : List DNSProvider) (q : DNSProvider) (post : List DNSProvider) (i : Nat)
    (names : List String) (pf : Bool) :
    multiplePrimaryError fldPath (i + pre.length) ∈
        validateDNSProviders X fldPath (pre ++ q :: post) i names pf ↔
      (q.Primary = some true ∧ ¬ RepeatsName X names pre q ∧
        (pf = true ∨ ∃ pre1 r pre2, pre = pre1 ++ r :: pre2 ∧ r.Primary = some true ∧
          ¬ RepeatsName X names pre1 r)) := by
  induction pre generalizing i names pf with
  | nil =>
    obtain ⟨h1, _, _⟩ := validateDNSProvider_spec X fldPath i q names pf
    simp only [List.nil_append, List.length_nil, Nat.add_zero, validateDNSProviders,
      List.mem_append]
    have hrest := multiplePrimaryError_not_mem_of_index X fldPath post (i + 1)
      (validateDNSProvider X ((fldPath.Child "providers").Index i) q names pf).2.1
      (validateDNSProvider X ((fldPath.Child "providers").Index i) q names pf).2.2 i
      (Or.inl (Nat.lt_succ_self i))
    constructor
    · rintro (h | h)
      · have := h1.1 h
        exact ⟨this.1, this.2.2, Or.inl this.2.1⟩
      · exact absurd h hrest
    · rintro ⟨hp, hr, hf | ⟨pre1, r, pre2, hnil, _⟩⟩
      · exact Or.inl (h1.2 ⟨hp, hf, hr⟩)
      · simp at hnil
  | cons r0 pre ih =>
    obtain ⟨_, h2, h3⟩ := validateDNSProvider_spec X fldPath i r0 names pf
    have hidx : i + (r0 :: pre).length = (i + 1) + pre.length := by
      simp only [List.length_cons]; omega
    have hfirst : multiplePrimaryError fldPath (i + (r0 :: pre).length) ∉
        (validateDNSProvider X ((fldPath.Child "providers").Index i) r0 names pf).1 :=
      multiplePrimaryError_not_mem_of_under fldPath i _ _
        (validateDNSProvider_under X _ r0 names pf) (by simp only [List.length_cons]; omega)
    have hrep : ∀ (l : List DNSProvider) (x : DNSProvider),
        RepeatsName X (validateDNSProvider X ((fldPath.Child "providers").Index i) r0 names pf).2.1
          l x ↔ RepeatsName X names (r0 :: l) x := by
      intro l x
      unfold RepeatsName
      constructor
      · rintro ⟨n, hx, hn | ⟨r, hr, hrn⟩⟩
        · rcases (h2 n).1 hn with hn | hn
          · exact ⟨n, hx, Or.inl hn⟩
          · exact ⟨n, hx, Or.inr ⟨r0, by simp, hn⟩⟩
        · exact ⟨n, hx, Or.inr ⟨r, by simp [hr], hrn⟩⟩
      · rintro ⟨n, hx, hn | ⟨r, hr, hrn⟩⟩
        · exact ⟨n, hx, Or.inl ((h2 n).2 (Or.inl hn))⟩
        · rcases List.mem_cons.1 hr with hr | hr
          · subst hr
            exact ⟨n, hx, Or.inl ((h2 n).2 (Or.inr hrn))⟩
          · exact ⟨n, hx, Or.inr ⟨r, hr, hrn⟩⟩
    simp only [List.cons_append, validateDNSProviders, List.mem_append, List.append_eq]
    rw [hidx] at hfirst ⊢
    rw [or_iff_right hfirst, ih, hrep, h3]
    constructor
    · rintro ⟨hp, hr, hf⟩
      refine ⟨hp, hr, ?_⟩
      rcases hf with (hf | ⟨hp0, hr0⟩) | ⟨pre1, r, pre2, hpre, hpr, hrr⟩
      · exact Or.inl hf
      · exact Or.inr ⟨[], r0, pre, rfl, hp0, hr0⟩
      · refine Or.inr ⟨r0 :: pre1, r, pre2, by rw [hpre]; rfl, hpr, ?_⟩
        rw [← hrep]; exact hrr
    · rintro ⟨hp, hr, hf⟩
      refine ⟨hp, hr, ?_⟩
      rcases hf with hf | ⟨pre1, r, pre2, hpre, hpr, hrr⟩
      · exact Or.inl (Or.inl hf)
      · cases pre1 with
        | nil =>
          simp only [List.nil_append, List.cons.injEq] at hpre
          obtain ⟨rfl, rfl⟩ := hpre
          exact Or.inl (Or.inr ⟨hpr, hrr⟩)
        | cons x pre1 =>
          simp only [List.cons_append, List.cons.injEq] at hpre
          obtain ⟨rfl, rfl⟩ := hpre
          refine Or.inr ⟨pre1, r, pre2, rfl, hpr, ?_⟩
          rw [hrep]; exact hrr


theorem multiplePrimaryError_mem_validateDNS (X : Collaborators) (hX : X.Local) (dns : DNS)
    (fldPath : Path) (k : Nat) :
    multiplePrimaryError fldPath k ∈ validateDNS X (some dns) fldPath ↔
      multiplePrimaryError fldPath k ∈ validateDNSProviders X fldPath dns.Providers 0 [] false := by
  have hfield : (multiplePrimaryError fldPath k).Field =
      fldPath ++ PathElem.name "providers" :: [PathElem.index k, PathElem.name "primary"] := by
    simp [multiplePrimaryError, Forbidden, Path.Child, Path.Index]
  have hnot : ∀ l : ErrorList, ErrorsUnder (fldPath.Child "domain") l →
      multiplePrimaryError fldPath k ∉ l := by
    intro l hl hmem
    have := hl _ hmem
    rw [hfield] at this
    exact not_prefix_sibling fldPath "providers" "domain" _ (by decide) this
  unfold validateDNS
  simp only [List.nil_append, List.mem_append]
  constructor
  · rintro ((h | h) | h)
    · refine absurd h (hnot _ ?_)
      split
      · exact hX.ValidateDNS1123Subdomain _ _
      · exact ErrorsUnder.nil _
    · refine absurd h (hnot _ ?_)
      repeat' split
      all_goals first
        | exact ErrorsUnder.nil _
        | exact ErrorsUnder.single (List.prefix_refl _)
    · exact h
  · intro h; exact Or.inr h

/-- C20, counterexample: two providers marked primary with the same `secretName` and
`type`. `validateDNS` reports the uniqueness error for the second provider and leaves it:
no error is reported at `providers[1].primary`. -/
theorem multiple_primary_dns_providers_counterexample :
    (twinPrimaryDNS.Providers.filter (fun p => decide (p.Primary = some true))).length = 2 ∧
    validateDNS specCollaborators (some twinPrimaryDNS) ((NewPath "spec").Child "dns") =
      [Invalid ((((NewPath "spec").Child "dns").Child "providers").Index 1)
        "aws-route53-secret"
        "combination of .secretName and .type must be unique across dns providers"] ∧
    multiplePrimaryError ((NewPath "spec").Child "dns") 1 ∉
      validateDNS specCollaborators (some twinPrimaryDNS) ((NewPath "spec").Child "dns") := by
  refine ⟨by decide, by decide, by decide⟩

/-- C20, amended: `validateDNS` reports the error "multiple primary DNS providers are not
supported" at `providers[i].primary` if and only if provider `i` is marked primary, does not
repeat the `secretName`/`type` name of an earlier provider, and an earlier provider is
marked primary and does not repeat the name of a provider before it; with at most one
provider marked primary the error is reported at no index. The absent helper validators are
assumed to report at or below the path they are handed. -/
theorem multiple_primary_dns_providers (X : Collaborators) (hX : X.Local) (dns : DNS)
    (fldPath : Path) :
    (∀ pre q post, dns.Providers = pre ++ q :: post →
      (multiplePrimaryError fldPath pre.length ∈ validateDNS X (some dns) fldPath ↔
        (q.Primary = some true ∧ ¬ RepeatsName X [] pre q ∧
          ∃ pre1 r pre2, pre = pre1 ++ r :: pre2 ∧ r.Primary = some true ∧
            ¬ RepeatsName X [] pre1 r))) ∧
    ((dns.Providers.filter (fun p => decide (p.Primary = some true))).length ≤ 1 →
      ∀ k, multiplePrimaryError fldPath k ∉ validateDNS X (some dns) fldPath) := by
  have part1 : ∀ pre q post, dns.Providers = pre ++ q :: post →
      (multiplePrimaryError fldPath pre.length ∈ validateDNS X (some dns) fldPath ↔
        (q.Primary = some true ∧ ¬ RepeatsName X [] pre q ∧
          ∃ pre1 r pre2, pre = pre1 ++ r :: pre2 ∧ r.Primary = some true ∧
            ¬ RepeatsName X [] pre1 r)) := by
    intro pre q post h
    rw [multiplePrimaryError_mem_validateDNS X hX, h]
    have := validateDNSProviders_multiplePrimary X fldPath pre q post 0 [] false
    simpa using this
  refine ⟨part1, ?_⟩
  intro hone k hmem
  have hloop := (multiplePrimaryError_mem_validateDNS X hX dns fldPath k).1 hmem
  have hk : k < dns.Providers.length := by
    by_contra hk
    exact multiplePrimaryError_not_mem_of_index X fldPath dns.Providers 0 [] false k
      (Or.inr (by omega)) hloop
  obtain ⟨pre, q, post, hsplit, hlen⟩ : ∃ pre q post,
      dns.Providers = pre ++ q :: post ∧ pre.length = k := by
    refine ⟨dns.Providers.take k, dns.Providers.get ⟨k, hk⟩, dns.Providers.drop (k + 1), ?_, ?_⟩
    · conv_lhs => rw [← List.take_append_drop k dns.Providers]
      rw [List.drop_eq_getElem_cons hk]
      rfl
    · simp only [List.length_take]; omega
  have h1 := part1 pre q post hsplit
  rw [hlen] at h1
  obtain ⟨hq, _, pre1, r, pre2, hpre, hr, _⟩ := h1.1 hmem
  have hone2 : ((pre1 ++ r :: pre2 ++ q :: post).filter
      (fun p => decide (p.Primary = some true))).length ≤ 1 := by
    rw [← hpre, ← hsplit]; exact hone
  simp [List.filter_append, List.filter_cons, hq, hr] at hone2
  omega

/-- Witness of C20: two primary providers of different types; the error is reported at
`providers[1].primary`. -/
theorem multiple_primary_dns_providers_witness :
    multiplePrimaryError ((NewPath "spec").Child "dns") 1 ∈
      validateDNS specCollaborators (some twoPrimaryDNS) ((NewPath "spec").Child "dns") :=
  ((multiple_primary_dns_providers specCollaborators specCollaborators_local twoPrimaryDNS
    ((NewPath "spec").Child "dns")).1
    [{ Primary := some true, SecretName := some "secret", Type_ := some "aws-route53" }]
    { Primary := some true, SecretName := some "secret", Type_ := some "gcp-clouddns" } []
    rfl).2
    ⟨rfl, by simp [RepeatsName, dnsProviderName, specCollaborators],
      [], { Primary := some true, SecretName := some "secret", Type_ := some "aws-route53" }, [],
      rfl, rfl, by simp [RepeatsName]⟩

/-! ## High availability -/

/-- C22: when the old shoot has a high-availability configuration,
`validateShootHAControlPlaneSpecUpdate` returns, for a scheduled new shoot, exactly the
immutability error at `highAvailability.failureTolerance.type` when the new failure
tolerance type (empty without configuration) differs from the old one and nothing
otherwise, and nothing for a new shoot that is not scheduled. `ValidateShootHAConfigUpdate`
hands in the path that renders as `spec.controlPlane`. -/
theorem ha_failure_tolerance_type_immutable (newShoot oldShoot : Shoot) (fldPath : Path)
    (cp : ControlPlane) (ha : HighAvailability)
    (hcp : oldShoot.Spec.ControlPlane = some cp) (hha : cp.HighAvailability = some ha) :
    (newShoot.Spec.SeedName.isSome →
      validateShootHAControlPlaneSpecUpdate newShoot oldShoot fldPath =
        if failureToleranceTypeOf newShoot ≠ ha.FailureTolerance.Type_ then
          [Invalid (((fldPath.Child "highAvailability").Child "failureTolerance").Child "type")
            (failureToleranceTypeOf newShoot) FieldImmutableErrorMsg]
        else []) ∧
    (newShoot.Spec.SeedName = none →
      validateShootHAControlPlaneSpecUpdate newShoot oldShoot fldPath = []) ∧
    ((((NewPath "spec.controlPlane").Child "highAvailability").Child "failureTolerance").Child
      "type").String = "spec.controlPlane.highAvailability.failureTolerance.type" := by
  refine ⟨?_, ?_, by decide⟩
  · intro hs
    unfold validateShootHAControlPlaneSpecUpdate failureToleranceTypeOf
    simp only [hcp, hha, hs, Option.isSome_some, List.nil_append, ValidateImmutableField_eq]
    by_cases h : (match newShoot.Spec.ControlPlane with
        | some cp =>
          match cp.HighAvailability with
          | some ha => ha.FailureTolerance.Type_
          | none => ""
        | none => "") = ha.FailureTolerance.Type_
    · cases hn : newShoot.Spec.ControlPlane with
      | none => simp [hn] at h ⊢; simp [h]
      | some ncp =>
        cases hn2 : ncp.HighAvailability with
        | none => simp [hn, hn2] at h ⊢; simp [h]
        | some nha => simp [hn, hn2] at h ⊢; simp [h]
    · cases hn : newShoot.Spec.ControlPlane with
      | none =>
        simp [hn] at h ⊢
        have : ¬ ha.FailureTolerance.Type_ = "" := fun h2 => h h2.symm
        simp [h, this]
      | some ncp =>
        cases hn2 : ncp.HighAvailability with
        | none =>
          simp [hn, hn2] at h ⊢
          have : ¬ ha.FailureTolerance.Type_ = "" := fun h2 => h h2.symm
          simp [h, this]
        | some nha =>
          simp [hn, hn2] at h ⊢
          have : ¬ ha.FailureTolerance.Type_ = nha.FailureTolerance.Type_ := fun h2 => h h2.symm
          simp [h, this]
  · intro hs
    unfold validateShootHAControlPlaneSpecUpdate
    simp [hcp, hha, hs]

/-- Witness of C22: the failure tolerance type of a scheduled shoot changes from `node` to
`zone`. -/
theorem ha_failure_tolerance_type_immutable_witness :
    ValidateShootHAConfigUpdate haZoneShoot haNodeShoot =
      [Invalid ((((NewPath "spec.controlPlane").Child "highAvailability").Child
        "failureTolerance").Child "type") "zone" FieldImmutableErrorMsg] :=
  (ha_failure_tolerance_type_immutable haZoneShoot haNodeShoot (NewPath "spec.controlPlane")
    { HighAvailability := some { FailureTolerance := { Type_ := "node" } } }
    { FailureTolerance := { Type_ := "node" } } rfl rfl).1 rfl

/-! ## The API server configuration -/

theorem validateKubeAPIServerRequests_under_child (r : KubeAPIServerRequests) (p : Path) :
    ErrorsUnder (p.Child "requests") (validateKubeAPIServerRequests r p) := by
  unfold validateKubeAPIServerRequests
  simp only [errorsUnder_append]
  constructor <;> split <;> simp only [errorsUnder_append, errorsUnder_nil]
  all_goals first
    | trivial
    | (refine ⟨(ValidateNonnegativeField_under _ _).mono (prefix_child _ _), ?_⟩
       split <;> simp [Invalid, Path.Child])

theorem validateServiceAccountConfig_under_child (sa : ServiceAccountConfig) (v : String)
    (p : Path) :
    ErrorsUnder (p.Child "serviceAccountConfig") (validateServiceAccountConfig sa v p) := by
  unfold validateServiceAccountConfig
  simp only [errorsUnder_append]
  repeat' apply And.intro
  all_goals repeat' split
  all_goals simp [Invalid, Forbidden, Path.Child]

/-- Errors of `ValidateKubeAPIServer` at a path below `oidcConfig` or
`serviceAccountConfig`: they are those of the OIDC block and of the service account block. -/
theorem errorsAt_ValidateKubeAPIServer (X : Collaborators) (hX : X.Local)
    (c : KubeAPIServerConfig) (v : String) (k : Bool) (p : Path) (a : String) (rest : Path)
    (ha : a = "oidcConfig" ∨ a = "serviceAccountConfig") :
    errorsAt (p ++ PathElem.name a :: rest) (ValidateKubeAPIServer X (some c) v k p) =
      errorsAt (p ++ PathElem.name a :: rest)
        (match c.OIDCConfig with
          | some oidc => validateOIDCConfig X oidc (p.Child "oidcConfig")
          | none => []) ++
      errorsAt (p ++ PathElem.name a :: rest)
        (match c.ServiceAccountConfig with
          | some sa => validateServiceAccountConfig sa v p
          | none => []) := by
  have hsib : ∀ (b : String) (l : ErrorList), ErrorsUnder (p.Child b) l → a ≠ b →
      errorsAt (p ++ PathElem.name a :: rest) l = [] :=
    fun b l hl hb => errorsAt_nil_of_under_child p a b rest l hl hb
  have hne : ∀ b : String, b ≠ "oidcConfig" → b ≠ "serviceAccountConfig" → a ≠ b := by
    intro b h1 h2 hab
    rcases ha with ha | ha
    · exact h1 (hab ▸ ha)
    · exact h2 (hab ▸ ha)
  have hAP := hsib "admissionPlugins" _ (hX.ValidateAdmissionPlugins c.AdmissionPlugins v k
    (p.Child "admissionPlugins")) (hne _ (by decide) (by decide))
  have hWC := hsib "watchCacheSizes" _ (ValidateWatchCacheSizes_under c.WatchCacheSizes
    (p.Child "watchCacheSizes")) (hne _ (by decide) (by decide))
  have hLG := hsib "logging" _ (ValidateKubeAPIServerLogging_under c.Logging
    (p.Child "logging")) (hne _ (by decide) (by decide))
  have hFG := hsib "featureGates" _ (hX.ValidateFeatureGates c.FeatureGates v
    (p.Child "featureGates")) (hne _ (by decide) (by decide))
  have hAU : ∀ ref, errorsAt (p ++ PathElem.name a :: rest)
      (X.validateAuditPolicyConfigMapReference ref
        (((p.Child "auditConfig").Child "auditPolicy").Child "configMapRef")) = [] :=
    fun ref => hsib "auditConfig" _ ((hX.validateAuditPolicyConfigMapReference _ _).mono
      ((prefix_child _ _).trans (prefix_child _ _))) (hne _ (by decide) (by decide))
  have hNR : ∀ x, errorsAt (p ++ PathElem.name a :: rest)
      (ValidateNonnegativeField x (p.Child "defaultNotReadyTolerationSeconds")) = [] :=
    fun x => hsib _ _ (ValidateNonnegativeField_under _ _) (hne _ (by decide) (by decide))
  have hUR : ∀ x, errorsAt (p ++ PathElem.name a :: rest)
      (ValidateNonnegativeField x (p.Child "defaultUnreachableTolerationSeconds")) = [] :=
    fun x => hsib _ _ (ValidateNonnegativeField_under _ _) (hne _ (by decide) (by decide))
  have hRQ : ∀ r, errorsAt (p ++ PathElem.name a :: rest)
      (validateKubeAPIServerRequests r p) = [] :=
    fun r => hsib "requests" _ (validateKubeAPIServerRequests_under_child _ _)
      (hne _ (by decide) (by decide))
  have hTT : ∀ (cnd : Prop) [Decidable cnd] (x d : String),
      errorsAt (p ++ PathElem.name a :: rest)
        (if cnd then [Invalid (p.Child "eventTTL") x d] else []) = [] :=
    fun cnd _ x d => hsib "eventTTL" _
      (ErrorsUnder.ite _ (ErrorsUnder.single (List.prefix_refl _)) (ErrorsUnder.nil _))
      (hne _ (by decide) (by decide))
  unfold ValidateKubeAPIServer
  simp only [errorsAt_append, hAP, hWC, hLG, hFG]
  rcases c.AuditConfig with _ | ac
  rotate_left
  dsimp only
  rcases ac.AuditPolicy with _ | ap
  rotate_left
  dsimp only
  rcases ap.ConfigMapRef with _ | ref
  all_goals
    cases c.DefaultNotReadyTolerationSeconds <;> cases c.DefaultUnreachableTolerationSeconds <;>
    cases c.Requests <;> cases c.EventTTL <;>
    simp only [errorsAt_append, errorsAt_nil, hAU, hNR, hUR, hRQ, hTT, List.append_nil,
      List.nil_append]

theorem errorsAt_ValidateKubeAPIServer_serviceAccount (X : Collaborators) (hX : X.Local)
    (c : KubeAPIServerConfig) (sa : ServiceAccountConfig) (v : String) (k : Bool) (p : Path)
    (rest : Path) (hsa : c.ServiceAccountConfig = some sa) :
    errorsAt (p ++ PathElem.name "serviceAccountConfig" :: rest)
        (ValidateKubeAPIServer X (some c) v k p) =
      errorsAt (p ++ PathElem.name "serviceAccountConfig" :: rest)
        (validateServiceAccountConfig sa v p) := by
  rw [errorsAt_ValidateKubeAPIServer X hX c v k p "serviceAccountConfig" rest (Or.inr rfl), hsa]
  cases c.OIDCConfig with
  | none => rfl
  | some oidc =>
    dsimp only
    rw [errorsAt_nil_of_under_child p "serviceAccountConfig" "oidcConfig" rest _
      (validateOIDCConfig_under X oidc _) (by decide)]
    rfl

theorem errorsAt_ValidateKubeAPIServer_oidc (X : Collaborators) (hX : X.Local)
    (c : KubeAPIServerConfig) (oidc : OIDCConfig) (v : String) (k : Bool) (p : Path)
    (rest : Path) (hoidc : c.OIDCConfig = some oidc) :
    errorsAt (p ++ PathElem.name "oidcConfig" :: rest)
        (ValidateKubeAPIServer X (some c) v k p) =
      errorsAt (p ++ PathElem.name "oidcConfig" :: rest)
        (validateOIDCConfig X oidc (p.Child "oidcConfig")) := by
  rw [errorsAt_ValidateKubeAPIServer X hX c v k p "oidcConfig" rest (Or.inl rfl), hoidc]
  cases c.ServiceAccountConfig with
  | none => simp
  | some sa =>
    dsimp only
    rw [errorsAt_nil_of_under_child p "oidcConfig" "serviceAccountConfig" rest _
      (validateServiceAccountConfig_under_child sa v p) (by decide)]
    simp


theorem string_length_ne_zero_iff (s : String) : s.length ≠ 0 ↔ s ≠ "" := by
  constructor
  · rintro h rfl; exact h rfl
  · intro h h0
    apply h
    cases s with
    | mk l => cases l with
      | nil => rfl
      | cons c t => simp [String.length] at h0

/-- C23, counterexample: a `maxTokenExpiration` of zero is below 720h, and
`ValidateKubeAPIServer` reports nothing at `serviceAccountConfig.maxTokenExpiration`. -/
theorem max_token_expiration_zero_counterexample :
    errorsAt ((kubeAPIServerPath.Child "serviceAccountConfig").Child "maxTokenExpiration")
      (ValidateKubeAPIServer specCollaborators (some (tokenExpirationConfig 0)) "1.25.0" true
        kubeAPIServerPath) = [] ∧
    ¬ (720 * timeHour ≤ (0 : Duration) ∧ (0 : Duration) ≤ 2160 * timeHour) := by
  refine ⟨by decide, by decide⟩

/-- C23, amended: with `serviceAccountConfig.maxTokenExpiration` set to `d`,
`ValidateKubeAPIServer` reports no error at `serviceAccountConfig.maxTokenExpiration` if and
only if `d` is zero or lies between 720h and 2160h. The absent helper validators are assumed
to report at or below the path they are handed. -/
theorem max_token_expiration_accepted_iff (X : Collaborators) (hX : X.Local)
    (c : KubeAPIServerConfig) (sa : ServiceAccountConfig) (d : Int) (version : String)
    (kubeconfigAllowed : Bool) (fldPath : Path)
    (hsa : c.ServiceAccountConfig = some sa) (hd : sa.MaxTokenExpiration = some d) :
    errorsAt ((fldPath.Child "serviceAccountConfig").Child "maxTokenExpiration")
        (ValidateKubeAPIServer X (some c) version kubeconfigAllowed fldPath) = [] ↔
      (d = 0 ∨ (720 * timeHour ≤ d ∧ d ≤ 2160 * timeHour)) := by
  have hpath : (fldPath.Child "serviceAccountConfig").Child "maxTokenExpiration" =
      fldPath ++ PathElem.name "serviceAccountConfig" :: [PathElem.name "maxTokenExpiration"] := by
    simp [Path.Child]
  rw [hpath, errorsAt_ValidateKubeAPIServer_serviceAccount X hX c sa version kubeconfigAllowed
    fldPath _ hsa, ← hpath]
  have hne : (fldPath.Child "serviceAccountConfig").Child "acceptedIssuers" ≠
      (fldPath.Child "serviceAccountConfig").Child "maxTokenExpiration" :=
    child_ne_child _ (by decide)
  simp only [validateServiceAccountConfig, hd, errorsAt_append]
  have h720 : (720 : Int) * timeHour = 2592000000000000 := by decide
  have h2160 : (2160 : Int) * timeHour = 7776000000000000 := by decide
  rw [h720, h2160]
  by_cases h1 : d < 0 <;> by_cases h2 : d > 0 ∧ d < 2592000000000000 <;>
    by_cases h3 : d > 7776000000000000 <;>
    by_cases h4 : sa.AcceptedIssuers.isSome ∧ (CheckVersionMeetsConstraint version ">= 1.22").1 = false <;>
    simp [h1, h2, h3, h4, errorsAt_cons, Invalid, Forbidden, hne] <;>
    unfold Duration at * <;> omega

/-- Witness of C23: 1000h lies between 720h and 2160h and is accepted. -/
theorem max_token_expiration_accepted_iff_witness :
    errorsAt ((kubeAPIServerPath.Child "serviceAccountConfig").Child "maxTokenExpiration")
        (ValidateKubeAPIServer specCollaborators (some (tokenExpirationConfig (1000 * timeHour)))
          "1.25.0" true kubeAPIServerPath) = [] :=
  (max_token_expiration_accepted_iff specCollaborators specCollaborators_local
    (tokenExpirationConfig (1000 * timeHour)) { MaxTokenExpiration := some (1000 * timeHour) }
    (1000 * timeHour) "1.25.0" true kubeAPIServerPath rfl rfl).2 (Or.inr (by decide))

theorem validateSigningAlgsFrom_under_child (p : Path) (l : List String) (i : Nat) :
    ErrorsUnder (p.Child "signingAlgs") (validateSigningAlgsFrom p l i) := by
  induction l generalizing i with
  | nil => simp [validateSigningAlgsFrom]
  | cons x xs ih =>
    unfold validateSigningAlgsFrom
    simp only [errorsUnder_append]
    refine ⟨?_, ih _⟩
    split
    · exact ErrorsUnder.single (prefix_index _ _)
    · exact ErrorsUnder.nil _

/-- The errors of the OIDC block at `issuerURL`, for an issuer URL that is set and not
empty: none if and only if the URL parses with scheme `https` and a non-empty host. -/
theorem errorsAt_validateOIDCConfig_issuerURL (X : Collaborators) (oidc : OIDCConfig)
    (url : String) (p : Path) (hurl : oidc.IssuerURL = some url) (hne : url ≠ "") :
    errorsAt (p.Child "issuerURL") (validateOIDCConfig X oidc p) = [] ↔
      ∃ u, X.urlParse url = some u ∧ u.Scheme = "https" ∧ u.Host ≠ "" := by
  have hsib : ∀ (b : String) (l : ErrorList), ErrorsUnder (p.Child b) l → "issuerURL" ≠ b →
      errorsAt (p.Child "issuerURL") l = [] :=
    fun b l hl hb => errorsAt_child_of_under p "issuerURL" b l hl hb
  have hI : fieldNilOrEmptyString oidc.IssuerURL = false := by
    simp [fieldNilOrEmptyString, hurl, (string_length_ne_zero_iff url).2 hne]
  unfold validateOIDCConfig
  simp only [errorsAt_append, hI, Bool.false_eq_true, if_false, Bool.not_false, if_true]
  have h1 : errorsAt (p.Child "issuerURL")
      (if fieldNilOrEmptyString oidc.ClientID = true then
        (if oidc.ClientID.isSome = true then
          [Invalid (p.Child "clientID") (ptrText oidc.ClientID)
            "clientID cannot be empty when key is provided"]
        else []) ++
        [Invalid (p.Child "clientID") (ptrText oidc.ClientID)
          "clientID must be set when issuerURL is provided"]
      else []) = [] := by
    apply hsib "clientID" _ _ (by decide)
    split
    · exact ErrorsUnder.append
        (ErrorsUnder.ite _ (ErrorsUnder.single (List.prefix_refl _)) (ErrorsUnder.nil _))
        (ErrorsUnder.single (List.prefix_refl _))
    · exact ErrorsUnder.nil _
  have h7 := hsib "signingAlgs" _ (validateSigningAlgsFrom_under_child p oidc.SigningAlgs 0)
    (by decide)
  rw [h1, h7]
  have hopt : ∀ (b d : String) (cnd : Prop) [Decidable cnd] (x : String), "issuerURL" ≠ b →
      errorsAt (p.Child "issuerURL") (if cnd then [Invalid (p.Child b) x d] else []) = [] :=
    fun b d cnd _ x hb => hsib b _
      (ErrorsUnder.ite _ (ErrorsUnder.single (List.prefix_refl _)) (ErrorsUnder.nil _)) hb
  simp only [stringDeref, hurl, Option.getD_some]
  cases oidc.CABundle <;> cases oidc.GroupsClaim <;> cases oidc.GroupsPrefix <;>
    cases oidc.UsernameClaim <;> cases oidc.UsernamePrefix <;>
    simp only [errorsAt_nil, List.append_nil, List.nil_append,
      hopt "caBundle" _ _ _ (by decide), hopt "groupsClaim" _ _ _ (by decide),
      hopt "groupsPrefix" _ _ _ (by decide), hopt "usernameClaim" _ _ _ (by decide),
      hopt "usernamePrefix" _ _ _ (by decide)] <;>
    (cases hp : X.urlParse url with
      | none => simp [errorsAt_cons, Invalid]
      | some u =>
        by_cases hh : u.Host.length = 0 <;> by_cases hs : u.Scheme = "https" <;>
          simp [errorsAt_cons, Invalid, hh, hs, ← string_length_ne_zero_iff])

/-- C24, counterexample: the issuer URL `https://issuer.example.com/realm?x=1#top` has a
path, a query and a fragment, and `ValidateKubeAPIServer` reports nothing at
`oidcConfig.issuerURL`. -/
theorem oidc_issuer_url_path_counterexample :
    specCollaborators.urlParse "https://issuer.example.com/realm?x=1#top" =
      some { Scheme := "https", Host := "issuer.example.com", Path := "/realm",
             RawQuery := "x=1", Fragment := "top" } ∧
    errorsAt ((kubeAPIServerPath.Child "oidcConfig").Child "issuerURL")
      (ValidateKubeAPIServer specCollaborators
        (some (oidcIssuerConfig "https://issuer.example.com/realm?x=1#top")) "1.25.0" true
        kubeAPIServerPath) = [] := by
  refine ⟨by decide, by decide⟩

/-- C24, amended: for an OIDC configuration with a non-empty `issuerURL`,
`ValidateKubeAPIServer` reports no error at `oidcConfig.issuerURL` if and only if the URL
parses, has scheme `https` and a non-empty host. The absent helper validators are assumed to
report at or below the path they are handed. -/
theorem oidc_issuer_url_accepted_iff (X : Collaborators) (hX : X.Local)
    (c : KubeAPIServerConfig) (oidc : OIDCConfig) (url version : String)
    (kubeconfigAllowed : Bool) (fldPath : Path)
    (hoidc : c.OIDCConfig = some oidc) (hurl : oidc.IssuerURL = some url) (hne : url ≠ "") :
    errorsAt ((fldPath.Child "oidcConfig").Child "issuerURL")
        (ValidateKubeAPIServer X (some c) version kubeconfigAllowed fldPath) = [] ↔
      ∃ u, X.urlParse url = some u ∧ u.Scheme = "https" ∧ u.Host ≠ "" := by
  have hpath : (fldPath.Child "oidcConfig").Child "issuerURL" =
      fldPath ++ PathElem.name "oidcConfig" :: [PathElem.name "issuerURL"] := by
    simp [Path.Child]
  rw [hpath, errorsAt_ValidateKubeAPIServer_oidc X hX c oidc version kubeconfigAllowed fldPath _
    hoidc, ← hpath]
  exact errorsAt_validateOIDCConfig_issuerURL X oidc url _ hurl hne

/-- Witness of C24: the issuer URL `http://issuer.example.com` is reported. -/
theorem oidc_issuer_url_accepted_iff_witness :
    errorsAt ((kubeAPIServerPath.Child "oidcConfig").Child "issuerURL")
        (ValidateKubeAPIServer specCollaborators
          (some (oidcIssuerConfig "http://issuer.example.com")) "1.25.0" true
          kubeAPIServerPath) ≠ [] :=
  fun h => absurd
    ((oidc_issuer_url_accepted_iff specCollaborators specCollaborators_local
      (oidcIssuerConfig "http://issuer.example.com")
      { ClientID := some "client", IssuerURL := some "http://issuer.example.com" }
      "http://issuer.example.com" "1.25.0" true kubeAPIServerPath rfl rfl (by decide)).1 h)
    (by
      rintro ⟨u, hu, hs, _⟩
      have : specCollaborators.urlParse "http://issuer.example.com" =
          some { Scheme := "http", Host := "issuer.example.com" } := by decide
      rw [this] at hu
      simp only [Option.some.injEq] at hu
      subst hu
      exact absurd hs (by decide))

/-! ## Hibernation schedules -/

theorem ValidateHibernationCronSpec_fst (X : Collaborators) (seen : List String) (spec : String)
    (q : Path) :
    (ValidateHibernationCronSpec X seen spec q).1 = cronSpecErrors X (spec ∈ seen) spec q := by
  unfold ValidateHibernationCronSpec cronSpecErrors
  cases X.cronParseStandard spec with
  | some err => rfl
  | none =>
    by_cases h : spec ∈ seen <;> simp [h]

theorem ValidateHibernationCronSpec_snd (X : Collaborators) (seen : List String) (spec : String)
    (q : Path) (x : String) :
    x ∈ (ValidateHibernationCronSpec X seen spec q).2 ↔
      (x ∈ seen ∨ (x = spec ∧ X.cronParseStandard spec = none)) := by
  unfold ValidateHibernationCronSpec
  cases h : X.cronParseStandard spec with
  | some err => simp
  | none =>
    by_cases hs : spec ∈ seen
    · simp only [hs, if_true]
      constructor
      · intro hx; exact Or.inl hx
      · rintro (hx | ⟨rfl, _⟩)
        · exact hx
        · exact hs
    · simp [hs]

theorem cronSpecErrors_congr (X : Collaborators) (a b : Prop) [Decidable a] [Decidable b]
    (spec : String) (q : Path) (h : X.cronParseStandard spec = none → (a ↔ b)) :
    cronSpecErrors X a spec q = cronSpecErrors X b spec q := by
  unfold cronSpecErrors
  cases hc : X.cronParseStandard spec with
  | some err => rfl
  | none => by_cases ha : a <;> simp [ha, (h hc).symm]

theorem cronSpecErrors_under (X : Collaborators) (a : Prop) [Decidable a] (spec : String)
    (q : Path) : ErrorsUnder q (cronSpecErrors X a spec q) := by
  unfold cronSpecErrors
  cases X.cronParseStandard spec with
  | some err => exact ErrorsUnder.single (List.prefix_refl _)
  | none => exact ErrorsUnder.ite _ (ErrorsUnder.single (List.prefix_refl _)) (ErrorsUnder.nil _)

theorem errorsAt_cronSpecErrors_self (X : Collaborators) (a : Prop) [Decidable a]
    (spec : String) (q : Path) :
    errorsAt q (cronSpecErrors X a spec q) = cronSpecErrors X a spec q := by
  unfold cronSpecErrors
  cases X.cronParseStandard spec with
  | some err => simp [errorsAt_cons, Invalid]
  | none => by_cases ha : a <;> simp [ha, errorsAt_cons, Duplicate]

theorem cronSpecErrors_eq_nil_iff (X : Collaborators) (a : Prop) [Decidable a] (spec : String)
    (q : Path) : cronSpecErrors X a spec q = [] ↔ (X.cronParseStandard spec = none ∧ ¬ a) := by
  unfold cronSpecErrors
  cases X.cronParseStandard spec with
  | some err => simp
  | none => by_cases ha : a <;> simp [ha]

/-- The result of `ValidateHibernationSchedule`: the `Required` error, the errors of the
start, of the end, and of the location; and the specs seen afterwards. -/
theorem ValidateHibernationSchedule_spec (X : Collaborators) (seen : List String)
    (s : HibernationSchedule) (p : Path) :
    (ValidateHibernationSchedule X seen s p).1 =
      (if s.Start.isNone ∧ s.End.isNone then
        [Required (p.Child "start/end") "either start or end has to be provided"] else []) ++
      s.Start.elim [] (fun start => cronSpecErrors X (start ∈ seen) start (p.Child "start")) ++
      s.End.elim []
        (fun e => cronSpecErrors X (e ∈ seen ∨ (s.Start = some e)) e (p.Child "end")) ++
      s.Location.elim []
        (fun location => ValidateHibernationScheduleLocation X location (p.Child "location")) ∧
    ∀ x, x ∈ (ValidateHibernationSchedule X seen s p).2 ↔
      (x ∈ seen ∨ (x ∈ scheduleSpecs s ∧ X.cronParseStandard x = none)) := by
  unfold ValidateHibernationSchedule scheduleSpecs
  rcases s with ⟨st, en, loc⟩
  have hmem : ∀ (x spec : String) (l : List String) (q : Path),
      x ∈ (ValidateHibernationCronSpec X l spec q).2 ↔
        (x ∈ l ∨ (x = spec ∧ X.cronParseStandard spec = none)) :=
    fun x spec l q => ValidateHibernationCronSpec_snd X l spec q x
  cases st with
  | none =>
    cases en with
    | none => cases loc <;> simp
    | some e =>
      simp only [ValidateHibernationCronSpec_fst]
      refine ⟨by cases loc <;> simp, ?_⟩
      intro x
      simp only [hmem]
      simp
      constructor
      · rintro (h | ⟨rfl, h⟩)
        · exact Or.inl h
        · exact Or.inr ⟨rfl, h⟩
      · rintro (h | ⟨rfl, h⟩)
        · exact Or.inl h
        · exact Or.inr ⟨rfl, h⟩
  | some start =>
    cases en with
    | none =>
      simp only [ValidateHibernationCronSpec_fst]
      refine ⟨by cases loc <;> simp, ?_⟩
      intro x
      simp only [hmem]
      simp
      constructor
      · rintro (h | ⟨rfl, h⟩)
        · exact Or.inl h
        · exact Or.inr ⟨rfl, h⟩
      · rintro (h | ⟨rfl, h⟩)
        · exact Or.inl h
        · exact Or.inr ⟨rfl, h⟩
    | some e =>
      simp only [ValidateHibernationCronSpec_fst]
      constructor
      · have hc : cronSpecErrors X
            (e ∈ (ValidateHibernationCronSpec X seen start (p.Child "start")).2) e
            (p.Child "end") =
            cronSpecErrors X (e ∈ seen ∨ some start = some e) e (p.Child "end") := by
          apply cronSpecErrors_congr
          intro hv
          rw [hmem]
          constructor
          · rintro (h | ⟨rfl, _⟩)
            · exact Or.inl h
            · exact Or.inr rfl
          · rintro (h | h)
            · exact Or.inl h
            · simp only [Option.some.injEq] at h
              subst h
              exact Or.inr ⟨rfl, hv⟩
        cases loc <;> simp [hc]
      · intro x
        simp only [hmem]
        simp
        constructor
        · rintro ((h | ⟨rfl, h⟩) | ⟨rfl, h⟩)
          · exact Or.inl h
          · exact Or.inr ⟨Or.inl rfl, h⟩
          · exact Or.inr ⟨Or.inr rfl, h⟩
        · rintro (h | ⟨rfl | rfl, h⟩)
          · exact Or.inl (Or.inl h)
          · exact Or.inl (Or.inr ⟨rfl, h⟩)
          · exact Or.inr ⟨rfl, h⟩


theorem validateHibernationSchedulesFrom_index (X : Collaborators) (p : Path)
    (ps : List HibernationSchedule) (i : Nat) (seen : List String) :
    ∀ e ∈ validateHibernationSchedulesFrom X p ps i seen, ∃ j, i ≤ j ∧ p.Index j <+: e.Field := by
  induction ps generalizing i seen with
  | nil => intro e he; simp [validateHibernationSchedulesFrom] at he
  | cons s ss ih =>
    intro e he
    simp only [validateHibernationSchedulesFrom, List.mem_append] at he
    rcases he with he | he
    · exact ⟨i, le_refl _, ValidateHibernationSchedule_under X seen s _ e he⟩
    · obtain ⟨j, h1, h2⟩ := ih _ _ e he
      exact ⟨j, by omega, h2⟩

theorem errorsAt_index_of_under (p : Path) (j k : Nat) (rest : Path) (l : ErrorList)
    (h : ErrorsUnder (p.Index j) l) (hjk : j ≠ k) :
    errorsAt (p ++ PathElem.index k :: rest) l = [] :=
  errorsAt_eq_nil_of_under h (index_child_ne p j k rest hjk)

theorem errorsAt_validateHibernationSchedulesFrom_lt (X : Collaborators) (p : Path)
    (ps : List HibernationSchedule) (i : Nat) (seen : List String) (k : Nat) (rest : Path)
    (hk : k < i) :
    errorsAt (p ++ PathElem.index k :: rest) (validateHibernationSchedulesFrom X p ps i seen)
      = [] := by
  unfold errorsAt
  rw [List.filter_eq_nil_iff]
  intro e he heq
  simp only [decide_eq_true_eq] at heq
  obtain ⟨j, h1, h2⟩ := validateHibernationSchedulesFrom_index X p ps i seen e he
  rw [heq] at h2
  exact index_child_ne p j k rest (by omega) h2

/-- The loop of `ValidateHibernationSchedules` on `pre ++ s :: post`: below the path of
`s` it reports what `ValidateHibernationSchedule` reports for `s`, started with seen specs
that are the specs seen before the loop and the valid specs of `pre`. -/
theorem validateHibernationSchedulesFrom_at (X : Collaborators) (p : Path)
    (pre : List HibernationSchedule) (s : HibernationSchedule) (post : List HibernationSchedule)
    (i : Nat) (seen : List String) :
    ∃ seen2 : List String,
      (∀ x, x ∈ seen2 ↔
        (x ∈ seen ∨ (x ∈ pre.flatMap scheduleSpecs ∧ X.cronParseStandard x = none))) ∧
      ∀ rest, errorsAt (p ++ PathElem.index (i + pre.length) :: rest)
          (validateHibernationSchedulesFrom X p (pre ++ s :: post) i seen) =
        errorsAt (p ++ PathElem.index (i + pre.length) :: rest)
          (ValidateHibernationSchedule X seen2 s (p.Index (i + pre.length))).1 := by
  induction pre generalizing i seen with
  | nil =>
    refine ⟨seen, by simp, ?_⟩
    intro rest
    simp only [List.nil_append, List.length_nil, Nat.add_zero, validateHibernationSchedulesFrom,
      errorsAt_append]
    rw [errorsAt_validateHibernationSchedulesFrom_lt X p post (i + 1) _ i rest
      (Nat.lt_succ_self i), List.append_nil]
  | cons r0 pre ih =>
    obtain ⟨_, hmem0⟩ := ValidateHibernationSchedule_spec X seen r0 (p.Index i)
    obtain ⟨seen2, hmem, hat⟩ := ih (i + 1)
      (ValidateHibernationSchedule X seen r0 (p.Index i)).2
    have hidx : i + (r0 :: pre).length = (i + 1) + pre.length := by
      simp only [List.length_cons]; omega
    refine ⟨seen2, ?_, ?_⟩
    · intro x
      rw [hmem, hmem0]
      simp only [List.flatMap_cons, List.mem_append]
      tauto
    · intro rest
      rw [hidx]
      simp only [List.cons_append, validateHibernationSchedulesFrom, errorsAt_append,
        List.append_eq]
      rw [errorsAt_index_of_under p i _ rest _ (ValidateHibernationSchedule_under X seen r0 _)
        (by omega), List.nil_append]
      exact hat rest


theorem ValidateHibernationScheduleLocation_eq_nil_iff (X : Collaborators) (loc : String)
    (q : Path) : ValidateHibernationScheduleLocation X loc q = [] ↔
      X.timeLoadLocation loc = none := by
  unfold ValidateHibernationScheduleLocation
  cases X.timeLoadLocation loc <;> simp

theorem ValidateHibernationSchedule_eq_nil_iff (X : Collaborators) (seen : List String)
    (s : HibernationSchedule) (p : Path) :
    (ValidateHibernationSchedule X seen s p).1 = [] ↔
      ((s.Start.isSome ∨ s.End.isSome) ∧
       (∀ spec ∈ scheduleSpecs s, X.cronParseStandard spec = none ∧ spec ∉ seen) ∧
       (∀ loc, s.Location = some loc → X.timeLoadLocation loc = none) ∧
       (scheduleSpecs s).Nodup) := by
  rw [(ValidateHibernationSchedule_spec X seen s p).1]
  rcases s with ⟨st, en, loc⟩
  cases st <;> cases en <;> cases loc <;>
    simp [scheduleSpecs, cronSpecErrors_eq_nil_iff,
      ValidateHibernationScheduleLocation_eq_nil_iff] <;>
    tauto

theorem validateHibernationSchedulesFrom_eq_nil_iff (X : Collaborators) (p : Path)
    (ps : List HibernationSchedule) (i : Nat) (seen : List String) :
    validateHibernationSchedulesFrom X p ps i seen = [] ↔
      ((∀ s ∈ ps, s.Start.isSome ∨ s.End.isSome) ∧
       (∀ spec ∈ ps.flatMap scheduleSpecs, X.cronParseStandard spec = none ∧ spec ∉ seen) ∧
       (∀ s ∈ ps, ∀ loc, s.Location = some loc → X.timeLoadLocation loc = none) ∧
       (ps.flatMap scheduleSpecs).Nodup) := by
  induction ps generalizing i seen with
  | nil => simp [validateHibernationSchedulesFrom]
  | cons s ps ih =>
    have h2 := (ValidateHibernationSchedule_spec X seen s (p.Index i)).2
    simp only [validateHibernationSchedulesFrom, List.append_eq_nil, ih,
      ValidateHibernationSchedule_eq_nil_iff, h2,
      List.flatMap_cons, List.nodup_append, List.mem_append, List.mem_cons, forall_eq_or_imp,
      List.disjoint_left]
    constructor
    · rintro ⟨⟨a1, a2, a3, a4⟩, b1, b2, b3, b4⟩
      refine ⟨⟨a1, b1⟩, ?_, ⟨a3, b3⟩, a4, b4, ?_⟩
      · rintro spec (h | h)
        · exact a2 spec h
        · exact ⟨(b2 spec h).1, fun hs => (b2 spec h).2 (Or.inl hs)⟩
      · intro x hx hB
        exact (b2 x hB).2 (Or.inr ⟨hx, (b2 x hB).1⟩)
    · rintro ⟨⟨a1, b1⟩, c, ⟨a3, b3⟩, a4, b4, d⟩
      refine ⟨⟨a1, fun spec h => c spec (Or.inl h), a3, a4⟩, b1, ?_, b3, b4⟩
      intro spec h
      refine ⟨(c spec (Or.inr h)).1, ?_⟩
      rintro (hs | ⟨hA, _⟩)
      · exact (c spec (Or.inr h)).2 hs
      · exact d hA h


/-- The errors of `ValidateHibernationSchedule` at `start/end`, `start` and `end`. -/
theorem errorsAt_ValidateHibernationSchedule (X : Collaborators) (seen : List String)
    (s : HibernationSchedule) (p : Path) :
    errorsAt (p.Child "start/end") (ValidateHibernationSchedule X seen s p).1 =
      (if s.Start = none ∧ s.End = none then
        [Required (p.Child "start/end") "either start or end has to be provided"] else []) ∧
    (∀ spec, s.Start = some spec →
      errorsAt (p.Child "start") (ValidateHibernationSchedule X seen s p).1 =
        cronSpecErrors X (spec ∈ seen) spec (p.Child "start")) ∧
    (∀ spec, s.End = some spec →
      errorsAt (p.Child "end") (ValidateHibernationSchedule X seen s p).1 =
        cronSpecErrors X (spec ∈ seen ∨ s.Start = some spec) spec (p.Child "end")) := by
  rw [(ValidateHibernationSchedule_spec X seen s p).1]
  have hsib : ∀ (a b : String) (l : ErrorList), ErrorsUnder (p.Child b) l → a ≠ b →
      errorsAt (p.Child a) l = [] :=
    fun a b l hl hb => errorsAt_child_of_under p a b l hl hb
  have hloc : ∀ a : String, a ≠ "location" → errorsAt (p.Child a)
      (s.Location.elim [] (fun location =>
        ValidateHibernationScheduleLocation X location (p.Child "location"))) = [] := by
    intro a ha
    apply hsib a "location" _ _ ha
    cases s.Location with
    | none => exact ErrorsUnder.nil _
    | some loc =>
      simp only [Option.elim, ValidateHibernationScheduleLocation]
      cases X.timeLoadLocation loc with
      | none => exact ErrorsUnder.nil _
      | some err => exact ErrorsUnder.single (List.prefix_refl _)
  have hstart : ∀ a : String, a ≠ "start" → errorsAt (p.Child a)
      (s.Start.elim [] (fun start => cronSpecErrors X (start ∈ seen) start (p.Child "start")))
      = [] := by
    intro a ha
    apply hsib a "start" _ _ ha
    cases s.Start with
    | none => exact ErrorsUnder.nil _
    | some st => exact cronSpecErrors_under X _ st _
  have hend : ∀ a : String, a ≠ "end" → errorsAt (p.Child a)
      (s.End.elim [] (fun e => cronSpecErrors X (e ∈ seen ∨ s.Start = some e) e (p.Child "end")))
      = [] := by
    intro a ha
    apply hsib a "end" _ _ ha
    cases s.End with
    | none => exact ErrorsUnder.nil _
    | some e => exact cronSpecErrors_under X _ e _
  have hreq : ∀ a : String, a ≠ "start/end" → errorsAt (p.Child a)
      (if s.Start.isNone = true ∧ s.End.isNone = true then
        [Required (p.Child "start/end") "either start or end has to be provided"] else []) = [] :=
    fun a ha => hsib a "start/end" _
      (ErrorsUnder.ite _ (ErrorsUnder.single (List.prefix_refl _)) (ErrorsUnder.nil _)) ha
  refine ⟨?_, ?_, ?_⟩
  · simp only [errorsAt_append, hloc "start/end" (by decide), hstart "start/end" (by decide),
      hend "start/end" (by decide), List.append_nil]
    by_cases h : s.Start = none ∧ s.End = none
    · simp [h, errorsAt_cons, Required]
    · have : ¬ (s.Start.isNone = true ∧ s.End.isNone = true) := by
        simpa [Option.isNone_iff_eq_none] using h
      simp [h, this]
  · intro spec hs
    simp only [errorsAt_append, hloc "start" (by decide), hreq "start" (by decide),
      hend "start" (by decide), List.append_nil, List.nil_append]
    rw [hs]
    exact errorsAt_cronSpecErrors_self X _ spec _
  · intro spec hs
    simp only [errorsAt_append, hloc "end" (by decide), hreq "end" (by decide),
      hstart "end" (by decide), List.append_nil, List.nil_append]
    rw [hs]
    exact errorsAt_cronSpecErrors_self X _ spec _

/-- C29: for hibernation schedules `pre ++ s :: post`, `ValidateHibernationSchedules`
reports at the `start/end` position of `s` the `Required` error exactly when `s` has neither
start nor end; at the `start` (`end`) position of `s` the `Invalid` error when the spec is no
valid cron spec, the `Duplicate` error when the spec is valid and an equal spec is a start or
end of an earlier schedule (or, for the end, the start of `s`), and nothing otherwise. The
result is empty if and only if every schedule has a start or an end, all specs and locations
are valid, and the specs are pairwise distinct. -/
theorem hibernation_schedules_errors (X : Collaborators) (schedules : List HibernationSchedule)
    (fldPath : Path) (pre : List HibernationSchedule) (s : HibernationSchedule)
    (post : List HibernationSchedule) (h : schedules = pre ++ s :: post) :
    errorsAt ((fldPath.Index pre.length).Child "start/end")
        (ValidateHibernationSchedules X schedules fldPath) =
      (if s.Start = none ∧ s.End = none then
        [Required ((fldPath.Index pre.length).Child "start/end")
          "either start or end has to be provided"] else []) ∧
    (∀ spec, s.Start = some spec →
      errorsAt ((fldPath.Index pre.length).Child "start")
          (ValidateHibernationSchedules X schedules fldPath) =
        cronSpecErrors X (spec ∈ pre.flatMap scheduleSpecs) spec
          ((fldPath.Index pre.length).Child "start")) ∧
    (∀ spec, s.End = some spec →
      errorsAt ((fldPath.Index pre.length).Child "end")
          (ValidateHibernationSchedules X schedules fldPath) =
        cronSpecErrors X (spec ∈ pre.flatMap scheduleSpecs ∨ s.Start = some spec) spec
          ((fldPath.Index pre.length).Child "end")) ∧
    (ValidateHibernationSchedules X schedules fldPath = [] ↔
      ((∀ t ∈ schedules, t.Start.isSome ∨ t.End.isSome) ∧
       (∀ spec ∈ schedules.flatMap scheduleSpecs, X.cronParseStandard spec = none) ∧
       (∀ t ∈ schedules, ∀ loc, t.Location = some loc → X.timeLoadLocation loc = none) ∧
       (schedules.flatMap scheduleSpecs).Nodup)) := by
  obtain ⟨seen2, hmem, hat⟩ := validateHibernationSchedulesFrom_at X fldPath pre s post 0 []
  simp only [Nat.zero_add, List.not_mem_nil, false_or] at hmem hat
  obtain ⟨e1, e2, e3⟩ := errorsAt_ValidateHibernationSchedule X seen2 s (fldPath.Index pre.length)
  have hpath : ∀ a : String, (fldPath.Index pre.length).Child a =
      fldPath ++ PathElem.index pre.length :: [PathElem.name a] := by
    intro a; simp [Path.Child, Path.Index]
  unfold ValidateHibernationSchedules
  refine ⟨?_, ?_, ?_, ?_⟩
  · rw [h, hpath, hat, ← hpath]; exact e1
  · intro spec hs
    rw [h, hpath, hat, ← hpath, e2 spec hs]
    apply cronSpecErrors_congr
    intro hv
    rw [hmem]
    exact ⟨fun hx => hx.1, fun hx => ⟨hx, hv⟩⟩
  · intro spec hs
    rw [h, hpath, hat, ← hpath, e3 spec hs]
    apply cronSpecErrors_congr
    intro hv
    rw [hmem]
    exact ⟨fun hx => hx.elim (fun h1 => Or.inl h1.1) Or.inr,
      fun hx => hx.elim (fun h1 => Or.inl ⟨h1, hv⟩) Or.inr⟩
  · rw [validateHibernationSchedulesFrom_eq_nil_iff]
    simp

/-- Witness of C29: in `repeatedSchedules` the end of the second schedule repeats the start
of the first and is reported as a duplicate. -/
theorem hibernation_schedules_errors_witness :
    errorsAt (((NewPath "schedules").Index 1).Child "end")
        (ValidateHibernationSchedules specCollaborators repeatedSchedules (NewPath "schedules")) =
      [Duplicate (((NewPath "schedules").Index 1).Child "end") "0 20 * * *"] ∧
    ValidateHibernationSchedules specCollaborators repeatedSchedules (NewPath "schedules") =
      [Duplicate (((NewPath "schedules").Index 1).Child "end") "0 20 * * *",
       Required (((NewPath "schedules").Index 2).Child "start/end")
        "either start or end has to be provided"] :=
  ⟨((hibernation_schedules_errors specCollaborators repeatedSchedules (NewPath "schedules")
      [{ Start := some "0 20 * * *", End := some "0 6 * * *" }]
      { Start := some "0 21 * * *", End := some "0 20 * * *" } [{}] rfl).2.2.1
      "0 20 * * *" rfl).trans (by decide),
    by decide⟩

/-! ## Kubelet configuration -/

theorem ValidatePositiveDuration_under (d : Option Duration) (p : Path) :
    ErrorsUnder p (ValidatePositiveDuration d p) := by
  unfold ValidatePositiveDuration
  split
  · exact ErrorsUnder.nil _
  · exact ErrorsUnder.ite _ (ErrorsUnder.single (List.prefix_refl _)) (ErrorsUnder.nil _)

theorem ValidateResourceQuantityOrPercent_under (X : Collaborators) (v : Option String)
    (p : Path) (key : String) :
    ErrorsUnder (p.Child key) (ValidateResourceQuantityOrPercent X v p key) := by
  unfold ValidateResourceQuantityOrPercent
  split
  · exact ErrorsUnder.nil _
  · dsimp only
    repeat' split
    all_goals first
      | exact ErrorsUnder.nil _
      | exact ErrorsUnder.single (List.prefix_refl _)

theorem validateKubeletConfigEviction_under (X : Collaborators) (e : KubeletConfigEviction)
    (p : Path) : ErrorsUnder p (validateKubeletConfigEviction X e p) := by
  unfold validateKubeletConfigEviction
  simp only [List.nil_append, errorsUnder_append]
  repeat' apply And.intro
  all_goals exact (ValidateResourceQuantityOrPercent_under X _ p _).mono (prefix_child _ _)

theorem validateKubeletConfigEvictionMinimumReclaim_under (X : Collaborators) (hX : X.Local)
    (e : KubeletConfigEvictionMinimumReclaim) (p : Path) :
    ErrorsUnder p (validateKubeletConfigEvictionMinimumReclaim X e p) := by
  unfold validateKubeletConfigEvictionMinimumReclaim
  simp only [errorsUnder_append]
  repeat' apply And.intro
  all_goals split
  all_goals first
    | exact ErrorsUnder.nil _
    | exact (hX.ValidateResourceQuantityValue _ _ _).mono (prefix_child _ _)

theorem validateKubeletConfigEvictionSoftGracePeriod_under
    (e : KubeletConfigEvictionSoftGracePeriod) (p : Path) :
    ErrorsUnder p (validateKubeletConfigEvictionSoftGracePeriod e p) := by
  unfold validateKubeletConfigEvictionSoftGracePeriod
  simp only [errorsUnder_append]
  repeat' apply And.intro
  all_goals exact (ValidatePositiveDuration_under _ _).mono (prefix_child _ _)

theorem validateKubeletConfigReserved_under (X : Collaborators) (hX : X.Local)
    (r : KubeletConfigReserved) (p : Path) :
    ErrorsUnder p (validateKubeletConfigReserved X r p) := by
  unfold validateKubeletConfigReserved
  simp only [errorsUnder_append]
  repeat' apply And.intro
  all_goals split
  all_goals first
    | exact ErrorsUnder.nil _
    | exact (hX.ValidateResourceQuantityValue _ _ _).mono (prefix_child _ _)

theorem validateEnforceNodeAllocatableFrom_under (p : Path) (l : List String) (i : Nat)
    (seen : List String) : ErrorsUnder p (validateEnforceNodeAllocatableFrom p l i seen) := by
  induction l generalizing i seen with
  | nil => exact ErrorsUnder.nil _
  | cons x xs ih =>
    unfold validateEnforceNodeAllocatableFrom
    simp only [errorsUnder_append]
    refine ⟨⟨?_, ?_⟩, ih _ _⟩
    · exact ErrorsUnder.ite _ (ErrorsUnder.single (prefix_index _ _)) (ErrorsUnder.nil _)
    · exact ErrorsUnder.ite _ (ErrorsUnder.single (prefix_index _ _)) (ErrorsUnder.nil _)

theorem validateKubeletConfigEnforceNodeAllocatable_under (l : List String) (p : Path) :
    ErrorsUnder p (validateKubeletConfigEnforceNodeAllocatable l p) := by
  unfold validateKubeletConfigEnforceNodeAllocatable
  exact ErrorsUnder.ite _ (ErrorsUnder.single (List.prefix_refl _))
    (validateEnforceNodeAllocatableFrom_under _ _ _ _)

/-- Every error of the checks on `memorySwap` is a `Forbidden` error at `memorySwap`. -/
theorem validateKubeletConfigMemorySwap_field (c : KubeletConfig) (v : String) (p : Path) :
    ∀ e ∈ validateKubeletConfigMemorySwap c v p,
      e.Field = p.Child "memorySwap" ∧ e.Type_ = ErrorType.Forbidden := by
  intro e he
  unfold validateKubeletConfigMemorySwap at he
  split at he
  · simp at he
  · simp only [List.mem_append] at he
    rcases he with (he | he) | he
    · split at he
      · simp only [List.mem_singleton] at he; subst he; exact ⟨rfl, rfl⟩
      · simp at he
    · split at he
      · simp only [List.mem_singleton] at he; subst he; exact ⟨rfl, rfl⟩
      · simp at he
    · split at he
      · simp only [List.mem_singleton] at he; subst he; exact ⟨rfl, rfl⟩
      · split at he
        · simp only [List.mem_singleton] at he; subst he; exact ⟨rfl, rfl⟩
        · simp at he

theorem errorsAt_eq_self_of_field (q : Path) (l : ErrorList) (h : ∀ e ∈ l, e.Field = q) :
    errorsAt q l = l := by
  unfold errorsAt
  rw [List.filter_eq_self]
  intro e he
  simpa using h e he

theorem ErrorsBeside.of_child {p : Path} {a : String} {l : ErrorList} (b : String)
    (hab : a ≠ b) (h : ErrorsUnder (p.Child b) l) : ErrorsBeside p a l :=
  ⟨errorsAt_child_of_under p a b l h hab, h.mono (prefix_child _ _)⟩

theorem errorsBeside_append (p : Path) (a : String) (l1 l2 : ErrorList) :
    ErrorsBeside p a (l1 ++ l2) ↔ ErrorsBeside p a l1 ∧ ErrorsBeside p a l2 := by
  unfold ErrorsBeside
  rw [errorsAt_append, List.append_eq_nil, errorsUnder_append]
  tauto

theorem errorsBeside_nil (p : Path) (a : String) : ErrorsBeside p a [] :=
  ⟨rfl, ErrorsUnder.nil _⟩

/-- The result of `ValidateKubeletConfig` splits into the checks of the other fields, none
of whose errors lies at `memorySwap`, and the checks on `memorySwap`. -/
theorem ValidateKubeletConfig_split (X : Collaborators) (hX : X.Local) (c : KubeletConfig)
    (v : String) (d : Bool) (p : Path) :
    ∃ others, ValidateKubeletConfig X c v d p =
        others ++ validateKubeletConfigMemorySwap c v p ∧
      ErrorsBeside p "memorySwap" others := by
  refine ⟨_, rfl, ?_⟩
  simp only [errorsBeside_append]
  refine ⟨⟨⟨⟨⟨⟨⟨⟨⟨⟨⟨⟨⟨⟨⟨⟨⟨⟨⟨⟨⟨?_, ?_⟩, ?_⟩, ?_⟩, ?_⟩, ?_⟩, ?_⟩, ?_⟩, ?_⟩, ?_⟩, ?_⟩, ?_⟩, ?_⟩,
    ?_⟩, ?_⟩, ?_⟩, ?_⟩, ?_⟩, ?_⟩, ?_⟩, ?_⟩, ?_⟩
  · refine ErrorsBeside.of_child "maxPods" (by decide) ?_
    split
    · exact ValidateNonnegativeField_under _ _
    · exact ErrorsUnder.nil _
  · refine ErrorsBeside.of_child "podPIDsLimit" (by decide) ?_
    split
    · exact ErrorsUnder.ite _ (ErrorsUnder.single (List.prefix_refl _)) (ErrorsUnder.nil _)
    · exact ErrorsUnder.nil _
  · refine ErrorsBeside.of_child "imagePullProgressDeadline" (by decide) ?_
    split
    · exact ErrorsUnder.append
        (ErrorsUnder.ite _ (ErrorsUnder.single (List.prefix_refl _)) (ErrorsUnder.nil _))
        (ValidatePositiveDuration_under _ _)
    · exact ErrorsUnder.nil _
  · refine ErrorsBeside.of_child "enforceNodeAllocatable" (by decide) ?_
    split
    · exact validateKubeletConfigEnforceNodeAllocatable_under _ _
    · exact ErrorsUnder.nil _
  · refine ErrorsBeside.of_child "evictionPressureTransitionPeriod" (by decide) ?_
    split
    · exact ValidatePositiveDuration_under _ _
    · exact ErrorsUnder.nil _
  · refine ErrorsBeside.of_child "evictionMaxPodGracePeriod" (by decide) ?_
    split
    · exact ValidateNonnegativeField_under _ _
    · exact ErrorsUnder.nil _
  · refine ErrorsBeside.of_child "evictionHard" (by decide) ?_
    split
    · exact validateKubeletConfigEviction_under _ _ _
    · exact ErrorsUnder.nil _
  · refine ErrorsBeside.of_child "evictionSoft" (by decide) ?_
    split
    · exact validateKubeletConfigEviction_under _ _ _
    · exact ErrorsUnder.nil _
  · refine ErrorsBeside.of_child "evictionMinimumReclaim" (by decide) ?_
    split
    · exact validateKubeletConfigEvictionMinimumReclaim_under _ hX _ _
    · exact ErrorsUnder.nil _
  · refine ErrorsBeside.of_child "evictionSoftGracePeriod" (by decide) ?_
    split
    · exact validateKubeletConfigEvictionSoftGracePeriod_under _ _
    · exact ErrorsUnder.nil _
  · refine ErrorsBeside.of_child "kubeReserved" (by decide) ?_
    split
    · exact validateKubeletConfigReserved_under _ hX _ _
    · exact ErrorsUnder.nil _
  · refine ErrorsBeside.of_child "systemReserved" (by decide) ?_
    split
    · exact validateKubeletConfigReserved_under _ hX _ _
    · exact ErrorsUnder.nil _
  · refine ErrorsBeside.of_child "imageGCHighThresholdPercent" (by decide) ?_
    split
    · exact ErrorsUnder.ite _ (ErrorsUnder.single (List.prefix_refl _)) (ErrorsUnder.nil _)
    · exact ErrorsUnder.nil _
  · refine ErrorsBeside.of_child "imageGCLowThresholdPercent" (by decide) ?_
    split
    · exact ErrorsUnder.ite _ (ErrorsUnder.single (List.prefix_refl _)) (ErrorsUnder.nil _)
    · exact ErrorsUnder.nil _
  · refine ErrorsBeside.of_child "imageGCLowThresholdPercent" (by decide) ?_
    split
    · exact ErrorsUnder.ite _ (ErrorsUnder.single (List.prefix_refl _)) (ErrorsUnder.nil _)
    · exact ErrorsUnder.nil _
  · exact ErrorsBeside.of_child "featureGates" (by decide) (hX.ValidateFeatureGates _ _ _)
  · refine ErrorsBeside.of_child "registryPullQPS" (by decide) ?_
    split
    · exact ValidateNonnegativeField_under _ _
    · exact ErrorsUnder.nil _
  · refine ErrorsBeside.of_child "registryBurst" (by decide) ?_
    split
    · exact ValidateNonnegativeField_under _ _
    · exact ErrorsUnder.nil _
  · refine ErrorsBeside.of_child "seccompDefault" (by decide) ?_
    split
    · refine ErrorsUnder.append
        (ErrorsUnder.ite _ (ErrorsUnder.single (List.prefix_refl _)) (ErrorsUnder.nil _)) ?_
      split
      · exact ErrorsUnder.ite _ (ErrorsUnder.single (List.prefix_refl _)) (ErrorsUnder.nil _)
      · exact ErrorsUnder.nil _
    · exact ErrorsUnder.nil _
  · refine ErrorsBeside.of_child "containerLogMaxSize" (by decide) ?_
    exact ErrorsUnder.ite _ (ErrorsUnder.single (List.prefix_refl _)) (ErrorsUnder.nil _)
  · refine ErrorsBeside.of_child "containerLogMaxFiles" (by decide) ?_
    split
    · exact ErrorsUnder.append
        (ErrorsUnder.ite _ (ErrorsUnder.single (List.prefix_refl _)) (ErrorsUnder.nil _))
        (ErrorsUnder.ite _ (ErrorsUnder.single (List.prefix_refl _)) (ErrorsUnder.nil _))
    · exact ErrorsUnder.nil _
  · refine ErrorsBeside.of_child "streamingConnectionIdleTimeout" (by decide) ?_
    split
    · exact ErrorsUnder.ite _ (ErrorsUnder.single (List.prefix_refl _)) (ErrorsUnder.nil _)
    · exact ErrorsUnder.nil _

theorem ValidateKubeletConfig_under (X : Collaborators) (hX : X.Local) (c : KubeletConfig)
    (v : String) (d : Bool) (p : Path) : ErrorsUnder p (ValidateKubeletConfig X c v d p) := by
  obtain ⟨others, h, _, hu⟩ := ValidateKubeletConfig_split X hX c v d p
  rw [h]
  refine ErrorsUnder.append hu ?_
  intro e he
  rw [(validateKubeletConfigMemorySwap_field c v p e he).1]
  exact prefix_child _ _

/-- The errors of `ValidateKubeletConfig` at `memorySwap` are the errors of its checks on
`memorySwap`. -/
theorem errorsAt_ValidateKubeletConfig_memorySwap (X : Collaborators) (hX : X.Local)
    (c : KubeletConfig) (v : String) (d : Bool) (p : Path) :
    errorsAt (p.Child "memorySwap") (ValidateKubeletConfig X c v d p) =
      validateKubeletConfigMemorySwap c v p := by
  obtain ⟨others, h, h0, _⟩ := ValidateKubeletConfig_split X hX c v d p
  rw [h, errorsAt_append, h0, List.nil_append]
  exact errorsAt_eq_self_of_field _ _ (fun e he => (validateKubeletConfigMemorySwap_field c v p e he).1)

/-! ## Loops over taints, worker pools and data volumes -/

theorem reportsAt_append (t : ErrorType) (q : Path) (l1 l2 : ErrorList) :
    ReportsAt t q (l1 ++ l2) ↔ ReportsAt t q l1 ∨ ReportsAt t q l2 := by
  unfold ReportsAt
  constructor
  · rintro ⟨e, he, h⟩
    rcases List.mem_append.1 he with h1 | h1
    · exact Or.inl ⟨e, h1, h⟩
    · exact Or.inr ⟨e, h1, h⟩
  · rintro (⟨e, he, h⟩ | ⟨e, he, h⟩)
    · exact ⟨e, List.mem_append_left _ he, h⟩
    · exact ⟨e, List.mem_append_right _ he, h⟩

theorem reportsAt_iff_errorsAt (t : ErrorType) (q : Path) (l : ErrorList) :
    ReportsAt t q l ↔ ∃ e ∈ errorsAt q l, e.Type_ = t := by
  unfold ReportsAt errorsAt
  constructor
  · rintro ⟨e, he, ht, hf⟩
    exact ⟨e, List.mem_filter.2 ⟨he, by simpa using hf⟩, ht⟩
  · rintro ⟨e, he, ht⟩
    obtain ⟨h1, h2⟩ := List.mem_filter.1 he
    exact ⟨e, h1, ht, by simpa using h2⟩

theorem not_reportsAt_nil (t : ErrorType) (q : Path) : ¬ ReportsAt t q [] := by
  rintro ⟨e, he, _⟩
  simp at he

theorem not_reportsAt_of_under {r q : Path} {l : ErrorList} (t : ErrorType)
    (h : ErrorsUnder r l) (hq : ¬ r <+: q) : ¬ ReportsAt t q l := by
  rintro ⟨e, he, _, hf⟩
  exact hq (hf ▸ h e he)

theorem not_reportsAt_of_type {l : ErrorList} (t : ErrorType) (q : Path)
    (h : ∀ e ∈ l, e.Type_ ≠ t) : ¬ ReportsAt t q l := by
  rintro ⟨e, he, ht, _⟩
  exact h e he ht

theorem reportsAt_single (t : ErrorType) (q : Path) (e : Error) :
    ReportsAt t q [e] ↔ e.Type_ = t ∧ e.Field = q := by
  unfold ReportsAt
  simp

theorem child_not_prefix_self (q : Path) (a : String) : ¬ (q.Child a <+: q) := by
  intro h
  have := h.length_le
  simp [Path.Child] at this

theorem index_ne_of_ne (p : Path) (i j : Nat) (h : i ≠ j) : ¬ (p.Index i <+: p.Index j) :=
  index_child_ne p i j [] h

theorem index_not_prefix_child (p : Path) (i j : Nat) (a : String) (h : i ≠ j) :
    ¬ (p.Index i <+: (p.Index j).Child a) := by
  have := index_child_ne p i j [PathElem.name a] h
  simpa [Path.Child, Path.Index] using this

theorem validateTaintEffect_under (effect : String) (b : Bool) (p : Path) :
    ErrorsUnder p (validateTaintEffect effect b p) := by
  unfold validateTaintEffect
  repeat' split
  all_goals first
    | exact ErrorsUnder.nil _
    | exact ErrorsUnder.single (List.prefix_refl _)

theorem taintFieldErrors_under (X : Collaborators) (hX : X.Local) (idxPath : Path)
    (taint : Taint) : ErrorsUnder idxPath (taintFieldErrors X idxPath taint) := by
  unfold taintFieldErrors
  simp only [errorsUnder_append]
  refine ⟨⟨⟨(hX.ValidateLabelName _ _).mono (prefix_child _ _), ?_⟩, ?_⟩,
    (validateTaintEffect_under _ _ _).mono (prefix_child _ _)⟩
  · exact ErrorsUnder.ite _ (ErrorsUnder.single (prefix_child _ _)) (ErrorsUnder.nil _)
  · exact ErrorsUnder.ite _ (ErrorsUnder.single (prefix_child _ _)) (ErrorsUnder.nil _)

/-- One step of the loop of `validateTaints`. -/
theorem validateTaintsFrom_cons (X : Collaborators) (p : Path) (taint : Taint)
    (rest : List Taint) (i : Nat) (u : List (String × String)) :
    validateTaintsFrom X p (taint :: rest) i u =
      taintFieldErrors X (p.Index i) taint ++
        (if (taint.Effect, taint.Key) ∈ u then [duplicatedTaintError (p.Index i) taint]
          else []) ++
        validateTaintsFrom X p rest (i + 1)
          (if (taint.Effect, taint.Key) ∈ u then u else (taint.Effect, taint.Key) :: u) := by
  simp only [validateTaintsFrom, taintFieldErrors]
  by_cases hm : (taint.Effect, taint.Key) ∈ u <;> simp [hm]

theorem validateTaintsFrom_index (X : Collaborators) (hX : X.Local) (p : Path)
    (ts : List Taint) (i : Nat) (u : List (String × String)) :
    ∀ e ∈ validateTaintsFrom X p ts i u,
      ∃ j, i ≤ j ∧ j < i + ts.length ∧ p.Index j <+: e.Field := by
  induction ts generalizing i u with
  | nil => intro e he; simp [validateTaintsFrom] at he
  | cons t ts ih =>
    intro e he
    rw [validateTaintsFrom_cons] at he
    simp only [List.mem_append] at he
    rcases he with (he | he) | he
    · exact ⟨i, le_refl _, by simp, taintFieldErrors_under X hX _ t e he⟩
    · split at he
      · simp only [List.mem_singleton] at he
        subst he
        exact ⟨i, le_refl _, by simp, List.prefix_refl _⟩
      · simp at he
    · obtain ⟨j, h1, h2, h3⟩ := ih _ _ e he
      exact ⟨j, by omega, by simp only [List.length_cons]; omega, h3⟩

theorem validateTaintsFrom_not_reportsAt (X : Collaborators) (hX : X.Local) (p : Path)
    (ts : List Taint) (i : Nat) (u : List (String × String)) (t : ErrorType) (k : Nat)
    (rest : Path) (hk : k < i) :
    ¬ ReportsAt t (p ++ PathElem.index k :: rest) (validateTaintsFrom X p ts i u) := by
  rintro ⟨e, he, _, hf⟩
  obtain ⟨j, h1, _, h3⟩ := validateTaintsFrom_index X hX p ts i u e he
  exact index_child_ne p j k rest (by omega) (hf ▸ h3)

/-- The loop of `validateTaints` on `pre ++ taint :: post`: a `Duplicate` error is reported
at the index of `taint` if and only if its effect and key are among the pairs seen before
the loop or are those of a taint of `pre`. -/
theorem validateTaintsFrom_duplicate_iff (X : Collaborators) (hX : X.Local) (p : Path)
    (pre : List Taint) (taint : Taint) (post : List Taint) (i : Nat)
    (u : List (String × String)) :
    ReportsAt ErrorType.Duplicate (p.Index (i + pre.length))
        (validateTaintsFrom X p (pre ++ taint :: post) i u) ↔
      ((taint.Effect, taint.Key) ∈ u ∨
        ∃ r ∈ pre, r.Key = taint.Key ∧ r.Effect = taint.Effect) := by
  induction pre generalizing i u with
  | nil =>
    simp only [List.nil_append, List.length_nil, Nat.add_zero, validateTaintsFrom_cons,
      reportsAt_append, List.not_mem_nil, false_and, exists_false, or_false]
    have h1 : ¬ ReportsAt ErrorType.Duplicate (p.Index i)
        (taintFieldErrors X (p.Index i) taint) := by
      unfold taintFieldErrors
      simp only [reportsAt_append, not_or]
      refine ⟨⟨⟨?_, ?_⟩, ?_⟩, ?_⟩
      · exact not_reportsAt_of_under _ (hX.ValidateLabelName _ _) (child_not_prefix_self _ _)
      · exact not_reportsAt_of_under _
          (ErrorsUnder.ite _ (ErrorsUnder.single (List.prefix_refl _)) (ErrorsUnder.nil _))
          (child_not_prefix_self _ "key")
      · exact not_reportsAt_of_under _
          (ErrorsUnder.ite _ (ErrorsUnder.single (List.prefix_refl _)) (ErrorsUnder.nil _))
          (child_not_prefix_self _ "value")
      · exact not_reportsAt_of_under _ (validateTaintEffect_under _ _ _)
          (child_not_prefix_self _ _)
    have h3 := validateTaintsFrom_not_reportsAt X hX p post (i + 1)
      (if (taint.Effect, taint.Key) ∈ u then u else (taint.Effect, taint.Key) :: u)
      ErrorType.Duplicate i [] (Nat.lt_succ_self i)
    have hp : p ++ [PathElem.index i] = p.Index i := rfl
    rw [hp] at h3
    simp only [h1, h3, false_or, or_false]
    by_cases hm : (taint.Effect, taint.Key) ∈ u
    · simp only [if_pos hm, hm, iff_true]
      exact (reportsAt_single _ _ _).2 ⟨rfl, rfl⟩
    · simp only [if_neg hm, hm, iff_false]
      exact not_reportsAt_nil _ _
  | cons r pre ih =>
    have hidx : i + (r :: pre).length = (i + 1) + pre.length := by
      simp only [List.length_cons]; omega
    rw [hidx, List.cons_append, validateTaintsFrom_cons, reportsAt_append, reportsAt_append,
      ih]
    have h1 : ¬ ReportsAt ErrorType.Duplicate (p.Index (i + 1 + pre.length))
        (taintFieldErrors X (p.Index i) r) :=
      not_reportsAt_of_under _ (taintFieldErrors_under X hX _ r)
        (index_ne_of_ne p _ _ (by omega))
    have h2 : ¬ ReportsAt ErrorType.Duplicate (p.Index (i + 1 + pre.length))
        (if (r.Effect, r.Key) ∈ u then [duplicatedTaintError (p.Index i) r] else []) :=
      not_reportsAt_of_under _
        (ErrorsUnder.ite _ (ErrorsUnder.single (List.prefix_refl _)) (ErrorsUnder.nil _))
        (index_ne_of_ne p _ _ (by omega))
    simp only [h1, h2, false_or, List.mem_cons, exists_eq_or_imp]
    by_cases hm : (r.Effect, r.Key) ∈ u
    · simp only [if_pos hm]
      constructor
      · rintro (h | h)
        · exact Or.inl h
        · exact Or.inr (Or.inr h)
      · rintro (h | ⟨hk, he⟩ | h)
        · exact Or.inl h
        · exact Or.inl (by rw [← hk, ← he]; exact hm)
        · exact Or.inr h
    · simp only [if_neg hm, List.mem_cons, Prod.mk.injEq]
      constructor
      · rintro ((⟨he, hk⟩ | h) | h)
        · exact Or.inr (Or.inl ⟨hk.symm, he.symm⟩)
        · exact Or.inl h
        · exact Or.inr (Or.inr h)
      · rintro (h | ⟨hk, he⟩ | h)
        · exact Or.inl (Or.inr h)
        · exact Or.inl (Or.inl ⟨he.symm, hk.symm⟩)
        · exact Or.inr h

/-! ## A single worker pool -/

theorem ValidatePositiveIntOrPercent_under (X : Collaborators) (v : Option IntOrString)
    (p : Path) : ErrorsUnder p (ValidatePositiveIntOrPercent X v p) := by
  unfold ValidatePositiveIntOrPercent
  split
  · exact ErrorsUnder.nil _
  · exact ErrorsUnder.ite _ (ErrorsUnder.single (List.prefix_refl _)) (ErrorsUnder.nil _)
  · exact ValidateNonnegativeField_under _ _

theorem IsNotMoreThan100Percent_under (X : Collaborators) (v : Option IntOrString)
    (p : Path) : ErrorsUnder p (IsNotMoreThan100Percent X v p) := by
  unfold IsNotMoreThan100Percent
  split
  · exact ErrorsUnder.nil _
  · dsimp only
    exact ErrorsUnder.ite _ (ErrorsUnder.nil _) (ErrorsUnder.single (List.prefix_refl _))

theorem validateTaints_under (X : Collaborators) (hX : X.Local) (ts : List Taint) (p : Path) :
    ErrorsUnder p (validateTaints X ts p) := by
  intro e he
  obtain ⟨j, _, _, h⟩ := validateTaintsFrom_index X hX p ts 0 [] e he
  exact (prefix_index p j).trans h

theorem validateContainerRuntimesFrom_under (p : Path) (l : List ContainerRuntime) (i : Nat)
    (seen : List String) : ErrorsUnder p (validateContainerRuntimesFrom p l i seen) := by
  induction l generalizing i seen with
  | nil => exact ErrorsUnder.nil _
  | cons x xs ih =>
    unfold validateContainerRuntimesFrom
    simp only [errorsUnder_append]
    refine ⟨⟨?_, ?_⟩, ih _ _⟩
    · exact ErrorsUnder.ite _
        (ErrorsUnder.single ((prefix_index _ _).trans (prefix_child _ _))) (ErrorsUnder.nil _)
    · exact ErrorsUnder.ite _
        (ErrorsUnder.single ((prefix_index _ _).trans (prefix_child _ _))) (ErrorsUnder.nil _)

theorem ValidateCRI_under (cri : CRI) (v : String) (p : Path) :
    ErrorsUnder p (ValidateCRI cri v p) := by
  unfold ValidateCRI ValidateContainerRuntimes
  simp only [errorsUnder_append]
  refine ⟨⟨?_, ?_⟩, (validateContainerRuntimesFrom_under _ _ _ _).mono (prefix_child _ _)⟩
  · exact ErrorsUnder.ite _ (ErrorsUnder.single (prefix_child _ _)) (ErrorsUnder.nil _)
  · exact ErrorsUnder.ite _ (ErrorsUnder.single (prefix_child _ _)) (ErrorsUnder.nil _)

theorem ValidateArchitecture_under (X : Collaborators) (arch : String) (p : Path) :
    ErrorsUnder p (ValidateArchitecture X arch p) := by
  unfold ValidateArchitecture
  exact ErrorsUnder.ite _ (ErrorsUnder.single (List.prefix_refl _)) (ErrorsUnder.nil _)

theorem validateDataVolumesFrom_under (X : Collaborators) (hX : X.Local) (p : Path)
    (l : List DataVolume) (i : Nat) (seen : List String) :
    ErrorsUnder (p.Child "dataVolumes") (validateDataVolumesFrom X p l i seen) := by
  induction l generalizing i seen with
  | nil => exact ErrorsUnder.nil _
  | cons x xs ih =>
    unfold validateDataVolumesFrom
    simp only [errorsUnder_append]
    refine ⟨⟨⟨⟨?_, ?_⟩, ?_⟩, ?_⟩, ih _ _⟩
    · split
      · exact ErrorsUnder.single ((prefix_index _ _).trans (prefix_child _ _))
      · exact (hX.validateDNS1123Label _ _).mono ((prefix_index _ _).trans (prefix_child _ _))
    · exact ErrorsUnder.ite _
        (ErrorsUnder.single ((prefix_index _ _).trans (prefix_child _ _))) (ErrorsUnder.nil _)
    · exact ErrorsUnder.ite _
        (ErrorsUnder.single ((prefix_index _ _).trans (prefix_child _ _))) (ErrorsUnder.nil _)
    · exact ErrorsUnder.ite _
        (ErrorsUnder.single ((prefix_index _ _).trans (prefix_child _ _))) (ErrorsUnder.nil _)

/-- Every error of the version comparison lies at the path handed in. -/
theorem validateWorkerGroupAndControlPlaneKubernetesVersion_field
    (controlPlane worker : String) (p : Path) (errs : ErrorList)
    (h : validateWorkerGroupAndControlPlaneKubernetesVersion controlPlane worker p = some errs) :
    ∀ e ∈ errs, e.Field = p := by
  unfold validateWorkerGroupAndControlPlaneKubernetesVersion at h
  rcases hw : NewVersion worker with _ | vw
  · simp [hw] at h
  · simp only [hw] at h
    rcases h1 : CompareVersions worker ">" controlPlane with ⟨b1, e1⟩
    rcases h2 : CompareVersions controlPlane ">=" vw.IncMinor.IncMinor.IncMinor.String
      with ⟨b2, e2⟩
    simp only [h1, h2, Option.some.injEq] at h
    subst h
    intro e he
    cases b1 <;> cases b2 <;> cases e1 <;> cases e2 <;>
      simp [Invalid, Forbidden] at he <;>
      (try rcases he with he | he | he | he) <;> (try subst he) <;> (try rfl)

theorem validateWorkerVersion_under (w : Worker) (k : Kubernetes) (p : Path) (errs : ErrorList)
    (h : validateWorkerVersion w k p = some errs) :
    ErrorsUnder (p.Child "kubernetes") errs := by
  unfold validateWorkerVersion at h
  split at h
  · split at h
    · intro e he
      rw [validateWorkerGroupAndControlPlaneKubernetesVersion_field _ _ _ _ h e he]
      exact prefix_child _ _
    · cases h; exact ErrorsUnder.nil _
  · cases h; exact ErrorsUnder.nil _

/-- The run-time failure of the version comparison in `ValidateWorker`: the pool has a
version of its own that is no semantic version. -/
theorem validateWorkerVersion_none_iff (w : Worker) (k : Kubernetes) (p : Path) :
    validateWorkerVersion w k p = none ↔
      ∃ wk v, w.Kubernetes = some wk ∧ wk.Version = some v ∧ NewVersion v = none := by
  unfold validateWorkerVersion
  rcases w.Kubernetes with _ | wk
  · simp
  · rcases hv : wk.Version with _ | v
    · simp [hv]
    · simp [hv, validateWorkerGroupAndControlPlaneKubernetesVersion_none_iff]

theorem ValidateWorker_none_iff (X : Collaborators) (w : Worker) (k : Kubernetes) (p : Path)
    (t : Bool) :
    ValidateWorker X w k p t = none ↔
      ∃ wk v, w.Kubernetes = some wk ∧ wk.Version = some v ∧ NewVersion v = none := by
  rw [← validateWorkerVersion_none_iff w k p]
  unfold ValidateWorker
  cases validateWorkerVersion w k p <;> simp

theorem ValidateWorker_some (X : Collaborators) (w : Worker) (k : Kubernetes) (p : Path)
    (t : Bool) (errs : ErrorList) (h : ValidateWorker X w k p t = some errs) :
    ∃ versionErrs, validateWorkerVersion w k p = some versionErrs ∧
      errs = validateWorkerHead X w p t ++ versionErrs ++
        validateWorkerTail X w k (workerKubernetesVersion w k.Version) p := by
  unfold ValidateWorker at h
  rcases hv : validateWorkerVersion w k p with _ | v
  · simp [hv] at h
  · simp only [hv, Option.some.injEq] at h
    exact ⟨v, rfl, h.symm⟩

/-- No error of the checks of `ValidateWorker` after the version comparison lies at
`minimum`, `maximum` or `maxUnavailable`. -/
theorem errorsAt_validateWorkerTail (X : Collaborators) (hX : X.Local) (w : Worker)
    (k : Kubernetes) (v : String) (p : Path) (a : String)
    (ha : a ∉ ["kubernetes", "caBundle", "volume", "dataVolumes", "kubeletDataVolumeName",
      "cri", "machine"]) :
    errorsAt (p.Child a) (validateWorkerTail X w k v p) = [] := by
  simp only [List.mem_cons, List.mem_singleton, List.not_mem_nil, or_false, not_or] at ha
  obtain ⟨h1, h2, h3, h4, h5, h6, h7⟩ := ha
  unfold validateWorkerTail
  simp only [errorsAt_append, List.append_eq_nil]
  refine ⟨⟨⟨⟨⟨⟨⟨?_, ?_⟩, ?_⟩, ?_⟩, ?_⟩, ?_⟩, ?_⟩, ?_⟩
  · apply errorsAt_child_of_under p a "kubernetes" _ _ h1
    split
    · split
      · exact (ValidateKubeletConfig_under X hX _ _ _ _).mono (prefix_child _ _)
      · split
        · exact (ValidateKubeletConfig_under X hX _ _ _ _).mono (prefix_child _ _)
        · exact ErrorsUnder.nil _
    · exact ErrorsUnder.nil _
  · apply errorsAt_child_of_under p a "caBundle" _ _ h2
    repeat' split
    all_goals first
      | exact ErrorsUnder.nil _
      | exact ErrorsUnder.single (List.prefix_refl _)
  · apply errorsAt_child_of_under p a "volume" _ _ h3
    repeat' split
    all_goals first
      | exact ErrorsUnder.nil _
      | exact ErrorsUnder.single (prefix_child _ _)
  · apply errorsAt_child_of_under p a "volume" _ _ h3
    exact ErrorsUnder.ite _ (ErrorsUnder.single (List.prefix_refl _)) (ErrorsUnder.nil _)
  · exact errorsAt_child_of_under p a "dataVolumes" _
      (validateDataVolumesFrom_under X hX _ _ _ _) h4
  · apply errorsAt_child_of_under p a "kubeletDataVolumeName" _ _ h5
    repeat' split
    all_goals first
      | exact ErrorsUnder.nil _
      | exact ErrorsUnder.single (List.prefix_refl _)
  · apply errorsAt_child_of_under p a "cri" _ _ h6
    split
    · exact ValidateCRI_under _ _ _
    · exact ErrorsUnder.nil _
  · apply errorsAt_child_of_under p a "machine" _ _ h7
    split
    · exact (ValidateArchitecture_under X _ _).mono (prefix_child _ _)
    · exact ErrorsUnder.nil _

/-- The checks on `memorySwap` report something exactly under the condition
`SwapForbidden`. -/
theorem validateKubeletConfigMemorySwap_eq_nil_iff (c : KubeletConfig)
    (swap : MemorySwapConfiguration) (v : String) (p : Path) (hs : c.MemorySwap = some swap) :
    validateKubeletConfigMemorySwap c v p = [] ↔ ¬ SwapForbidden c swap v := by
  unfold validateKubeletConfigMemorySwap SwapForbidden
  simp only [hs]
  rcases hg : featureGate c.FeatureGates "NodeSwap" with _ | g
  · simp
  · rcases hf : c.FailSwapOn with _ | f
    · cases g <;> cases hb : swap.SwapBehavior <;>
        cases hv : (CompareVersions v "<" "1.22").1 <;> simp [boolDeref, hb]
    · cases f <;> cases g <;> cases hb : swap.SwapBehavior <;>
        cases hv : (CompareVersions v "<" "1.22").1 <;> simp [boolDeref, hb]

/-- C25, counterexample: `memorySwap` set without a swap behaviour, the `NodeSwap` feature
gate set to `false`, `failSwapOn` unset, version 1.26.0: the gate is not enabled, and
`ValidateKubeletConfig` returns no error at all. -/
theorem memory_swap_gate_off_counterexample :
    swapGateOffConfig.MemorySwap.isSome = true ∧
    featureGate swapGateOffConfig.FeatureGates "NodeSwap" = some false ∧
    ValidateKubeletConfig specCollaborators swapGateOffConfig "1.26.0" false
      (((NewPath "spec").Child "kubernetes").Child "kubelet") = [] := by
  refine ⟨by decide, by decide, by decide⟩

/-- C25, amended: for a kubelet configuration with `memorySwap` set, the errors of
`ValidateKubeletConfig` at `memorySwap` are `Forbidden` errors, and there is one exactly
when the version is below 1.22, or `failSwapOn` is true, or the `NodeSwap` feature gate is
absent from the feature gates, or the gate is set to `false` and a swap behaviour is
configured. In particular the gate set to `false` without a swap behaviour is accepted, and
so is the enabled gate, when `failSwapOn` is not true and the version is not below 1.22. -/
theorem memory_swap_forbidden_iff (X : Collaborators) (hX : X.Local) (c : KubeletConfig)
    (swap : MemorySwapConfiguration) (version : String) (dockerConfigured : Bool) (p : Path)
    (hs : c.MemorySwap = some swap) :
    (ReportsAt ErrorType.Forbidden (p.Child "memorySwap")
        (ValidateKubeletConfig X c version dockerConfigured p) ↔
      SwapForbidden c swap version) ∧
    (errorsAt (p.Child "memorySwap") (ValidateKubeletConfig X c version dockerConfigured p) = [] ↔
      ¬ SwapForbidden c swap version) ∧
    (∀ e ∈ errorsAt (p.Child "memorySwap")
        (ValidateKubeletConfig X c version dockerConfigured p),
      e.Type_ = ErrorType.Forbidden) := by
  rw [reportsAt_iff_errorsAt, errorsAt_ValidateKubeletConfig_memorySwap X hX]
  have hnil := validateKubeletConfigMemorySwap_eq_nil_iff c swap version p hs
  have hall := validateKubeletConfigMemorySwap_field c version p
  refine ⟨?_, hnil, fun e he => (hall e he).2⟩
  constructor
  · rintro ⟨e, he, _⟩
    by_contra hc
    rw [hnil.2 hc] at he
    simp at he
  · intro hc
    rcases hl : validateKubeletConfigMemorySwap c version p with _ | ⟨e, es⟩
    · exact absurd (hnil.1 hl) (not_not.2 hc)
    · exact ⟨e, List.mem_cons_self _ _, (hall e (hl ▸ List.mem_cons_self _ _)).2⟩

/-- C25, witness: the swap behaviour `LimitedSwap` with the `NodeSwap` feature gate set to
`false`. -/
theorem memory_swap_forbidden_iff_witness :
    (ReportsAt ErrorType.Forbidden ((NewPath "kubelet").Child "memorySwap")
        (ValidateKubeletConfig specCollaborators limitedSwapGateOffConfig "1.26.0" false
          (NewPath "kubelet")) ↔
      SwapForbidden limitedSwapGateOffConfig { SwapBehavior := some "LimitedSwap" } "1.26.0") ∧
    (errorsAt ((NewPath "kubelet").Child "memorySwap")
        (ValidateKubeletConfig specCollaborators limitedSwapGateOffConfig "1.26.0" false
          (NewPath "kubelet")) = [] ↔
      ¬ SwapForbidden limitedSwapGateOffConfig { SwapBehavior := some "LimitedSwap" } "1.26.0") ∧
    (∀ e ∈ errorsAt ((NewPath "kubelet").Child "memorySwap")
        (ValidateKubeletConfig specCollaborators limitedSwapGateOffConfig "1.26.0" false
          (NewPath "kubelet")),
      e.Type_ = ErrorType.Forbidden) :=
  memory_swap_forbidden_iff specCollaborators specCollaborators_local limitedSwapGateOffConfig
    { SwapBehavior := some "LimitedSwap" } "1.26.0" false (NewPath "kubelet") rfl

/-- The loop of `validateTaints` on `pre ++ taint :: post`: a `Forbidden` error is reported
at the key of `taint` if and only if the key is reserved. `ValidateLabelName` is assumed to
report no `Forbidden` errors. -/
theorem validateTaintsFrom_reserved_iff (X : Collaborators) (hX : X.Local)
    (hLN : ∀ v q, ∀ e ∈ X.ValidateLabelName v q, e.Type_ ≠ ErrorType.Forbidden) (p : Path)
    (pre : List Taint) (taint : Taint) (post : List Taint) (i : Nat)
    (u : List (String × String)) :
    ReportsAt ErrorType.Forbidden ((p.Index (i + pre.length)).Child "key")
        (validateTaintsFrom X p (pre ++ taint :: post) i u) ↔
      taint.Key = X.TaintNodeCriticalComponentsNotReady := by
  induction pre generalizing i u with
  | nil =>
    simp only [List.nil_append, List.length_nil, Nat.add_zero, validateTaintsFrom_cons,
      reportsAt_append, taintFieldErrors]
    have h1 : ¬ ReportsAt ErrorType.Forbidden ((p.Index i).Child "key")
        (X.ValidateLabelName taint.Key ((p.Index i).Child "key")) :=
      not_reportsAt_of_type _ _ (hLN _ _)
    have h2 : ¬ ReportsAt ErrorType.Forbidden ((p.Index i).Child "key")
        (if (X.IsValidLabelValue taint.Value).length ≠ 0 then
          [Invalid ((p.Index i).Child "value") taint.Value
            (";".intercalate (X.IsValidLabelValue taint.Value))]
        else []) := by
      apply not_reportsAt_of_type
      intro e he
      split at he
      · simp only [List.mem_singleton] at he; subst he; simp [Invalid]
      · simp at he
    have h3 : ¬ ReportsAt ErrorType.Forbidden ((p.Index i).Child "key")
        (validateTaintEffect taint.Effect false ((p.Index i).Child "effect")) := by
      apply not_reportsAt_of_under _ (validateTaintEffect_under _ _ _)
      exact not_prefix_sibling (p.Index i) "key" "effect" [] (by decide)
    have h4 : ¬ ReportsAt ErrorType.Forbidden ((p.Index i).Child "key")
        (if (taint.Effect, taint.Key) ∈ u then [duplicatedTaintError (p.Index i) taint]
          else []) := by
      apply not_reportsAt_of_type
      intro e he
      split at he
      · simp only [List.mem_singleton] at he; subst he
        simp [duplicatedTaintError, Duplicate]
      · simp at he
    have h5 := validateTaintsFrom_not_reportsAt X hX p post (i + 1)
      (if (taint.Effect, taint.Key) ∈ u then u else (taint.Effect, taint.Key) :: u)
      ErrorType.Forbidden i [PathElem.name "key"] (Nat.lt_succ_self i)
    have hp : p ++ [PathElem.index i, PathElem.name "key"] = (p.Index i).Child "key" := by
      simp [Path.Index, Path.Child]
    rw [hp] at h5
    simp only [h1, h2, h3, h4, h5, false_or, or_false]
    by_cases hr : taint.Key ∈ reservedTaintKeys X
    · rw [if_pos hr]
      have hk : taint.Key = X.TaintNodeCriticalComponentsNotReady := by
        simpa [reservedTaintKeys] using hr
      simp only [hk, iff_true]
      exact (reportsAt_single _ _ _).2 ⟨rfl, rfl⟩
    · rw [if_neg hr]
      have hk : taint.Key ≠ X.TaintNodeCriticalComponentsNotReady := by
        simpa [reservedTaintKeys] using hr
      simp only [hk, iff_false]
      exact not_reportsAt_nil _ _
  | cons r pre ih =>
    have hidx : i + (r :: pre).length = (i + 1) + pre.length := by
      simp only [List.length_cons]; omega
    rw [hidx, List.cons_append, validateTaintsFrom_cons, reportsAt_append, reportsAt_append,
      ih]
    have h1 : ¬ ReportsAt ErrorType.Forbidden ((p.Index (i + 1 + pre.length)).Child "key")
        (taintFieldErrors X (p.Index i) r) :=
      not_reportsAt_of_under _ (taintFieldErrors_under X hX _ r)
        (index_not_prefix_child p _ _ _ (by omega))
    have h2 : ¬ ReportsAt ErrorType.Forbidden ((p.Index (i + 1 + pre.length)).Child "key")
        (if (r.Effect, r.Key) ∈ u then [duplicatedTaintError (p.Index i) r] else []) :=
      not_reportsAt_of_under _
        (ErrorsUnder.ite _ (ErrorsUnder.single (List.prefix_refl _)) (ErrorsUnder.nil _))
        (index_not_prefix_child p _ _ _ (by omega))
    simp only [h1, h2, false_or]

/-- C34: in the result of `validateTaints`, a `Duplicate` error is reported at the index of
a taint if and only if an earlier taint has the same key and the same effect, and a
`Forbidden` error is reported at the key of a taint if and only if the key is the reserved
key for node-critical components. `ValidateLabelName` (Kubernetes API machinery) is assumed
to report at or below the path it is handed and to report no `Forbidden` errors. -/
theorem taints_duplicate_and_reserved (X : Collaborators) (hX : X.Local)
    (hLN : ∀ v q, ∀ e ∈ X.ValidateLabelName v q, e.Type_ ≠ ErrorType.Forbidden)
    (pre : List Taint) (taint : Taint) (post : List Taint) (p : Path) :
    (ReportsAt ErrorType.Duplicate (p.Index pre.length)
        (validateTaints X (pre ++ taint :: post) p) ↔
      ∃ r ∈ pre, r.Key = taint.Key ∧ r.Effect = taint.Effect) ∧
    (ReportsAt ErrorType.Forbidden ((p.Index pre.length).Child "key")
        (validateTaints X (pre ++ taint :: post) p) ↔
      taint.Key = X.TaintNodeCriticalComponentsNotReady) := by
  unfold validateTaints
  have h1 := validateTaintsFrom_duplicate_iff X hX p pre taint post 0 []
  have h2 := validateTaintsFrom_reserved_iff X hX hLN p pre taint post 0 []
  simp only [Nat.zero_add, List.not_mem_nil, false_or] at h1 h2
  exact ⟨h1, h2⟩

/-- C34, witness: three taints with the key `dedicated`; the second has the effect of the
first, the third another effect. -/
theorem taints_duplicate_and_reserved_witness :
    (ReportsAt ErrorType.Duplicate ((NewPath "taints").Index 1)
        (validateTaints specCollaborators repeatedTaints (NewPath "taints")) ↔
      ∃ r ∈ [({ Key := "dedicated", Value := "a", Effect := "NoSchedule" } : Taint)],
        r.Key = "dedicated" ∧ r.Effect = "NoSchedule") ∧
    (ReportsAt ErrorType.Forbidden (((NewPath "taints").Index 1).Child "key")
        (validateTaints specCollaborators repeatedTaints (NewPath "taints")) ↔
      "dedicated" = specCollaborators.TaintNodeCriticalComponentsNotReady) :=
  taints_duplicate_and_reserved specCollaborators specCollaborators_local
    (fun _ _ _ he => by simp [specCollaborators] at he)
    [{ Key := "dedicated", Value := "a", Effect := "NoSchedule" }]
    { Key := "dedicated", Value := "b", Effect := "NoSchedule" }
    [{ Key := "dedicated", Value := "c", Effect := "NoExecute" }] (NewPath "taints")

theorem validateWorkerMachine_beside (X : Collaborators) (hX : X.Local) (w : Worker)
    (p : Path) (t : Bool) (a : String) (ha : a ∉ ["name", "machine"]) :
    ErrorsBeside p a (validateWorkerMachine X w p t) := by
  simp only [List.mem_cons, List.mem_singleton, List.not_mem_nil, or_false, not_or] at ha
  obtain ⟨h1, h2⟩ := ha
  unfold validateWorkerMachine
  simp only [errorsBeside_append]
  refine ⟨⟨⟨?_, ?_⟩, ?_⟩, ?_⟩
  · exact ErrorsBeside.of_child "name" h1 (hX.validateDNS1123Label _ _)
  · exact ErrorsBeside.of_child "name" h1
      (ErrorsUnder.ite _ (ErrorsUnder.single (List.prefix_refl _)) (ErrorsUnder.nil _))
  · exact ErrorsBeside.of_child "machine" h2
      (ErrorsUnder.ite _ (ErrorsUnder.single (prefix_child _ _)) (ErrorsUnder.nil _))
  · refine ErrorsBeside.of_child "machine" h2 ?_
    split
    · exact ErrorsUnder.append
        (ErrorsUnder.ite _ (ErrorsUnder.single (prefix_child2 _ _ _)) (ErrorsUnder.nil _))
        (ErrorsUnder.ite _ (ErrorsUnder.single (prefix_child2 _ _ _)) (ErrorsUnder.nil _))
    · exact ErrorsUnder.nil _

theorem validateWorkerMetadata_beside (X : Collaborators) (hX : X.Local) (w : Worker)
    (p : Path) (a : String) (ha : a ∉ ["labels", "annotations", "taints"]) :
    ErrorsBeside p a (validateWorkerMetadata X w p) := by
  simp only [List.mem_cons, List.mem_singleton, List.not_mem_nil, or_false, not_or] at ha
  obtain ⟨h1, h2, h3⟩ := ha
  unfold validateWorkerMetadata
  simp only [errorsBeside_append]
  refine ⟨⟨?_, ?_⟩, ?_⟩
  · exact ErrorsBeside.of_child "labels" h1 (hX.ValidateLabels _ _)
  · exact ErrorsBeside.of_child "annotations" h2 (hX.ValidateAnnotations _ _)
  · exact ErrorsBeside.of_child "taints" h3
      (ErrorsUnder.ite _ (validateTaints_under X hX _ _) (ErrorsUnder.nil _))

theorem validateWorkerRollout_beside (X : Collaborators) (w : Worker) (p : Path) (a : String)
    (ha : a ∉ ["maxSurge", "maxUnavailable"]) :
    ErrorsBeside p a (validateWorkerRollout X w p) := by
  simp only [List.mem_cons, List.mem_singleton, List.not_mem_nil, or_false, not_or] at ha
  obtain ⟨h1, h2⟩ := ha
  unfold validateWorkerRollout
  simp only [errorsBeside_append]
  refine ⟨⟨⟨?_, ?_⟩, ?_⟩, ?_⟩
  · exact ErrorsBeside.of_child "maxSurge" h1 (ValidatePositiveIntOrPercent_under _ _ _)
  · exact ErrorsBeside.of_child "maxUnavailable" h2 (ValidatePositiveIntOrPercent_under _ _ _)
  · exact ErrorsBeside.of_child "maxUnavailable" h2 (IsNotMoreThan100Percent_under _ _ _)
  · exact ErrorsBeside.of_child "maxUnavailable" h2
      (ErrorsUnder.ite _ (ErrorsUnder.single (List.prefix_refl _)) (ErrorsUnder.nil _))

theorem validateWorkerReplicas_beside (w : Worker) (p : Path) (a : String)
    (ha : a ∉ ["minimum", "maximum"]) : ErrorsBeside p a (validateWorkerReplicas w p) := by
  simp only [List.mem_cons, List.mem_singleton, List.not_mem_nil, or_false, not_or] at ha
  obtain ⟨h1, h2⟩ := ha
  unfold validateWorkerReplicas
  simp only [errorsBeside_append]
  refine ⟨⟨?_, ?_⟩, ?_⟩
  · exact ErrorsBeside.of_child "minimum" h1
      (ErrorsUnder.ite _ (ErrorsUnder.single (List.prefix_refl _)) (ErrorsUnder.nil _))
  · exact ErrorsBeside.of_child "maximum" h2
      (ErrorsUnder.ite _ (ErrorsUnder.single (List.prefix_refl _)) (ErrorsUnder.nil _))
  · exact ErrorsBeside.of_child "maximum" h2
      (ErrorsUnder.ite _ (ErrorsUnder.single (List.prefix_refl _)) (ErrorsUnder.nil _))

/-- The errors of a result of `ValidateWorker` at `minimum` and `maximum` are those of the
checks on the replica bounds. -/
theorem errorsAt_ValidateWorker_replicas (X : Collaborators) (hX : X.Local) (w : Worker)
    (k : Kubernetes) (p : Path) (t : Bool) (errs : ErrorList)
    (h : ValidateWorker X w k p t = some errs) (a : String) (ha : a ∈ ["minimum", "maximum"]) :
    errorsAt (p.Child a) errs = errorsAt (p.Child a) (validateWorkerReplicas w p) := by
  obtain ⟨v, hv, rfl⟩ := ValidateWorker_some X w k p t errs h
  have hne : ∀ b, b ∉ ["minimum", "maximum"] → a ≠ b := by
    intro b hb hab
    exact hb (hab ▸ ha)
  have h1 := (validateWorkerMachine_beside X hX w p t a (by
    simp only [List.mem_cons, List.mem_singleton, List.not_mem_nil, or_false] at ha ⊢
    rcases ha with rfl | rfl <;> decide)).1
  have h2 := (validateWorkerRollout_beside X w p a (by
    simp only [List.mem_cons, List.mem_singleton, List.not_mem_nil, or_false] at ha ⊢
    rcases ha with rfl | rfl <;> decide)).1
  have h3 := (validateWorkerMetadata_beside X hX w p a (by
    simp only [List.mem_cons, List.mem_singleton, List.not_mem_nil, or_false] at ha ⊢
    rcases ha with rfl | rfl <;> decide)).1
  have h4 := errorsAt_child_of_under p a "kubernetes" v (validateWorkerVersion_under w k p v hv)
    (hne _ (by decide))
  have h5 := errorsAt_validateWorkerTail X hX w k (workerKubernetesVersion w k.Version) p a (by
    simp only [List.mem_cons, List.mem_singleton, List.not_mem_nil, or_false] at ha ⊢
    rcases ha with rfl | rfl <;> decide)
  unfold validateWorkerHead
  simp only [errorsAt_append, h1, h2, h3, h4, h5, List.nil_append, List.append_nil]

/-- The errors of a result of `ValidateWorker` at `maxUnavailable` are those of the checks
on `maxSurge` and `maxUnavailable`. -/
theorem errorsAt_ValidateWorker_maxUnavailable (X : Collaborators) (hX : X.Local) (w : Worker)
    (k : Kubernetes) (p : Path) (t : Bool) (errs : ErrorList)
    (h : ValidateWorker X w k p t = some errs) :
    errorsAt (p.Child "maxUnavailable") errs =
      errorsAt (p.Child "maxUnavailable") (validateWorkerRollout X w p) := by
  obtain ⟨v, hv, rfl⟩ := ValidateWorker_some X w k p t errs h
  have h1 := (validateWorkerMachine_beside X hX w p t "maxUnavailable" (by decide)).1
  have h2 := (validateWorkerReplicas_beside w p "maxUnavailable" (by decide)).1
  have h3 := (validateWorkerMetadata_beside X hX w p "maxUnavailable" (by decide)).1
  have h4 := errorsAt_child_of_under p "maxUnavailable" "kubernetes" v
    (validateWorkerVersion_under w k p v hv) (by decide)
  have h5 := errorsAt_validateWorkerTail X hX w k (workerKubernetesVersion w k.Version) p
    "maxUnavailable" (by decide)
  unfold validateWorkerHead
  simp only [errorsAt_append, h1, h2, h3, h4, h5, List.nil_append, List.append_nil]

theorem errorsAt_ite_single_child (p : Path) (a b : String) (c : Prop) [Decidable c]
    (t : ErrorType) (v d : String) :
    errorsAt (p.Child a) (if c then [⟨t, p.Child b, v, d⟩] else []) =
      if c ∧ b = a then [⟨t, p.Child b, v, d⟩] else [] := by
  by_cases hc : c
  · rw [if_pos hc, errorsAt_single_child]
    simp [hc]
  · simp [if_neg hc, hc]

/-- The errors of the checks on the replica bounds at `minimum` and at `maximum`. -/
theorem errorsAt_validateWorkerReplicas (w : Worker) (p : Path) :
    errorsAt (p.Child "minimum") (validateWorkerReplicas w p) =
      (if w.Minimum < 0 then
        [Invalid (p.Child "minimum") (toString w.Minimum) "minimum value must not be negative"]
      else []) ∧
    errorsAt (p.Child "maximum") (validateWorkerReplicas w p) =
      (if w.Maximum < 0 then
        [Invalid (p.Child "maximum") (toString w.Maximum) "maximum value must not be negative"]
      else []) ++
      (if w.Maximum < w.Minimum then
        [Forbidden (p.Child "maximum") "maximum value must not be less than minimum value"]
      else []) := by
  unfold validateWorkerReplicas Invalid Forbidden
  simp only [errorsAt_append, errorsAt_ite_single_child]
  constructor
  · simp
  · simp

/-- The replica bounds in a result of `ValidateWorker`: no error lies at `minimum` or
`maximum` if and only if `0 ≤ minimum ≤ maximum`; `Forbidden` is reported at `maximum` if
and only if `maximum < minimum`, `Invalid` at `minimum` if and only if `minimum < 0`, and
`Invalid` at `maximum` if and only if `maximum < 0`. No result is returned exactly when the
pool has a Kubernetes version of its own that is no semantic version. -/
theorem worker_replica_bounds (X : Collaborators) (hX : X.Local) (w : Worker) (k : Kubernetes)
    (p : Path) (t : Bool) :
    (∀ errs, ValidateWorker X w k p t = some errs →
      ((errorsAt (p.Child "minimum") errs = [] ∧ errorsAt (p.Child "maximum") errs = []) ↔
        (0 ≤ w.Minimum ∧ w.Minimum ≤ w.Maximum)) ∧
      (ReportsAt ErrorType.Forbidden (p.Child "maximum") errs ↔ w.Maximum < w.Minimum) ∧
      (ReportsAt ErrorType.Invalid (p.Child "minimum") errs ↔ w.Minimum < 0) ∧
      (ReportsAt ErrorType.Invalid (p.Child "maximum") errs ↔ w.Maximum < 0)) ∧
    (ValidateWorker X w k p t = none ↔
      ∃ wk v, w.Kubernetes = some wk ∧ wk.Version = some v ∧ NewVersion v = none) := by
  refine ⟨?_, ValidateWorker_none_iff X w k p t⟩
  intro errs h
  have hmin := errorsAt_ValidateWorker_replicas X hX w k p t errs h "minimum" (by decide)
  have hmax := errorsAt_ValidateWorker_replicas X hX w k p t errs h "maximum" (by decide)
  obtain ⟨e1, e2⟩ := errorsAt_validateWorkerReplicas w p
  rw [e1] at hmin
  rw [e2] at hmax
  simp only [reportsAt_iff_errorsAt, hmin, hmax]
  by_cases c1 : w.Minimum < 0 <;> by_cases c2 : w.Maximum < 0 <;>
    by_cases c3 : w.Maximum < w.Minimum <;>
    simp [c1, c2, c3, Invalid, Forbidden] <;> omega

/-- C11: the pool `{minimum: 3, maximum: 1}` with the Kubernetes version `abc` of its own.
`ValidateWorker` fails at run time in the comparison of the pool's version with the version
of the control plane and returns no error list, so no `Forbidden` error is reported at
`maximum`; for the same pool without a version of its own the result holds the `Forbidden`
error at `spec.provider.workers[0].maximum`. -/
theorem worker_replica_bounds_lost_on_unparsable_version :
    invertedBoundsWorkerBadVersion.Maximum < invertedBoundsWorkerBadVersion.Minimum ∧
    ValidateWorker specCollaborators invertedBoundsWorkerBadVersion { Version := "1.25.0" }
      firstWorkerPath false = none ∧
    ValidateWorker specCollaborators invertedBoundsWorker { Version := "1.25.0" }
      firstWorkerPath false =
      some [Forbidden (firstWorkerPath.Child "maximum")
        "maximum value must not be less than minimum value"] := by
  refine ⟨by decide, by decide, by decide⟩

theorem mem_errorsAt_iff (q : Path) (l : ErrorList) (e : Error) :
    e ∈ errorsAt q l ↔ e ∈ l ∧ e.Field = q := by
  unfold errorsAt
  simp [List.mem_filter]

theorem ValidatePositiveIntOrPercent_detail (X : Collaborators) (v : Option IntOrString)
    (p : Path) : ∀ e ∈ ValidatePositiveIntOrPercent X v p, e.Detail ≠ bothZeroMsg := by
  intro e he
  unfold ValidatePositiveIntOrPercent at he
  split at he
  · simp at he
  · split at he
    · simp only [List.mem_singleton] at he; subst he
      exact (by decide : ("must be an integer or percentage (e.g '5%')" : String) ≠ bothZeroMsg)
    · simp at he
  · unfold ValidateNonnegativeField at he
    split at he
    · simp only [List.mem_singleton] at he; subst he
      exact (by decide : ("must be greater than or equal to 0" : String) ≠ bothZeroMsg)
    · simp at he

theorem IsNotMoreThan100Percent_detail (X : Collaborators) (v : Option IntOrString)
    (p : Path) : ∀ e ∈ IsNotMoreThan100Percent X v p, e.Detail ≠ bothZeroMsg := by
  intro e he
  unfold IsNotMoreThan100Percent at he
  split at he
  · simp at he
  · dsimp only at he
    split at he
    · simp at he
    · simp only [List.mem_singleton] at he; subst he
      exact (by decide : ("must not be greater than 100%" : String) ≠ bothZeroMsg)

/-- The error "may not be 0 when `maxSurge` is 0" among the errors of the checks on
`maxSurge` and `maxUnavailable`. -/
theorem mem_validateWorkerRollout_bothZero (X : Collaborators) (w : Worker) (p : Path)
    (e : Error) :
    (e ∈ validateWorkerRollout X w p ∧ e.Detail = bothZeroMsg) ↔
      (SurgeAndUnavailableZero X w ∧
        e = Invalid (p.Child "maxUnavailable") (intOrStringText w.MaxUnavailable)
          bothZeroMsg) := by
  have hd1 := ValidatePositiveIntOrPercent_detail X w.MaxSurge (p.Child "maxSurge") e
  have hd2 := ValidatePositiveIntOrPercent_detail X w.MaxUnavailable (p.Child "maxUnavailable") e
  have hd3 := IsNotMoreThan100Percent_detail X w.MaxUnavailable (p.Child "maxUnavailable") e
  unfold validateWorkerRollout SurgeAndUnavailableZero
  simp only [List.mem_append]
  constructor
  · rintro ⟨((h | h) | h) | h, hd⟩
    · exact absurd hd (hd1 h)
    · exact absurd hd (hd2 h)
    · exact absurd hd (hd3 h)
    · split at h
      · rename_i hc
        simp only [List.mem_singleton] at h
        refine ⟨?_, h⟩
        rcases hs : w.MaxSurge with _ | s <;> rcases hu : w.MaxUnavailable with _ | u <;>
          simp [hs, hu] at hc ⊢
        · exact hc
        · exact ⟨hc.2, hc.1⟩
      · simp at h
  · rintro ⟨hc, he⟩
    subst he
    refine ⟨Or.inr ?_, rfl⟩
    rw [if_pos]
    · exact List.mem_singleton.2 rfl
    · rcases hs : w.MaxSurge with _ | s <;> rcases hu : w.MaxUnavailable with _ | u <;>
        simp [hs, hu] at hc ⊢
      · exact hc
      · exact ⟨hc.2, hc.1⟩

/-- The error on `maxUnavailable` in a result of `ValidateWorker`: the `Invalid` error "may
not be 0 when `maxSurge` is 0" is reported at `maxUnavailable` if and only if `maxSurge` is
set and has the value 0 and `maxUnavailable` is unset or has the value 0. No result is
returned exactly when the pool has a Kubernetes version of its own that is no semantic
version. -/
theorem worker_surge_and_unavailable_zero (X : Collaborators) (hX : X.Local) (w : Worker)
    (k : Kubernetes) (p : Path) (t : Bool) :
    (∀ errs, ValidateWorker X w k p t = some errs →
      ((∃ e ∈ errs, e.Type_ = ErrorType.Invalid ∧ e.Field = p.Child "maxUnavailable" ∧
          e.Detail = bothZeroMsg) ↔
        SurgeAndUnavailableZero X w)) ∧
    (ValidateWorker X w k p t = none ↔
      ∃ wk v, w.Kubernetes = some wk ∧ wk.Version = some v ∧ NewVersion v = none) := by
  refine ⟨?_, ValidateWorker_none_iff X w k p t⟩
  intro errs h
  have hat := errorsAt_ValidateWorker_maxUnavailable X hX w k p t errs h
  constructor
  · rintro ⟨e, he, _, hf, hd⟩
    have h1 : e ∈ errorsAt (p.Child "maxUnavailable") errs := (mem_errorsAt_iff _ _ _).2 ⟨he, hf⟩
    rw [hat] at h1
    exact ((mem_validateWorkerRollout_bothZero X w p e).1
      ⟨((mem_errorsAt_iff _ _ _).1 h1).1, hd⟩).1
  · intro hc
    have h0 := (mem_validateWorkerRollout_bothZero X w p _).2 ⟨hc, rfl⟩
    have h1 : Invalid (p.Child "maxUnavailable") (intOrStringText w.MaxUnavailable)
        bothZeroMsg ∈ errorsAt (p.Child "maxUnavailable") (validateWorkerRollout X w p) :=
      (mem_errorsAt_iff _ _ _).2 ⟨h0.1, rfl⟩
    rw [← hat] at h1
    exact ⟨_, ((mem_errorsAt_iff _ _ _).1 h1).1, rfl, rfl, rfl⟩

/-- C35: the pool with `maxSurge` 0, `maxUnavailable` unset and the Kubernetes version
`abc` of its own. `ValidateWorker` fails at run time in the comparison of the pool's version
with the version of the control plane and returns no error list, so the error on
`maxUnavailable` is not reported; for the same pool without a version of its own the result
is that error. -/
theorem worker_surge_error_lost_on_unparsable_version :
    SurgeAndUnavailableZero specCollaborators zeroSurgeWorkerBadVersion ∧
    ValidateWorker specCollaborators zeroSurgeWorkerBadVersion { Version := "1.25.0" }
      firstWorkerPath false = none ∧
    ValidateWorker specCollaborators zeroSurgeWorker { Version := "1.25.0" }
      firstWorkerPath false =
      some [Invalid (firstWorkerPath.Child "maxUnavailable") "null" bothZeroMsg] := by
  refine ⟨?_, by decide, by decide⟩
  exact ⟨⟨IntOrString.int 0, rfl, rfl⟩, Or.inl rfl⟩

/-! ## Uniqueness violations -/

theorem validateWorkersFrom_index (p : Path) (ws : List Worker) (i : Nat)
    (names : List String) :
    ∀ e ∈ validateWorkersFrom p ws i names,
      ∃ j, i ≤ j ∧ j < i + ws.length ∧ p.Index j <+: e.Field := by
  induction ws generalizing i names with
  | nil => intro e he; simp [validateWorkersFrom] at he
  | cons w ws ih =>
    intro e he
    simp only [validateWorkersFrom, List.mem_append] at he
    rcases he with he | he
    · split at he
      · simp only [List.mem_singleton] at he
        subst he
        exact ⟨i, le_refl _, by simp, prefix_child _ _⟩
      · simp at he
    · obtain ⟨j, h1, h2, h3⟩ := ih _ _ e he
      exact ⟨j, by omega, by simp only [List.length_cons]; omega, h3⟩

/-- The loop of `ValidateWorkers` on `pre ++ w :: post`: a `Duplicate` error is reported at
the name of `w` if and only if its name is among the names seen before the loop or is the
name of a pool of `pre`. -/
theorem validateWorkersFrom_duplicate_iff (p : Path) (pre : List Worker) (w : Worker)
    (post : List Worker) (i : Nat) (names : List String) :
    ReportsAt ErrorType.Duplicate ((p.Index (i + pre.length)).Child "name")
        (validateWorkersFrom p (pre ++ w :: post) i names) ↔
      (w.Name ∈ names ∨ ∃ r ∈ pre, r.Name = w.Name) := by
  induction pre generalizing i names with
  | nil =>
    simp only [List.nil_append, List.length_nil, Nat.add_zero, validateWorkersFrom,
      reportsAt_append, List.not_mem_nil, false_and, exists_false, or_false]
    have h3 : ¬ ReportsAt ErrorType.Duplicate ((p.Index i).Child "name")
        (validateWorkersFrom p post (i + 1) (w.Name :: names)) := by
      rintro ⟨e, he, _, hf⟩
      obtain ⟨j, h1, _, h3⟩ := validateWorkersFrom_index p post (i + 1) _ e he
      exact index_not_prefix_child p j i "name" (by omega) (hf ▸ h3)
    simp only [h3, or_false]
    by_cases hm : w.Name ∈ names
    · simp only [if_pos hm, hm, iff_true]
      exact (reportsAt_single _ _ _).2 ⟨rfl, rfl⟩
    · simp only [if_neg hm, hm, iff_false]
      exact not_reportsAt_nil _ _
  | cons r pre ih =>
    have hidx : i + (r :: pre).length = (i + 1) + pre.length := by
      simp only [List.length_cons]; omega
    rw [hidx, List.cons_append]
    simp only [validateWorkersFrom, reportsAt_append, ih]
    have h1 : ¬ ReportsAt ErrorType.Duplicate ((p.Index (i + 1 + pre.length)).Child "name")
        (if r.Name ∈ names then [Duplicate ((p.Index i).Child "name") r.Name] else []) :=
      not_reportsAt_of_under _
        (ErrorsUnder.ite _ (ErrorsUnder.single (prefix_child _ _)) (ErrorsUnder.nil _))
        (index_not_prefix_child p _ _ _ (by omega))
    simp only [h1, false_or, List.mem_cons, exists_eq_or_imp]
    constructor
    · rintro ((h | h) | h)
      · exact Or.inr (Or.inl h.symm)
      · exact Or.inl h
      · exact Or.inr (Or.inr h)
    · rintro (h | h | h)
      · exact Or.inl (Or.inr h)
      · exact Or.inl (Or.inl h.symm)
      · exact Or.inr h

/-- The loop of `ValidateWorker` over `pre ++ v :: post`: the `Duplicate` error is reported
at the name of the data volume `v` when its name is among the names seen before the loop
or is the name of a data volume of `pre`. -/
theorem validateDataVolumesFrom_duplicate (X : Collaborators) (p : Path)
    (pre : List DataVolume) (v : DataVolume) (post : List DataVolume) (i : Nat)
    (names : List String) (h : v.Name ∈ names ∨ ∃ r ∈ pre, r.Name = v.Name) :
    Duplicate ((((p.Child "dataVolumes").Index (i + pre.length))).Child "name") v.Name ∈
      validateDataVolumesFrom X p (pre ++ v :: post) i names := by
  induction pre generalizing i names with
  | nil =>
    have hm : v.Name ∈ names := by
      rcases h with h | ⟨r, hr, _⟩
      · exact h
      · simp at hr
    simp only [List.nil_append, List.length_nil, Nat.add_zero, validateDataVolumesFrom,
      List.mem_append, if_pos hm]
    exact Or.inl (Or.inl (Or.inr (List.mem_singleton.2 rfl)))
  | cons r pre ih =>
    have hidx : i + (r :: pre).length = (i + 1) + pre.length := by
      simp only [List.length_cons]; omega
    rw [hidx, List.cons_append]
    simp only [validateDataVolumesFrom, List.mem_append]
    refine Or.inr (ih _ _ ?_)
    rcases h with h | ⟨x, hx, hxn⟩
    · left
      split
      · exact h
      · exact List.mem_cons_of_mem _ h
    · rcases List.mem_cons.1 hx with rfl | hx
      · left
        split
        · rename_i hm; rw [← hxn]; exact hm
        · rw [← hxn]; exact List.mem_cons_self _ _
      · exact Or.inr ⟨x, hx, hxn⟩

/-- The provider loop of `validateDNS` on `pre ++ q :: post`: the `Invalid` error for a
repeated name is reported at the index of `q` when its name is among the names seen before
the loop or is the name of a provider of `pre`. -/
theorem validateDNSProviders_repeated (X : Collaborators) (fldPath : Path)
    (pre : List DNSProvider) (q : DNSProvider) (post : List DNSProvider) (i : Nat)
    (names : List String) (pf : Bool) (n : String) (hn : dnsProviderName X q = some n)
    (h : n ∈ names ∨ ∃ r ∈ pre, dnsProviderName X r = some n) :
    repeatedProviderError fldPath (i + pre.length) n ∈
      validateDNSProviders X fldPath (pre ++ q :: post) i names pf := by
  induction pre generalizing i names pf with
  | nil =>
    have hm : n ∈ names := by
      rcases h with h | ⟨r, hr, _⟩
      · exact h
      · simp at hr
    simp only [List.nil_append, List.length_nil, Nat.add_zero, validateDNSProviders,
      List.mem_append]
    left
    unfold validateDNSProvider
    simp only [hn, if_pos hm]
    exact List.mem_singleton.2 rfl
  | cons r pre ih =>
    have hidx : i + (r :: pre).length = (i + 1) + pre.length := by
      simp only [List.length_cons]; omega
    obtain ⟨_, h2, _⟩ := validateDNSProvider_spec X fldPath i r names pf
    rw [hidx, List.cons_append]
    simp only [validateDNSProviders, List.mem_append]
    refine Or.inr (ih _ _ _ ?_)
    rcases h with h | ⟨x, hx, hxn⟩
    · exact Or.inl ((h2 n).2 (Or.inl h))
    · rcases List.mem_cons.1 hx with rfl | hx
      · exact Or.inl ((h2 n).2 (Or.inr hxn))
      · exact Or.inr ⟨x, hx, hxn⟩

/-- C21, counterexample: two DNS providers with the same `secretName` and `type`.
`validateDNS` reports the repetition at `providers[1]` with kind `Invalid`; it reports no
error of kind `Duplicate`. -/
theorem dns_provider_repetition_invalid_counterexample :
    validateDNS specCollaborators (some twinDNS) ((NewPath "spec").Child "dns") =
      [Invalid ((((NewPath "spec").Child "dns").Child "providers").Index 1)
        "aws-route53-secret"
        "combination of .secretName and .type must be unique across dns providers"] ∧
    ¬ ReportsAt ErrorType.Duplicate ((((NewPath "spec").Child "dns").Child "providers").Index 1)
      (validateDNS specCollaborators (some twinDNS) ((NewPath "spec").Child "dns")) := by
  refine ⟨by decide, by decide⟩

/-- C21, amended: a DNS provider whose `secretName` and `type` are those of an earlier
provider yields an error of kind `Invalid` at the repeated provider; a worker pool whose
name is the name of an earlier pool yields an error of kind `Duplicate` at the name of the
repeated pool; a data volume whose name is the name of an earlier data volume of the same
pool yields, in every result of `ValidateWorker`, an error of kind `Duplicate` at the name
of the repeated data volume; a taint whose key and effect are those of an earlier taint
yields an error of kind `Duplicate` at the repeated taint. The absent helper validators
are assumed to report at or below the path they are handed. -/
theorem uniqueness_violation_kinds (X : Collaborators) (hX : X.Local) :
    (∀ (dns : DNS) (p : Path) (pre : List DNSProvider) (q : DNSProvider)
        (post : List DNSProvider) (s t : String),
      dns.Providers = pre ++ q :: post → q.SecretName = some s → q.Type_ = some t →
      (∃ r ∈ pre, r.SecretName = some s ∧ r.Type_ = some t) →
      ReportsAt ErrorType.Invalid ((p.Child "providers").Index pre.length)
        (validateDNS X (some dns) p)) ∧
    (∀ (pre : List Worker) (w : Worker) (post : List Worker) (p : Path),
      (∃ r ∈ pre, r.Name = w.Name) →
      ReportsAt ErrorType.Duplicate ((p.Index pre.length).Child "name")
        (ValidateWorkers (pre ++ w :: post) p)) ∧
    (∀ (worker : Worker) (k : Kubernetes) (p : Path) (inTemplate : Bool)
        (pre : List DataVolume) (v : DataVolume) (post : List DataVolume) (errs : ErrorList),
      worker.DataVolumes = pre ++ v :: post → (∃ r ∈ pre, r.Name = v.Name) →
      ValidateWorker X worker k p inTemplate = some errs →
      ReportsAt ErrorType.Duplicate (((p.Child "dataVolumes").Index pre.length).Child "name")
        errs) ∧
    (∀ (pre : List Taint) (taint : Taint) (post : List Taint) (p : Path),
      (∃ r ∈ pre, r.Key = taint.Key ∧ r.Effect = taint.Effect) →
      ReportsAt ErrorType.Duplicate (p.Index pre.length)
        (validateTaints X (pre ++ taint :: post) p)) := by
  refine ⟨?_, ?_, ?_, ?_⟩
  · intro dns p pre q post s t hsplit hs ht ⟨r, hr, hrs, hrt⟩
    have hn : dnsProviderName X q = some (X.GenerateDNSProviderName s t) := by
      simp [dnsProviderName, hs, ht]
    have hrn : dnsProviderName X r = some (X.GenerateDNSProviderName s t) := by
      simp [dnsProviderName, hrs, hrt]
    have hmem := validateDNSProviders_repeated X p pre q post 0 [] false _ hn
      (Or.inr ⟨r, hr, hrn⟩)
    rw [Nat.zero_add, ← hsplit] at hmem
    refine ⟨repeatedProviderError p pre.length (X.GenerateDNSProviderName s t), ?_, rfl, rfl⟩
    unfold validateDNS
    simp only [List.nil_append, List.mem_append]
    exact Or.inr hmem
  · intro pre w post p h
    have := (validateWorkersFrom_duplicate_iff p pre w post 0 []).2 (Or.inr h)
    rwa [Nat.zero_add] at this
  · intro worker k p inTemplate pre v post errs hsplit h hsome
    obtain ⟨ve, _, rfl⟩ := ValidateWorker_some X worker k p inTemplate errs hsome
    have hmem := validateDataVolumesFrom_duplicate X p pre v post 0 [] (Or.inr h)
    rw [Nat.zero_add, ← hsplit] at hmem
    refine ⟨Duplicate (((p.Child "dataVolumes").Index pre.length).Child "name") v.Name, ?_,
      rfl, rfl⟩
    apply List.mem_append_right
    unfold validateWorkerTail
    simp only [List.mem_append]
    exact Or.inl (Or.inl (Or.inl (Or.inr hmem)))
  · intro pre taint post p h
    have := (validateTaintsFrom_duplicate_iff X hX p pre taint post 0 []).2 (Or.inr h)
    rwa [Nat.zero_add] at this

/-- C21, witness: two worker pools with the name `pool`. -/
theorem uniqueness_violation_kinds_witness :
    ReportsAt ErrorType.Duplicate (((NewPath "workers").Index 1).Child "name")
      (ValidateWorkers [{ Name := "pool" }, { Name := "pool" }] (NewPath "workers")) :=
  (uniqueness_violation_kinds specCollaborators specCollaborators_local).2.1
    [{ Name := "pool" }] { Name := "pool" } [] (NewPath "workers")
    ⟨{ Name := "pool" }, List.mem_singleton.2 rfl, rfl⟩

/-! ## Worker pools for system components -/

/-- The flag of the loop of `ValidateSystemComponentWorkers` after one iteration. -/
theorem systemComponentWorkersStep_flag (X : Collaborators) (st : SystemComponentWorkersState)
    (i : Nat) (w : Worker) :
    (systemComponentWorkersStep X st i w).atLeastOnePoolWithAllowedSystemComponents = true ↔
      (st.atLeastOnePoolWithAllowedSystemComponents = true ∨ ActiveSystemComponentPool X w) := by
  unfold systemComponentWorkersStep ActiveSystemComponentPool
  by_cases h1 : X.SystemComponentsAllowed w = false
  · simp [h1]
  · rw [if_neg h1]
    by_cases h2 : w.Minimum = 0 ∨ w.Maximum = 0
    · rw [if_pos h2]
      simp only [Bool.not_eq_false] at h1
      constructor
      · intro h; exact Or.inl h
      · rintro (h | ⟨_, h3, h4⟩)
        · exact h
        · rcases h2 with h2 | h2
          · exact absurd h2 h3
          · exact absurd h2 h4
    · rw [if_neg h2]
      simp only [Bool.not_eq_false] at h1
      simp only [not_or] at h2
      dsimp only
      split
      · simp [h1, h2.1, h2.2]
      · split <;> simp [h1, h2.1, h2.2]

/-- The flag of `ValidateSystemComponentWorkers` after the loop. -/
theorem systemComponentWorkersLoop_flag (X : Collaborators) (ws : List Worker) (i : Nat)
    (st : SystemComponentWorkersState) :
    (systemComponentWorkersLoop X ws i st).atLeastOnePoolWithAllowedSystemComponents = true ↔
      (st.atLeastOnePoolWithAllowedSystemComponents = true ∨
        ∃ w ∈ ws, ActiveSystemComponentPool X w) := by
  induction ws generalizing i st with
  | nil => simp [systemComponentWorkersLoop]
  | cons w ws ih =>
    simp only [systemComponentWorkersLoop, ih, systemComponentWorkersStep_flag, List.mem_cons,
      exists_eq_or_imp]
    tauto

theorem insufficientMaximumError_ne (p : Path) (i : Nat) :
    insufficientMaximumError p i ≠ noSystemComponentPoolError p := by
  intro h
  have hf := congrArg Error.Field h
  have hl := congrArg List.length hf
  simp [insufficientMaximumError, noSystemComponentPoolError, Forbidden, Path.Child,
    Path.Index] at hl

/-- `NewVersion` on the version of the constraint `>= 1.27`. -/
theorem CheckVersionMeetsConstraint_ge_127 (v : String) (ver : Version)
    (hv : NewVersion v = some ver) :
    (CheckVersionMeetsConstraint v ">= 1.27").1 = decide (¬ ver < (⟨1, 27, 0⟩ : Version)) := by
  have hc : CheckVersionMeetsConstraint v ">= 1.27" = CompareVersions v ">=" "1.27" := by
    unfold CheckVersionMeetsConstraint
    rfl
  have h127 : NewVersion "1.27" = some ⟨1, 27, 0⟩ := by decide
  rw [hc]
  unfold CompareVersions
  simp only [hv, h127]
  have hle : ((⟨1, 27, 0⟩ : Version) ≤ ver) ↔ ¬ (ver < (⟨1, 27, 0⟩ : Version)) := Iff.rfl
  simp [Version.Compare_nonneg_iff, hle]

/-- C26, counterexample: one pool that allows system components, with `minimum` -1 and
`maximum` 2. No pool that allows system components has `minimum > 0` and `maximum > 0`,
and `ValidateSystemComponentWorkers` reports no error: the pool counts as active, because
neither bound is zero. -/
theorem negative_minimum_pool_counts_as_active_counterexample :
    specCollaborators.SystemComponentsAllowed negativeMinimumWorker = true ∧
    ¬ (negativeMinimumWorker.Minimum > 0 ∧ negativeMinimumWorker.Maximum > 0) ∧
    ValidateSystemComponentWorkers specCollaborators [negativeMinimumWorker] "1.26.0"
      workersPath = [] := by
  refine ⟨by decide, by decide, by decide⟩

/-- C26, amended: for a Kubernetes version below 1.27 `ValidateSystemComponentWorkers`
reports nothing at a `maximum` path, its result being empty or the one error "at least one
active worker pool with allowSystemComponents=true needed"; for every version that error
is reported, at the path of the workers, if and only if no pool that allows system
components has both `minimum` and `maximum` different from zero. -/
theorem system_component_pool_needed_iff (X : Collaborators) (workers : List Worker)
    (version : String) (fldPath : Path) :
    (∀ ver : Version, NewVersion version = some ver → ver < (⟨1, 27, 0⟩ : Version) →
      (ValidateSystemComponentWorkers X workers version fldPath = [] ∨
        ValidateSystemComponentWorkers X workers version fldPath =
          [noSystemComponentPoolError fldPath]) ∧
      ∀ i, errorsAt ((fldPath.Index i).Child "maximum")
        (ValidateSystemComponentWorkers X workers version fldPath) = []) ∧
    (noSystemComponentPoolError fldPath ∈
        ValidateSystemComponentWorkers X workers version fldPath ↔
      ¬ ∃ w ∈ workers, ActiveSystemComponentPool X w) := by
  have hflag := systemComponentWorkersLoop_flag X workers 0 {}
  simp only [Bool.false_eq_true, false_or] at hflag
  constructor
  · intro ver hv hlt
    have hc := CheckVersionMeetsConstraint_ge_127 version ver hv
    simp only [hlt, not_true_eq_false, decide_False] at hc
    have hres : ValidateSystemComponentWorkers X workers version fldPath = [] ∨
        ValidateSystemComponentWorkers X workers version fldPath =
          [noSystemComponentPoolError fldPath] := by
      unfold ValidateSystemComponentWorkers noSystemComponentPoolError
      simp only [hc, Bool.false_eq_true, if_false, List.nil_append]
      split
      · exact Or.inr rfl
      · exact Or.inl rfl
    refine ⟨hres, ?_⟩
    intro i
    rcases hres with h | h
    · rw [h]; rfl
    · rw [h, errorsAt_cons]
      have hne : (noSystemComponentPoolError fldPath).Field ≠ (fldPath.Index i).Child "maximum" := by
        intro hf
        have hl := congrArg List.length hf
        simp [noSystemComponentPoolError, Forbidden, Path.Child, Path.Index] at hl
      simp [hne]
  · unfold ValidateSystemComponentWorkers
    simp only [List.mem_append]
    have hmax : noSystemComponentPoolError fldPath ∉
        (if (CheckVersionMeetsConstraint version ">= 1.27").1 = true then
          (X.mapRange (systemComponentWorkersLoop X workers 0 {}).workerPoolsWithInsufficientWorkers).map
            (fun kv => Forbidden ((fldPath.Index kv.2).Child "maximum")
              "maximum node count should be greater than or equal to the number of zones specified for this pool")
        else []) := by
      split
      · intro hmem
        obtain ⟨kv, _, hkv⟩ := List.mem_map.1 hmem
        exact insufficientMaximumError_ne fldPath kv.2 hkv
      · simp
    rw [← hflag]
    constructor
    · rintro (h | h)
      · exact absurd h hmax
      · split at h
        · rename_i hf
          simp [hf]
        · simp at h
    · intro h
      right
      rw [if_pos (by simpa using h)]
      exact List.mem_singleton.2 rfl

/-- C26, witness: a pool that allows system components with `minimum` 1 and `maximum` 3,
at version 1.26.0. -/
theorem system_component_pool_needed_iff_witness :
    (ValidateSystemComponentWorkers specCollaborators
          [{ Name := "pool", Minimum := 1, Maximum := 3 }] "1.26.0" workersPath = [] ∨
        ValidateSystemComponentWorkers specCollaborators
          [{ Name := "pool", Minimum := 1, Maximum := 3 }] "1.26.0" workersPath =
          [noSystemComponentPoolError workersPath]) ∧
      ∀ i, errorsAt ((workersPath.Index i).Child "maximum")
        (ValidateSystemComponentWorkers specCollaborators
          [{ Name := "pool", Minimum := 1, Maximum := 3 }] "1.26.0" workersPath) = [] :=
  (system_component_pool_needed_iff specCollaborators
    [{ Name := "pool", Minimum := 1, Maximum := 3 }] "1.26.0" workersPath).1
    ⟨1, 26, 0⟩ (by decide) (by decide)

/-- C30: two pools with fewer nodes than zones, in different zones, at version 1.27.0. The
two errors at the `maximum` paths come in the order in which the run time ranges over the
map of insufficient pools, an order Go leaves unspecified: with the entries ranged over in
the order of insertion the error of pool 0 comes first, with the reverse order the error of
pool 1. Both orders are permutations of the entries of the map. -/
theorem map_range_order_decides_error_order :
    (∀ m : List (String × Nat), (specCollaborators.mapRange m).Perm m) ∧
    (∀ m : List (String × Nat), (reversedRangeCollaborators.mapRange m).Perm m) ∧
    ValidateSystemComponentWorkers specCollaborators twoInsufficientPools "1.27.0"
        workersPath =
      [insufficientMaximumError workersPath 0, insufficientMaximumError workersPath 1] ∧
    ValidateSystemComponentWorkers reversedRangeCollaborators twoInsufficientPools "1.27.0"
        workersPath =
      [insufficientMaximumError workersPath 1, insufficientMaximumError workersPath 0] ∧
    ValidateSystemComponentWorkers specCollaborators twoInsufficientPools "1.27.0"
        workersPath ≠
      ValidateSystemComponentWorkers reversedRangeCollaborators twoInsufficientPools "1.27.0"
        workersPath := by
  refine ⟨fun m => List.Perm.refl m, fun m => List.reverse_perm m, by decide, by decide,
    by decide⟩

/-- C33: two active pools for system components with one node at most and two zones each,
at version 1.27.0. The zone sets `{a, b--c}` and `{a--b, c}` differ, and no pool of either
zone set has as many nodes as zones, so one `maximum` error is due for each pool. The keys
of the two pools agree (`a--b--c`), the second pool replaces the first in the map of
insufficient pools, and `ValidateSystemComponentWorkers` reports the error of pool 1
alone. -/
theorem zone_sets_with_equal_keys_share_one_error :
    workerPoolKey ["a", "b--c"] = workerPoolKey ["a--b", "c"] ∧
    ValidateSystemComponentWorkers specCollaborators collidingInsufficientPools "1.27.0"
        workersPath = [insufficientMaximumError workersPath 1] ∧
    insufficientMaximumError workersPath 0 ∉
      ValidateSystemComponentWorkers specCollaborators collidingInsufficientPools "1.27.0"
        workersPath := by
  refine ⟨by decide, by decide, by decide⟩

/-- C40: an active pool for system components with one node at most in the two zones `a`
and `b`, and an active pool with one node in the one zone `a--b`, at version 1.27.0. The
first pool has fewer nodes than zones and no pool with the zones `a` and `b` has as many
nodes as zones; the second pool, with another zone set and the same key `a--b`, is
sufficient, and `ValidateSystemComponentWorkers` reports no error for the first pool. -/
theorem sufficient_pool_of_other_zones_suppresses_error :
    workerPoolKey ["a", "b"] = workerPoolKey ["a--b"] ∧
    ValidateSystemComponentWorkers specCollaborators collidingSufficientPools "1.27.0"
      workersPath = [] := by
  refine ⟨by decide, by decide⟩

theorem foldl_add_maximum (workers : List Worker) (acc : Int) :
    workers.foldl (fun acc worker => acc + worker.Maximum) acc = acc + sumOfMaximum workers := by
  induction workers generalizing acc with
  | nil => simp [sumOfMaximum]
  | cons w ws ih =>
    simp only [List.foldl_cons, ih, sumOfMaximum, List.map_cons, List.sum_cons]
    omega

theorem totalNodes_eq (workers : List Worker) : totalNodes workers = sumOfMaximum workers := by
  unfold totalNodes
  rw [foldl_add_maximum]
  simp

/-- The result of `ValidateTotalNodeCountWithPodCIDR` on a shoot with networking whose pod
network parses with a nonzero mask size. -/
theorem ValidateTotalNodeCountWithPodCIDR_parsed (X : Collaborators) (shoot : Shoot)
    (networking : Networking) (p : Nat) (text : String)
    (hn : shoot.Spec.Networking = some networking)
    (hparse : X.ParseCIDR (effectivePodNetworkCIDR X networking) = some (p, text))
    (hp : 0 < p) :
    ValidateTotalNodeCountWithPodCIDR X shoot =
      some (if bigExp2 (effectiveNodeCIDRMaskSize shoot networking - (p : Int)) <
            sumOfMaximum shoot.Spec.Provider.Workers then
          [totalNodeCountError (sumOfMaximum shoot.Spec.Provider.Workers)
            (bigExp2 (effectiveNodeCIDRMaskSize shoot networking - (p : Int)))]
        else []) := by
  have hp0 : p ≠ 0 := by omega
  unfold ValidateTotalNodeCountWithPodCIDR effectiveNodeCIDRMaskSize totalNodeCountError
  unfold effectivePodNetworkCIDR at hparse
  simp only [hn, totalNodes_eq, defaultNodeCIDRMaskSizeV6, defaultNodeCIDRMaskSizeV4]
  rcases hpods : networking.Pods with _ | pods <;> simp only [hpods] at hparse ⊢ <;>
    simp only [hparse, hp0, if_false, List.nil_append, apply_ite Option.some]

theorem bigExp2_of_nonneg (y : Int) (hy : 0 ≤ y) : bigExp2 y = 2 ^ y.toNat := by
  unfold bigExp2
  split
  · have h0 : y = 0 := by omega
    subst h0; rfl
  · rfl

theorem bigExp2_of_neg (y : Int) (hy : y < 0) : bigExp2 y = 1 := by
  unfold bigExp2
  rw [if_pos (by omega)]

/-- C27: on a shoot with networking whose pod network parses with mask size `p > 0`, and
whose effective node CIDR mask size `n` is at least `p`, `ValidateTotalNodeCountWithPodCIDR`
returns the error at `spec.provider.workers` if the sum of the pools' `maximum` exceeds
`2 ^ (n - p)`, and no error otherwise; on an unparsable pod network it returns the single
`Invalid` error at `spec.networking.pods`. -/
theorem total_node_count_error_iff (X : Collaborators) (shoot : Shoot)
    (networking : Networking) (hn : shoot.Spec.Networking = some networking) :
    (∀ (p : Nat) (text : String),
      X.ParseCIDR (effectivePodNetworkCIDR X networking) = some (p, text) → 0 < p →
      (p : Int) ≤ effectiveNodeCIDRMaskSize shoot networking →
      ValidateTotalNodeCountWithPodCIDR X shoot =
          some (if (2 : Int) ^ (effectiveNodeCIDRMaskSize shoot networking - (p : Int)).toNat <
                sumOfMaximum shoot.Spec.Provider.Workers then
              [totalNodeCountError (sumOfMaximum shoot.Spec.Provider.Workers)
                (2 ^ (effectiveNodeCIDRMaskSize shoot networking - (p : Int)).toNat)]
            else []) ∧
        ((∃ errs, ValidateTotalNodeCountWithPodCIDR X shoot = some errs ∧
            ReportsAt ErrorType.Invalid (((NewPath "spec").Child "provider").Child "workers")
              errs) ↔
          (2 : Int) ^ (effectiveNodeCIDRMaskSize shoot networking - (p : Int)).toNat <
            sumOfMaximum shoot.Spec.Provider.Workers)) ∧
    (X.ParseCIDR (effectivePodNetworkCIDR X networking) = none →
      ValidateTotalNodeCountWithPodCIDR X shoot =
        some [Invalid (((NewPath "spec").Child "networking").Child "pods")
          (effectivePodNetworkCIDR X networking)
          ("cannot parse shoot's pod network cidr : " ++ effectivePodNetworkCIDR X networking)]) := by
  constructor
  · intro p text hparse hp hnp
    have h := ValidateTotalNodeCountWithPodCIDR_parsed X shoot networking p text hn hparse hp
    rw [bigExp2_of_nonneg _ (by omega)] at h
    refine ⟨h, ?_⟩
    rw [h]
    constructor
    · rintro ⟨errs, he, hr⟩
      by_contra hc
      rw [if_neg hc] at he
      cases he
      obtain ⟨e, hmem, _⟩ := hr
      simp at hmem
    · intro hc
      refine ⟨_, rfl, ?_⟩
      rw [if_pos hc]
      exact ⟨_, List.mem_singleton.2 rfl, rfl, rfl⟩
  · intro hparse
    unfold ValidateTotalNodeCountWithPodCIDR
    unfold effectivePodNetworkCIDR at hparse ⊢
    simp only [hn]
    rcases hpods : networking.Pods with _ | pods <;> simp only [hpods] at hparse ⊢ <;>
      simp only [hparse, List.nil_append]

/-- C27, witness: node CIDR mask size 24, pod network `10.0.0.0/16`, one pool with
`maximum` 300: `2 ^ 8 = 256 < 300`. -/
theorem total_node_count_error_iff_witness :
    ValidateTotalNodeCountWithPodCIDR specCollaborators (nodeCountShoot 24 "10.0.0.0/16" 300) =
        some (if (2 : Int) ^ (effectiveNodeCIDRMaskSize (nodeCountShoot 24 "10.0.0.0/16" 300)
                { Pods := some "10.0.0.0/16" } - ((16 : Nat) : Int)).toNat <
              sumOfMaximum (nodeCountShoot 24 "10.0.0.0/16" 300).Spec.Provider.Workers then
            [totalNodeCountError
              (sumOfMaximum (nodeCountShoot 24 "10.0.0.0/16" 300).Spec.Provider.Workers)
              (2 ^ (effectiveNodeCIDRMaskSize (nodeCountShoot 24 "10.0.0.0/16" 300)
                { Pods := some "10.0.0.0/16" } - ((16 : Nat) : Int)).toNat)]
          else []) ∧
      ((∃ errs, ValidateTotalNodeCountWithPodCIDR specCollaborators
            (nodeCountShoot 24 "10.0.0.0/16" 300) = some errs ∧
          ReportsAt ErrorType.Invalid (((NewPath "spec").Child "provider").Child "workers")
            errs) ↔
        (2 : Int) ^ (effectiveNodeCIDRMaskSize (nodeCountShoot 24 "10.0.0.0/16" 300)
            { Pods := some "10.0.0.0/16" } - ((16 : Nat) : Int)).toNat <
          sumOfMaximum (nodeCountShoot 24 "10.0.0.0/16" 300).Spec.Provider.Workers) :=
  (total_node_count_error_iff specCollaborators (nodeCountShoot 24 "10.0.0.0/16" 300)
    { Pods := some "10.0.0.0/16" } rfl).1 16 "10.0.0.0/16" (by decide) (by decide) (by decide)

/-- The result of `ValidateTotalNodeCountWithPodCIDR` when the node CIDR mask size is
smaller than the mask size of the pod network: the power `2 ^ (n - p)` with the negative
exponent is taken as 1, so a total of one node is admitted. -/
theorem ValidateTotalNodeCountWithPodCIDR_small_mask (X : Collaborators) (shoot : Shoot)
    (networking : Networking) (p : Nat) (text : String)
    (hn : shoot.Spec.Networking = some networking)
    (hparse : X.ParseCIDR (effectivePodNetworkCIDR X networking) = some (p, text))
    (hp : 0 < p) (hnp : effectiveNodeCIDRMaskSize shoot networking < (p : Int)) :
    ValidateTotalNodeCountWithPodCIDR X shoot =
      some (if 1 < sumOfMaximum shoot.Spec.Provider.Workers then
          [totalNodeCountError (sumOfMaximum shoot.Spec.Provider.Workers) 1]
        else []) := by
  have h := ValidateTotalNodeCountWithPodCIDR_parsed X shoot networking p text hn hparse hp
  rw [bigExp2_of_neg _ (by omega)] at h
  exact h

/-- C39: node CIDR mask size 16, pod network `10.0.0.0/24`, one worker pool with
`maximum` 1. The mask size of the node subnets is smaller than the mask size of the pod
network and the maxima sum to 1, and `ValidateTotalNodeCountWithPodCIDR` returns no error:
`big.Int.Exp` yields 1 for the negative exponent `16 - 24`, and `1 < 1` is false. -/
theorem small_node_mask_admits_one_node :
    effectiveNodeCIDRMaskSize (nodeCountShoot 16 "10.0.0.0/24" 1)
      { Pods := some "10.0.0.0/24" } = 16 ∧
    specCollaborators.ParseCIDR "10.0.0.0/24" = some (24, "10.0.0.0/24") ∧
    sumOfMaximum (nodeCountShoot 16 "10.0.0.0/24" 1).Spec.Provider.Workers = 1 ∧
    bigExp2 (16 - 24) = 1 ∧
    ValidateTotalNodeCountWithPodCIDR specCollaborators (nodeCountShoot 16 "10.0.0.0/24" 1) =
      some [] := by
  refine ⟨by decide, by decide, by decide, by decide, by decide⟩

/-! ## The highest `maxPods` of a shoot -/

theorem validateProviderWorkers_none_iff (X : Collaborators) (k : Kubernetes) (p : Path)
    (t : Bool) (ws : List Worker) (i : Nat) (errs : ErrorList) (m : Int) :
    validateProviderWorkers X k p t ws i errs m = none ↔ ∃ w ∈ ws, PoolVersionUnparsable w := by
  induction ws generalizing i errs m with
  | nil => simp [validateProviderWorkers]
  | cons w ws ih =>
    unfold validateProviderWorkers
    rcases hw : ValidateWorker X w k ((p.Child "workers").Index i) t with _ | workerErrs
    · have := (ValidateWorker_none_iff X w k _ t).1 hw
      simp only [List.mem_cons, exists_eq_or_imp, true_iff]
      exact Or.inl this
    · have hnot : ¬ PoolVersionUnparsable w := by
        intro hc
        rw [(ValidateWorker_none_iff X w k _ t).2 hc] at hw
        exact Option.noConfusion hw
      simp only [ih, List.mem_cons, exists_eq_or_imp, hnot, false_or]

theorem validateProviderWorkers_maxPod (X : Collaborators) (k : Kubernetes) (p : Path)
    (t : Bool) (ws : List Worker) (i : Nat) (errs : ErrorList) (m : Int)
    (r : ErrorList × Int) (h : validateProviderWorkers X k p t ws i errs m = some r) :
    r.2 = (ws.filterMap workerMaxPods).foldl max m := by
  induction ws generalizing i errs m with
  | nil =>
    simp only [validateProviderWorkers, Option.some.injEq] at h
    subst h; rfl
  | cons w ws ih =>
    unfold validateProviderWorkers at h
    split at h
    · exact Option.noConfusion h
    rw [ih _ _ _ h]
    rcases hk : w.Kubernetes with _ | wk
    · have hwm : workerMaxPods w = none := by simp [workerMaxPods, hk]
      simp only [List.filterMap_cons, hwm]
    · rcases hl : wk.Kubelet with _ | kubelet
      · have hwm : workerMaxPods w = none := by simp [workerMaxPods, hk, hl]
        simp only [List.filterMap_cons, hwm, hl]
      · rcases hm : kubelet.MaxPods with _ | v
        · have hwm : workerMaxPods w = none := by simp [workerMaxPods, hk, hl, hm]
          simp only [List.filterMap_cons, hwm, hl, hm]
        · have hwm : workerMaxPods w = some v := by simp [workerMaxPods, hk, hl, hm]
          have hmax : (if v > m then v else m) = max m v := by
            split <;> omega
          simp only [List.filterMap_cons, hwm, List.foldl_cons, hl, hm, hmax]

/-- On a shoot with workers, `validateProvider` returns no result exactly when one of the
pools has a Kubernetes version of its own that is no semantic version, whatever the
networking. -/
theorem validateProvider_none_iff (X : Collaborators) (provider : Provider) (k : Kubernetes)
    (n : Option Networking) (p : Path) (t : Bool) :
    validateProvider X provider k n false p t = none ↔
      ∃ w ∈ provider.Workers, PoolVersionUnparsable w := by
  have key := fun errs m => validateProviderWorkers_none_iff X k p t provider.Workers 0 errs m
  unfold validateProvider
  simp only [Bool.false_eq_true, if_false, List.nil_append]
  generalize hval : validateProviderWorkers X k p t provider.Workers 0 _ _ = r
  rw [← key _ _, hval]
  rcases r with _ | r
  · simp
  · simp only [reduceCtorEq, iff_false]
    split
    · split <;> simp
    · simp

/-- On a shoot with workers, networking and `nodeCIDRMaskSize` set, a result of
`validateProvider` is the result of its other checks followed by the result of the node
CIDR mask check at the effective `maxPods`. -/
theorem validateProvider_capacity (X : Collaborators) (provider : Provider)
    (k : Kubernetes) (n : Networking) (kcm : KubeControllerManagerConfig) (size : Int)
    (p : Path) (t : Bool) (hk : k.KubeControllerManager = some kcm)
    (hs : kcm.NodeCIDRMaskSize = some size) (errs : ErrorList)
    (h : validateProvider X provider k none false p t = some errs) :
    validateProvider X provider k (some n) false p t =
      some (errs ++
        ValidateNodeCIDRMaskWithMaxPod (effectiveMaxPods k provider.Workers) size n) := by
  unfold validateProvider at h ⊢
  simp only [hk, hs, Bool.false_eq_true, if_false, List.nil_append] at h ⊢
  generalize hval : validateProviderWorkers X k p t provider.Workers 0 _ _ = r at h ⊢
  rcases r with _ | r
  · simp at h
  · have hr := validateProviderWorkers_maxPod X k p t _ _ _ _ r hval
    simp only [Option.some.injEq] at h ⊢
    subst h
    unfold effectiveMaxPods highestMaxPods
    rw [hr]
    rcases hkl : k.Kubelet with _ | kubelet
    · simp [shootLevelMaxPods, hkl]
    · rcases hm : kubelet.MaxPods with _ | m <;> simp [shootLevelMaxPods, hkl, hm]

/-- C28, counterexample: the shoot-level kubelet configures `maxPods: 0`, the one pool
configures no `maxPods`, and the node CIDR mask size is 26, which leaves `2^6 - 2 = 62`
addresses. With the configured 0 as the highest `maxPods` no error is due (`62 < 0` is
false); `validateProvider` takes the 0 for "not configured", checks against 110 and
returns the node CIDR mask error. -/
theorem configured_zero_max_pods_counterexample :
    shootLevelMaxPods zeroMaxPodsKubernetes = some 0 ∧
    highestMaxPods zeroMaxPodsKubernetes onePoolProvider.Workers = 0 ∧
    ¬ ((2 : Int) ^ (32 - 26) - 2 < 0) ∧
    validateProvider specCollaborators onePoolProvider zeroMaxPodsKubernetes (some {})
        false ((NewPath "spec").Child "provider") false =
      some (ValidateNodeCIDRMaskWithMaxPod 110 26 {}) ∧
    ValidateNodeCIDRMaskWithMaxPod 110 26 {} ≠ [] := by
  refine ⟨by decide, by decide, by decide, rfl, by decide⟩

/-- C28, amended: on a shoot with workers, networking and `nodeCIDRMaskSize` set,
`validateProvider` returns no result exactly when a pool has a Kubernetes version of its
own that is no semantic version; every result it returns is its other errors (its result
for the shoot without networking) followed by the result of the node CIDR mask check at
`M`, where `M` is the highest `maxPods` (the shoot-level value, 0 when it is not configured,
raised by every pool value above it) and the default 110 whenever that value is 0, also
for a configured 0; as long as `bits - nodeCIDRMaskSize` fits `int32`, the check reports its
error if and only if `2^(bits - nodeCIDRMaskSize) - 2 < M`. -/
theorem provider_node_cidr_mask_max_pods (X : Collaborators) (provider : Provider)
    (k : Kubernetes) (n : Networking) (kcm : KubeControllerManagerConfig) (size : Int)
    (p : Path) (t : Bool) (hk : k.KubeControllerManager = some kcm)
    (hs : kcm.NodeCIDRMaskSize = some size) :
    (validateProvider X provider k (some n) false p t = none ↔
      ∃ w ∈ provider.Workers, PoolVersionUnparsable w) ∧
    (∀ errs, validateProvider X provider k (some n) false p t = some errs →
      ∃ others, validateProvider X provider k none false p t = some others ∧
        errs = others ++
          ValidateNodeCIDRMaskWithMaxPod (effectiveMaxPods k provider.Workers) size n) ∧
    (IsInt32 ((if IsIPv6SingleStack n.IPFamilies then 128 else 32) - size) →
      (ValidateNodeCIDRMaskWithMaxPod (effectiveMaxPods k provider.Workers) size n ≠ [] ↔
        (2 : Int) ^ ((if IsIPv6SingleStack n.IPFamilies then 128 else 32) - size).toNat - 2 <
          effectiveMaxPods k provider.Workers)) := by
  refine ⟨validateProvider_none_iff X provider k (some n) p t, ?_,
    fun hfit => (nodeCIDRMask_error_iff_of_no_wraparound _ size n hfit).1⟩
  intro errs h
  rcases ho : validateProvider X provider k none false p t with _ | others
  · have := (validateProvider_none_iff X provider k (some n) p t).2
      ((validateProvider_none_iff X provider k none p t).1 ho)
    rw [this] at h
    exact Option.noConfusion h
  · refine ⟨others, rfl, ?_⟩
    rw [validateProvider_capacity X provider k n kcm size p t hk hs others ho] at h
    exact (Option.some.inj h).symm

/-- C28, witness: the shoot-level `maxPods` 0 with the node CIDR mask size 26. -/
theorem provider_node_cidr_mask_max_pods_witness :
    (validateProvider specCollaborators onePoolProvider zeroMaxPodsKubernetes (some {})
        false ((NewPath "spec").Child "provider") false = none ↔
      ∃ w ∈ onePoolProvider.Workers, PoolVersionUnparsable w) ∧
    (∀ errs, validateProvider specCollaborators onePoolProvider zeroMaxPodsKubernetes
        (some {}) false ((NewPath "spec").Child "provider") false = some errs →
      ∃ others, validateProvider specCollaborators onePoolProvider zeroMaxPodsKubernetes none
          false ((NewPath "spec").Child "provider") false = some others ∧
        errs = others ++
          ValidateNodeCIDRMaskWithMaxPod
            (effectiveMaxPods zeroMaxPodsKubernetes onePoolProvider.Workers) 26 {}) ∧
    (IsInt32 ((if IsIPv6SingleStack ({} : Networking).IPFamilies then 128 else 32) - (26 : Int)) →
      (ValidateNodeCIDRMaskWithMaxPod
          (effectiveMaxPods zeroMaxPodsKubernetes onePoolProvider.Workers) 26 {} ≠ [] ↔
        (2 : Int) ^ ((if IsIPv6SingleStack ({} : Networking).IPFamilies then 128 else 32)
            - (26 : Int)).toNat - 2 <
          effectiveMaxPods zeroMaxPodsKubernetes onePoolProvider.Workers)) :=
  provider_node_cidr_mask_max_pods specCollaborators onePoolProvider zeroMaxPodsKubernetes
    {} { NodeCIDRMaskSize := some 26 } 26 ((NewPath "spec").Child "provider") false rfl rfl

/-- The result of `validateKubeletConfigEviction` is the result of the variant that
validates each field once, followed by the errors of `imagefsInodesFree` a second time. -/
theorem validateKubeletConfigEviction_eq (X : Collaborators) (eviction : KubeletConfigEviction)
    (fldPath : Path) :
    validateKubeletConfigEviction X eviction fldPath =
      validateKubeletConfigEvictionOnce X eviction fldPath ++
        ValidateResourceQuantityOrPercent X eviction.ImageFSInodesFree fldPath
          "imagefsInodesFree" := by
  simp [validateKubeletConfigEviction, validateKubeletConfigEvictionOnce]

/-- C32: for the eviction configuration with `imagefsInodesFree: "abc"`, a text that is
neither a quantity nor a percentage, `validateKubeletConfigEviction` returns the `Invalid`
error at `imagefsInodesFree` twice, the variant that validates each field once returns it
once: the two error lists differ. -/
theorem eviction_second_validation_repeats_error :
    validateKubeletConfigEviction specCollaborators { ImageFSInodesFree := some "abc" }
        (NewPath "evictionHard") =
      [Invalid ((NewPath "evictionHard").Child "imagefsInodesFree") "abc" quantityOrPercentMsg,
       Invalid ((NewPath "evictionHard").Child "imagefsInodesFree") "abc" quantityOrPercentMsg] ∧
    validateKubeletConfigEvictionOnce specCollaborators { ImageFSInodesFree := some "abc" }
        (NewPath "evictionHard") =
      [Invalid ((NewPath "evictionHard").Child "imagefsInodesFree") "abc" quantityOrPercentMsg] ∧
    validateKubeletConfigEviction specCollaborators { ImageFSInodesFree := some "abc" }
        (NewPath "evictionHard") ≠
      validateKubeletConfigEvictionOnce specCollaborators { ImageFSInodesFree := some "abc" }
        (NewPath "evictionHard") := by
  refine ⟨by decide, by decide, by decide⟩

/-- C37: for a Kubernetes configuration with all five component configurations set,
`validateKubernetesForWorkerlessShoot` reports the `Forbidden` errors for the cluster
autoscaler and the vertical pod autoscaler at `clusterAutoScaler` and
`verticalPodAutoScaler`, whereas `validateKubernetes` validates these fields on a shoot
with workers under `clusterAutoscaler` and `verticalPodAutoscaler`; the paths of the
other three fields agree. -/
theorem workerless_forbidden_paths_differ :
    validateKubernetesForWorkerlessShoot allComponentsKubernetes
        ((NewPath "spec").Child "kubernetes") =
      [Forbidden (((NewPath "spec").Child "kubernetes").Child "kubeScheduler") workerlessErrorMsg,
       Forbidden (((NewPath "spec").Child "kubernetes").Child "kubeProxy") workerlessErrorMsg,
       Forbidden (((NewPath "spec").Child "kubernetes").Child "kubelet") workerlessErrorMsg,
       Forbidden (((NewPath "spec").Child "kubernetes").Child "clusterAutoScaler")
         workerlessErrorMsg,
       Forbidden (((NewPath "spec").Child "kubernetes").Child "verticalPodAutoScaler")
         workerlessErrorMsg] ∧
    validateKubernetes specCollaborators visitingWorkerValidators allComponentsKubernetes none
        false false ((NewPath "spec").Child "kubernetes") =
      [Invalid (((NewPath "spec").Child "kubernetes").Child "kubeScheduler") "" "visited",
       Invalid (((NewPath "spec").Child "kubernetes").Child "kubeProxy") "" "visited",
       Invalid (((NewPath "spec").Child "kubernetes").Child "kubelet") "" "visited",
       Invalid (((NewPath "spec").Child "kubernetes").Child "clusterAutoscaler") "" "visited",
       Invalid (((NewPath "spec").Child "kubernetes").Child "verticalPodAutoscaler") ""
         "visited"] ∧
    errorPaths (validateKubernetesForWorkerlessShoot allComponentsKubernetes
        ((NewPath "spec").Child "kubernetes")) =
      ["spec.kubernetes.kubeScheduler", "spec.kubernetes.kubeProxy", "spec.kubernetes.kubelet",
       "spec.kubernetes.clusterAutoScaler", "spec.kubernetes.verticalPodAutoScaler"] ∧
    ((NewPath "spec").Child "kubernetes").Child "clusterAutoScaler" ≠
      ((NewPath "spec").Child "kubernetes").Child "clusterAutoscaler" ∧
    ((NewPath "spec").Child "kubernetes").Child "verticalPodAutoScaler" ≠
      ((NewPath "spec").Child "kubernetes").Child "verticalPodAutoscaler" := by
  refine ⟨by decide, by decide, by decide, by decide, by decide⟩

/-- The run-time failures of `ValidateShootTemplateUpdate`: the failure of
`ValidateShootSpecUpdate`, or an old template with `spec.networking.nodes` set and a new
template with `spec.networking` unset. -/
theorem ValidateShootTemplateUpdate_none_iff (X : Collaborators)
    (newShootTemplate oldShootTemplate : ShootTemplate) (fldPath : Path) :
    ValidateShootTemplateUpdate X newShootTemplate oldShootTemplate fldPath = none ↔
      (ValidateShootSpecUpdate X newShootTemplate.Spec oldShootTemplate.Spec
          newShootTemplate.ObjectMeta (fldPath.Child "spec") = none ∨
        (newShootTemplate.Spec.Networking = none ∧
          ∃ n, oldShootTemplate.Spec.Networking = some n ∧ n.Nodes.isSome = true)) := by
  unfold ValidateShootTemplateUpdate
  rcases ValidateShootSpecUpdate X newShootTemplate.Spec oldShootTemplate.Spec
    newShootTemplate.ObjectMeta (fldPath.Child "spec") with _ | errs
  · simp
  · rcases oldShootTemplate.Spec.Networking with _ | n
    · simp
    · rcases hn : n.Nodes with _ | nodes
      · simp [hn]
      · rcases newShootTemplate.Spec.Networking with _ | m <;> simp [hn]

/-- C38: the new template has `spec.networking` unset, the old template has
`spec.networking.nodes` set. `ValidateShootSpecUpdate` returns (the error of
`validateNetworkingUpdate` for the removed networking among its errors), and
`ValidateShootTemplateUpdate` then reads `Spec.Networking.Nodes` of the new template: the
call fails at run time and returns no error list. -/
theorem shoot_template_update_fails_on_unset_networking :
    templateWithoutNetworking.Spec.Networking = none ∧
    templateWithNodes.Spec.Networking =
      some { Type_ := some "calico", Nodes := some "10.250.0.0/16" } ∧
    ValidateShootSpecUpdate specCollaborators templateWithoutNetworking.Spec
        templateWithNodes.Spec templateWithoutNetworking.ObjectMeta
        ((NewPath "template").Child "spec") =
      some [Forbidden (((NewPath "template").Child "spec").Child "networking")
        "networking cannot be set to nil if it's already set"] ∧
    ValidateShootTemplateUpdate specCollaborators templateWithoutNetworking templateWithNodes
      (NewPath "template") = none := by
  refine ⟨rfl, rfl, by decide, by decide⟩

/-! ## Version updates of worker pools -/

theorem workerVersionPath_eq (p : Path) (i : Nat) :
    workerVersionPath p i =
      ((p.Child "provider").Child "workers") ++
        PathElem.index i :: [PathElem.name "kubernetes", PathElem.name "version"] := by
  simp [workerVersionPath, Path.Child, Path.Index]

theorem workerVersionPath_ne (p : Path) {i j : Nat} (h : i ≠ j) :
    workerVersionPath p i ≠ workerVersionPath p j := by
  rw [workerVersionPath_eq, workerVersionPath_eq]
  intro he
  have := List.append_cancel_left he
  simp only [List.cons.injEq, PathElem.index.injEq] at this
  exact h this.1

theorem validateWorkerVersionUpdates_field_ge (newSpec oldSpec : ShootSpec) (p : Path)
    (ws : List Worker) (i : Nat) (errs : ErrorList)
    (h : validateWorkerVersionUpdates newSpec oldSpec p ws i = some errs) :
    ∀ e ∈ errs, ∃ j, i ≤ j ∧ e.Field = workerVersionPath p j := by
  induction ws generalizing i errs with
  | nil =>
    simp only [validateWorkerVersionUpdates, Option.some.injEq] at h
    subst h; intro e he; simp at he
  | cons w ws ih =>
    simp only [validateWorkerVersionUpdates] at h
    split at h
    · exact Option.noConfusion h
    · rename_i errs1 h1
      split at h
      · exact Option.noConfusion h
      · rename_i more h2
        simp only [Option.some.injEq] at h
        subst h
        intro e he
        rcases List.mem_append.1 he with he | he
        · exact ⟨i, le_refl _, ValidateKubernetesVersionUpdate_field _ _ _ _ h1 e he⟩
        · obtain ⟨j, hj, hf⟩ := ih _ _ h2 e he
          exact ⟨j, by omega, hf⟩

theorem errorsAt_eq_nil_of_field_ne (q : Path) (l : ErrorList) (h : ∀ e ∈ l, e.Field ≠ q) :
    errorsAt q l = [] := by
  unfold errorsAt
  rw [List.filter_eq_nil_iff]
  intro e he
  simpa using h e he

/-- In a result of the worker loop of `ValidateShootSpecUpdate`, the errors at the version
path of the pool at position `j` are the result of `ValidateKubernetesVersionUpdate` for the
effective versions of that pool. -/
theorem validateWorkerVersionUpdates_at (newSpec oldSpec : ShootSpec) (p : Path)
    (ws : List Worker) (k : Nat) (errs : ErrorList)
    (h : validateWorkerVersionUpdates newSpec oldSpec p ws k = some errs)
    (j : Nat) (hj : j < ws.length) :
    ValidateKubernetesVersionUpdate
        (workerKubernetesVersion (ws.get ⟨j, hj⟩) newSpec.Kubernetes.Version)
        (workerKubernetesVersion (oldWorkerFor oldSpec.Provider.Workers (ws.get ⟨j, hj⟩))
          oldSpec.Kubernetes.Version)
        (workerVersionPath p (k + j)) =
      some (errorsAt (workerVersionPath p (k + j)) errs) := by
  induction ws generalizing k errs j with
  | nil => exact absurd hj (by simp)
  | cons w ws ih =>
    simp only [validateWorkerVersionUpdates] at h
    split at h
    · exact Option.noConfusion h
    · rename_i errs1 h1
      split at h
      · exact Option.noConfusion h
      · rename_i more h2
        simp only [Option.some.injEq] at h
        subst h
        have hf1 := ValidateKubernetesVersionUpdate_field _ _ _ _ h1
        have hf2 := validateWorkerVersionUpdates_field_ge _ _ _ _ _ _ h2
        cases j with
        | zero =>
          have hmore : errorsAt (workerVersionPath p k) more = [] := by
            apply errorsAt_eq_nil_of_field_ne
            intro e he
            obtain ⟨j, hj, hf⟩ := hf2 e he
            rw [hf]
            exact workerVersionPath_ne p (by omega)
          have hself : errorsAt (workerVersionPath p k) errs1 = errs1 :=
            errorsAt_eq_self_of_field _ _ hf1
          simp only [Nat.add_zero, errorsAt_append, hmore, hself, List.append_nil]
          exact h1
        | succ j =>
          have hone : errorsAt (workerVersionPath p (k + (j + 1))) errs1 = [] := by
            apply errorsAt_eq_nil_of_field_ne
            intro e he
            rw [hf1 e he]
            exact workerVersionPath_ne p (by omega)
          have := ih (k + 1) more h2 j (by simpa using hj)
          rw [errorsAt_append, hone, List.nil_append]
          have hk : k + (j + 1) = k + 1 + j := by omega
          rw [hk]
          exact this

/-- Errors of `validateShootSpecUpdateFields` at the version path of a worker pool, without
a flip between a shoot with workers and a workerless shoot: those of the worker loop. -/
theorem errorsAt_updateFields_workerVersion (X : Collaborators) (newSpec oldSpec : ShootSpec)
    (p : Path) (errs : ErrorList)
    (h : validateShootSpecUpdateFields X newSpec oldSpec p = some errs)
    (hf : ¬ WorkerFlip newSpec oldSpec) (i : Nat) :
    ∃ workerErrs,
      validateWorkerVersionUpdates newSpec oldSpec p newSpec.Provider.Workers 0 =
        some workerErrs ∧
      errorsAt (workerVersionPath p i) errs = errorsAt (workerVersionPath p i) workerErrs := by
  obtain ⟨versionErrs, hv, hshape⟩ := validateShootSpecUpdateFields_some X newSpec oldSpec p errs h
  have hpath : workerVersionPath p i =
      p ++ PathElem.name "provider" :: [PathElem.name "workers", PathElem.index i,
        PathElem.name "kubernetes", PathElem.name "version"] := by
    simp [workerVersionPath, Path.Child, Path.Index]
  have hpath2 : workerVersionPath p i =
      (p.Child "provider") ++ PathElem.name "workers" :: [PathElem.index i,
        PathElem.name "kubernetes", PathElem.name "version"] := by
    simp [workerVersionPath, Path.Child, Path.Index]
  have hsib : ∀ (b : String) (l : ErrorList), ErrorsUnder (p.Child b) l → "provider" ≠ b →
      errorsAt (workerVersionPath p i) l = [] := by
    intro b l hl hb
    rw [hpath]
    exact errorsAt_nil_of_under_child p "provider" b _ l hl hb
  have hI : errorsAt (workerVersionPath p i) (immutableSpecFieldErrors newSpec oldSpec p) = [] := by
    unfold immutableSpecFieldErrors
    simp only [errorsAt_append]
    rw [hsib "region" _ (ValidateImmutableField_under _ _ _ _) (by decide),
      hsib "cloudProfileName" _ (ValidateImmutableField_under _ _ _ _) (by decide),
      hsib "secretBindingName" _ (ValidateImmutableField_under _ _ _ _) (by decide),
      hsib "exposureClassName" _ (ValidateImmutableField_under _ _ _ _) (by decide),
      hsib "dns" _ (validateDNSUpdate_under _ _ _ _) (by decide)]
    rfl
  have hV : errorsAt (workerVersionPath p i) versionErrs = [] := by
    apply hsib "kubernetes" _ _ (by decide)
    intro e he
    rw [ValidateKubernetesVersionUpdate_field _ _ _ _ hv e he]
    exact prefix_child _ _
  have hK := hsib "kubernetes" _
    ((validateKubeControllerManagerUpdate_under newSpec.Kubernetes.KubeControllerManager
      oldSpec.Kubernetes.KubeControllerManager
      ((p.Child "kubernetes").Child "kubeControllerManager")).mono (prefix_child _ _)) (by decide)
  rcases hshape with ⟨hflip, _⟩ | ⟨_, workerErrs, hw, rfl⟩
  · exact absurd hflip hf
  · refine ⟨workerErrs, hw, ?_⟩
    have hN := hsib "networking" _
      (validateNetworkingUpdate_under X newSpec.Networking oldSpec.Networking
        (p.Child "networking")) (by decide)
    have hP : errorsAt (workerVersionPath p i)
        (ValidateProviderUpdate newSpec.Provider oldSpec.Provider (p.Child "provider")) = [] := by
      rw [hpath2]
      apply errorsAt_nil_of_under_child (p.Child "provider") "workers" "type" _ _ _ (by decide)
      unfold ValidateProviderUpdate
      simpa using ValidateImmutableField_under id newSpec.Provider.Type_ oldSpec.Provider.Type_
        ((p.Child "provider").Child "type")
    simp only [errorsAt_append, hV, hK, hP, hN, hI, List.append_nil, List.nil_append]

/-- C36, on the runs that return: without deletion timestamp and without a flip between a
shoot with workers and a workerless shoot, every result of `ValidateShootSpecUpdate` holds
at `workers[i].kubernetes.version`, for every new worker pool `i`, exactly the result of
`ValidateKubernetesVersionUpdate` for the effective new version (the version of the pool,
else the new control plane version) and the effective old version (the version of the first
old pool of the same name, of the new pool itself if there is none, else the old control
plane version). No result is returned exactly when the new control plane version is
non-empty and the old one does not parse, or, without a flip, the worker loop fails. -/
theorem worker_version_update_errors (X : Collaborators) (newSpec oldSpec : ShootSpec)
    (newObjectMeta : ObjectMeta) (fldPath : Path)
    (hdel : newObjectMeta.DeletionTimestamp = none)
    (hflip : ¬ WorkerFlip newSpec oldSpec) :
    (∀ errs, ValidateShootSpecUpdate X newSpec oldSpec newObjectMeta fldPath = some errs →
      ∀ (i : Nat) (hi : i < newSpec.Provider.Workers.length),
        ValidateKubernetesVersionUpdate
            (workerKubernetesVersion (newSpec.Provider.Workers.get ⟨i, hi⟩)
              newSpec.Kubernetes.Version)
            (workerKubernetesVersion
              (oldWorkerFor oldSpec.Provider.Workers (newSpec.Provider.Workers.get ⟨i, hi⟩))
              oldSpec.Kubernetes.Version)
            (workerVersionPath fldPath i) =
          some (errorsAt (workerVersionPath fldPath i) errs)) ∧
    (OldVersionsParse newSpec oldSpec →
      ∃ errs, ValidateShootSpecUpdate X newSpec oldSpec newObjectMeta fldPath = some errs) := by
  rw [ValidateShootSpecUpdate_of_no_deletion X newSpec oldSpec newObjectMeta fldPath hdel]
  refine ⟨?_, validateShootSpecUpdateFields_isSome X newSpec oldSpec fldPath⟩
  intro errs h i hi
  obtain ⟨workerErrs, hw, hat⟩ :=
    errorsAt_updateFields_workerVersion X newSpec oldSpec fldPath errs h hflip i
  rw [hat]
  have := validateWorkerVersionUpdates_at newSpec oldSpec fldPath newSpec.Provider.Workers 0
    workerErrs hw i hi
  simpa using this

/-- C36: the update `unparsablePoolSpec` to `downgradedPoolSpec` has no deletion timestamp
and no flip. For the pool at index 0 the effective versions are 1.24.0 (new) and 1.25.0
(old), and `ValidateKubernetesVersionUpdate` returns the downgrade error for them. The old
version `abc` of the pool at index 1 does not parse, the version check of that pool fails at
run time, and `ValidateShootSpecUpdate` returns no error list: the downgrade error of pool 0
is not reported. -/
theorem worker_version_errors_lost_on_unparsable_version :
    ¬ WorkerFlip downgradedPoolSpec unparsablePoolSpec ∧
    ValidateKubernetesVersionUpdate "1.24.0" "1.25.0"
        (workerVersionPath (NewPath "spec") 0) =
      some [Forbidden (workerVersionPath (NewPath "spec") 0)
        "kubernetes version downgrade is not supported"] ∧
    ValidateKubernetesVersionUpdate "1.25.0" "abc" (workerVersionPath (NewPath "spec") 1) =
      none ∧
    ValidateShootSpecUpdate specCollaborators downgradedPoolSpec unparsablePoolSpec {}
      (NewPath "spec") = none := by
  refine ⟨by decide, by decide, by decide, by decide⟩

/-! ## Updates of a shoot as a whole -/

theorem ValidateShootSpec_none_iff (X : Collaborators) (W : WorkerValidators)
    (meta : ObjectMeta) (spec : ShootSpec) (fldPath : Path) (inTemplate : Bool) :
    ValidateShootSpec X W meta spec fldPath inTemplate = none ↔
      ∃ w ∈ spec.Provider.Workers, PoolVersionUnparsable w := by
  unfold ValidateShootSpec
  by_cases hw : spec.Provider.Workers.length = 0
  · have hnil : spec.Provider.Workers = [] := List.length_eq_zero.1 hw
    obtain ⟨pe, hpe⟩ := validateProvider_workerless_isSome X spec.Provider spec.Kubernetes
      spec.Networking (fldPath.Child "provider") inTemplate
    simp only [hw, decide_True, hpe]
    simp [hnil]
  · simp only [hw, decide_False]
    rw [← validateProvider_none_iff X spec.Provider spec.Kubernetes spec.Networking
      (fldPath.Child "provider") inTemplate]
    rcases validateProvider X spec.Provider spec.Kubernetes spec.Networking false
      (fldPath.Child "provider") inTemplate with _ | pe <;> simp

theorem ValidateShoot_none_iff (X : Collaborators) (W : WorkerValidators) (shoot : Shoot) :
    ValidateShoot X W shoot = none ↔
      ∃ w ∈ shoot.Spec.Provider.Workers, PoolVersionUnparsable w := by
  rw [← ValidateShootSpec_none_iff X W shoot.ObjectMeta shoot.Spec (NewPath "spec") false]
  unfold ValidateShoot
  rcases ValidateShootSpec X W shoot.ObjectMeta shoot.Spec (NewPath "spec") false with _ | e <;>
    simp

theorem ValidateShootUpdate_none_iff (X : Collaborators) (W : WorkerValidators)
    (newShoot oldShoot : Shoot) :
    ValidateShootUpdate X W newShoot oldShoot = none ↔
      (ValidateShootSpecUpdate X newShoot.Spec oldShoot.Spec newShoot.ObjectMeta
          (NewPath "spec") = none ∨
        ∃ w ∈ newShoot.Spec.Provider.Workers, PoolVersionUnparsable w) := by
  rw [← ValidateShoot_none_iff X W newShoot]
  unfold ValidateShootUpdate
  rcases ValidateShootSpecUpdate X newShoot.Spec oldShoot.Spec newShoot.ObjectMeta
    (NewPath "spec") with _ | specErrs
  · simp
  · rcases ValidateShoot X W newShoot with _ | shootErrs <;> simp

/-- C31, on the runs that return: every result of `ValidateShootUpdate` holds the result
of `ValidateShoot` on the new shoot as a contiguous part, in the same order, and an empty
result implies an empty result of `ValidateShoot`. No result is returned exactly when
`ValidateShootSpecUpdate` returns none or a pool of the new shoot has a Kubernetes version
of its own that is no semantic version. -/
theorem shoot_update_contains_shoot_validation (X : Collaborators) (W : WorkerValidators)
    (newShoot oldShoot : Shoot) :
    (∀ errs, ValidateShootUpdate X W newShoot oldShoot = some errs →
      ∃ shootErrs, ValidateShoot X W newShoot = some shootErrs ∧
        shootErrs <:+: errs ∧ (errs = [] → shootErrs = [])) ∧
    (ValidateShootUpdate X W newShoot oldShoot = none ↔
      (ValidateShootSpecUpdate X newShoot.Spec oldShoot.Spec newShoot.ObjectMeta
          (NewPath "spec") = none ∨
        ∃ w ∈ newShoot.Spec.Provider.Workers, PoolVersionUnparsable w)) := by
  refine ⟨?_, ValidateShootUpdate_none_iff X W newShoot oldShoot⟩
  intro errs h
  unfold ValidateShootUpdate at h
  split at h
  · exact Option.noConfusion h
  · split at h
    · exact Option.noConfusion h
    · rename_i shootErrs hs
      simp only [Option.some.injEq] at h
      subst h
      refine ⟨shootErrs, hs, List.infix_append _ _ _, ?_⟩
      intro he
      simp only [List.append_eq_nil] at he
      exact he.1.2

/-- C31: the stored shoot has the Kubernetes version `abc`, which is no semantic version,
and the update sets 1.26.0. `ValidateShoot` returns a result on the new shoot. The version
check of `ValidateShootSpecUpdate` fails at run time, so `ValidateShootUpdate` returns no
error list at all: there is no list in which the result of `ValidateShoot` on the new
shoot could occur. -/
theorem shoot_update_fails_on_unparsable_old_version :
    NewVersion unparsableVersionShoot.Spec.Kubernetes.Version = none ∧
    (ValidateShoot specCollaborators silentWorkerValidators upgradedWorkerlessShoot).isSome =
      true ∧
    ValidateShootUpdate specCollaborators silentWorkerValidators upgradedWorkerlessShoot
      unparsableVersionShoot = none ∧
    ¬ ∃ errs shootErrs, ValidateShootUpdate specCollaborators silentWorkerValidators
        upgradedWorkerlessShoot unparsableVersionShoot = some errs ∧
      ValidateShoot specCollaborators silentWorkerValidators upgradedWorkerlessShoot =
        some shootErrs ∧ shootErrs <:+: errs := by
  have h : ValidateShootUpdate specCollaborators silentWorkerValidators upgradedWorkerlessShoot
      unparsableVersionShoot = none := by decide
  refine ⟨by decide, by decide, h, ?_⟩
  rintro ⟨errs, _, he, _⟩
  rw [h] at he
  exact Option.noConfusion he

end Gardener
